import Mathlib

/-!
# iMe firmware: command sequencer and motion control engine

A shallow embedding of the main loop of `src/main.cpp` (one iteration of
`while(true)`, lines 160-703) together with the C string primitives it uses on
`responseBuffer`, of the receive callback `cdcRxNotifyCallback` (lines 711-774),
and of the bed geometry, the step timer interrupt and `Motors::move` of
`src/motors.cpp` (lines 100-267 and 464-925), followed by theorems about the
numbering / checksum protocol, the response format, the health interlock, the
ring of requests, the emergency stop, the persisted store, the motion control
engine and the step timer.

Conventions of the embedding.

* `responseBuffer` is the whole `char[UINT8_MAX + 1]` array, a `List Char`; the
  C string it holds is `cstr`, the bytes before the first NUL.
* Unsigned machine integers are `Nat`, signed ones `Int`; `currentCommandNumber++`
  is written with its `% 2 ^ 64`, and the `int32_t` offset of an M618 or M619 and
  its sum with the length with `toInt32`.
* Constants, types and functions that come from headers that are not part of the
  sources (`gcode.h`, `heater.h`, `fan.h`, `led.h`, `eeprom.h`, `common.h`, ASF)
  are parameters: `Constants` for the values, `Peripherals` for the functions.
  `H` is the state of the hardware behind those functions, `R` the type of C
  `float` values.
* `reset_do_soft_reset()` never returns: an iteration that reaches it is `none`.
* The USB receive interrupt can set `emergencyStopOccured` while a command is
  being handled; the argument `stopArrives` of `mainLoopIteration` says whether
  it did so between the test on line 169 and the test on line 668. What the
  interrupt stores in free slots of the queue is not part of an iteration.
* The response buffer is a list of any length: a write past its end lengthens
  it. Statements that give a sent line byte for byte assume the 256 bytes of
  the array and a response that fits them.
* The receive callback is taken at the end of a transfer, with the lines of the
  accumulated request already parsed (`parseCommand` is not among the sources).
* In motors.cpp a `float` is a rational, a `float` that can be NaN an optional
  rational. Where `Motors::move` turns a distance into a whole number of steps
  or of timer periods (the products and quotients of lines 596, 606, 668 and
  703), every operation on `float` values is followed by `toFloat`, the rounding
  of the exact result to the nearest `float`; positions, the distance between
  two of them, the geometry of the bed and the segments of the bed leveling are
  in exact arithmetic. The step timer and the analog inputs are not part of the
  state of `move`; `stopArrives` of `move` says whether the emergency-stop flag
  was set while the function ran.
* The step timer is kept by itself: `startStepTimer` is what lines 654-704 write
  to it, `stepTimerInterrupt` the interrupt of one motor, and `runMotor` the
  periods of the timer for one motor, whose compare interrupt fires once per
  period while its level is not off. A pulse is the step pin set high.
-/

namespace IMe

/-! ## C strings in a character array -/

/-- The terminating character of a C string. -/
def NUL : Char := Char.ofNat 0

/-- The C string stored at the start of a character array: the characters before
the first NUL. -/
def cstr (b : List Char) : List Char := b.takeWhile (fun ch => ch != NUL)

/-- C `strlen`. -/
def strlen (b : List Char) : Nat := (cstr b).length

/-- Overwrite the bytes of array `b` from index `i` on with `bytes`. -/
def poke (b : List Char) (i : Nat) (bytes : List Char) : List Char :=
  b.take i ++ bytes ++ b.drop (i + bytes.length)

/-- C `strcpy(dest, src)`: the characters of `src` and the terminator, written
at the start of `dest`. -/
def strcpy (dest src : List Char) : List Char := poke dest 0 (cstr src ++ [NUL])

/-- C `strcat(dest, src)`: `src` and the terminator, written over the terminator
of `dest`. -/
def strcat (dest src : List Char) : List Char :=
  poke dest (strlen dest) (cstr src ++ [NUL])

/-- The test `!strncmp(a, b, n)`: the two strings agree on their first `n`
characters (the comparison stops at a terminator). -/
def strncmpEq (a b : List Char) (n : Nat) : Bool :=
  (cstr a).take n == (cstr b).take n

/-- C `memmove(&b[dst], &b[src], n)` inside one array. -/
def memmove (b : List Char) (dst src n : Nat) : List Char :=
  poke b dst ((b.drop src).take n)

/-- C `memcpy(&b[dst], from, n)`. -/
def memcpy (b : List Char) (dst : Nat) (src : List Char) (n : Nat) : List Char :=
  poke b dst (src.take n)

/-- The assignment `b[i] = ch`. -/
def setByte (b : List Char) (i : Nat) (ch : Char) : List Char := b.set i ch

/-- The value of `b[0]`. -/
def firstByte (b : List Char) : Char := b.headD NUL

/-- Modelled from the spec: `ulltoa` (common.h) is not among the sources; it
writes the decimal digits of an unsigned 64-bit number into `numberBuffer`. -/
def ulltoa (n : Nat) : List Char := Nat.toDigits 10 n

/-! ## Constants and the parsed command -/

/-- `UINT64_MAX`. -/
def UINT64_MAX : Nat := 18446744073709551615

/-- `UINT8_MAX`. -/
def UINT8_MAX : Nat := 255

/-- `REQUEST_BUFFER_SIZE` (main.cpp:21). -/
def REQUEST_BUFFER_SIZE : Nat := 10

/-- The value of a whole number as an `int32_t`: it is kept when it lies in the
range of the type and wraps around by two to the 32 otherwise, which is what the
sum of two `int32_t` does when it overflows. -/
def toInt32 (value : Int) : Int := (value + 2147483648) % 4294967296 - 2147483648

/-- Values defined in headers that are not among the sources. -/
structure Constants where
  PARAMETER_G_OFFSET : Nat
  PARAMETER_M_OFFSET : Nat
  PARAMETER_T_OFFSET : Nat
  PARAMETER_S_OFFSET : Nat
  PARAMETER_P_OFFSET : Nat
  PARAMETER_X_OFFSET : Nat
  PARAMETER_Y_OFFSET : Nat
  PARAMETER_Z_OFFSET : Nat
  PARAMETER_F_OFFSET : Nat
  PARAMETER_E_OFFSET : Nat
  PARAMETER_N_OFFSET : Nat
  PARAMETER_HOST_COMMAND_OFFSET : Nat
  VALID_CHECKSUM_OFFSET : Nat
  PARSED_OFFSET : Nat
  HEATER_MIN_TEMPERATURE : Int
  HEATER_MAX_TEMPERATURE : Int
  FAN_MIN_SPEED : Int
  LED_MAX_BRIGHTNESS : Int
  EEPROM_SIZE : Int
  EEPROM_BED_ORIENTATION_BACK_RIGHT_OFFSET : Int
  EEPROM_BED_ORIENTATION_BACK_LEFT_OFFSET : Int
  EEPROM_BED_ORIENTATION_FRONT_LEFT_OFFSET : Int
  EEPROM_BED_ORIENTATION_FRONT_RIGHT_OFFSET : Int
  EEPROM_BED_OFFSET_BACK_LEFT_OFFSET : Int
  EEPROM_BED_OFFSET_BACK_RIGHT_OFFSET : Int
  EEPROM_BED_OFFSET_FRONT_RIGHT_OFFSET : Int
  EEPROM_BED_OFFSET_FRONT_LEFT_OFFSET : Int
  EEPROM_BED_HEIGHT_OFFSET_OFFSET : Int
  /-- The text of `TOSTRING(HEATER_MIN_TEMPERATURE)`. -/
  HEATER_MIN_TEMPERATURE_TEXT : List Char
  /-- The text of `TOSTRING(HEATER_MAX_TEMPERATURE)`. -/
  HEATER_MAX_TEMPERATURE_TEXT : List Char
  /-- The text of `TOSTRING(FIRMWARE_NAME)`. -/
  FIRMWARE_NAME_TEXT : List Char
  /-- The text of `TOSTRING(FIRMWARE_VERSION)`. -/
  FIRMWARE_VERSION_TEXT : List Char

/-- The N flag is a bit of the 16-bit parameter mask other than the two status
bits `VALID_CHECKSUM_OFFSET` and `PARSED_OFFSET`. -/
def Constants.NIsParameterBit (c : Constants) : Prop :=
  c.PARAMETER_N_OFFSET &&& (c.VALID_CHECKSUM_OFFSET ||| c.PARSED_OFFSET) = 0 ∧
    c.PARAMETER_N_OFFSET < 65536

instance (c : Constants) : Decidable c.NIsParameterBit := by
  unfold Constants.NIsParameterBit; infer_instance

/-- A parsed command (class `Gcode` of gcode.h, which is not among the sources):
the presence bitmask and one value per field. -/
structure Gcode (R : Type) where
  commandParameters : Nat
  valueG : Nat
  valueM : Nat
  valueT : Nat
  valueS : Int
  valueP : Int
  valueX : R
  valueY : R
  valueZ : R
  valueE : R
  valueF : R
  valueN : Nat

/-- The test `commandParameters & flag`. -/
def Gcode.has {R : Type} (g : Gcode R) (flag : Nat) : Bool :=
  g.commandParameters &&& flag != 0

/-- The test `commandParameters & ~(VALID_CHECKSUM_OFFSET | PARSED_OFFSET)` of
main.cpp:190, in 16-bit arithmetic. -/
def Gcode.hasGcode {R : Type} (c : Constants) (g : Gcode R) : Bool :=
  g.commandParameters &&& (65535 ^^^ (c.VALID_CHECKSUM_OFFSET ||| c.PARSED_OFFSET)) != 0

/-! ## Machine state -/

/-- Motion modes (motors.h). -/
inductive MODES where
  | ABSOLUTE
  | RELATIVE
deriving DecidableEq, Repr

/-- Indices of `Motors::currentValues` (motors.h). -/
inductive AXES where
  | X
  | Y
  | Z
  | E
  | F
deriving DecidableEq, Repr

/-- The members of class `Motors` that main.cpp reads or writes directly. -/
structure Motors (R : Type) where
  currentValues : AXES → R
  mode : MODES
  currentStateOfValues : AXES → Bool
  accelerometerIsWorking : Bool

/-- The globals of main.cpp and the locals of `main` that live across
iterations of the main loop. `usb` is the list of strings handed to
`sendDataToUsb`, oldest first. -/
structure State (H R : Type) where
  serialNumber : List Char
  requests : Nat → Gcode R
  waitTimerCounter : Nat
  waitResponsesEnabled : Bool
  emergencyStopOccured : Bool
  motors : Motors R
  hw : H
  currentCommandNumber : Nat
  currentProcessingRequest : Nat
  responseBuffer : List Char
  usb : List (List Char)

/-- The functions main.cpp calls on the peripherals. Those of `Motors` are taken
as arbitrary transformers of the motor members and the hardware state. -/
structure Peripherals (H R : Type) where
  heaterIsWorking : H → Bool
  heaterSetTemperature : Int → Bool → H → H
  heaterGetTemperature : H → R
  heaterReset : H → H
  fanSetSpeed : Int → H → H
  ledSetBrightness : Int → H → H
  nvmEepromReadBuffer : Int → Nat → H → Nat
  nvmEepromEraseAndWriteBuffer : Int → Int → Nat → H → H
  /-- Lines 452-455: read the hours counter, add `valueX`, write it back. -/
  addToHoursCounter : R → H → H
  resetCauseGetCauses : H → Nat
  delayMs : H → H
  delayS : H → H
  /-- The value of a `float` used as a condition. -/
  floatIsNonzero : R → Bool
  ftoa : R → List Char
  motorsTurnOn : Motors R → H → Motors R × H
  motorsTurnOff : Motors R → H → Motors R × H
  motorsGantryClipsDetected : Motors R → H → Bool
  motorsUpdateBedChanges : Motors R → H → Motors R × H
  motorsMove : Gcode R → Motors R → H → Motors R × H
  motorsHomeXY : Motors R → H → Motors R × H
  motorsCalibrateBedCenterZ0 : Motors R → H → Motors R × H
  motorsCalibrateBedOrientation : Motors R → H → Motors R × H
  motorsSaveZAsBedCenterZ0 : Motors R → H → Motors R × H
  motorsReset : Motors R → H → Motors R × H

/-! ## The main loop -/

variable {H R : Type}

/-- The effect of `strcpy(responseBuffer, text)`. -/
def State.setResponse (s : State H R) (text : List Char) : State H R :=
  { s with responseBuffer := strcpy s.responseBuffer text }

/-- The effect of `strcat(responseBuffer, text)`. -/
def State.appendResponse (s : State H R) (text : List Char) : State H R :=
  { s with responseBuffer := strcat s.responseBuffer text }

/-- Store what a method of `motors` leaves behind. -/
def State.withMotors (s : State H R) (r : Motors R × H) : State H R :=
  { s with motors := r.1, hw := r.2 }

/-- The text of `flag ? "1" : "0"`. -/
def boolText (flag : Bool) : List Char := if flag then "1".toList else "0".toList

/-- Function `disableSendingWaitResponses` (main.cpp:783). -/
def disableSendingWaitResponses (s : State H R) : State H R :=
  { s with waitResponsesEnabled := false }

/-- Function `enableSendingWaitResponses` (main.cpp:789). -/
def enableSendingWaitResponses (s : State H R) : State H R :=
  { s with waitTimerCounter := 0, waitResponsesEnabled := true }

/-- The effect of `sendDataToUsb(text)`: the C string `text` goes out. -/
def sendDataToUsb (s : State H R) (text : List Char) : State H R :=
  { s with usb := s.usb ++ [cstr text] }

/-- Lines 202-237: the numbering and checksum policy for the command `g`. -/
def numberingPolicy (c : Constants) (g : Gcode R) (s : State H R) : State H R :=
  if g.has c.PARAMETER_N_OFFSET then
    if !(g.has c.VALID_CHECKSUM_OFFSET) then
      s.setResponse "rs".toList
    else
      if g.valueM = 110 then
        { s with currentCommandNumber := g.valueN }
      else if s.currentCommandNumber = UINT64_MAX then
        s.setResponse "Error: Max command number exceeded".toList
      else if g.valueN < s.currentCommandNumber then
        s.setResponse "skip".toList
      else if g.valueN > s.currentCommandNumber then
        s.setResponse "rs".toList
      else s
  else s

/-- Lines 245-475: `switch(valueM)`. -/
def handleM (c : Constants) (P : Peripherals H R) (g : Gcode R) (s : State H R) :
    Option (State H R) :=
  match g.valueM with
  | 17 => some ((s.withMotors (P.motorsTurnOn s.motors s.hw)).setResponse "ok".toList)
  | 18 => some ((s.withMotors (P.motorsTurnOff s.motors s.hw)).setResponse "ok".toList)
  | 104 | 109 =>
    let temperature : Int := if g.has c.PARAMETER_S_OFFSET then g.valueS else 0
    if temperature = 0 ∨
        (temperature ≥ c.HEATER_MIN_TEMPERATURE ∧ temperature ≤ c.HEATER_MAX_TEMPERATURE) then
      some (State.setResponse
        { s with hw := P.heaterSetTemperature temperature
                  (temperature != 0 && g.valueM == 109) s.hw }
        "ok".toList)
    else
      some (s.setResponse ("Error: Temperature must be between ".toList
        ++ c.HEATER_MIN_TEMPERATURE_TEXT ++ " and ".toList
        ++ c.HEATER_MAX_TEMPERATURE_TEXT ++ " degrees Celsius".toList))
  | 105 =>
    some ((s.setResponse "ok\nT:".toList).appendResponse
      (P.ftoa (P.heaterGetTemperature s.hw)))
  | 106 | 107 =>
    some (State.setResponse
      { s with hw := P.fanSetSpeed
                (if g.valueM == 106 && g.has c.PARAMETER_S_OFFSET then g.valueS
                 else c.FAN_MIN_SPEED) s.hw }
      "ok".toList)
  | 114 =>
    let s1 := (s.setResponse "ok\nX:".toList).appendResponse
      (P.ftoa (s.motors.currentValues AXES.X))
    let s2 := (s1.appendResponse " Y:".toList).appendResponse
      (P.ftoa (s.motors.currentValues AXES.Y))
    let s3 := (s2.appendResponse " Z:".toList).appendResponse
      (P.ftoa (s.motors.currentValues AXES.Z))
    some ((s3.appendResponse " E:".toList).appendResponse
      (P.ftoa (s.motors.currentValues AXES.E)))
  | 115 =>
    if g.valueS = 628 then
      none
    else
      some ((s.setResponse ("ok\nPROTOCOL:RepRap FIRMWARE_NAME:".toList
          ++ c.FIRMWARE_NAME_TEXT ++ " FIRMWARE_VERSION:".toList ++ c.FIRMWARE_VERSION_TEXT
          ++ " MACHINE_TYPE:Micro_3D SERIAL_NUMBER:".toList)).appendResponse s.serialNumber)
  | 117 =>
    let s1 := (s.setResponse "ok\nXV:".toList).appendResponse
      (boolText (s.motors.currentStateOfValues AXES.X))
    let s2 := (s1.appendResponse " YV:".toList).appendResponse
      (boolText (s.motors.currentStateOfValues AXES.Y))
    some ((s2.appendResponse " ZV:".toList).appendResponse
      (boolText (s.motors.currentStateOfValues AXES.Z)))
  | 404 =>
    some ((s.setResponse "ok\nRC:".toList).appendResponse
      (ulltoa (P.resetCauseGetCauses s.hw)))
  | 420 =>
    some (State.setResponse
      { s with hw := P.ledSetBrightness
                (if g.has c.PARAMETER_T_OFFSET then (g.valueT : Int)
                 else c.LED_MAX_BRIGHTNESS) s.hw }
      "ok".toList)
  | 583 =>
    some ((s.setResponse "ok\nC".toList).appendResponse
      (boolText (P.motorsGantryClipsDetected s.motors s.hw)))
  | 618 | 619 =>
    if g.has (c.PARAMETER_S_OFFSET ||| c.PARAMETER_T_OFFSET) then
      let offset : Int := toInt32 g.valueS
      let length : Nat := g.valueT % 256
      if offset ≥ 0 ∧ length ≠ 0 ∧ length ≤ 4
          ∧ toInt32 (offset + length) < c.EEPROM_SIZE then
        let s1 := (s.setResponse "ok\nPT:".toList).appendResponse (ulltoa offset.toNat)
        if g.valueM = 619 then
          let value : Nat := P.nvmEepromReadBuffer offset length s1.hw
          some ((s1.appendResponse " DT:".toList).appendResponse (ulltoa value))
        else if g.has c.PARAMETER_P_OFFSET then
          let s2 : State H R :=
            { s1 with hw := P.nvmEepromEraseAndWriteBuffer offset g.valueP length s1.hw }
          if offset = c.EEPROM_BED_ORIENTATION_BACK_RIGHT_OFFSET
              ∨ offset = c.EEPROM_BED_ORIENTATION_BACK_LEFT_OFFSET
              ∨ offset = c.EEPROM_BED_ORIENTATION_FRONT_LEFT_OFFSET
              ∨ offset = c.EEPROM_BED_ORIENTATION_FRONT_RIGHT_OFFSET
              ∨ offset = c.EEPROM_BED_OFFSET_BACK_LEFT_OFFSET
              ∨ offset = c.EEPROM_BED_OFFSET_BACK_RIGHT_OFFSET
              ∨ offset = c.EEPROM_BED_OFFSET_FRONT_RIGHT_OFFSET
              ∨ offset = c.EEPROM_BED_OFFSET_FRONT_LEFT_OFFSET
              ∨ offset = c.EEPROM_BED_HEIGHT_OFFSET_OFFSET then
            some (s2.withMotors (P.motorsUpdateBedChanges s2.motors s2.hw))
          else some s2
        else
          some { s1 with responseBuffer := setByte s1.responseBuffer 0 NUL }
      else some s
    else some s
  | 5321 =>
    if g.has c.PARAMETER_X_OFFSET then
      some (State.setResponse { s with hw := P.addToHoursCounter g.valueX s.hw } "ok".toList)
    else some s
  | 20 | 21 | 80 | 82 | 83 | 84 | 110 | 111 | 999 => some (s.setResponse "ok".toList)
  | _ => some s

/-- Lines 583-615: one pass of the loop over the motors in the G92 handler. -/
def g92Axis (c : Constants) (g : Gcode R) (m : Motors R) (i : AXES) : Motors R :=
  let parameterOffset : Nat :=
    match i with
    | AXES.X => c.PARAMETER_X_OFFSET
    | AXES.Y => c.PARAMETER_Y_OFFSET
    | AXES.Z => c.PARAMETER_Z_OFFSET
    | _ => c.PARAMETER_E_OFFSET
  let value : R :=
    match i with
    | AXES.X => g.valueX
    | AXES.Y => g.valueY
    | AXES.Z => g.valueZ
    | _ => g.valueE
  if g.has parameterOffset then
    { m with currentValues := Function.update m.currentValues i value }
  else m

/-- Lines 481-628: `switch(valueG)`. -/
def handleG (c : Constants) (P : Peripherals H R) (g : Gcode R) (s : State H R) :
    State H R :=
  match g.valueG with
  | 0 | 1 =>
    if !(g.has c.PARAMETER_E_OFFSET) || P.floatIsNonzero (P.heaterGetTemperature s.hw) then
      (s.withMotors (P.motorsMove g s.motors s.hw)).setResponse "ok".toList
    else
      s.setResponse "Error: Can't use the extruder when the heater is off".toList
  | 4 =>
    let s1 : State H R :=
      if g.valueP > 0 then { s with hw := Nat.iterate P.delayMs g.valueP.toNat s.hw } else s
    let s2 : State H R :=
      if g.valueS > 0 then { s1 with hw := Nat.iterate P.delayS g.valueS.toNat s1.hw } else s1
    s2.setResponse "ok".toList
  | 28 => (s.withMotors (P.motorsHomeXY s.motors s.hw)).setResponse "ok".toList
  | 30 => (s.withMotors (P.motorsCalibrateBedCenterZ0 s.motors s.hw)).setResponse "ok".toList
  | 32 => (s.withMotors (P.motorsCalibrateBedOrientation s.motors s.hw)).setResponse "ok".toList
  | 33 => (s.withMotors (P.motorsSaveZAsBedCenterZ0 s.motors s.hw)).setResponse "ok".toList
  | 90 | 91 =>
    State.setResponse
      { s with motors :=
          { s.motors with mode := if g.valueG = 90 then MODES.ABSOLUTE else MODES.RELATIVE } }
      "ok".toList
  | 92 =>
    if g.has (c.PARAMETER_X_OFFSET ||| c.PARAMETER_Y_OFFSET ||| c.PARAMETER_Z_OFFSET
        ||| c.PARAMETER_E_OFFSET) then
      State.setResponse
        { s with motors := [AXES.X, AXES.Y, AXES.Z, AXES.E].foldl (g92Axis c g) s.motors }
        "ok".toList
    else s
  | 20 | 21 => s.setResponse "ok".toList
  | _ => s

/-- Lines 243-635: route the command to the handler of its M code, of its G
code, or acknowledge a command that only has a T field. -/
def handleCommand (c : Constants) (P : Peripherals H R) (g : Gcode R) (s : State H R) :
    Option (State H R) :=
  if g.has c.PARAMETER_M_OFFSET then handleM c P g s
  else if g.has c.PARAMETER_G_OFFSET then some (handleG c P g s)
  else if g.has c.PARAMETER_T_OFFSET then some (s.setResponse "ok".toList)
  else some s

/-- Lines 650-652: move the response from index `endOfResponse` on up by one
more than the length of `numberBuffer`, and write a space and the number into
the gap. -/
def insertAfter (b : List Char) (endOfResponse : Nat) (numberBuffer : List Char) :
    List Char :=
  let b1 := memmove b (endOfResponse + 1 + strlen numberBuffer) endOfResponse (strlen b - 1)
  let b2 := setByte b1 endOfResponse ' '
  memcpy b2 (endOfResponse + 1) numberBuffer (strlen numberBuffer)

/-- Lines 648-652: insert a space and the decimal `number` after the first word
of the response held in `b`. -/
def insertNumber (b : List Char) (number : Nat) : List Char :=
  let endOfResponse : Nat :=
    if firstByte b = 's' then strlen "skip".toList else strlen "ok".toList
  insertAfter b endOfResponse (ulltoa number)

/-- Lines 639-653: count an acknowledged numbered command and append the command
number to an `ok`, `rs` or `skip` response. -/
def appendCommandNumber (c : Constants) (g : Gcode R) (s : State H R) : State H R :=
  if g.has c.PARAMETER_N_OFFSET
      && (strncmpEq s.responseBuffer "ok".toList (strlen "ok".toList)
          || strncmpEq s.responseBuffer "rs".toList (strlen "rs".toList)
          || strncmpEq s.responseBuffer "skip".toList (strlen "skip".toList)) then
    let s1 : State H R :=
      if strncmpEq s.responseBuffer "ok".toList (strlen "ok".toList)
          && s.currentCommandNumber != UINT64_MAX then
        { s with currentCommandNumber := (s.currentCommandNumber + 1) % 2 ^ 64 }
      else s
    { s1 with
      responseBuffer := insertNumber s1.responseBuffer
        (if firstByte s1.responseBuffer = 'r' then s1.currentCommandNumber else g.valueN) }
  else s

/-- Lines 202-636: the numbering policy and, when it set no response, the
handler of the command. -/
def handlerResponse (c : Constants) (P : Peripherals H R) (g : Gcode R) (s : State H R) :
    Option (State H R) :=
  let s1 := numberingPolicy c g s
  if firstByte s1.responseBuffer = NUL then handleCommand c P g s1 else some s1

/-- Lines 190-654: the response to a command when both subsystems work; the
response buffer has just been cleared. -/
def processCommand (c : Constants) (P : Peripherals H R) (g : Gcode R) (s : State H R) :
    Option (State H R) :=
  if g.hasGcode c then
    if g.has c.PARAMETER_HOST_COMMAND_OFFSET then
      some (s.setResponse "Error: Unknown host command".toList)
    else
      (handlerResponse c P g s).map (appendCommandNumber c g)
  else some s

/-- Lines 657-661: an empty response becomes the unknown-command error. -/
def defaultResponse (s : State H R) : State H R :=
  if firstByte s.responseBuffer = NUL then
    s.setResponse "Error: Unknown G-code command".toList
  else s

/-- Lines 171-662: fill the response buffer for the command `g`. -/
def produceResponse (c : Constants) (P : Peripherals H R) (g : Gcode R) (s : State H R) :
    Option (State H R) :=
  if !s.motors.accelerometerIsWorking then
    some (s.setResponse "Error: Accelerometer isn't working".toList)
  else if !P.heaterIsWorking s.hw then
    some (s.setResponse "Error: Heater isn't working".toList)
  else
    (processCommand c P g { s with responseBuffer := setByte s.responseBuffer 0 NUL }).map
      defaultResponse

/-- Lines 672-679: clear the request, step to the next slot of the ring, turn
the wait responses back on. -/
def finishRequest (s : State H R) : State H R :=
  enableSendingWaitResponses
    { s with
      requests := Function.update s.requests s.currentProcessingRequest
        { s.requests s.currentProcessingRequest with commandParameters := 0 }
      currentProcessingRequest :=
        if s.currentProcessingRequest = REQUEST_BUFFER_SIZE - 1 then 0
        else s.currentProcessingRequest + 1 }

/-- Lines 685-701: recover from an emergency stop. -/
def emergencyStopRecovery (c : Constants) (P : Peripherals H R) (s : State H R) :
    State H R :=
  let s0 := disableSendingWaitResponses s
  let s1 : State H R := { s0 with hw := P.fanSetSpeed c.FAN_MIN_SPEED s0.hw }
  let s2 : State H R := { s1 with hw := P.heaterReset s1.hw }
  let s3 : State H R := { s2 with hw := P.ledSetBrightness c.LED_MAX_BRIGHTNESS s2.hw }
  let s4 := s3.withMotors (P.motorsReset s3.motors s3.hw)
  let s5 : State H R := { s4 with emergencyStopOccured := false }
  enableSendingWaitResponses (sendDataToUsb s5 "ok\n".toList)

/-- One iteration of the main loop (lines 162-702). `stopArrives` tells whether
the receive interrupt sets `emergencyStopOccured` while the command is handled.
The result is `none` when the iteration ends in `reset_do_soft_reset()`. -/
def mainLoopIteration (c : Constants) (P : Peripherals H R) (stopArrives : Bool)
    (s : State H R) : Option (State H R) :=
  if (s.requests s.currentProcessingRequest).commandParameters ≠ 0 then
    let s0 := disableSendingWaitResponses s
    let answered : Option (State H R) :=
      if !s0.emergencyStopOccured then
        (produceResponse c P (s0.requests s0.currentProcessingRequest) s0).map
          (fun s1 =>
            let s2 := s1.appendResponse "\n".toList
            let s3 : State H R :=
              { s2 with emergencyStopOccured := s2.emergencyStopOccured || stopArrives }
            if !s3.emergencyStopOccured then sendDataToUsb s3 s3.responseBuffer else s3)
      else some s0
    answered.map finishRequest
  else if s.emergencyStopOccured then
    some (emergencyStopRecovery c P s)
  else some s

/-! ## Predicates used in the statements -/

/-- State `t` has the queue, the emergency-stop flag, the USB output, the serial
number and the wait timer of state `s`. -/
def QueueUnchanged (s t : State H R) : Prop :=
  t.serialNumber = s.serialNumber ∧ t.requests = s.requests
    ∧ t.waitTimerCounter = s.waitTimerCounter
    ∧ t.waitResponsesEnabled = s.waitResponsesEnabled
    ∧ t.emergencyStopOccured = s.emergencyStopOccured
    ∧ t.currentProcessingRequest = s.currentProcessingRequest
    ∧ t.usb = s.usb

/-- State `t` differs from `s` at most in the response buffer, the motor members
and the hardware state. -/
def SequencerUnchanged (s t : State H R) : Prop :=
  QueueUnchanged s t ∧ t.currentCommandNumber = s.currentCommandNumber

/-- The response in array `b` is an acknowledgement or an error message. -/
def Answered (b : List Char) : Prop :=
  "ok".toList <+: cstr b ∨ "Error: ".toList <+: cstr b

/-- The state in which the handlers start on the request at the consumer index:
wait responses off, response buffer cleared (lines 166 and 187). -/
def State.atDispatch (s : State H R) : State H R :=
  { disableSendingWaitResponses s with responseBuffer := setByte s.responseBuffer 0 NUL }

/-- The slot of the ring after slot `i` (lines 676 and 765). -/
def nextSlot (i : Nat) : Nat := if i = REQUEST_BUFFER_SIZE - 1 then 0 else i + 1

/-- The queue once the request at the consumer index has been cleared
(line 673). -/
def State.requestsCleared (s : State H R) : Nat → Gcode R :=
  Function.update s.requests s.currentProcessingRequest
    { s.requests s.currentProcessingRequest with commandParameters := 0 }

/-- The response in array `b` starts with one of the four words of the
protocol: `ok`, `rs`, `skip` or `Error: `. -/
def StartsWithProtocolWord (b : List Char) : Prop :=
  "ok".toList <+: b ∨ "rs".toList <+: b ∨ "skip".toList <+: b ∨ "Error: ".toList <+: b

instance (b : List Char) : Decidable (StartsWithProtocolWord b) := by
  unfold StartsWithProtocolWord; infer_instance

/-! ## A concrete machine on which the model is evaluated -/

/-- One bit per flag, in the order the fields are named in the sources. -/
def exampleConstants : Constants :=
  { PARAMETER_G_OFFSET := 1, PARAMETER_M_OFFSET := 2, PARAMETER_T_OFFSET := 4,
    PARAMETER_S_OFFSET := 8, PARAMETER_P_OFFSET := 16, PARAMETER_X_OFFSET := 32,
    PARAMETER_Y_OFFSET := 64, PARAMETER_Z_OFFSET := 128, PARAMETER_F_OFFSET := 256,
    PARAMETER_E_OFFSET := 512, PARAMETER_N_OFFSET := 1024,
    PARAMETER_HOST_COMMAND_OFFSET := 2048, VALID_CHECKSUM_OFFSET := 4096,
    PARSED_OFFSET := 8192, HEATER_MIN_TEMPERATURE := 100, HEATER_MAX_TEMPERATURE := 285,
    FAN_MIN_SPEED := 0, LED_MAX_BRIGHTNESS := 100, EEPROM_SIZE := 1024,
    EEPROM_BED_ORIENTATION_BACK_RIGHT_OFFSET := 6,
    EEPROM_BED_ORIENTATION_BACK_LEFT_OFFSET := 10,
    EEPROM_BED_ORIENTATION_FRONT_LEFT_OFFSET := 14,
    EEPROM_BED_ORIENTATION_FRONT_RIGHT_OFFSET := 18,
    EEPROM_BED_OFFSET_BACK_LEFT_OFFSET := 22,
    EEPROM_BED_OFFSET_BACK_RIGHT_OFFSET := 26,
    EEPROM_BED_OFFSET_FRONT_RIGHT_OFFSET := 30,
    EEPROM_BED_OFFSET_FRONT_LEFT_OFFSET := 34,
    EEPROM_BED_HEIGHT_OFFSET_OFFSET := 38,
    HEATER_MIN_TEMPERATURE_TEXT := "100".toList,
    HEATER_MAX_TEMPERATURE_TEXT := "285".toList,
    FIRMWARE_NAME_TEXT := "iMe".toList,
    FIRMWARE_VERSION_TEXT := "1900000001".toList }

/-- Peripherals whose state is the list of the calls made on them, newest
first; the heater works until the entry `heater failure` is in that list and
its temperature is always zero. -/
def loggingPeripherals : Peripherals (List String) Int :=
  { heaterIsWorking := fun h => !h.contains "heater failure"
    heaterSetTemperature := fun _ _ h => "heater.setTemperature" :: h
    heaterGetTemperature := fun _ => 0
    heaterReset := fun h => "heater.reset" :: h
    fanSetSpeed := fun _ h => "fan.setSpeed" :: h
    ledSetBrightness := fun _ h => "led.setBrightness" :: h
    nvmEepromReadBuffer := fun _ _ _ => 0
    nvmEepromEraseAndWriteBuffer := fun _ _ _ h => "nvm_eeprom_erase_and_write_buffer" :: h
    addToHoursCounter := fun _ h => "hoursCounter" :: h
    resetCauseGetCauses := fun _ => 0
    delayMs := fun h => h
    delayS := fun h => h
    floatIsNonzero := fun r => r != 0
    ftoa := fun r => (toString r).toList
    motorsTurnOn := fun m h => (m, "motors.turnOn" :: h)
    motorsTurnOff := fun m h => (m, "motors.turnOff" :: h)
    motorsGantryClipsDetected := fun _ _ => false
    motorsUpdateBedChanges := fun m h => (m, "motors.updateBedChanges" :: h)
    motorsMove := fun _ m h => (m, "motors.move" :: h)
    motorsHomeXY := fun m h => (m, "motors.homeXY" :: h)
    motorsCalibrateBedCenterZ0 := fun m h => (m, "motors.calibrateBedCenterZ0" :: h)
    motorsCalibrateBedOrientation := fun m h => (m, "motors.calibrateBedOrientation" :: h)
    motorsSaveZAsBedCenterZ0 := fun m h => (m, "motors.saveZAsBedCenterZ0" :: h)
    motorsReset := fun m h => (m, "motors.reset" :: h) }

/-- A command with no field at all: an empty slot. -/
def emptyRequest : Gcode Int :=
  { commandParameters := 0, valueG := 0, valueM := 0, valueT := 0, valueS := 0, valueP := 0,
    valueX := 0, valueY := 0, valueZ := 0, valueE := 0, valueF := 0, valueN := 0 }

/-- A machine with working subsystems and no emergency stop, whose queue holds
the command `g` at the consumer index, slot 0, and whose current command number
is `number`. -/
def exampleState (g : Gcode Int) (number : Nat) : State (List String) Int :=
  { serialNumber := "SN".toList
    requests := fun i => if i = 0 then g else emptyRequest
    waitTimerCounter := 0
    waitResponsesEnabled := true
    emergencyStopOccured := false
    motors :=
      { currentValues := fun _ => 0, mode := MODES.ABSOLUTE,
        currentStateOfValues := fun _ => false, accelerometerIsWorking := true }
    hw := []
    currentCommandNumber := number
    currentProcessingRequest := 0
    responseBuffer := List.replicate (UINT8_MAX + 1) NUL
    usb := [] }

/-- The machine of `exampleState` with a heater that reports not working. -/
def exampleStateHeaterFailed (g : Gcode Int) (number : Nat) : State (List String) Int :=
  { exampleState g number with hw := ["heater failure"] }

/-- The machine of `exampleStateHeaterFailed` with an emergency stop pending. -/
def exampleStateStopped (g : Gcode Int) (number : Nat) : State (List String) Int :=
  { exampleStateHeaterFailed g number with emergencyStopOccured := true }

/-- The line `N3 G28` with a good checksum. -/
def exampleG28 : Gcode Int :=
  { emptyRequest with commandParameters := 1 + 1024 + 4096 + 8192, valueG := 28, valueN := 3 }

/-- The line `N3 G28` with a bad checksum. -/
def exampleG28BadChecksum : Gcode Int :=
  { emptyRequest with commandParameters := 1 + 1024 + 8192, valueG := 28, valueN := 3 }

/-- The line `N5 M110` with a good checksum. -/
def exampleM110 : Gcode Int :=
  { emptyRequest with commandParameters := 2 + 1024 + 4096 + 8192, valueM := 110, valueN := 5 }

/-- The line `N12 G28` with a good checksum. -/
def exampleG28Ahead : Gcode Int :=
  { exampleG28 with valueN := 12 }

/-- The line `M115 S628`. -/
def exampleM115Reset : Gcode Int :=
  { emptyRequest with commandParameters := 2 + 8 + 8192, valueM := 115, valueS := 628 }

/-- The line `N7 M114` with a good checksum. -/
def exampleM114 : Gcode Int :=
  { emptyRequest with commandParameters := 2 + 1024 + 4096 + 8192, valueM := 114, valueN := 7 }

/-! ## The receive callback -/

/-- The globals of main.cpp together with the static `currentReceivingRequest`
of `cdcRxNotifyCallback` (main.cpp:714) and the `emergencyStopOccured` members
of the heater and of the motors, which line 752 sets. -/
structure Firmware (H R : Type) where
  main : State H R
  currentReceivingRequest : Nat
  heaterEmergencyStopOccured : Bool
  motorsEmergencyStopOccured : Bool

/-- The test of line 749: the M field is present with code 0, and the line has
no N field or a valid checksum. -/
def isEmergencyStop (c : Constants) (g : Gcode R) : Bool :=
  g.has c.PARAMETER_M_OFFSET && g.valueM == 0
    && (!(g.has c.PARAMETER_N_OFFSET) || g.has c.VALID_CHECKSUM_OFFSET)

/-- Line 752: the three emergency-stop flags are set. -/
def raiseEmergencyStop (f : Firmware H R) : Firmware H R :=
  { f with
    main := { f.main with emergencyStopOccured := true }
    heaterEmergencyStopOccured := true
    motorsEmergencyStopOccured := true }

/-- Lines 759-766: the command goes into the slot at the producer index when
that slot is empty, and the producer index steps to the next slot of the ring;
`currentReceivingRequest` is a `uint8_t`. -/
def storeRequest (g : Gcode R) (f : Firmware H R) : Firmware H R :=
  if (f.main.requests f.currentReceivingRequest).commandParameters = 0 then
    { f with
      main := { f.main with
        requests := Function.update f.main.requests f.currentReceivingRequest g }
      currentReceivingRequest :=
        if f.currentReceivingRequest = REQUEST_BUFFER_SIZE - 1 then 0
        else (f.currentReceivingRequest + 1) % 256 }
  else f

/-- Lines 742-771: the loop over the lines of the accumulated request. `lines`
holds what `parseCommand` returns for each line, in order; the loop ends at the
first emergency stop (`break`, line 755). -/
def ingestLines (c : Constants) : List (Gcode R) → Firmware H R → Firmware H R
  | [], f => f
  | g :: rest, f =>
    if isEmergencyStop c g then raiseEmergencyStop f
    else ingestLines c rest (storeRequest g f)

/-- Function `cdcRxNotifyCallback` (main.cpp:711) at the end of a transfer, when
no more data is available (line 733): the lines are looked at only when no
emergency stop is being processed (line 739). -/
def cdcRxNotifyCallback (c : Constants) (lines : List (Gcode R)) (f : Firmware H R) :
    Firmware H R :=
  if !f.main.emergencyStopOccured then ingestLines c lines f else f

/-- One iteration of the main loop on the globals of the firmware. -/
def Firmware.mainLoopIteration (c : Constants) (P : Peripherals H R) (stopArrives : Bool)
    (f : Firmware H R) : Option (Firmware H R) :=
  (IMe.mainLoopIteration c P stopArrives f.main).map (fun s => { f with main := s })

/-- Lines 664-679 of an iteration that found no emergency stop at line 169 and
left the response in state `s1`: the newline is appended, the response is sent
unless an emergency stop arrived meanwhile, and the request is finished. -/
def afterDispatch (stopArrives : Bool) (s1 : State H R) : State H R :=
  finishRequest
    (if stopArrives then
      { s1.appendResponse "\n".toList with emergencyStopOccured := true }
    else sendDataToUsb (s1.appendResponse "\n".toList)
      (strcat s1.responseBuffer "\n".toList))

/-! ## The ring of requests as a queue -/

/-- A step of the producer, which ingests one parsed line, or of the consumer,
which runs one iteration of the main loop. -/
inductive QueueStep (R : Type) where
  | ingest (g : Gcode R)
  | dispatch

/-- The commands the consumer finds when it walks the ring from slot `i` for at
most `fuel` slots, up to the first empty slot. -/
def heldFrom (requests : Nat → Gcode R) : Nat → Nat → List (Gcode R)
  | _, 0 => []
  | i, fuel + 1 =>
    if (requests i).commandParameters ≠ 0 then
      requests i :: heldFrom requests (nextSlot i) fuel
    else []

/-- The commands held in the ring, in the order the consumer will take them. -/
def Firmware.held (f : Firmware H R) : List (Gcode R) :=
  heldFrom f.main.requests f.main.currentProcessingRequest REQUEST_BUFFER_SIZE

/-- One step of the firmware. The second component lists the commands handed to
the dispatcher so far: an iteration of the main loop that finds the slot at the
consumer index occupied works on the command in that slot (line 164). The
result is `none` when the iteration ends in a soft reset. -/
def queueStep (c : Constants) (P : Peripherals H R) :
    QueueStep R → Firmware H R × List (Gcode R) → Option (Firmware H R × List (Gcode R))
  | QueueStep.ingest g, (f, dispatched) => some (cdcRxNotifyCallback c [g] f, dispatched)
  | QueueStep.dispatch, (f, dispatched) =>
    (f.mainLoopIteration c P false).map (fun f1 =>
      (f1,
        if (f.main.requests f.main.currentProcessingRequest).commandParameters ≠ 0 then
          dispatched ++ [f.main.requests f.main.currentProcessingRequest]
        else dispatched))

/-- A run of the firmware: the steps in order. -/
def queueRun (c : Constants) (P : Peripherals H R) :
    List (QueueStep R) → Firmware H R × List (Gcode R) → Option (Firmware H R × List (Gcode R))
  | [], fd => some fd
  | step :: rest, fd => (queueStep c P step fd).bind (queueRun c P rest)

/-- Written from the specification, not from the code: a first-in first-out
queue of capacity ten. `held` are the commands in the queue, oldest first,
`stored` the commands accepted so far and `dispatched` the commands taken out
so far. -/
structure Fifo (R : Type) where
  held : List (Gcode R)
  stored : List (Gcode R)
  dispatched : List (Gcode R)

/-- Written from the specification: a decoded command is enqueued unless the
queue is full, in which case it is dropped; the consumer takes the oldest
command and does nothing on an empty queue. -/
def Fifo.step (q : Fifo R) : QueueStep R → Fifo R
  | QueueStep.ingest g =>
    if q.held.length < REQUEST_BUFFER_SIZE then
      { q with held := q.held ++ [g], stored := q.stored ++ [g] }
    else q
  | QueueStep.dispatch =>
    match q.held with
    | [] => q
    | g :: rest => { q with held := rest, dispatched := q.dispatched ++ [g] }

/-- Written from the specification: the queue after the steps, starting empty. -/
def Fifo.run (steps : List (QueueStep R)) : Fifo R :=
  steps.foldl Fifo.step { held := [], stored := [], dispatched := [] }

/-- The command is the soft reset `M115 S628` (main.cpp:336-342). -/
def Gcode.isSoftReset (c : Constants) (g : Gcode R) : Prop :=
  g.has c.PARAMETER_M_OFFSET = true ∧ g.valueM = 115 ∧ g.valueS = 628

instance (c : Constants) (g : Gcode R) : Decidable (g.isSoftReset c) := by
  unfold Gcode.isSoftReset; infer_instance

/-! ## Predicates on a command that reaches its handler -/

/-- The flag is a bit of the 16-bit parameter mask other than the two status
bits `VALID_CHECKSUM_OFFSET` and `PARSED_OFFSET`. -/
def Constants.IsParameterBit (c : Constants) (flag : Nat) : Prop :=
  flag &&& (c.VALID_CHECKSUM_OFFSET ||| c.PARSED_OFFSET) = 0 ∧ flag < 65536

instance (c : Constants) (flag : Nat) : Decidable (c.IsParameterBit flag) := by
  unfold Constants.IsParameterBit; infer_instance

/-- The command passes the numbering and checksum policy of lines 202-237 when
the current command number is `current`: it has no N field, or it has a valid
checksum, is not taken for M110, and its N is the current command number, which
is not the largest 64-bit number. -/
def PassesNumbering (c : Constants) (g : Gcode R) (current : Nat) : Prop :=
  g.has c.PARAMETER_N_OFFSET = false
    ∨ (g.has c.VALID_CHECKSUM_OFFSET = true ∧ g.valueM ≠ 110 ∧ current ≠ UINT64_MAX
        ∧ g.valueN = current)

instance (c : Constants) (g : Gcode R) (current : Nat) :
    Decidable (PassesNumbering c g current) := by
  unfold PassesNumbering; infer_instance

/-- The case labels of `switch(valueM)` (main.cpp:248-475), in the order of the
source. -/
def handledMCodes : List Nat :=
  [17, 18, 104, 109, 105, 106, 107, 114, 115, 117, 404, 420, 583, 618, 619, 5321,
    20, 21, 80, 82, 83, 84, 110, 111, 999]

/-- The case labels of `switch(valueG)` (main.cpp:484-628), in the order of the
source. -/
def handledGCodes : List Nat := [0, 1, 4, 28, 30, 32, 33, 90, 91, 92, 20, 21]

/-! ## More lines and machines for the evaluation -/

/-- The line `M0`, an emergency stop. -/
def exampleM0 : Gcode Int :=
  { emptyRequest with commandParameters := 2 + 8192, valueM := 0 }

/-- The line `N3 G5` with a good checksum; the dispatcher has no case 5. -/
def exampleG5 : Gcode Int :=
  { emptyRequest with commandParameters := 1 + 1024 + 4096 + 8192, valueG := 5, valueN := 3 }

/-- The line `G1 E2`. -/
def exampleG1E : Gcode Int :=
  { emptyRequest with commandParameters := 1 + 512 + 8192, valueG := 1, valueE := 2 }

/-- The line `G28`. -/
def exampleG28Plain : Gcode Int :=
  { emptyRequest with commandParameters := 1 + 8192, valueG := 28 }

/-- The line `G90`. -/
def exampleG90 : Gcode Int :=
  { emptyRequest with commandParameters := 1 + 8192, valueG := 90 }

/-- The machine of `exampleState` with an empty queue and the producer index at
the consumer index. -/
def exampleFirmware : Firmware (List String) Int :=
  { main := exampleState emptyRequest 0
    currentReceivingRequest := 0
    heaterEmergencyStopOccured := false
    motorsEmergencyStopOccured := false }

/-- The machine of `exampleFirmware` with an emergency stop pending. -/
def exampleFirmwareStopped : Firmware (List String) Int :=
  raiseEmergencyStop exampleFirmware

/-- The ring holds exactly the commands `q`, oldest first: they sit in the slots
from the consumer index on, the producer index is the slot after them, every
other slot is empty, and no emergency stop is pending. None of the commands is
the soft reset. -/
def RingHolds (c : Constants) (f : Firmware H R) (q : List (Gcode R)) : Prop :=
  f.main.currentProcessingRequest < REQUEST_BUFFER_SIZE
    ∧ f.main.emergencyStopOccured = false
    ∧ q.length ≤ REQUEST_BUFFER_SIZE
    ∧ f.currentReceivingRequest
        = (f.main.currentProcessingRequest + q.length) % REQUEST_BUFFER_SIZE
    ∧ (∀ k, k < q.length →
        q[k]? = some (f.main.requests
          ((f.main.currentProcessingRequest + k) % REQUEST_BUFFER_SIZE)))
    ∧ (∀ g ∈ q, g.commandParameters ≠ 0 ∧ ¬ g.isSoftReset c)
    ∧ (∀ k, q.length ≤ k → k < REQUEST_BUFFER_SIZE →
        (f.main.requests
          ((f.main.currentProcessingRequest + k) % REQUEST_BUFFER_SIZE)).commandParameters = 0)

/-! ## The persisted store -/

/-- Peripherals whose state is the content of the persisted store, one byte per
address. A buffer is read and written low byte first; everything else leaves
the state alone and the heater works. -/
def storePeripherals : Peripherals (Int → Nat) Int :=
  { heaterIsWorking := fun _ => true
    heaterSetTemperature := fun _ _ h => h
    heaterGetTemperature := fun _ => 0
    heaterReset := fun h => h
    fanSetSpeed := fun _ h => h
    ledSetBrightness := fun _ h => h
    nvmEepromReadBuffer := fun offset n h =>
      (List.range n).foldl
        (fun (value i : Nat) => value + h (offset + (i : Int)) % 256 * 256 ^ i) 0
    nvmEepromEraseAndWriteBuffer := fun offset value n h =>
      fun address =>
        if offset ≤ address ∧ address < offset + n then
          (value / 256 ^ (address - offset).toNat % 256).toNat
        else h address
    addToHoursCounter := fun _ h => h
    resetCauseGetCauses := fun _ => 0
    delayMs := fun h => h
    delayS := fun h => h
    floatIsNonzero := fun r => r != 0
    ftoa := fun r => (toString r).toList
    motorsTurnOn := fun m h => (m, h)
    motorsTurnOff := fun m h => (m, h)
    motorsGantryClipsDetected := fun _ _ => false
    motorsUpdateBedChanges := fun m h => (m, h)
    motorsMove := fun _ m h => (m, h)
    motorsHomeXY := fun m h => (m, h)
    motorsCalibrateBedCenterZ0 := fun m h => (m, h)
    motorsCalibrateBedOrientation := fun m h => (m, h)
    motorsSaveZAsBedCenterZ0 := fun m h => (m, h)
    motorsReset := fun m h => (m, h) }

/-- The line `M618 S100 T2 P70000`: write two bytes of 70000 at offset 100. -/
def exampleM618 : Gcode Int :=
  { emptyRequest with
    commandParameters := 2 + 4 + 8 + 16 + 8192, valueM := 618, valueS := 100, valueT := 2,
    valueP := 70000 }

/-- The line `N1 M619 S100 T2` with a good checksum: read two bytes at offset
100. -/
def exampleM619 : Gcode Int :=
  { emptyRequest with
    commandParameters := 2 + 4 + 8 + 1024 + 4096 + 8192, valueM := 619, valueS := 100,
    valueT := 2, valueN := 1 }

/-- The line `M619 S2147483647 T1`: read one byte at the largest offset an
`int32_t` holds. -/
def exampleM619Last : Gcode Int :=
  { emptyRequest with
    commandParameters := 2 + 4 + 8 + 8192, valueM := 619, valueS := 2147483647, valueT := 1 }

/-- A machine with an erased store whose queue holds `M618 S100 T2 P70000` at
the consumer index and `N1 M619 S100 T2` in the slot after it; the current
command number is 1. -/
def exampleStoreState : State (Int → Nat) Int :=
  { serialNumber := "SN".toList
    requests := fun i => if i = 0 then exampleM618 else if i = 1 then exampleM619
      else emptyRequest
    waitTimerCounter := 0
    waitResponsesEnabled := true
    emergencyStopOccured := false
    motors :=
      { currentValues := fun _ => 0, mode := MODES.ABSOLUTE,
        currentStateOfValues := fun _ => false, accelerometerIsWorking := true }
    hw := fun _ => 255
    currentCommandNumber := 1
    currentProcessingRequest := 0
    responseBuffer := List.replicate (UINT8_MAX + 1) NUL
    usb := [] }

/-! ## The geometry of the bed (motors.cpp:100-203)

Arithmetic is exact: a `float` that holds a number is a rational. -/

/-- Class `Vector` (vector.h, which is not among the sources): the components
`[0]` to `[3]`, of which the first three are also called `x`, `y` and `z`. -/
structure Vector where
  x : ℚ
  y : ℚ
  z : ℚ
  w : ℚ

/-- Modelled from the spec: the difference of two vectors (an edge vector of
section 4.3), taken by component. -/
def Vector.sub (a b : Vector) : Vector :=
  { x := a.x - b.x, y := a.y - b.y, z := a.z - b.z, w := a.w - b.w }

/-- Modelled from the spec: the sum of two vectors, taken by component. -/
def Vector.add (a b : Vector) : Vector :=
  { x := a.x + b.x, y := a.y + b.y, z := a.z + b.z, w := a.w + b.w }

/-- Modelled from the spec: a vector times a number, taken by component. -/
def Vector.scale (a : Vector) (k : ℚ) : Vector :=
  { x := a.x * k, y := a.y * k, z := a.z * k, w := a.w * k }

/-- Function `calculatePlaneNormalVector` (motors.cpp:101): the cross product of
the edges from `v1` to `v2` and from `v1` to `v3`. -/
def calculatePlaneNormalVector (v1 v2 v3 : Vector) : Vector :=
  let vector := v2.sub v1
  let vector2 := v3.sub v1
  { x := vector.y * vector2.z - vector2.y * vector.z
    y := vector.z * vector2.x - vector2.z * vector.x
    z := vector.x * vector2.y - vector2.x * vector.y
    w := 0 }

/-- Function `generatePlaneEquation` (motors.cpp:115): the coefficients A, B, C
and D of the plane through the three points. -/
def generatePlaneEquation (v1 v2 v3 : Vector) : Vector :=
  let vector2 := calculatePlaneNormalVector v1 v2 v3
  { x := vector2.x
    y := vector2.y
    z := vector2.z
    w := -(vector2.x * v1.x + vector2.y * v1.y + vector2.z * v1.z) }

/-- Function `getZFromXYAndPlane` (motors.cpp:129). -/
def getZFromXYAndPlane (point planeABC : Vector) : ℚ :=
  (planeABC.x * point.x + planeABC.y * point.y + planeABC.w) / -planeABC.z

/-- Function `sign` (motors.cpp:135). -/
def sign (p1 p2 p3 : Vector) : ℚ :=
  (p1.x - p3.x) * (p2.y - p3.y) - (p2.x - p3.x) * (p1.y - p3.y)

/-- Function `isPointInTriangle` (motors.cpp:141). `normalize` stands for
`Vector::normalize` of vector.h. -/
def isPointInTriangle (normalize : Vector → Vector) (pt v1 v2 v3 : Vector) : Bool :=
  let vector2 := v1.add ((normalize (((v1.sub v2).add v1).sub v3)).scale (1 / 100))
  let vector3 := v2.add ((normalize (((v2.sub v1).add v2).sub v3)).scale (1 / 100))
  let vector4 := v3.add ((normalize (((v3.sub v1).add v3).sub v2)).scale (1 / 100))
  let flag : Bool := decide (sign pt vector2 vector3 < 0)
  let flag2 : Bool := decide (sign pt vector3 vector4 < 0)
  let flag3 : Bool := decide (sign pt vector4 vector2 < 0)
  flag == flag2 && flag2 == flag3

/-- The members of class `Motors` that describe the bed: the four corners, the
center, and the four planes. -/
structure Bed where
  backRightVector : Vector
  backLeftVector : Vector
  frontLeftVector : Vector
  frontRightVector : Vector
  centerVector : Vector
  backPlane : Vector
  leftPlane : Vector
  rightPlane : Vector
  frontPlane : Vector

/-- Function `Motors::getHeightAdjustmentRequired` (motors.cpp:162). -/
def getHeightAdjustmentRequired (normalize : Vector → Vector) (b : Bed) (x y : ℚ) : ℚ :=
  let point : Vector := { x := x, y := y, z := 0, w := 0 }
  if x ≤ b.frontLeftVector.x ∧ y ≥ b.backRightVector.y then
    (getZFromXYAndPlane point b.backPlane + getZFromXYAndPlane point b.leftPlane) / 2
  else if x ≤ b.frontLeftVector.x ∧ y ≤ b.frontLeftVector.y then
    (getZFromXYAndPlane point b.frontPlane + getZFromXYAndPlane point b.leftPlane) / 2
  else if x ≥ b.frontRightVector.x ∧ y ≤ b.frontLeftVector.y then
    (getZFromXYAndPlane point b.frontPlane + getZFromXYAndPlane point b.rightPlane) / 2
  else if x ≥ b.frontRightVector.x ∧ y ≥ b.backRightVector.y then
    (getZFromXYAndPlane point b.backPlane + getZFromXYAndPlane point b.rightPlane) / 2
  else if x ≤ b.frontLeftVector.x then getZFromXYAndPlane point b.leftPlane
  else if x ≥ b.frontRightVector.x then getZFromXYAndPlane point b.rightPlane
  else if y ≥ b.backRightVector.y then getZFromXYAndPlane point b.backPlane
  else if y ≤ b.frontLeftVector.y then getZFromXYAndPlane point b.frontPlane
  else if isPointInTriangle normalize point b.centerVector b.frontLeftVector
      b.backLeftVector then
    getZFromXYAndPlane point b.leftPlane
  else if isPointInTriangle normalize point b.centerVector b.frontRightVector
      b.backRightVector then
    getZFromXYAndPlane point b.rightPlane
  else if isPointInTriangle normalize point b.centerVector b.backLeftVector
      b.backRightVector then
    getZFromXYAndPlane point b.backPlane
  else getZFromXYAndPlane point b.frontPlane

/-- Lines 427-446 of `Motors::initialize`: the positions of the corners and of
the center, whose Z is 0. The heights of the corners and the planes are set
later; they start at zero here. -/
def initialBed : Bed :=
  { backRightVector := { x := 99, y := 95, z := 0, w := 0 }
    backLeftVector := { x := 9, y := 95, z := 0, w := 0 }
    frontLeftVector := { x := 9, y := 5, z := 0, w := 0 }
    frontRightVector := { x := 99, y := 5, z := 0, w := 0 }
    centerVector := { x := 54, y := 50, z := 0, w := 0 }
    backPlane := { x := 0, y := 0, z := 0, w := 0 }
    leftPlane := { x := 0, y := 0, z := 0, w := 0 }
    rightPlane := { x := 0, y := 0, z := 0, w := 0 }
    frontPlane := { x := 0, y := 0, z := 0, w := 0 } }

/-- Lines 863-875: the heights of the four corners are set; each is the sum of
an orientation and an offset of the persisted store. -/
def Bed.setCornerHeights (b : Bed) (backRight backLeft frontLeft frontRight : ℚ) : Bed :=
  { b with
    backRightVector := { b.backRightVector with z := backRight }
    backLeftVector := { b.backLeftVector with z := backLeft }
    frontLeftVector := { b.frontLeftVector with z := frontLeft }
    frontRightVector := { b.frontRightVector with z := frontRight } }

/-- Lines 878-881: the four planes are fitted to the corners and the center. -/
def Bed.updatePlanes (b : Bed) : Bed :=
  { b with
    backPlane := generatePlaneEquation b.backLeftVector b.backRightVector b.centerVector
    leftPlane := generatePlaneEquation b.backLeftVector b.frontLeftVector b.centerVector
    rightPlane := generatePlaneEquation b.backRightVector b.frontRightVector b.centerVector
    frontPlane := generatePlaneEquation b.frontLeftVector b.frontRightVector b.centerVector }

/-- The bed of a machine whose corners have the given heights, with its planes
fitted (lines 427-446 and 863-881). -/
def fittedBed (backRight backLeft frontLeft frontRight : ℚ) : Bed :=
  (initialBed.setCornerHeights backRight backLeft frontLeft frontRight).updatePlanes

/-! ## The motion control engine (motors.cpp:464-925)

A `float` that may be NaN is an optional rational, `none` for NaN; the fields of
a command are numbers. -/

/-! ### The rounding of a number to a `float`

A `float` is an IEEE 754 single: 24 significant binary digits and exponents from
-126 on, rounded to the nearest, and to the even one of two that are equally
near. Magnitudes above the largest finite `float` are rounded as if the range of
the exponent had no upper end. The rounding is applied where `Motors::move`
turns positions into whole numbers of steps and of timer periods: in the
products and quotients of lines 596, 606, 668 and 703. -/

/-- Two to the power `k`, for a whole number `k` of either sign. -/
def twoPow (k : ℤ) : ℚ :=
  if 0 ≤ k then ((2 ^ k.toNat : ℕ) : ℚ) else 1 / ((2 ^ (-k).toNat : ℕ) : ℚ)

/-- The number of times `n` can be halved before it is less than two, counted
in at most `fuel` rounds. -/
def halvings : Nat → Nat → Nat
  | 0, _ => 0
  | fuel + 1, n => if 2 ≤ n then halvings fuel (n / 2) + 1 else 0

/-- The position of the leading binary digit of `n`. -/
def leadingBit (n : Nat) : Nat := halvings n n

/-- The binary exponent `e` of a number that is not zero: two to the `e` is at
most its magnitude, which is less than two to the `e + 1`. -/
def binaryExponent (q : ℚ) : ℤ :=
  if twoPow ((leadingBit q.num.natAbs : ℤ) - (leadingBit q.den : ℤ)) ≤ |q| then
    (leadingBit q.num.natAbs : ℤ) - (leadingBit q.den : ℤ)
  else (leadingBit q.num.natAbs : ℤ) - (leadingBit q.den : ℤ) - 1

/-- The whole number nearest to `x`, and of the two nearest the even one when
`x` lies half way between them. -/
def roundHalfEven (x : ℚ) : ℤ :=
  if x - ⌊x⌋ < 1 / 2 then ⌊x⌋
  else if 1 / 2 < x - ⌊x⌋ then ⌊x⌋ + 1
  else if ⌊x⌋ % 2 = 0 then ⌊x⌋
  else ⌊x⌋ + 1

/-- The `float` that the exact result of an operation is rounded to, which is
also what a conversion to `float` gives: the nearest multiple of the unit in the
last place, two to the power of the binary exponent less 23. -/
def toFloat (q : ℚ) : ℚ :=
  if q = 0 then 0
  else
    (roundHalfEven (q / twoPow (max (binaryExponent q) (-126) - 23)) : ℚ)
      * twoPow (max (binaryExponent q) (-126) - 23)

/-! ### The constants and the state of the engine -/

/-- `MICROSTEPS_PER_STEP` (motors.cpp:17). -/
def MICROSTEPS_PER_STEP : ℚ := 32

/-- `SEGMENT_LENGTH` (motors.cpp:16). -/
def SEGMENT_LENGTH : ℚ := 2

/-- `MOTORS_STEP_TIMER_PERIOD` (motors.cpp:23), 0x400. -/
def MOTORS_STEP_TIMER_PERIOD : ℚ := 1024

/-- `MOTOR_X_STEPS_PER_MM` (motors.cpp:32). -/
def MOTOR_X_STEPS_PER_MM : ℚ := 19.3067875

/-- `MOTOR_X_MAX_FEEDRATE` (motors.cpp:33). -/
def MOTOR_X_MAX_FEEDRATE : ℚ := 4800

/-- `MOTOR_X_MIN_FEEDRATE` (motors.cpp:34). -/
def MOTOR_X_MIN_FEEDRATE : ℚ := 120

/-- `MOTOR_Y_STEPS_PER_MM` (motors.cpp:43). -/
def MOTOR_Y_STEPS_PER_MM : ℚ := 18.00885

/-- `MOTOR_Y_MAX_FEEDRATE` (motors.cpp:44). -/
def MOTOR_Y_MAX_FEEDRATE : ℚ := 4800

/-- `MOTOR_Y_MIN_FEEDRATE` (motors.cpp:45). -/
def MOTOR_Y_MIN_FEEDRATE : ℚ := 120

/-- `MOTOR_Z_STEPS_PER_MM` (motors.cpp:54). -/
def MOTOR_Z_STEPS_PER_MM : ℚ := 646.3295

/-- `MOTOR_Z_MAX_FEEDRATE` (motors.cpp:55). -/
def MOTOR_Z_MAX_FEEDRATE : ℚ := 60

/-- `MOTOR_Z_MIN_FEEDRATE` (motors.cpp:56). -/
def MOTOR_Z_MIN_FEEDRATE : ℚ := 30

/-- `MOTOR_E_STEPS_PER_MM` (motors.cpp:68). -/
def MOTOR_E_STEPS_PER_MM : ℚ := 128.451375

/-- `MOTOR_E_MAX_FEEDRATE_EXTRUSION` (motors.cpp:69). -/
def MOTOR_E_MAX_FEEDRATE_EXTRUSION : ℚ := 600

/-- `MOTOR_E_MAX_FEEDRATE_RETRACTION` (motors.cpp:70). -/
def MOTOR_E_MAX_FEEDRATE_RETRACTION : ℚ := 720

/-- `MOTOR_E_MIN_FEEDRATE` (motors.cpp:71). -/
def MOTOR_E_MIN_FEEDRATE : ℚ := 60

/-- Z state `INVALID` (motors.cpp:88). -/
def INVALID : Nat := 0

/-- Z state `VALID` (motors.cpp:89). -/
def VALID : Nat := 1

/-- What motors.cpp takes from outside the sources: the clock rate of the
processor, a `uint32_t`, the square root of math.h and `Vector::normalize`. -/
structure MotorEnvironment where
  sysclk_get_cpu_hz : ℚ
  sqrt : ℚ → ℚ
  normalize : Vector → Vector

/-- Type `BACKLASH_DIRECTION` (motors.h). -/
inductive BACKLASH_DIRECTION where
  | NONE
  | POSITIVE
  | NEGATIVE
deriving DecidableEq, Repr

/-- The values of the persisted store that `Motors::move` and the functions it
calls read or write, each named after its `EEPROM_..._OFFSET`. The saved Z state
is a byte. -/
structure Eeprom where
  SAVED_Z_STATE : Nat
  LAST_RECORDED_Z_VALUE : Option ℚ
  SPEED_LIMIT_X : ℚ
  SPEED_LIMIT_Y : ℚ
  SPEED_LIMIT_Z : ℚ
  SPEED_LIMIT_E_POSITIVE : ℚ
  SPEED_LIMIT_E_NEGATIVE : ℚ
  BACKLASH_X : ℚ
  BACKLASH_Y : ℚ
  BACKLASH_SPEED : ℚ
  BED_ORIENTATION_BACK_RIGHT : ℚ
  BED_ORIENTATION_BACK_LEFT : ℚ
  BED_ORIENTATION_FRONT_LEFT : ℚ
  BED_ORIENTATION_FRONT_RIGHT : ℚ
  BED_OFFSET_BACK_RIGHT : ℚ
  BED_OFFSET_BACK_LEFT : ℚ
  BED_OFFSET_FRONT_LEFT : ℚ
  BED_OFFSET_FRONT_RIGHT : ℚ
  BED_HEIGHT_OFFSET : ℚ

/-- The hardware that `Motors::move` reads back: the levels of the direction
pins of the X and Y motors (`true` is high) and the persisted store. The step
timer, the Vref outputs and the other pins are written only and left out. -/
structure MotorsHardware where
  directionX : Bool
  directionY : Bool
  eeprom : Eeprom

/-- Class `Motors` with the members that motors.cpp uses besides those that
main.cpp sees. -/
structure MotionEngine extends Motors (Option ℚ) where
  emergencyStopOccured : Bool
  bedHeightOffset : ℚ
  bed : Bed

/-- The value a `float` is computed with where the source has ruled out NaN:
line 517 reads a NaN position as 0. -/
def numberOf (value : Option ℚ) : ℚ := value.getD 0

/-- C `round` of a `float` that is not negative, converted to `uint32_t`. -/
def roundToUint32 (value : ℚ) : Nat := ⌊value + 1 / 2⌋.toNat % 2 ^ 32

/-- The locals of `Motors::move` that live across its loop over the motors,
together with the members and the hardware the loop changes. -/
structure MoveLocals where
  motors : MotionEngine
  hw : MotorsHardware
  motorMoves : AXES → Nat
  slowestTime : Nat
  backlashDirectionX : BACKLASH_DIRECTION
  backlashDirectionY : BACKLASH_DIRECTION

/-- Lines 488-510: the flag of the field of the command that belongs to motor
`i`. -/
def parameterOffset (c : Constants) (i : AXES) : Nat :=
  match i with
  | AXES.X => c.PARAMETER_X_OFFSET
  | AXES.Y => c.PARAMETER_Y_OFFSET
  | AXES.Z => c.PARAMETER_Z_OFFSET
  | _ => c.PARAMETER_E_OFFSET

/-- Lines 488-510: the field of the command that belongs to motor `i`. -/
def parameter (command : Gcode ℚ) (i : AXES) : ℚ :=
  match i with
  | AXES.X => command.valueX
  | AXES.Y => command.valueY
  | AXES.Z => command.valueZ
  | _ => command.valueE

/-- Lines 516-521: the new value of motor `i`; a NaN position counts as 0. -/
def newValue (command : Gcode ℚ) (motors : MotionEngine) (i : AXES) : ℚ :=
  if motors.mode = MODES.RELATIVE then numberOf (motors.currentValues i) + parameter command i
  else parameter command i

/-- Line 524: the distance motor `i` travels. -/
def distanceTraveled (command : Gcode ℚ) (motors : MotionEngine) (i : AXES) : ℚ :=
  |newValue command motors i - numberOf (motors.currentValues i)|

/-- Lines 485-612: one pass of the loop over the motors in `Motors::move`, for
motor `i`. The steps per mm are a `float` variable set from a decimal constant;
32, 60 and 1024 are a `float` as they stand. -/
def moveAxis (c : Constants) (env : MotorEnvironment) (command : Gcode ℚ) (l : MoveLocals)
    (i : AXES) : MoveLocals :=
  if command.has (parameterOffset c i) then
    let tempValue : ℚ := numberOf (l.motors.currentValues i)
    let newValue : ℚ := newValue command l.motors i
    let distanceTraveled : ℚ := distanceTraveled command l.motors i
    if distanceTraveled ≠ 0 then
      let lowerNewValue : Bool := decide (newValue < tempValue)
      let motors1 : MotionEngine :=
        if (l.motors.currentValues i).isSome then
          { l.motors with
            currentValues := Function.update l.motors.currentValues i (some newValue) }
        else l.motors
      let backlashDirectionX : BACKLASH_DIRECTION :=
        match i with
        | AXES.X =>
          if l.hw.directionX != lowerNewValue then
            (if lowerNewValue then BACKLASH_DIRECTION.NEGATIVE
             else BACKLASH_DIRECTION.POSITIVE)
          else l.backlashDirectionX
        | _ => l.backlashDirectionX
      let backlashDirectionY : BACKLASH_DIRECTION :=
        match i with
        | AXES.Y =>
          if l.hw.directionY != !lowerNewValue then
            (if lowerNewValue then BACKLASH_DIRECTION.NEGATIVE
             else BACKLASH_DIRECTION.POSITIVE)
          else l.backlashDirectionY
        | _ => l.backlashDirectionY
      let hw1 : MotorsHardware :=
        match i with
        | AXES.X => { l.hw with directionX := lowerNewValue }
        | AXES.Y => { l.hw with directionY := !lowerNewValue }
        | _ => l.hw
      let stepsPerMm : ℚ :=
        match i with
        | AXES.X => toFloat MOTOR_X_STEPS_PER_MM
        | AXES.Y => toFloat MOTOR_Y_STEPS_PER_MM
        | AXES.Z => toFloat MOTOR_Z_STEPS_PER_MM
        | _ => toFloat MOTOR_E_STEPS_PER_MM
      let speedLimit : ℚ :=
        match i with
        | AXES.X => l.hw.eeprom.SPEED_LIMIT_X
        | AXES.Y => l.hw.eeprom.SPEED_LIMIT_Y
        | AXES.Z => l.hw.eeprom.SPEED_LIMIT_Z
        | _ =>
          if lowerNewValue then l.hw.eeprom.SPEED_LIMIT_E_NEGATIVE
          else l.hw.eeprom.SPEED_LIMIT_E_POSITIVE
      let maxFeedRate : ℚ :=
        match i with
        | AXES.X => MOTOR_X_MAX_FEEDRATE
        | AXES.Y => MOTOR_Y_MAX_FEEDRATE
        | AXES.Z => MOTOR_Z_MAX_FEEDRATE
        | _ =>
          if lowerNewValue then MOTOR_E_MAX_FEEDRATE_RETRACTION
          else MOTOR_E_MAX_FEEDRATE_EXTRUSION
      let minFeedRate : ℚ :=
        match i with
        | AXES.X => MOTOR_X_MIN_FEEDRATE
        | AXES.Y => MOTOR_Y_MIN_FEEDRATE
        | AXES.Z => MOTOR_Z_MIN_FEEDRATE
        | _ => MOTOR_E_MIN_FEEDRATE
      let motorFeedRate : ℚ :=
        max (min (min (numberOf (motors1.currentValues AXES.F)) speedLimit) maxFeedRate)
          minFeedRate
      let motorTotalTime : Nat :=
        roundToUint32 (toFloat (toFloat (toFloat (toFloat (distanceTraveled / motorFeedRate)
          * 60) * toFloat env.sysclk_get_cpu_hz) / MOTORS_STEP_TIMER_PERIOD))
      { motors := motors1
        hw := hw1
        motorMoves := Function.update l.motorMoves i
          (roundToUint32 (toFloat (toFloat (distanceTraveled * stepsPerMm)
            * MICROSTEPS_PER_STEP)))
        slowestTime := max motorTotalTime l.slowestTime
        backlashDirectionX := backlashDirectionX
        backlashDirectionY := backlashDirectionY }
    else l
  else l

/-- Lines 464-612 of `Motors::move`: the F field is saved, the locals are
initialized and the loop goes over the four motors. -/
def planAxes (c : Constants) (env : MotorEnvironment) (command : Gcode ℚ)
    (motors : MotionEngine) (hw : MotorsHardware) : MoveLocals :=
  let motors1 : MotionEngine :=
    if command.has c.PARAMETER_F_OFFSET then
      { motors with
        currentValues := Function.update motors.currentValues AXES.F (some command.valueF) }
    else motors
  [AXES.X, AXES.Y, AXES.Z, AXES.E].foldl (moveAxis c env command)
    { motors := motors1
      hw := hw
      motorMoves := fun _ => 0
      slowestTime := 0
      backlashDirectionX := BACKLASH_DIRECTION.NONE
      backlashDirectionY := BACKLASH_DIRECTION.NONE }

/-- The schedule that lines 657-704 hand to the step timer. -/
structure StepSchedule where
  motorsNumberOfSteps : AXES → Nat
  motorsStepDelay : AXES → Nat
  motorsTotalRoundedTime : AXES → Nat
  slowestRoundedTime : Nat
  motorsDelaySkips : AXES → Nat

/-- Lines 654-704 of `Motors::move`: the number of steps, the step delay and the
delay skips of each motor, from the moves of the motors and the slowest time.
The numbers are `uint32_t`; the two quotients are quotients of `float` values,
each operand converted first. A motor that does not move keeps what its entries
held before, given here as `previous`. -/
def stepSchedule (previous : StepSchedule) (motorMoves : AXES → Nat) (slowestTime : Nat) :
    StepSchedule :=
  let motorsNumberOfSteps : AXES → Nat := fun i =>
    if motorMoves i ≠ 0 then motorMoves i else previous.motorsNumberOfSteps i
  let motorsStepDelay : AXES → Nat := fun i =>
    if motorMoves i ≠ 0 then
      roundToUint32 (toFloat (toFloat (slowestTime : ℚ)
        / toFloat (motorsNumberOfSteps i : ℚ)))
    else previous.motorsStepDelay i
  let motorsTotalRoundedTime : AXES → Nat := fun i =>
    if motorMoves i ≠ 0 then motorsNumberOfSteps i * motorsStepDelay i % 2 ^ 32 else 0
  let slowestRoundedTime : Nat :=
    [AXES.X, AXES.Y, AXES.Z, AXES.E].foldl
      (fun slowest i => if motorMoves i ≠ 0 then max slowest (motorsTotalRoundedTime i)
        else slowest) 0
  { motorsNumberOfSteps := motorsNumberOfSteps
    motorsStepDelay := motorsStepDelay
    motorsTotalRoundedTime := motorsTotalRoundedTime
    slowestRoundedTime := slowestRoundedTime
    motorsDelaySkips := fun i =>
      if slowestRoundedTime ≠ motorsTotalRoundedTime i then
        roundToUint32 (toFloat (toFloat (motorsTotalRoundedTime i : ℚ)
          / toFloat ((slowestRoundedTime - motorsTotalRoundedTime i : Nat) : ℚ)))
      else 0 }

/-- The flags of the command that `Motors::compensateForBacklash` builds
(line 813) are other bits than the Z and E flags. -/
def Constants.BacklashFlagsApart (c : Constants) : Prop :=
  (c.PARAMETER_G_OFFSET ||| c.PARAMETER_X_OFFSET ||| c.PARAMETER_Y_OFFSET
      ||| c.PARAMETER_F_OFFSET) &&& c.PARAMETER_Z_OFFSET = 0
    ∧ (c.PARAMETER_G_OFFSET ||| c.PARAMETER_X_OFFSET ||| c.PARAMETER_Y_OFFSET
      ||| c.PARAMETER_F_OFFSET) &&& c.PARAMETER_E_OFFSET = 0

instance (c : Constants) : Decidable c.BacklashFlagsApart := by
  unfold Constants.BacklashFlagsApart; infer_instance

/-- `Motors::move(command, true)`, a compensation command: lines 615-648 and
756-776 are skipped, and lines 651-753 act on the step timer only. -/
def moveCompensation (c : Constants) (env : MotorEnvironment) (command : Gcode ℚ)
    (s : MotionEngine × MotorsHardware) : MotionEngine × MotorsHardware :=
  ((planAxes c env command s.1 s.2).motors, (planAxes c env command s.1 s.2).hw)

/-- Modelled from the spec: a `Gcode` as its constructor leaves it (gcode.h is
not among the sources), with no field present and the values taken as zero. -/
def newGcode : Gcode ℚ :=
  { commandParameters := 0, valueG := 0, valueM := 0, valueT := 0, valueS := 0, valueP := 0,
    valueX := 0, valueY := 0, valueZ := 0, valueE := 0, valueF := 0, valueN := 0 }

/-- Function `Motors::compensateForBacklash` (motors.cpp:798). -/
def compensateForBacklash (c : Constants) (env : MotorEnvironment)
    (backlashDirectionX backlashDirectionY : BACKLASH_DIRECTION)
    (s : MotionEngine × MotorsHardware) : MotionEngine × MotorsHardware :=
  let savedMode := s.1.mode
  let motors1 : MotionEngine := { s.1 with mode := MODES.RELATIVE }
  let savedX := motors1.currentValues AXES.X
  let savedY := motors1.currentValues AXES.Y
  let savedF := motors1.currentValues AXES.F
  let gcode : Gcode ℚ :=
    { newGcode with
      commandParameters := c.PARAMETER_G_OFFSET ||| c.PARAMETER_X_OFFSET
        ||| c.PARAMETER_Y_OFFSET ||| c.PARAMETER_F_OFFSET
      valueX :=
        if backlashDirectionX ≠ BACKLASH_DIRECTION.NONE then
          (if backlashDirectionX = BACKLASH_DIRECTION.NEGATIVE then s.2.eeprom.BACKLASH_X * -1
           else s.2.eeprom.BACKLASH_X)
        else newGcode.valueX
      valueY :=
        if backlashDirectionY ≠ BACKLASH_DIRECTION.NONE then
          (if backlashDirectionY = BACKLASH_DIRECTION.NEGATIVE then s.2.eeprom.BACKLASH_Y * -1
           else s.2.eeprom.BACKLASH_Y)
        else newGcode.valueY
      valueF := s.2.eeprom.BACKLASH_SPEED }
  let r := moveCompensation c env gcode (motors1, s.2)
  ({ r.1 with
      currentValues := Function.update (Function.update (Function.update r.1.currentValues
        AXES.X savedX) AXES.Y savedY) AXES.F savedF
      mode := savedMode },
    r.2)

/-- Lines 906-916 of `Motors::compensateForBedLeveling`: the command of segment
`i` out of `numberOfSegments`. -/
def bedLevelingSegment (c : Constants) (env : MotorEnvironment) (bed : Bed)
    (bedHeightOffset : ℚ) (startValues savedValues deltas : AXES → ℚ)
    (numberOfSegments i : Nat) : Gcode ℚ :=
  let segmentValues : AXES → ℚ := fun j =>
    if i ≠ numberOfSegments then startValues j + (i : ℚ) * SEGMENT_LENGTH * deltas j
    else savedValues j
  { newGcode with
    commandParameters := c.PARAMETER_G_OFFSET ||| c.PARAMETER_X_OFFSET
      ||| c.PARAMETER_Y_OFFSET ||| c.PARAMETER_Z_OFFSET ||| c.PARAMETER_E_OFFSET
    valueX := segmentValues AXES.X
    valueY := segmentValues AXES.Y
    valueZ := segmentValues AXES.Z + bedHeightOffset
      + getHeightAdjustmentRequired env.normalize bed (segmentValues AXES.X)
          (segmentValues AXES.Y)
    valueE := segmentValues AXES.E }

/-- The assignment of the four entries `X`, `Y`, `Z` and `E` of a `float` array,
as in lines 854-857 and 920-921; the entry `F` stays. -/
def setMotorValues (currentValues values : AXES → Option ℚ) : AXES → Option ℚ :=
  fun i => if i = AXES.F then currentValues i else values i

/-- Function `Motors::compensateForBedLeveling` (motors.cpp:844). It is called
when no start value is NaN (line 642), and then no current value is. -/
def compensateForBedLeveling (c : Constants) (env : MotorEnvironment)
    (startValues : AXES → Option ℚ) (s : MotionEngine × MotorsHardware) :
    MotionEngine × MotorsHardware :=
  let savedMode := s.1.mode
  let savedValues := s.1.currentValues
  let bed1 : Bed :=
    (s.1.bed.setCornerHeights
      (s.2.eeprom.BED_ORIENTATION_BACK_RIGHT + s.2.eeprom.BED_OFFSET_BACK_RIGHT)
      (s.2.eeprom.BED_ORIENTATION_BACK_LEFT + s.2.eeprom.BED_OFFSET_BACK_LEFT)
      (s.2.eeprom.BED_ORIENTATION_FRONT_LEFT + s.2.eeprom.BED_OFFSET_FRONT_LEFT)
      (s.2.eeprom.BED_ORIENTATION_FRONT_RIGHT + s.2.eeprom.BED_OFFSET_FRONT_RIGHT)).updatePlanes
  let currentValues1 := setMotorValues s.1.currentValues startValues
  let currentValues2 := Function.update currentValues1 AXES.Z
    (some (numberOf (currentValues1 AXES.Z) + (s.1.bedHeightOffset
      + getHeightAdjustmentRequired env.normalize bed1 (numberOf (currentValues1 AXES.X))
          (numberOf (currentValues1 AXES.Y)))))
  let bedHeightOffset1 := s.2.eeprom.BED_HEIGHT_OFFSET
  let motors1 : MotionEngine :=
    { s.1 with
      mode := MODES.ABSOLUTE
      currentValues := currentValues2
      bed := bed1
      bedHeightOffset := bedHeightOffset1 }
  let deltas : AXES → ℚ := fun i => numberOf (savedValues i) - numberOf (startValues i)
  let horizontalDistance : ℚ := env.sqrt (deltas AXES.X ^ 2 + deltas AXES.Y ^ 2)
  let ratios : AXES → ℚ := fun i =>
    if horizontalDistance ≠ 0 then deltas i / horizontalDistance else 0
  let numberOfSegments : Nat := (max 1 ⌈horizontalDistance / SEGMENT_LENGTH⌉).toNat % 2 ^ 32
  let r := (List.range numberOfSegments).foldl
    (fun t k => moveCompensation c env
      (bedLevelingSegment c env bed1 bedHeightOffset1 (fun j => numberOf (startValues j))
        (fun j => numberOf (savedValues j)) ratios numberOfSegments (k + 1)) t)
    (motors1, s.2)
  ({ r.1 with
      currentValues := setMotorValues r.1.currentValues savedValues
      mode := savedMode },
    r.2)

/-- Lines 635-647 of `Motors::move`: the compensation for backlash, when a
direction changed, and the compensation for bed leveling, when no start value
is NaN. -/
def compensate (c : Constants) (env : MotorEnvironment) (startValues : AXES → Option ℚ)
    (l : MoveLocals) (s : MotionEngine × MotorsHardware) : MotionEngine × MotorsHardware :=
  let s2 : MotionEngine × MotorsHardware :=
    if l.backlashDirectionX ≠ BACKLASH_DIRECTION.NONE
        ∨ l.backlashDirectionY ≠ BACKLASH_DIRECTION.NONE then
      compensateForBacklash c env l.backlashDirectionX l.backlashDirectionY s
    else s
  let runCommand : Bool :=
    [AXES.X, AXES.Y, AXES.Z, AXES.E].any (fun i => (startValues i).isNone)
  if !runCommand then compensateForBedLeveling c env startValues s2 else s2

/-- Lines 479-482 of `Motors::move`: the start values are the current values
once the F field is saved. -/
def startValues (c : Constants) (command : Gcode ℚ) (motors : MotionEngine) :
    AXES → Option ℚ :=
  if command.has c.PARAMETER_F_OFFSET then
    Function.update motors.currentValues AXES.F (some command.valueF)
  else motors.currentValues

/-- `Motors::move(command, false)` (motors.cpp:464). `stopArrives` tells whether
the receive interrupt sets `emergencyStopOccured` while the function runs; the
flag is read by the lines that act on the step timer (651, 711) and by
line 771. -/
def move (c : Constants) (env : MotorEnvironment) (command : Gcode ℚ) (stopArrives : Bool)
    (s : MotionEngine × MotorsHardware) : MotionEngine × MotorsHardware :=
  let l := planAxes c env command s.1 s.2
  -- lines 618-624
  let validZ : Bool := l.motorMoves AXES.Z != 0 && l.hw.eeprom.SAVED_Z_STATE != 0
  let hw1 : MotorsHardware :=
    if validZ then { l.hw with eeprom := { l.hw.eeprom with SAVED_Z_STATE := INVALID } }
    else l.hw
  -- lines 635-647
  let s3 := compensate c env (startValues c command s.1) l (l.motors, hw1)
  -- lines 651-753
  let motors4 : MotionEngine :=
    { s3.1 with emergencyStopOccured := s3.1.emergencyStopOccured || stopArrives }
  -- lines 765-775
  if l.motorMoves AXES.Z != 0 then
    let eeprom5 : Eeprom :=
      { s3.2.eeprom with LAST_RECORDED_Z_VALUE := motors4.currentValues AXES.Z }
    (motors4,
      { s3.2 with
        eeprom :=
          if validZ && !motors4.emergencyStopOccured then
            { eeprom5 with SAVED_Z_STATE := VALID }
          else eeprom5 })
  else (motors4, s3.2)

/-! ## A machine for the evaluation of the motion control engine -/

/-- A processor clocked at 32 MHz; the square root is rounded down to a whole
number and `normalize` leaves a vector as it is. -/
def exampleEnvironment : MotorEnvironment :=
  { sysclk_get_cpu_hz := 32000000
    sqrt := fun value => (Nat.sqrt ⌊value⌋.toNat : ℚ)
    normalize := fun vector => vector }

/-- A persisted store with a valid Z of 5, speed limits, a backlash and a flat
bed. -/
def exampleEeprom : Eeprom :=
  { SAVED_Z_STATE := VALID
    LAST_RECORDED_Z_VALUE := some 5
    SPEED_LIMIT_X := 1500
    SPEED_LIMIT_Y := 1500
    SPEED_LIMIT_Z := 60
    SPEED_LIMIT_E_POSITIVE := 102
    SPEED_LIMIT_E_NEGATIVE := 360
    BACKLASH_X := 0.3
    BACKLASH_Y := 0.6
    BACKLASH_SPEED := 1500
    BED_ORIENTATION_BACK_RIGHT := 0
    BED_ORIENTATION_BACK_LEFT := 0
    BED_ORIENTATION_FRONT_LEFT := 0
    BED_ORIENTATION_FRONT_RIGHT := 0
    BED_OFFSET_BACK_RIGHT := 0
    BED_OFFSET_BACK_LEFT := 0
    BED_OFFSET_FRONT_LEFT := 0
    BED_OFFSET_FRONT_RIGHT := 0
    BED_HEIGHT_OFFSET := 0 }

/-- The hardware with both direction pins low and the store `exampleEeprom`. -/
def exampleHardware : MotorsHardware :=
  { directionX := false, directionY := false, eeprom := exampleEeprom }

/-- The motors as `Motors::initialize` leaves them (lines 272-284, 427-449) on
`exampleHardware`: absolute mode, X and Y unknown, E at 0, feed rate 1000, Z as
last recorded. -/
def exampleEngine : MotionEngine :=
  { currentValues := fun i =>
      match i with
      | AXES.X => none
      | AXES.Y => none
      | AXES.Z => exampleEeprom.LAST_RECORDED_Z_VALUE
      | AXES.E => some 0
      | AXES.F => some 1000
    mode := MODES.ABSOLUTE
    currentStateOfValues := fun _ => false
    accelerometerIsWorking := true
    emergencyStopOccured := false
    bedHeightOffset := exampleEeprom.BED_HEIGHT_OFFSET
    bed := initialBed }

/-- The motors of `exampleEngine` after homing: X at 54 and Y at 50. -/
def exampleEngineHomed : MotionEngine :=
  { exampleEngine with
    currentValues := fun i =>
      match i with
      | AXES.X => some 54
      | AXES.Y => some 50
      | AXES.Z => exampleEeprom.LAST_RECORDED_Z_VALUE
      | AXES.E => some 0
      | AXES.F => some 1000 }

/-- The line `G0 X10`. -/
def exampleMoveX10 : Gcode ℚ :=
  { newGcode with commandParameters := 1 + 32 + 8192, valueX := 10 }

/-- The line `G0 X1 F850`. -/
def exampleMoveX1 : Gcode ℚ :=
  { newGcode with commandParameters := 1 + 32 + 256 + 8192, valueX := 1, valueF := 850 }

/-- The line `G0 X1 F1000`. -/
def exampleMoveX1Fast : Gcode ℚ :=
  { newGcode with commandParameters := 1 + 32 + 256 + 8192, valueX := 1, valueF := 1000 }

/-- A step schedule with every entry zero. -/
def emptySchedule : StepSchedule :=
  { motorsNumberOfSteps := fun _ => 0
    motorsStepDelay := fun _ => 0
    motorsTotalRoundedTime := fun _ => 0
    slowestRoundedTime := 0
    motorsDelaySkips := fun _ => 0 }

/-- The line `G0 X46.5`. -/
def exampleMoveX46 : Gcode ℚ :=
  { newGcode with commandParameters := 1 + 32 + 8192, valueX := 46.5 }

/-- The line `G0 Z6`. -/
def exampleMoveZ6 : Gcode ℚ :=
  { newGcode with commandParameters := 1 + 128 + 8192, valueZ := 6 }

/-- The hardware of `exampleHardware` with the saved Z state as an erased store
holds it: the byte 255, which is neither `VALID` nor `INVALID`. -/
def exampleHardwareErased : MotorsHardware :=
  { exampleHardware with eeprom := { exampleEeprom with SAVED_Z_STATE := 255 } }

/-! ## Definitions for the heater handler -/

/-- Line 271: the temperature of an M104 or M109, the S field when it is present
and 0 otherwise. -/
def requestedTemperature (c : Constants) (g : Gcode R) : Int :=
  if g.has c.PARAMETER_S_OFFSET then g.valueS else 0

/-- The line `M104 S300`; the largest temperature of `exampleConstants` is
285. -/
def exampleM104TooHot : Gcode Int :=
  { emptyRequest with commandParameters := 2 + 8 + 8192, valueM := 104, valueS := 300 }

/-- The line `N9 M104 S150` with a good checksum; 150 lies between the smallest
and the largest temperature of `exampleConstants`. -/
def exampleM104Ahead : Gcode Int :=
  { emptyRequest with
    commandParameters := 2 + 8 + 1024 + 4096 + 8192, valueM := 104, valueS := 150,
    valueN := 9 }

/-! ## The feed rate of a motor (motors.cpp:527-603) -/

/-- Line 528: whether the new value of motor `i` is below its position. -/
def lowerNewValue (command : Gcode ℚ) (motors : MotionEngine) (i : AXES) : Bool :=
  decide (newValue command motors i < numberOf (motors.currentValues i))

/-- What the `switch` of lines 538-591 reads into `speedLimit` for motor `i`. -/
def speedLimit (eeprom : Eeprom) (i : AXES) (lowerNewValue : Bool) : ℚ :=
  match i with
  | AXES.X => eeprom.SPEED_LIMIT_X
  | AXES.Y => eeprom.SPEED_LIMIT_Y
  | AXES.Z => eeprom.SPEED_LIMIT_Z
  | _ => if lowerNewValue then eeprom.SPEED_LIMIT_E_NEGATIVE else eeprom.SPEED_LIMIT_E_POSITIVE

/-- What the `switch` of lines 538-591 gives to `maxFeedRate` for motor `i`. -/
def maxFeedRate (i : AXES) (lowerNewValue : Bool) : ℚ :=
  match i with
  | AXES.X => MOTOR_X_MAX_FEEDRATE
  | AXES.Y => MOTOR_Y_MAX_FEEDRATE
  | AXES.Z => MOTOR_Z_MAX_FEEDRATE
  | _ => if lowerNewValue then MOTOR_E_MAX_FEEDRATE_RETRACTION else MOTOR_E_MAX_FEEDRATE_EXTRUSION

/-- What the `switch` of lines 538-591 gives to `minFeedRate` for motor `i`. -/
def minFeedRate (i : AXES) : ℚ :=
  match i with
  | AXES.X => MOTOR_X_MIN_FEEDRATE
  | AXES.Y => MOTOR_Y_MIN_FEEDRATE
  | AXES.Z => MOTOR_Z_MIN_FEEDRATE
  | _ => MOTOR_E_MIN_FEEDRATE

/-- Lines 860-881 of `Motors::compensateForBedLeveling`: the bed with the heights
of its corners read from the persisted store and the planes fitted. -/
def bedLevelingBed (s : MotionEngine × MotorsHardware) : Bed :=
  (s.1.bed.setCornerHeights
    (s.2.eeprom.BED_ORIENTATION_BACK_RIGHT + s.2.eeprom.BED_OFFSET_BACK_RIGHT)
    (s.2.eeprom.BED_ORIENTATION_BACK_LEFT + s.2.eeprom.BED_OFFSET_BACK_LEFT)
    (s.2.eeprom.BED_ORIENTATION_FRONT_LEFT + s.2.eeprom.BED_OFFSET_FRONT_LEFT)
    (s.2.eeprom.BED_ORIENTATION_FRONT_RIGHT + s.2.eeprom.BED_OFFSET_FRONT_RIGHT)).updatePlanes

/-- Lines 847-885: the members when the loop over the segments starts. The mode
is absolute, the values of the four motors are the start values, with the Z
adjusted for the real height at the start, and the bed height offset is read
from the persisted store. -/
def bedLevelingStart (env : MotorEnvironment) (startValues : AXES → Option ℚ)
    (s : MotionEngine × MotorsHardware) : MotionEngine :=
  let currentValues1 := setMotorValues s.1.currentValues startValues
  { s.1 with
    mode := MODES.ABSOLUTE
    currentValues := Function.update currentValues1 AXES.Z
      (some (numberOf (currentValues1 AXES.Z) + (s.1.bedHeightOffset
        + getHeightAdjustmentRequired env.normalize (bedLevelingBed s)
            (numberOf (currentValues1 AXES.X)) (numberOf (currentValues1 AXES.Y)))))
    bed := bedLevelingBed s
    bedHeightOffset := s.2.eeprom.BED_HEIGHT_OFFSET }

/-- Lines 888-890: the delta values, from the start values to the values saved
on entry, which are the end point of the move. -/
def bedLevelingDeltas (startValues : AXES → Option ℚ) (s : MotionEngine × MotorsHardware) :
    AXES → ℚ :=
  fun i => numberOf (s.1.currentValues i) - numberOf (startValues i)

/-- Line 893: the horizontal distance of the move. -/
def horizontalDistance (env : MotorEnvironment) (startValues : AXES → Option ℚ)
    (s : MotionEngine × MotorsHardware) : ℚ :=
  env.sqrt (bedLevelingDeltas startValues s AXES.X ^ 2 + bedLevelingDeltas startValues s AXES.Y ^ 2)

/-- Lines 896-897: the delta values as ratios of the horizontal distance. -/
def bedLevelingRatios (env : MotorEnvironment) (startValues : AXES → Option ℚ)
    (s : MotionEngine × MotorsHardware) : AXES → ℚ :=
  fun i =>
    if horizontalDistance env startValues s ≠ 0 then
      bedLevelingDeltas startValues s i / horizontalDistance env startValues s
    else 0

/-- Line 902: the number of segments, a `uint32_t`. -/
def numberOfSegments (env : MotorEnvironment) (startValues : AXES → Option ℚ)
    (s : MotionEngine × MotorsHardware) : Nat :=
  (max 1 ⌈horizontalDistance env startValues s / SEGMENT_LENGTH⌉).toNat % 2 ^ 32

/-- Lines 902-916: the commands that the loop over the segments hands to
`Motors::move`, in order. -/
def bedLevelingCommands (c : Constants) (env : MotorEnvironment)
    (startValues : AXES → Option ℚ) (s : MotionEngine × MotorsHardware) : List (Gcode ℚ) :=
  (List.range (numberOfSegments env startValues s)).map (fun k =>
    bedLevelingSegment c env (bedLevelingBed s) s.2.eeprom.BED_HEIGHT_OFFSET
      (fun j => numberOf (startValues j)) (fun j => numberOf (s.1.currentValues j))
      (bedLevelingRatios env startValues s) (numberOfSegments env startValues s) (k + 1))

/-- The homed machine after the loop over the motors for `G0 X10`: the X
position is 10, the end point of the move from X 54. -/
def exampleMovedMachine : MotionEngine × MotorsHardware :=
  ((planAxes exampleConstants exampleEnvironment exampleMoveX10 exampleEngineHomed
    exampleHardware).motors, exampleHardware)

/-- The start values of the move `G0 X10` of the homed machine. -/
def exampleStart : AXES → Option ℚ := exampleEngineHomed.currentValues

/-! ## The occupied slots of the ring -/

/-- The occupied slots of the ring are the `n` slots from the consumer index up
to, not including, the producer index; a slot is occupied when its presence
bitmask is not zero (line 162). -/
def RingOccupied (f : Firmware H R) (n : Nat) : Prop :=
  f.main.currentProcessingRequest < REQUEST_BUFFER_SIZE
    ∧ n ≤ REQUEST_BUFFER_SIZE
    ∧ f.currentReceivingRequest
        = (f.main.currentProcessingRequest + n) % REQUEST_BUFFER_SIZE
    ∧ ∀ k, k < REQUEST_BUFFER_SIZE →
        ((f.main.requests
            ((f.main.currentProcessingRequest + k) % REQUEST_BUFFER_SIZE)).commandParameters ≠ 0
          ↔ k < n)

instance (f : Firmware H R) (n : Nat) : Decidable (RingOccupied f n) := by
  unfold RingOccupied; infer_instance

/-- A parsed line without any field, not even the parsed flag: its presence
bitmask is zero. -/
def exampleBlank : Gcode Int := emptyRequest

/-! ## Commands that agree on the fields that are present -/

/-- The two commands have the same presence bitmask and the same value in every
field that the bitmask marks present. -/
def AgreeOnPresent (c : Constants) (g1 g2 : Gcode R) : Prop :=
  g1.commandParameters = g2.commandParameters
    ∧ (g1.has c.PARAMETER_G_OFFSET = true → g1.valueG = g2.valueG)
    ∧ (g1.has c.PARAMETER_M_OFFSET = true → g1.valueM = g2.valueM)
    ∧ (g1.has c.PARAMETER_T_OFFSET = true → g1.valueT = g2.valueT)
    ∧ (g1.has c.PARAMETER_S_OFFSET = true → g1.valueS = g2.valueS)
    ∧ (g1.has c.PARAMETER_P_OFFSET = true → g1.valueP = g2.valueP)
    ∧ (g1.has c.PARAMETER_X_OFFSET = true → g1.valueX = g2.valueX)
    ∧ (g1.has c.PARAMETER_Y_OFFSET = true → g1.valueY = g2.valueY)
    ∧ (g1.has c.PARAMETER_Z_OFFSET = true → g1.valueZ = g2.valueZ)
    ∧ (g1.has c.PARAMETER_E_OFFSET = true → g1.valueE = g2.valueE)
    ∧ (g1.has c.PARAMETER_F_OFFSET = true → g1.valueF = g2.valueF)
    ∧ (g1.has c.PARAMETER_N_OFFSET = true → g1.valueN = g2.valueN)

instance [DecidableEq R] (c : Constants) (g1 g2 : Gcode R) :
    Decidable (AgreeOnPresent c g1 g2) := by
  unfold AgreeOnPresent; infer_instance

/-- The two commands agree on the values that main.cpp reads without a test of
their flag: `valueM` of a numbered command with a valid checksum (line 214),
`valueS` of an M115 (line 338), `valueS` and `valueT` of an M618 or M619 that
has one of the two fields (lines 399-400), `valueP` and `valueS` of a G4
(lines 507 and 513). -/
def AgreeOnUnguarded (c : Constants) (g1 g2 : Gcode R) : Prop :=
  (g1.has c.PARAMETER_N_OFFSET = true → g1.has c.VALID_CHECKSUM_OFFSET = true →
      g1.valueM = g2.valueM)
    ∧ (g1.has c.PARAMETER_M_OFFSET = true → g1.valueM = 115 → g1.valueS = g2.valueS)
    ∧ (g1.has c.PARAMETER_M_OFFSET = true → g1.valueM = 618 ∨ g1.valueM = 619 →
        g1.has (c.PARAMETER_S_OFFSET ||| c.PARAMETER_T_OFFSET) = true →
        g1.valueS = g2.valueS ∧ g1.valueT = g2.valueT)
    ∧ (g1.has c.PARAMETER_M_OFFSET = false → g1.has c.PARAMETER_G_OFFSET = true →
        g1.valueG = 4 → g1.valueP = g2.valueP ∧ g1.valueS = g2.valueS)

instance (c : Constants) (g1 g2 : Gcode R) : Decidable (AgreeOnUnguarded c g1 g2) := by
  unfold AgreeOnUnguarded; infer_instance

/-- The state with another queue. -/
def State.withRequests (s : State H R) (requests : Nat → Gcode R) : State H R :=
  { s with requests := requests }

/-- The state with the command `g` in the slot at the consumer index. -/
def State.withRequest (s : State H R) (g : Gcode R) : State H R :=
  s.withRequests (Function.update s.requests s.currentProcessingRequest g)

/-- The two iterations of the main loop end alike: both in the soft reset, or
both return, with the same lines sent, the same response buffer, the same
current command number, the same motor members and hardware, the same
emergency-stop flag and consumer index, and the same presence bitmask in every
slot of the queue. -/
def SameOutcome (o1 o2 : Option (State H R)) : Prop :=
  match o1, o2 with
  | none, none => True
  | some t1, some t2 =>
    t1.usb = t2.usb ∧ t1.responseBuffer = t2.responseBuffer
      ∧ t1.currentCommandNumber = t2.currentCommandNumber
      ∧ t1.motors = t2.motors ∧ t1.hw = t2.hw
      ∧ t1.emergencyStopOccured = t2.emergencyStopOccured
      ∧ t1.currentProcessingRequest = t2.currentProcessingRequest
      ∧ ∀ i, (t1.requests i).commandParameters = (t2.requests i).commandParameters
  | _, _ => False

/-- The line `N3 G28` with a good checksum whose M value, which the bitmask
marks absent, is 110. -/
def exampleG28StrayM : Gcode Int :=
  { exampleG28 with valueM := 110 }

/-- The line `N3 G28` with a good checksum whose T value, which the bitmask
marks absent, is 7. -/
def exampleG28StrayT : Gcode Int :=
  { exampleG28 with valueT := 7 }

/-! ## The step timer (motors.cpp:93-97, 205-267, 380-404, 654-704)

The interrupt of a motor reads and writes only the entries of that motor in the
arrays of lines 93-97, so the arrays are kept as one record per motor. -/

/-- The entries of one motor in the arrays of lines 93-97, all `uint32_t`, with
the state of the motor's step interrupt (`true` when its level is not off) and
the number of times its step pin was set high. -/
structure MotorTimer where
  motorsDelaySkips : Nat
  motorsDelaySkipsCounter : Nat
  motorsStepDelay : Nat
  motorsStepDelayCounter : Nat
  motorsNumberOfSteps : Nat
  interruptEnabled : Bool
  pulses : Nat
deriving DecidableEq, Repr

/-- Function `stepTimerInterrupt` (motors.cpp:205) on the entries of its
motor. -/
def stepTimerInterrupt (m : MotorTimer) : MotorTimer :=
  -- line 233: the level of the interrupt is set to low
  let m0 : MotorTimer := { m with interruptEnabled := true }
  -- line 236: the counter is incremented only when the first test holds
  let skipsCounter : Nat :=
    if m0.motorsDelaySkips > 1 then (m0.motorsDelaySkipsCounter + 1) % 2 ^ 32
    else m0.motorsDelaySkipsCounter
  if m0.motorsDelaySkips > 1 ∧ skipsCounter ≥ m0.motorsDelaySkips then
    { m0 with motorsDelaySkipsCounter := 0 }
  else
    let m1 : MotorTimer := { m0 with motorsDelaySkipsCounter := skipsCounter }
    -- line 246
    let stepDelayCounter : Nat := (m1.motorsStepDelayCounter + 1) % 2 ^ 32
    if stepDelayCounter ≥ m1.motorsStepDelay then
      -- line 249: the test reads the number of steps, then the number is decremented
      let decremented : Nat := (m1.motorsNumberOfSteps + 2 ^ 32 - 1) % 2 ^ 32
      if m1.motorsNumberOfSteps ≠ 0 then
        { m1 with
          motorsNumberOfSteps := decremented
          pulses := m1.pulses + 1
          motorsStepDelayCounter := 0 }
      else
        { m1 with
          motorsNumberOfSteps := 0
          interruptEnabled := false
          motorsStepDelayCounter := 0 }
    else { m1 with motorsStepDelayCounter := stepDelayCounter }

/-- What one period of the step timer does for one motor: its compare interrupt
fires, and calls `stepTimerInterrupt` (lines 380-404), when the level of the
interrupt is not off. -/
def motorPeriod (m : MotorTimer) : MotorTimer :=
  if m.interruptEnabled then stepTimerInterrupt m else m

/-- The entries of a motor after a number of periods of the step timer. -/
def runMotor (periods : Nat) (m : MotorTimer) : MotorTimer :=
  motorPeriod^[periods] m

/-- The step timer: the entries of each motor. -/
abbrev StepTimer : Type := AXES → MotorTimer

/-- The entries of the step timer as the `previous` schedule of
`stepSchedule`. -/
def scheduleOf (timer : StepTimer) : StepSchedule :=
  { motorsNumberOfSteps := fun i => (timer i).motorsNumberOfSteps
    motorsStepDelay := fun i => (timer i).motorsStepDelay
    motorsTotalRoundedTime := fun _ => 0
    slowestRoundedTime := 0
    motorsDelaySkips := fun i => (timer i).motorsDelaySkips }

/-- Lines 654-704 of `Motors::move` on the step timer, whose periods start with
line 707: the schedule is written to the arrays, the counters are cleared, and
the step interrupt of each motor that moves is enabled. -/
def startStepTimer (timer : StepTimer) (motorMoves : AXES → Nat) (slowestTime : Nat) :
    StepTimer :=
  fun i =>
    { motorsDelaySkips :=
        (stepSchedule (scheduleOf timer) motorMoves slowestTime).motorsDelaySkips i
      motorsDelaySkipsCounter := 0
      motorsStepDelay :=
        (stepSchedule (scheduleOf timer) motorMoves slowestTime).motorsStepDelay i
      motorsStepDelayCounter :=
        if motorMoves i ≠ 0 then 0 else (timer i).motorsStepDelayCounter
      motorsNumberOfSteps :=
        (stepSchedule (scheduleOf timer) motorMoves slowestTime).motorsNumberOfSteps i
      interruptEnabled := if motorMoves i ≠ 0 then true else (timer i).interruptEnabled
      pulses := (timer i).pulses }

/-- Of the first `ticks` interrupts of a motor with the skip period `skips`, the
number that get past the return of line 242: all of them when `skips` is at
most 1, and all but every `skips`-th otherwise. -/
def effectiveTicks (skips ticks : Nat) : Nat :=
  if 1 < skips then ticks - ticks / skips else ticks

/-- The interrupt of a motor with the skip period `skips` that is the
`count`-th to get past line 242, for `count` at least 1. -/
def tickOf (skips count : Nat) : Nat :=
  if 1 < skips then count + (count - 1) / (skips - 1) else count

/-- A step timer at rest: every entry zero and every interrupt off. -/
def idleTimer : StepTimer :=
  fun _ =>
    { motorsDelaySkips := 0, motorsDelaySkipsCounter := 0, motorsStepDelay := 0,
      motorsStepDelayCounter := 0, motorsNumberOfSteps := 0, interruptEnabled := false,
      pulses := 0 }

/-- The entries of a motor with 5 steps to make, a step delay of 2 and a skip
period of 3, as lines 654-704 leave them. -/
def exampleMotorTimer : MotorTimer :=
  { motorsDelaySkips := 3, motorsDelaySkipsCounter := 0, motorsStepDelay := 2,
    motorsStepDelayCounter := 0, motorsNumberOfSteps := 5, interruptEnabled := true,
    pulses := 0 }

/-- The line `G0 X1 Y1`. -/
def exampleMoveX1Y1 : Gcode ℚ :=
  { newGcode with commandParameters := 1 + 32 + 64 + 8192, valueX := 1, valueY := 1 }

/-- The locals of `Motors::move` after the loop over the motors for `G0 X1 Y1`
on the machine as `Motors::initialize` leaves it. -/
def examplePlan : MoveLocals :=
  planAxes exampleConstants exampleEnvironment exampleMoveX1Y1 exampleEngine exampleHardware

/-- The schedule of `G0 X1 Y1` for a step timer at rest. -/
def exampleSchedule : StepSchedule :=
  stepSchedule (scheduleOf idleTimer) examplePlan.motorMoves examplePlan.slowestTime

/-! ## Lemmas on C strings -/

theorem cstr_nil : cstr [] = [] := rfl

theorem cstr_nul_cons (r : List Char) : cstr (NUL :: r) = [] := by
  simp [cstr]

theorem cstr_cons_of_ne (ch : Char) (r : List Char) (h : ch ≠ NUL) :
    cstr (ch :: r) = ch :: cstr r := by
  simp [cstr, List.takeWhile_cons, h]

theorem not_nul_of_mem_cstr {b : List Char} {ch : Char} (h : ch ∈ cstr b) : ch ≠ NUL := by
  have := List.mem_takeWhile_imp h
  simpa using this

/-- A list without NUL is its own C string. -/
theorem cstr_eq_self_iff (t : List Char) : cstr t = t ↔ ∀ ch ∈ t, ch ≠ NUL := by
  simp [cstr, List.takeWhile_eq_self_iff]

theorem cstr_append_of_noNul (t r : List Char) (h : ∀ ch ∈ t, ch ≠ NUL) :
    cstr (t ++ r) = t ++ cstr r := by
  induction t with
  | nil => rfl
  | cons x xs ih =>
    have hx : x ≠ NUL := h x (List.mem_cons_self _ _)
    have hxs : ∀ ch ∈ xs, ch ≠ NUL := fun ch hc => h ch (List.mem_cons_of_mem _ hc)
    rw [List.cons_append, cstr_cons_of_ne _ _ hx, ih hxs]
    rfl

theorem cstr_cstr_append (a r : List Char) : cstr (cstr a ++ r) = cstr a ++ cstr r :=
  cstr_append_of_noNul _ _ (fun _ h => not_nul_of_mem_cstr h)

theorem take_strlen (b : List Char) : b.take (strlen b) = cstr b := by
  have h : cstr b <+: b := List.takeWhile_prefix _
  exact (List.prefix_iff_eq_take.mp h).symm

theorem cstr_strcpy (d t : List Char) : cstr (strcpy d t) = cstr t := by
  simp [strcpy, poke, cstr_cstr_append, cstr_nul_cons]

theorem cstr_strcat (d t : List Char) : cstr (strcat d t) = cstr d ++ cstr t := by
  simp [strcat, poke, take_strlen, cstr_cstr_append, cstr_nul_cons, List.append_assoc]

theorem firstByte_eq_nul_iff (b : List Char) : firstByte b = NUL ↔ cstr b = [] := by
  cases b with
  | nil => simp [firstByte, cstr]
  | cons x xs =>
    by_cases hx : x = NUL
    · subst hx; simp [firstByte, cstr_nul_cons]
    · simp [firstByte, cstr_cons_of_ne _ _ hx, hx]

theorem firstByte_of_cstr_cons {b : List Char} {x : Char} {r : List Char}
    (h : cstr b = x :: r) : firstByte b = x := by
  cases b with
  | nil => simp [cstr] at h
  | cons y ys =>
    by_cases hy : y = NUL
    · subst hy; simp [cstr_nul_cons] at h
    · rw [cstr_cons_of_ne _ _ hy] at h
      simp only [List.cons.injEq] at h
      simp [firstByte, h.1]

theorem cstr_setByte_zero_nul (b : List Char) : cstr (setByte b 0 NUL) = [] := by
  cases b with
  | nil => rfl
  | cons x xs => simp [setByte, cstr_nul_cons]

theorem digitChar_ne_nul (d : Nat) (h : d < 10) : Nat.digitChar d ≠ NUL := by
  interval_cases d <;> decide

theorem toDigitsCore_noNul (fuel n : Nat) (acc : List Char) (hacc : ∀ ch ∈ acc, ch ≠ NUL) :
    ∀ ch ∈ Nat.toDigitsCore 10 fuel n acc, ch ≠ NUL := by
  induction fuel generalizing n acc with
  | zero => simpa [Nat.toDigitsCore] using hacc
  | succ f ih =>
    have hd : Nat.digitChar (n % 10) ≠ NUL := digitChar_ne_nul _ (Nat.mod_lt _ (by decide))
    have hacc2 : ∀ ch ∈ Nat.digitChar (n % 10) :: acc, ch ≠ NUL := by
      intro ch hc
      rcases List.mem_cons.mp hc with h | h
      · rw [h]; exact hd
      · exact hacc ch h
    simp only [Nat.toDigitsCore]
    split
    · exact hacc2
    · exact ih _ _ hacc2

/-- The digits written by `ulltoa` contain no terminator. -/
theorem cstr_ulltoa (n : Nat) : cstr (ulltoa n) = ulltoa n :=
  (cstr_eq_self_iff _).mpr (toDigitsCore_noNul _ _ _ (by simp))

/-- A 64-bit number has at most twenty decimal digits. -/
theorem ulltoa_length_le (n : Nat) (h : n ≤ UINT64_MAX) : (ulltoa n).length ≤ 20 :=
  Nat.toDigitsCore_length 10 (by decide) (n + 1) n 20
    (lt_of_le_of_lt h (by decide)) (by decide)

/-! ## The insertion of the command number -/

/-- The first `e` bytes survive the insertion. -/
theorem take_insertAfter (b : List Char) (e : Nat) (digits : List Char) (he : e ≤ b.length) :
    (insertAfter b e digits).take e = b.take e := by
  have h1 : e ≤ (b.take (e + 1 + strlen digits)).length := by
    simp [List.length_take]; omega
  have hb1 : (memmove b (e + 1 + strlen digits) e (strlen b - 1)).take e = b.take e := by
    unfold memmove poke
    rw [List.append_assoc, List.take_append_of_le_length h1, List.take_take]
    congr 1; omega
  have hl1 : e ≤ (memmove b (e + 1 + strlen digits) e (strlen b - 1)).length := by
    unfold memmove poke
    simp only [List.length_append]; omega
  have hb2 : (setByte (memmove b (e + 1 + strlen digits) e (strlen b - 1)) e ' ').take e
      = b.take e := by
    unfold setByte
    rw [List.set_take, hb1, List.set_eq_of_length_le]
    simp [List.length_take]
  have hl2 : e ≤ (setByte (memmove b (e + 1 + strlen digits) e (strlen b - 1)) e ' ').length := by
    unfold setByte; rw [List.length_set]; exact hl1
  unfold insertAfter memcpy poke
  simp only []
  rw [List.append_assoc, List.take_append_of_le_length (by simp [List.length_take]; omega),
    List.take_take]
  rw [show min e (e + 1) = e by omega]
  exact hb2

/-- A first word of the response is still its first word after the insertion. -/
theorem prefix_cstr_insertAfter (b tok digits : List Char) (h : tok <+: cstr b) :
    tok <+: cstr (insertAfter b tok.length digits) := by
  have hb : tok <+: b := h.trans (List.takeWhile_prefix _)
  have hle : tok.length ≤ b.length := hb.length_le
  have htake : (insertAfter b tok.length digits).take tok.length = tok := by
    rw [take_insertAfter b _ digits hle]; exact (List.prefix_iff_eq_take.mp hb).symm
  have hno : ∀ ch ∈ tok, ch ≠ NUL := fun ch hc => not_nul_of_mem_cstr (h.subset hc)
  have hsplit := List.take_append_drop tok.length (insertAfter b tok.length digits)
  rw [htake] at hsplit
  rw [← hsplit, cstr_append_of_noNul _ _ hno]
  exact List.prefix_append _ _

/-- An array whose C string ends before the array does holds a terminator. -/
theorem eq_cstr_append_nul (b : List Char) (h : strlen b < b.length) :
    ∃ g, b = cstr b ++ NUL :: g := by
  have hsplit : cstr b ++ b.dropWhile (fun ch => ch != NUL) = b :=
    List.takeWhile_append_dropWhile _ b
  cases hd : b.dropWhile (fun ch => ch != NUL) with
  | nil =>
    rw [hd, List.append_nil] at hsplit
    have : strlen b = b.length := by unfold strlen; rw [hsplit]
    omega
  | cons x t =>
    have hx : (x != NUL) = false := by
      have := List.head_dropWhile_not (fun ch => ch != NUL) b (by rw [hd]; simp)
      simpa [hd] using this
    have hx2 : x = NUL := by simpa using hx
    refine ⟨t, ?_⟩
    rw [hd, hx2] at hsplit
    exact hsplit.symm

/-- The insertion of lines 650-652 is exact: the first word, a space, the
number, then the rest of the response. -/
theorem cstr_insertAfter (b tok rest digits : List Char) (hcs : cstr b = tok ++ rest)
    (h2 : 2 ≤ tok.length) (hd : cstr digits = digits)
    (hfit : strlen b + digits.length + 1 ≤ b.length) :
    cstr (insertAfter b tok.length digits) = tok ++ ' ' :: digits ++ rest := by
  obtain ⟨g, hg⟩ := eq_cstr_append_nul b (by omega)
  have hno : ∀ ch ∈ tok ++ rest, ch ≠ NUL := fun ch hc => by
    rw [← hcs] at hc; exact not_nul_of_mem_cstr hc
  have hnotok : ∀ ch ∈ tok, ch ≠ NUL := fun ch hc => hno ch (List.mem_append_left _ hc)
  have hnorest : ∀ ch ∈ rest, ch ≠ NUL := fun ch hc => hno ch (List.mem_append_right _ hc)
  have hnod : ∀ ch ∈ digits, ch ≠ NUL := (cstr_eq_self_iff _).mp hd
  have hlen : strlen b = tok.length + rest.length := by
    unfold strlen; rw [hcs, List.length_append]
  have hsd : strlen digits = digits.length := by unfold strlen; rw [hd]
  rw [hcs] at hg
  have hblen : b.length = tok.length + (rest.length + (1 + g.length)) := by
    rw [hg]; simp [List.length_append]; omega
  -- the bytes from the end of the first word on
  have hdrop : b.drop tok.length = rest ++ NUL :: g := by
    rw [hg, List.append_assoc, List.drop_left]
  obtain ⟨k, hk⟩ : ∃ k, tok.length = k + 2 := ⟨tok.length - 2, by omega⟩
  have hchunk : (b.drop tok.length).take (strlen b - 1) = rest ++ NUL :: g.take k := by
    rw [hdrop, hlen, show tok.length + rest.length - 1 = rest.length + (k + 1) by omega,
      List.take_append, List.take_succ_cons]
  -- the bytes in front of the destination of the move
  have hfront : ∃ x m, b.take (tok.length + 1 + digits.length) = tok ++ x :: m
      ∧ m.length = digits.length := by
    cases hr : rest ++ NUL :: g with
    | nil => simp at hr
    | cons x tl =>
      refine ⟨x, tl.take digits.length, ?_, ?_⟩
      · rw [hg, List.append_assoc, hr, show tok.length + 1 + digits.length
            = tok.length + (digits.length + 1) by omega, List.take_append, List.take_succ_cons]
      · have : (rest ++ NUL :: g).length = tl.length + 1 := by rw [hr]; rfl
        simp only [List.length_append, List.length_cons] at this
        rw [List.length_take]; omega
  obtain ⟨x, m, hfr, hm⟩ := hfront
  unfold insertAfter memcpy memmove setByte poke
  simp only [hsd, hchunk, hfr, List.take_length]
  have hset : (tok ++ x :: m ++ (rest ++ NUL :: List.take k g)
        ++ List.drop (tok.length + 1 + digits.length + (rest ++ NUL :: List.take k g).length) b).set
        tok.length ' '
      = (tok ++ [' ']) ++ (m ++ ((rest ++ NUL :: List.take k g)
        ++ List.drop (tok.length + 1 + digits.length + (rest ++ NUL :: List.take k g).length) b)) := by
    rw [List.append_assoc, List.append_assoc, List.set_append_right _ _ (le_refl _)]
    simp
  rw [hset]
  have ht : ((tok ++ [' ']) ++ (m ++ ((rest ++ NUL :: List.take k g)
        ++ List.drop (tok.length + 1 + digits.length + (rest ++ NUL :: List.take k g).length) b))).take
        (tok.length + 1) = tok ++ [' '] := by
    rw [List.take_left']; simp
  have hdr : ((tok ++ [' ']) ++ (m ++ ((rest ++ NUL :: List.take k g)
        ++ List.drop (tok.length + 1 + digits.length + (rest ++ NUL :: List.take k g).length) b))).drop
        (tok.length + 1 + digits.length) = (rest ++ NUL :: List.take k g)
        ++ List.drop (tok.length + 1 + digits.length + (rest ++ NUL :: List.take k g).length) b := by
    rw [← List.append_assoc, List.drop_left']
    simp [hm]; omega
  rw [ht, hdr]
  have hall : ∀ ch ∈ tok ++ [' '] ++ digits ++ rest, ch ≠ NUL := by
    intro ch hc
    simp only [List.mem_append, List.mem_singleton] at hc
    rcases hc with ((h | h) | h) | h
    · exact hnotok ch h
    · rw [h]; decide
    · exact hnod ch h
    · exact hnorest ch h
  have hshape : tok ++ [' '] ++ digits ++ ((rest ++ NUL :: List.take k g)
        ++ List.drop (tok.length + 1 + digits.length + (rest ++ NUL :: List.take k g).length) b)
      = (tok ++ [' '] ++ digits ++ rest) ++ (NUL :: (List.take k g
        ++ List.drop (tok.length + 1 + digits.length + (rest ++ NUL :: List.take k g).length) b)) := by
    simp [List.append_assoc]
  rw [hshape, cstr_append_of_noNul _ _ hall, cstr_nul_cons]
  simp [List.append_assoc]

/-! ## Lemmas on the handlers -/

/-- A command with the N field has G-code: it passes the test of line 190. -/
theorem hasGcode_of_has_N (c : Constants) (g : Gcode R) (hN : c.NIsParameterBit)
    (hn : g.has c.PARAMETER_N_OFFSET = true) : g.hasGcode c = true := by
  unfold Gcode.has at hn
  unfold Gcode.hasGcode
  obtain ⟨hdisj, hlt⟩ := hN
  have hne : g.commandParameters &&& c.PARAMETER_N_OFFSET ≠ 0 := by simpa using hn
  obtain ⟨i, hi⟩ := Nat.ne_zero_implies_bit_true hne
  rw [Nat.testBit_and, Bool.and_eq_true] at hi
  have hmask : (c.VALID_CHECKSUM_OFFSET ||| c.PARSED_OFFSET).testBit i = false := by
    have h0 : (c.PARAMETER_N_OFFSET &&& (c.VALID_CHECKSUM_OFFSET ||| c.PARSED_OFFSET)).testBit i
        = false := by rw [hdisj]; exact Nat.zero_testBit i
    rw [Nat.testBit_and, hi.2] at h0
    simpa using h0
  have hi16 : i < 16 := by
    by_contra hge
    have hpow : c.PARAMETER_N_OFFSET < 2 ^ i :=
      lt_of_lt_of_le hlt (by
        calc (65536 : Nat) = 2 ^ 16 := by norm_num
          _ ≤ 2 ^ i := Nat.pow_le_pow_right (by norm_num) (by omega))
    have := Nat.testBit_lt_two_pow hpow
    rw [hi.2] at this
    exact Bool.noConfusion this
  have hff : (65535 : Nat).testBit i = true := by
    interval_cases i <;> decide
  have hbit : (g.commandParameters &&&
      (65535 ^^^ (c.VALID_CHECKSUM_OFFSET ||| c.PARSED_OFFSET))).testBit i = true := by
    rw [Nat.testBit_and, Nat.testBit_xor, hi.1, hff, hmask]; rfl
  have : g.commandParameters &&&
      (65535 ^^^ (c.VALID_CHECKSUM_OFFSET ||| c.PARSED_OFFSET)) ≠ 0 := by
    intro h0
    rw [h0, Nat.zero_testBit] at hbit
    exact Bool.noConfusion hbit
  simpa using this

/-- A command with any field has a nonzero parameter mask: its slot is occupied. -/
theorem commandParameters_ne_zero_of_has (g : Gcode R) (flag : Nat) (h : g.has flag = true) :
    g.commandParameters ≠ 0 := by
  intro h0
  simp [Gcode.has, h0] at h

theorem strncmpEq_iff (b tok : List Char) (htok : cstr tok = tok) :
    strncmpEq b tok (strlen tok) = true ↔ tok <+: cstr b := by
  unfold strncmpEq strlen
  rw [htok, List.take_length, beq_iff_eq, List.prefix_iff_eq_take]
  exact eq_comm

theorem prefix_cstr_of_list (tok l : List Char) (hno : cstr tok = tok) (h : tok <+: l) :
    tok <+: cstr l := by
  obtain ⟨r, rfl⟩ := h
  rw [cstr_append_of_noNul _ _ ((cstr_eq_self_iff _).mp hno)]
  exact List.prefix_append _ _

theorem prefix_cstr_strcpy (d t tok : List Char) (h : tok <+: cstr t) :
    tok <+: cstr (strcpy d t) := by
  rw [cstr_strcpy]; exact h

theorem prefix_cstr_strcat (d t tok : List Char) (h : tok <+: cstr d) :
    tok <+: cstr (strcat d t) := by
  rw [cstr_strcat]; exact h.trans (List.prefix_append _ _)

theorem cstr_ok : cstr "ok".toList = "ok".toList := by decide
theorem cstr_rs : cstr "rs".toList = "rs".toList := by decide
theorem cstr_skip : cstr "skip".toList = "skip".toList := by decide
theorem cstr_error : cstr "Error: ".toList = "Error: ".toList := by decide

theorem answered_strcpy_ok (d t : List Char) (h : "ok".toList <+: t) :
    Answered (strcpy d t) :=
  Or.inl (prefix_cstr_strcpy _ _ _ (prefix_cstr_of_list _ _ cstr_ok h))

theorem answered_strcpy_error (d t : List Char) (h : "Error: ".toList <+: t) :
    Answered (strcpy d t) :=
  Or.inr (prefix_cstr_strcpy _ _ _ (prefix_cstr_of_list _ _ cstr_error h))

theorem answered_strcat (d t : List Char) (h : Answered d) : Answered (strcat d t) := by
  rcases h with h | h
  · exact Or.inl (prefix_cstr_strcat _ _ _ h)
  · exact Or.inr (prefix_cstr_strcat _ _ _ h)

theorem prefix_append_five (tok l a b d e : List Char) (h : tok <+: l) :
    tok <+: l ++ a ++ b ++ d ++ e := by
  simp only [List.append_assoc]
  exact h.trans (List.prefix_append _ _)

theorem sequencerUnchanged_refl (s : State H R) : SequencerUnchanged s s := by
  simp [SequencerUnchanged, QueueUnchanged]

set_option maxHeartbeats 1000000 in
/-- Every branch of `switch(valueM)` leaves the sequencer's variables alone and
leaves the response untouched, empty, or set to `ok...` or `Error: ...`. -/
theorem handleM_spec (c : Constants) (P : Peripherals H R) (g : Gcode R) (s t : State H R)
    (h : handleM c P g s = some t) :
    SequencerUnchanged s t
      ∧ (t.responseBuffer = s.responseBuffer ∨ cstr t.responseBuffer = []
          ∨ Answered t.responseBuffer) := by
  unfold handleM at h
  split at h
  all_goals (try dsimp only at h)
  all_goals (try split at h)
  all_goals (try split at h)
  all_goals (try split at h)
  all_goals (try split at h)
  all_goals (try split at h)
  all_goals (try (cases h))
  all_goals refine ⟨by simp [SequencerUnchanged, QueueUnchanged, State.setResponse, State.appendResponse,
    State.withMotors], ?_⟩
  all_goals (try simp only [State.setResponse, State.appendResponse, State.withMotors])
  all_goals first
    | exact Or.inl (by with_reducible rfl)
    | exact Or.inl trivial
    | with_reducible exact Or.inr (Or.inl (cstr_setByte_zero_nul _))
    | (refine Or.inr (Or.inr ?_)
       repeat (with_reducible apply answered_strcat)
       first
         | (with_reducible apply answered_strcpy_ok; decide)
         | (with_reducible apply answered_strcpy_error
            with_reducible apply prefix_append_five; decide)
         | (with_reducible apply answered_strcpy_ok
            with_reducible apply prefix_append_five; decide))

/-- Every branch of `switch(valueG)` leaves the sequencer's variables alone and
leaves the response untouched or set to `ok` or `Error: ...`. -/
theorem handleG_spec (c : Constants) (P : Peripherals H R) (g : Gcode R) (s : State H R) :
    SequencerUnchanged s (handleG c P g s)
      ∧ ((handleG c P g s).responseBuffer = s.responseBuffer
          ∨ Answered (handleG c P g s).responseBuffer) := by
  unfold handleG
  split
  all_goals (try dsimp only)
  all_goals (try split)
  all_goals (try split)
  all_goals refine ⟨by simp [SequencerUnchanged, QueueUnchanged, State.setResponse, State.appendResponse,
    State.withMotors], ?_⟩
  all_goals (try simp only [State.setResponse, State.appendResponse, State.withMotors])
  all_goals first
    | exact Or.inl (by with_reducible rfl)
    | exact Or.inl trivial
    | (refine Or.inr ?_
       first
         | (with_reducible apply answered_strcpy_ok; decide)
         | (with_reducible apply answered_strcpy_error; decide))

/-- The handlers leave the sequencer's variables alone; the response they leave
is the one they found, empty, or `ok...` or `Error: ...`. -/
theorem handleCommand_spec (c : Constants) (P : Peripherals H R) (g : Gcode R)
    (s t : State H R) (h : handleCommand c P g s = some t) :
    SequencerUnchanged s t
      ∧ (t.responseBuffer = s.responseBuffer ∨ cstr t.responseBuffer = []
          ∨ Answered t.responseBuffer) := by
  unfold handleCommand at h
  split at h
  · exact handleM_spec c P g s t h
  · split at h
    · cases h
      obtain ⟨h1, h2⟩ := handleG_spec c P g s
      exact ⟨h1, h2.elim Or.inl (fun x => Or.inr (Or.inr x))⟩
    · split at h
      · cases h
        exact ⟨by simp [SequencerUnchanged, QueueUnchanged, State.setResponse],
          Or.inr (Or.inr (answered_strcpy_ok _ _ (by decide)))⟩
      · cases h
        exact ⟨sequencerUnchanged_refl _, Or.inl rfl⟩

/-- The only way for the handlers not to return is the soft reset: the M field
present with the code 115 and the S value 628. -/
theorem handleCommand_isSome (c : Constants) (P : Peripherals H R) (g : Gcode R)
    (s : State H R)
    (h : ¬(g.has c.PARAMETER_M_OFFSET = true ∧ g.valueM = 115 ∧ g.valueS = 628)) :
    (handleCommand c P g s).isSome = true := by
  unfold handleCommand
  split
  · rename_i hMp
    unfold handleM
    split
    all_goals (try dsimp only)
    all_goals (try split)
    all_goals (try split)
    all_goals (try split)
    all_goals (try split)
    all_goals (try split)
    all_goals first
      | rfl
      | (exfalso; apply h; refine ⟨hMp, ?_, ?_⟩ <;> assumption)
  · split
    · rfl
    · split <;> rfl

theorem firstByte_of_start (b tok : List Char) (x : Char) (r : List Char)
    (htok : tok = x :: r) (h : tok <+: cstr b) : firstByte b = x := by
  obtain ⟨u, hu⟩ := h
  rw [htok] at hu
  exact firstByte_of_cstr_cons hu.symm

/-- The three first words exclude one another, and an error message none. -/
theorem not_prefix_of_firstByte (b tok : List Char) (x y : Char) (r : List Char)
    (htok : tok = y :: r) (hxy : x ≠ y) (hb : firstByte b = x) : ¬ tok <+: cstr b := by
  intro h
  have := firstByte_of_start b tok y r htok h
  rw [hb] at this
  exact hxy this

theorem insertNumber_ok (b : List Char) (n : Nat) (h : "ok".toList <+: cstr b) :
    insertNumber b n = insertAfter b "ok".toList.length (ulltoa n) := by
  have hf : firstByte b = 'o' := firstByte_of_start b _ 'o' ['k'] rfl h
  unfold insertNumber
  rw [hf, if_neg (by decide)]
  rfl

theorem insertNumber_rs (b : List Char) (n : Nat) (h : "rs".toList <+: cstr b) :
    insertNumber b n = insertAfter b "rs".toList.length (ulltoa n) := by
  have hf : firstByte b = 'r' := firstByte_of_start b _ 'r' ['s'] rfl h
  unfold insertNumber
  rw [hf, if_neg (by decide)]
  rfl

theorem insertNumber_skip (b : List Char) (n : Nat) (h : "skip".toList <+: cstr b) :
    insertNumber b n = insertAfter b "skip".toList.length (ulltoa n) := by
  have hf : firstByte b = 's' := firstByte_of_start b _ 's' ['k', 'i', 'p'] rfl h
  unfold insertNumber
  rw [hf, if_pos rfl]
  rfl

/-- Lines 639-653 on an `ok` response to a numbered command. -/
theorem appendCommandNumber_ok (c : Constants) (g : Gcode R) (s : State H R)
    (hn : g.has c.PARAMETER_N_OFFSET = true) (h : "ok".toList <+: cstr s.responseBuffer) :
    appendCommandNumber c g s =
      { s with
        currentCommandNumber :=
          if s.currentCommandNumber = UINT64_MAX then s.currentCommandNumber
          else (s.currentCommandNumber + 1) % 2 ^ 64
        responseBuffer := insertAfter s.responseBuffer "ok".toList.length (ulltoa g.valueN) } := by
  have hf : firstByte s.responseBuffer = 'o' := firstByte_of_start _ _ 'o' ['k'] rfl h
  have hok := (strncmpEq_iff s.responseBuffer _ cstr_ok).mpr h
  unfold appendCommandNumber
  rw [hn, hok]
  by_cases hmax : s.currentCommandNumber = UINT64_MAX
  · simp [hmax, hf, insertNumber_ok _ _ h]
  · simp [hmax, hf, insertNumber_ok _ _ h]

/-- Lines 639-653 on an `rs` response to a numbered command. -/
theorem appendCommandNumber_rs (c : Constants) (g : Gcode R) (s : State H R)
    (hn : g.has c.PARAMETER_N_OFFSET = true) (h : "rs".toList <+: cstr s.responseBuffer) :
    appendCommandNumber c g s =
      { s with
        responseBuffer :=
          insertAfter s.responseBuffer "rs".toList.length (ulltoa s.currentCommandNumber) } := by
  have hf : firstByte s.responseBuffer = 'r' := firstByte_of_start _ _ 'r' ['s'] rfl h
  have hrs := (strncmpEq_iff s.responseBuffer _ cstr_rs).mpr h
  have hok : strncmpEq s.responseBuffer "ok".toList (strlen "ok".toList) = false := by
    rw [Bool.eq_false_iff, Ne, strncmpEq_iff _ _ cstr_ok]
    exact not_prefix_of_firstByte _ _ 'r' 'o' ['k'] rfl (by decide) hf
  unfold appendCommandNumber
  rw [hn, hok, hrs]
  simp [hf, insertNumber_rs _ _ h]

/-- Lines 639-653 on a `skip` response to a numbered command. -/
theorem appendCommandNumber_skip (c : Constants) (g : Gcode R) (s : State H R)
    (hn : g.has c.PARAMETER_N_OFFSET = true) (h : "skip".toList <+: cstr s.responseBuffer) :
    appendCommandNumber c g s =
      { s with
        responseBuffer := insertAfter s.responseBuffer "skip".toList.length (ulltoa g.valueN) } := by
  have hf : firstByte s.responseBuffer = 's' :=
    firstByte_of_start _ _ 's' ['k', 'i', 'p'] rfl h
  have hsk := (strncmpEq_iff s.responseBuffer _ cstr_skip).mpr h
  have hok : strncmpEq s.responseBuffer "ok".toList (strlen "ok".toList) = false := by
    rw [Bool.eq_false_iff, Ne, strncmpEq_iff _ _ cstr_ok]
    exact not_prefix_of_firstByte _ _ 's' 'o' ['k'] rfl (by decide) hf
  unfold appendCommandNumber
  rw [hn, hok, hsk]
  simp [hf, insertNumber_skip _ _ h]

/-- Lines 639-653 do nothing to a response that starts with none of the three
words, and nothing for a command without the N field. -/
theorem appendCommandNumber_other (c : Constants) (g : Gcode R) (s : State H R)
    (h : g.has c.PARAMETER_N_OFFSET = false ∨
      (¬ "ok".toList <+: cstr s.responseBuffer ∧ ¬ "rs".toList <+: cstr s.responseBuffer
        ∧ ¬ "skip".toList <+: cstr s.responseBuffer)) :
    appendCommandNumber c g s = s := by
  unfold appendCommandNumber
  rcases h with h | ⟨h1, h2, h3⟩
  · simp [h]
  · rw [← strncmpEq_iff _ _ cstr_ok, Bool.not_eq_true] at h1
    rw [← strncmpEq_iff _ _ cstr_rs, Bool.not_eq_true] at h2
    rw [← strncmpEq_iff _ _ cstr_skip, Bool.not_eq_true] at h3
    rw [h1, h2, h3]
    simp

/-! ## Lemmas on the main loop -/

theorem queueUnchanged_trans {s t u : State H R} (h1 : QueueUnchanged s t)
    (h2 : QueueUnchanged t u) : QueueUnchanged s u := by
  obtain ⟨a1, a2, a3, a4, a5, a6, a7⟩ := h1
  obtain ⟨b1, b2, b3, b4, b5, b6, b7⟩ := h2
  exact ⟨b1.trans a1, b2.trans a2, b3.trans a3, b4.trans a4, b5.trans a5, b6.trans a6,
    b7.trans a7⟩

theorem queueUnchanged_setResponse (s : State H R) (x : List Char) :
    QueueUnchanged s (s.setResponse x) := by
  simp [QueueUnchanged, State.setResponse]

theorem queueUnchanged_numberingPolicy (c : Constants) (g : Gcode R) (s : State H R) :
    QueueUnchanged s (numberingPolicy c g s) := by
  unfold numberingPolicy
  repeat' split
  all_goals simp [QueueUnchanged, State.setResponse]

theorem queueUnchanged_appendCommandNumber (c : Constants) (g : Gcode R) (s : State H R) :
    QueueUnchanged s (appendCommandNumber c g s) := by
  unfold appendCommandNumber
  repeat' split
  all_goals simp [QueueUnchanged]

theorem motors_hw_appendCommandNumber (c : Constants) (g : Gcode R) (s : State H R) :
    (appendCommandNumber c g s).motors = s.motors ∧ (appendCommandNumber c g s).hw = s.hw := by
  unfold appendCommandNumber
  repeat' split
  all_goals simp

theorem queueUnchanged_handlerResponse (c : Constants) (P : Peripherals H R) (g : Gcode R)
    (s t : State H R) (h : handlerResponse c P g s = some t) : QueueUnchanged s t := by
  unfold handlerResponse at h
  dsimp only at h
  split at h
  · exact queueUnchanged_trans (queueUnchanged_numberingPolicy c g s)
      (handleCommand_spec c P g _ t h).1.1
  · cases h
    exact queueUnchanged_numberingPolicy c g s

/-- Filling the response buffer touches neither the queue nor the USB output nor
the emergency-stop flag. -/
theorem queueUnchanged_produceResponse (c : Constants) (P : Peripherals H R) (g : Gcode R)
    (s t : State H R) (h : produceResponse c P g s = some t) : QueueUnchanged s t := by
  unfold produceResponse at h
  split at h
  · cases h; exact queueUnchanged_setResponse _ _
  · split at h
    · cases h; exact queueUnchanged_setResponse _ _
    · rw [Option.map_eq_some'] at h
      obtain ⟨u, hu, hut⟩ := h
      have hq : QueueUnchanged s u := by
        unfold processCommand at hu
        split at hu
        · split at hu
          · cases hu; simp [QueueUnchanged, State.setResponse]
          · rw [Option.map_eq_some'] at hu
            obtain ⟨v, hv, hvu⟩ := hu
            have h1 := queueUnchanged_handlerResponse c P g _ v hv
            have h2 := queueUnchanged_appendCommandNumber c g v
            rw [hvu] at h2
            have h3 := queueUnchanged_trans h1 h2
            simpa [QueueUnchanged] using h3
        · cases hu; simp [QueueUnchanged]
      rw [← hut]
      unfold defaultResponse
      split
      · exact queueUnchanged_trans hq (queueUnchanged_setResponse _ _)
      · exact hq

/-- An iteration that finds a request and no emergency stop pending sends the
response that `produceResponse` left in the buffer, with a newline, unless an
emergency stop arrives meanwhile; then it frees the slot and steps to the
next one. -/
theorem mainLoopIteration_dispatch (c : Constants) (P : Peripherals H R)
    (stopArrives : Bool) (s s1 : State H R)
    (hocc : (s.requests s.currentProcessingRequest).commandParameters ≠ 0)
    (hstop : s.emergencyStopOccured = false)
    (hp : produceResponse c P (s.requests s.currentProcessingRequest)
      (disableSendingWaitResponses s) = some s1) :
    ∃ s', mainLoopIteration c P stopArrives s = some s'
      ∧ s'.usb = (if stopArrives then s.usb
          else s.usb ++ [cstr s1.responseBuffer ++ ['\n']])
      ∧ s'.currentCommandNumber = s1.currentCommandNumber
      ∧ s'.motors = s1.motors ∧ s'.hw = s1.hw
      ∧ s'.requests = s.requestsCleared
      ∧ s'.currentProcessingRequest = nextSlot s.currentProcessingRequest
      ∧ s'.emergencyStopOccured = stopArrives
      ∧ s'.responseBuffer = strcat s1.responseBuffer "\n".toList
      ∧ s'.serialNumber = s.serialNumber := by
  obtain ⟨q1, q2, q3, q4, q5, q6, q7⟩ := queueUnchanged_produceResponse c P _ _ s1 hp
  simp only [disableSendingWaitResponses] at q1 q2 q3 q4 q5 q6 q7
  have hnl : cstr ['\n'] = ['\n'] := by decide
  have hmain : mainLoopIteration c P stopArrives s = some (finishRequest
      (if stopArrives then
        { s1.appendResponse "\n".toList with emergencyStopOccured := true }
      else sendDataToUsb (s1.appendResponse "\n".toList)
        (strcat s1.responseBuffer "\n".toList))) := by
    unfold mainLoopIteration
    rw [if_pos hocc]
    simp only [disableSendingWaitResponses, hstop, Bool.not_false, if_true] at hp ⊢
    rw [hp]
    cases stopArrives <;>
      simp [State.appendResponse, q5, hstop]
  refine ⟨_, hmain, ?_⟩
  cases stopArrives <;>
    simp [finishRequest, enableSendingWaitResponses, sendDataToUsb, cstr_strcat, hnl, q1, q2,
      q5, q6, q7, hstop, State.requestsCleared, nextSlot, State.appendResponse]

theorem ne_nil_of_start {tok l : List Char} (h : tok <+: l) (hne : tok ≠ []) : l ≠ [] := by
  intro hl
  rw [hl] at h
  exact hne (List.prefix_nil.mp h)

/-- Lines 639-653 keep the first word of an `ok`, `rs` or `skip` response. -/
theorem prefix_appendCommandNumber (c : Constants) (g : Gcode R) (s : State H R)
    (tok : List Char)
    (htok : tok = "ok".toList ∨ tok = "rs".toList ∨ tok = "skip".toList)
    (h : tok <+: cstr s.responseBuffer) :
    tok <+: cstr (appendCommandNumber c g s).responseBuffer := by
  cases hn : g.has c.PARAMETER_N_OFFSET with
  | false => rw [appendCommandNumber_other c g s (Or.inl hn)]; exact h
  | true =>
    rcases htok with rfl | rfl | rfl
    · rw [appendCommandNumber_ok c g s hn h]
      exact prefix_cstr_insertAfter _ _ _ h
    · rw [appendCommandNumber_rs c g s hn h]
      exact prefix_cstr_insertAfter _ _ _ h
    · rw [appendCommandNumber_skip c g s hn h]
      exact prefix_cstr_insertAfter _ _ _ h

/-- Lines 639-653 never empty the response. -/
theorem cstr_appendCommandNumber_ne_nil (c : Constants) (g : Gcode R) (s : State H R)
    (h : cstr s.responseBuffer ≠ []) : cstr (appendCommandNumber c g s).responseBuffer ≠ [] := by
  by_cases h1 : "ok".toList <+: cstr s.responseBuffer
  · exact ne_nil_of_start (prefix_appendCommandNumber c g s _ (Or.inl rfl) h1) (by decide)
  · by_cases h2 : "rs".toList <+: cstr s.responseBuffer
    · exact ne_nil_of_start (prefix_appendCommandNumber c g s _ (Or.inr (Or.inl rfl)) h2)
        (by decide)
    · by_cases h3 : "skip".toList <+: cstr s.responseBuffer
      · exact ne_nil_of_start (prefix_appendCommandNumber c g s _ (Or.inr (Or.inr rfl)) h3)
          (by decide)
      · rw [appendCommandNumber_other c g s (Or.inr ⟨h1, h2, h3⟩)]; exact h

/-- With both subsystems working, the response to a numbered command that is
not a host command is the handler response with the command number appended
(and the unknown-command error when that is empty). -/
theorem produceResponse_numbered (c : Constants) (P : Peripherals H R) (g : Gcode R)
    (s t : State H R) (hN : c.NIsParameterBit)
    (hn : g.has c.PARAMETER_N_OFFSET = true)
    (hh : g.has c.PARAMETER_HOST_COMMAND_OFFSET = false)
    (hacc : s.motors.accelerometerIsWorking = true) (hheat : P.heaterIsWorking s.hw = true)
    (ht : handlerResponse c P g { s with responseBuffer := setByte s.responseBuffer 0 NUL }
      = some t) :
    produceResponse c P g s = some (defaultResponse (appendCommandNumber c g t)) := by
  unfold produceResponse processCommand
  simp only [hacc, hheat, hasGcode_of_has_N c g hN hn, hh, ht, Bool.not_true, Bool.false_eq_true,
    if_false, if_true, Option.map_some']

/-- Lines 657-661 leave a response that is not empty alone. -/
theorem defaultResponse_of_ne_nil (s : State H R) (h : cstr s.responseBuffer ≠ []) :
    defaultResponse s = s := by
  unfold defaultResponse
  rw [if_neg]
  rw [firstByte_eq_nul_iff]
  exact h

/-- Lines 657-661 turn an empty response into the unknown-command error. -/
theorem defaultResponse_of_nil (s : State H R) (h : cstr s.responseBuffer = []) :
    defaultResponse s = s.setResponse "Error: Unknown G-code command".toList := by
  unfold defaultResponse
  rw [if_pos]
  rw [firstByte_eq_nul_iff]
  exact h

/-- A response set by the numbering policy is the handler response. -/
theorem handlerResponse_of_policy (c : Constants) (P : Peripherals H R) (g : Gcode R)
    (s : State H R) (h : cstr (numberingPolicy c g s).responseBuffer ≠ []) :
    handlerResponse c P g s = some (numberingPolicy c g s) := by
  unfold handlerResponse
  dsimp only
  rw [if_neg]
  rw [firstByte_eq_nul_iff]
  exact h

/-- When the numbering policy sets no response the handler runs on its result. -/
theorem handlerResponse_of_handler (c : Constants) (P : Peripherals H R) (g : Gcode R)
    (s : State H R) (h : cstr (numberingPolicy c g s).responseBuffer = []) :
    handlerResponse c P g s = handleCommand c P g (numberingPolicy c g s) := by
  unfold handlerResponse
  dsimp only
  rw [if_pos]
  rw [firstByte_eq_nul_iff]
  exact h

theorem length_poke_ge (b : List Char) (i : Nat) (bytes : List Char) :
    b.length ≤ (poke b i bytes).length := by
  unfold poke
  simp only [List.length_append, List.length_take, List.length_drop]
  omega

theorem length_strcpy_ge (d t : List Char) : d.length ≤ (strcpy d t).length :=
  length_poke_ge _ _ _

theorem length_setByte (b : List Char) (i : Nat) (ch : Char) :
    (setByte b i ch).length = b.length := by
  simp [setByte]

/-- The number that line 649 appends: the current command number for `rs`, the
number of the command for `ok` and `skip`. -/
theorem cstr_appendCommandNumber (c : Constants) (g : Gcode R) (s : State H R)
    (tok rest : List Char) (hn : g.has c.PARAMETER_N_OFFSET = true)
    (htok : tok = "ok".toList ∨ tok = "rs".toList ∨ tok = "skip".toList)
    (hcs : cstr s.responseBuffer = tok ++ rest)
    (hfit : strlen s.responseBuffer
      + (ulltoa (if tok = "rs".toList then s.currentCommandNumber else g.valueN)).length + 4
      ≤ s.responseBuffer.length) :
    cstr (appendCommandNumber c g s).responseBuffer
      = tok ++ ' ' :: ulltoa (if tok = "rs".toList then s.currentCommandNumber else g.valueN)
          ++ rest := by
  have hpre : tok <+: cstr s.responseBuffer := by rw [hcs]; exact List.prefix_append _ _
  rcases htok with rfl | rfl | rfl
  · rw [appendCommandNumber_ok c g s hn hpre]
    rw [if_neg (show ¬ "ok".toList = "rs".toList by decide)] at hfit ⊢
    exact cstr_insertAfter _ _ _ _ hcs (by decide) (cstr_ulltoa _) (by omega)
  · rw [appendCommandNumber_rs c g s hn hpre]
    rw [if_pos rfl] at hfit ⊢
    exact cstr_insertAfter _ _ _ _ hcs (by decide) (cstr_ulltoa _) (by omega)
  · rw [appendCommandNumber_skip c g s hn hpre]
    rw [if_neg (show ¬ "skip".toList = "rs".toList by decide)] at hfit ⊢
    exact cstr_insertAfter _ _ _ _ hcs (by decide) (cstr_ulltoa _) (by omega)

/-- The current command number after lines 639-653. -/
theorem currentCommandNumber_appendCommandNumber (c : Constants) (g : Gcode R)
    (s : State H R) :
    (appendCommandNumber c g s).currentCommandNumber =
      if g.has c.PARAMETER_N_OFFSET = true ∧ "ok".toList <+: cstr s.responseBuffer
          ∧ s.currentCommandNumber ≠ UINT64_MAX then
        (s.currentCommandNumber + 1) % 2 ^ 64
      else s.currentCommandNumber := by
  cases hn : g.has c.PARAMETER_N_OFFSET with
  | false =>
    rw [appendCommandNumber_other c g s (Or.inl hn), if_neg]
    rintro ⟨h, -⟩
    exact Bool.noConfusion h
  | true =>
    by_cases h1 : "ok".toList <+: cstr s.responseBuffer
    · rw [appendCommandNumber_ok c g s hn h1]
      dsimp only
      by_cases hmax : s.currentCommandNumber = UINT64_MAX
      · rw [if_pos hmax, if_neg (fun h => h.2.2 hmax)]
      · rw [if_neg hmax, if_pos ⟨rfl, h1, hmax⟩]
    · have hf : (appendCommandNumber c g s).currentCommandNumber = s.currentCommandNumber := by
        by_cases h2 : "rs".toList <+: cstr s.responseBuffer
        · rw [appendCommandNumber_rs c g s hn h2]
        · by_cases h3 : "skip".toList <+: cstr s.responseBuffer
          · rw [appendCommandNumber_skip c g s hn h3]
          · rw [appendCommandNumber_other c g s (Or.inr ⟨h1, h2, h3⟩)]
      rw [hf, if_neg (fun h => h1 h.2.1)]

/-- An iteration whose response is set by the numbering policy: no handler runs,
and the line sent is that response with the command number appended. -/
theorem mainLoopIteration_of_policy (c : Constants) (P : Peripherals H R) (s : State H R)
    (text : List Char) (hN : c.NIsParameterBit)
    (hn : (s.requests s.currentProcessingRequest).has c.PARAMETER_N_OFFSET = true)
    (hh : (s.requests s.currentProcessingRequest).has c.PARAMETER_HOST_COMMAND_OFFSET = false)
    (hstop : s.emergencyStopOccured = false)
    (hacc : s.motors.accelerometerIsWorking = true)
    (hheat : P.heaterIsWorking s.hw = true)
    (hpol : numberingPolicy c (s.requests s.currentProcessingRequest) s.atDispatch
      = s.atDispatch.setResponse text)
    (hne : cstr text ≠ []) :
    ∃ s', mainLoopIteration c P false s = some s'
      ∧ s'.usb = s.usb ++ [cstr (appendCommandNumber c (s.requests s.currentProcessingRequest)
          (s.atDispatch.setResponse text)).responseBuffer ++ ['\n']]
      ∧ s'.currentCommandNumber = (appendCommandNumber c
          (s.requests s.currentProcessingRequest)
          (s.atDispatch.setResponse text)).currentCommandNumber
      ∧ s'.motors = s.motors ∧ s'.hw = s.hw
      ∧ s'.requests = s.requestsCleared
      ∧ s'.currentProcessingRequest = nextSlot s.currentProcessingRequest := by
  have hocc := commandParameters_ne_zero_of_has _ _ hn
  have hcs : cstr (s.atDispatch.setResponse text).responseBuffer ≠ [] := by
    simp only [State.setResponse, cstr_strcpy]; exact hne
  have hresp := handlerResponse_of_policy c P (s.requests s.currentProcessingRequest)
    s.atDispatch (by rw [hpol]; exact hcs)
  rw [hpol] at hresp
  have hprod := produceResponse_numbered c P _ (disableSendingWaitResponses s) _ hN hn hh
    hacc hheat hresp
  rw [defaultResponse_of_ne_nil _ (cstr_appendCommandNumber_ne_nil c _ _ hcs)] at hprod
  obtain ⟨s', h1, h2, h3, h4, h5, h6, h7, -⟩ :=
    mainLoopIteration_dispatch c P false s _ hocc hstop hprod
  rw [if_neg Bool.false_ne_true] at h2
  have hm := motors_hw_appendCommandNumber c (s.requests s.currentProcessingRequest)
    (s.atDispatch.setResponse text)
  refine ⟨s', h1, h2, h3, ?_, ?_, h6, h7⟩
  · rw [h4, hm.1]; rfl
  · rw [h5, hm.2]; rfl

/-- The seven outcomes of the numbering policy (lines 202-237). -/
theorem numberingPolicy_cases (c : Constants) (g : Gcode R) (s : State H R) :
    (g.has c.PARAMETER_N_OFFSET = false ∧ numberingPolicy c g s = s)
    ∨ (g.has c.PARAMETER_N_OFFSET = true ∧ g.has c.VALID_CHECKSUM_OFFSET = false
        ∧ numberingPolicy c g s = s.setResponse "rs".toList)
    ∨ (g.has c.PARAMETER_N_OFFSET = true ∧ g.has c.VALID_CHECKSUM_OFFSET = true
        ∧ g.valueM = 110
        ∧ numberingPolicy c g s = { s with currentCommandNumber := g.valueN })
    ∨ (g.has c.PARAMETER_N_OFFSET = true ∧ g.has c.VALID_CHECKSUM_OFFSET = true
        ∧ g.valueM ≠ 110 ∧ s.currentCommandNumber = UINT64_MAX
        ∧ numberingPolicy c g s = s.setResponse "Error: Max command number exceeded".toList)
    ∨ (g.has c.PARAMETER_N_OFFSET = true ∧ g.has c.VALID_CHECKSUM_OFFSET = true
        ∧ g.valueM ≠ 110 ∧ s.currentCommandNumber ≠ UINT64_MAX
        ∧ g.valueN < s.currentCommandNumber
        ∧ numberingPolicy c g s = s.setResponse "skip".toList)
    ∨ (g.has c.PARAMETER_N_OFFSET = true ∧ g.has c.VALID_CHECKSUM_OFFSET = true
        ∧ g.valueM ≠ 110 ∧ s.currentCommandNumber ≠ UINT64_MAX
        ∧ g.valueN > s.currentCommandNumber
        ∧ numberingPolicy c g s = s.setResponse "rs".toList)
    ∨ (g.has c.PARAMETER_N_OFFSET = true ∧ g.has c.VALID_CHECKSUM_OFFSET = true
        ∧ g.valueM ≠ 110 ∧ s.currentCommandNumber ≠ UINT64_MAX
        ∧ g.valueN = s.currentCommandNumber
        ∧ numberingPolicy c g s = s) := by
  unfold numberingPolicy
  cases hn : g.has c.PARAMETER_N_OFFSET with
  | false => exact Or.inl ⟨rfl, by simp⟩
  | true =>
    cases hv : g.has c.VALID_CHECKSUM_OFFSET with
    | false => exact Or.inr (Or.inl ⟨rfl, rfl, by simp⟩)
    | true =>
      by_cases hM : g.valueM = 110
      · exact Or.inr (Or.inr (Or.inl ⟨rfl, rfl, hM, by simp [hM]⟩))
      · by_cases hmax : s.currentCommandNumber = UINT64_MAX
        · exact Or.inr (Or.inr (Or.inr (Or.inl ⟨rfl, rfl, hM, hmax, by simp [hM, hmax]⟩)))
        · rcases Nat.lt_trichotomy g.valueN s.currentCommandNumber with hlt | heq | hgt
          · exact Or.inr (Or.inr (Or.inr (Or.inr (Or.inl
              ⟨rfl, rfl, hM, hmax, hlt, by simp [hM, hmax, hlt]⟩))))
          · exact Or.inr (Or.inr (Or.inr (Or.inr (Or.inr (Or.inr
              ⟨rfl, rfl, hM, hmax, heq, by simp [hM, hmax, heq]⟩)))))
          · exact Or.inr (Or.inr (Or.inr (Or.inr (Or.inr (Or.inl
              ⟨rfl, rfl, hM, hmax, hgt, by
                simp [hM, hmax, hgt, Nat.not_lt.mpr (Nat.le_of_lt hgt)]⟩)))))

/-- The response in array `b` starts with one of the four words of the
protocol. -/
theorem answered_four (b : List Char) (h : Answered b) :
    "ok".toList <+: cstr b ∨ "rs".toList <+: cstr b ∨ "skip".toList <+: cstr b
      ∨ "Error: ".toList <+: cstr b :=
  h.elim Or.inl (fun x => Or.inr (Or.inr (Or.inr x)))

theorem not_ok_of_error (b : List Char) (h : "Error: ".toList <+: cstr b) :
    ¬ "ok".toList <+: cstr b :=
  not_prefix_of_firstByte b _ 'E' 'o' ['k'] rfl (by decide)
    (firstByte_of_start b _ 'E' "rror: ".toList rfl h)

theorem not_ok_of_rs (b : List Char) (h : "rs".toList <+: cstr b) :
    ¬ "ok".toList <+: cstr b :=
  not_prefix_of_firstByte b _ 'r' 'o' ['k'] rfl (by decide)
    (firstByte_of_start b _ 'r' ['s'] rfl h)

theorem not_ok_of_skip (b : List Char) (h : "skip".toList <+: cstr b) :
    ¬ "ok".toList <+: cstr b :=
  not_prefix_of_firstByte b _ 's' 'o' ['k'] rfl (by decide)
    (firstByte_of_start b _ 's' ['k', 'i', 'p'] rfl h)

theorem not_ok_of_nil (b : List Char) (h : cstr b = []) : ¬ "ok".toList <+: cstr b := by
  rw [h]
  decide

/-- An error message is left alone by lines 639-653. -/
theorem appendCommandNumber_error (c : Constants) (g : Gcode R) (s : State H R)
    (h : "Error: ".toList <+: cstr s.responseBuffer) : appendCommandNumber c g s = s := by
  have hf := firstByte_of_start s.responseBuffer _ 'E' "rror: ".toList rfl h
  exact appendCommandNumber_other c g s (Or.inr
    ⟨not_prefix_of_firstByte _ _ 'E' 'o' ['k'] rfl (by decide) hf,
      not_prefix_of_firstByte _ _ 'E' 'r' ['s'] rfl (by decide) hf,
      not_prefix_of_firstByte _ _ 'E' 's' ['k', 'i', 'p'] rfl (by decide) hf⟩)

/-- An empty response is left alone by lines 639-653. -/
theorem appendCommandNumber_nil (c : Constants) (g : Gcode R) (s : State H R)
    (h : cstr s.responseBuffer = []) : appendCommandNumber c g s = s := by
  refine appendCommandNumber_other c g s (Or.inr ⟨?_, ?_, ?_⟩) <;>
    (rw [h]; decide)

/-- Lines 639-661 on a handler response that is empty or starts with a protocol
word: the result starts with a protocol word, and with `ok` exactly when the
handler response did. -/
theorem finish_spec (c : Constants) (g : Gcode R) (v : State H R)
    (hv : cstr v.responseBuffer = [] ∨ StartsWithProtocolWord (cstr v.responseBuffer)) :
    StartsWithProtocolWord (cstr (defaultResponse (appendCommandNumber c g v)).responseBuffer)
      ∧ ("ok".toList <+: cstr (defaultResponse (appendCommandNumber c g v)).responseBuffer
          ↔ "ok".toList <+: cstr v.responseBuffer)
      ∧ (defaultResponse (appendCommandNumber c g v)).currentCommandNumber
          = (appendCommandNumber c g v).currentCommandNumber
      ∧ (defaultResponse (appendCommandNumber c g v)).motors = v.motors
      ∧ (defaultResponse (appendCommandNumber c g v)).hw = v.hw := by
  have hm := motors_hw_appendCommandNumber c g v
  rcases hv with h0 | h1 | h2 | h3 | h4
  · rw [appendCommandNumber_nil c g v h0, defaultResponse_of_nil v h0]
    have herr : "Error: ".toList <+: cstr (v.setResponse
        "Error: Unknown G-code command".toList).responseBuffer :=
      prefix_cstr_strcpy _ _ _ (by decide)
    exact ⟨Or.inr (Or.inr (Or.inr herr)),
      ⟨fun h => absurd h (not_ok_of_error _ herr), fun h => absurd h (not_ok_of_nil _ h0)⟩,
      rfl, rfl, rfl⟩
  · have hp := prefix_appendCommandNumber c g v _ (Or.inl rfl) h1
    rw [defaultResponse_of_ne_nil _ (ne_nil_of_start hp (by decide))]
    exact ⟨Or.inl hp, ⟨fun _ => h1, fun _ => hp⟩, rfl, hm.1, hm.2⟩
  · have hp := prefix_appendCommandNumber c g v _ (Or.inr (Or.inl rfl)) h2
    rw [defaultResponse_of_ne_nil _ (ne_nil_of_start hp (by decide))]
    exact ⟨Or.inr (Or.inl hp),
      ⟨fun h => absurd h (not_ok_of_rs _ hp), fun h => absurd h (not_ok_of_rs _ h2)⟩,
      rfl, hm.1, hm.2⟩
  · have hp := prefix_appendCommandNumber c g v _ (Or.inr (Or.inr rfl)) h3
    rw [defaultResponse_of_ne_nil _ (ne_nil_of_start hp (by decide))]
    exact ⟨Or.inr (Or.inr (Or.inl hp)),
      ⟨fun h => absurd h (not_ok_of_skip _ hp), fun h => absurd h (not_ok_of_skip _ h3)⟩,
      rfl, hm.1, hm.2⟩
  · rw [appendCommandNumber_error c g v h4,
      defaultResponse_of_ne_nil _ (ne_nil_of_start h4 (by decide))]
    exact ⟨Or.inr (Or.inr (Or.inr h4)), Iff.rfl, rfl, rfl, rfl⟩

/-- The handler response: either the response of the numbering policy, or, when
that is empty, what the handler left: nothing, `ok...` or `Error: ...`. The
handler does not touch the current command number. -/
theorem handlerResponse_spec (c : Constants) (P : Peripherals H R) (g : Gcode R)
    (s v : State H R) (h : handlerResponse c P g s = some v) :
    v.currentCommandNumber = (numberingPolicy c g s).currentCommandNumber
      ∧ ((cstr (numberingPolicy c g s).responseBuffer ≠ [] ∧ v = numberingPolicy c g s)
        ∨ (cstr (numberingPolicy c g s).responseBuffer = []
            ∧ handleCommand c P g (numberingPolicy c g s) = some v
            ∧ (cstr v.responseBuffer = [] ∨ Answered v.responseBuffer))) := by
  by_cases he : cstr (numberingPolicy c g s).responseBuffer = []
  · rw [handlerResponse_of_handler c P g s he] at h
    obtain ⟨h1, h2⟩ := handleCommand_spec c P g _ v h
    refine ⟨h1.2, Or.inr ⟨he, h, ?_⟩⟩
    rcases h2 with h2 | h2 | h2
    · exact Or.inl (by rw [h2]; exact he)
    · exact Or.inl h2
    · exact Or.inr h2
  · rw [handlerResponse_of_policy c P g s he] at h
    cases h
    exact ⟨rfl, Or.inl ⟨he, rfl⟩⟩

/-- The four ways in which the response buffer gets filled. -/
theorem produceResponse_cases (c : Constants) (P : Peripherals H R) (g : Gcode R)
    (s t : State H R) (h : produceResponse c P g s = some t) :
    (∃ text, "Error: ".toList <+: text ∧ t = s.setResponse text)
    ∨ (∃ text, "Error: ".toList <+: text
        ∧ t = State.setResponse { s with responseBuffer := setByte s.responseBuffer 0 NUL } text)
    ∨ (g.has c.PARAMETER_HOST_COMMAND_OFFSET = false
        ∧ ∃ v, handlerResponse c P g { s with responseBuffer := setByte s.responseBuffer 0 NUL }
            = some v
          ∧ t = defaultResponse (appendCommandNumber c g v)) := by
  unfold produceResponse at h
  split at h
  · cases h; exact Or.inl ⟨_, by decide, rfl⟩
  · split at h
    · cases h; exact Or.inl ⟨_, by decide, rfl⟩
    · rw [Option.map_eq_some'] at h
      obtain ⟨u, hu, hut⟩ := h
      unfold processCommand at hu
      split at hu
      · split at hu
        · cases hu
          refine Or.inr (Or.inl ⟨"Error: Unknown host command".toList, by decide, ?_⟩)
          rw [← hut]
          exact defaultResponse_of_ne_nil _ (by
            simp only [State.setResponse, cstr_strcpy]; decide)
        · rename_i hhost
          rw [Option.map_eq_some'] at hu
          obtain ⟨v, hv, hvu⟩ := hu
          refine Or.inr (Or.inr ⟨by simpa using hhost, v, hv, ?_⟩)
          rw [← hut, ← hvu]
      · cases hu
        refine Or.inr (Or.inl ⟨"Error: Unknown G-code command".toList, by decide, ?_⟩)
        rw [← hut]
        exact defaultResponse_of_nil _ (cstr_setByte_zero_nul _)

/-- Whatever the command, the response starts with a protocol word; a command
without the N field does not change the current command number; a numbered
command other than M110 advances it by one exactly when the response starts
with `ok`, which needs a valid checksum and the expected number. -/
theorem produceResponse_spec (c : Constants) (P : Peripherals H R) (g : Gcode R)
    (s t : State H R) (h : produceResponse c P g s = some t) :
    StartsWithProtocolWord (cstr t.responseBuffer)
      ∧ (g.has c.PARAMETER_N_OFFSET = false → t.currentCommandNumber = s.currentCommandNumber)
      ∧ (g.has c.PARAMETER_N_OFFSET = true → g.valueM ≠ 110 →
          ("ok".toList <+: cstr t.responseBuffer →
            g.has c.VALID_CHECKSUM_OFFSET = true ∧ g.valueN = s.currentCommandNumber
              ∧ s.currentCommandNumber ≠ UINT64_MAX
              ∧ t.currentCommandNumber = (s.currentCommandNumber + 1) % 2 ^ 64)
          ∧ (¬ "ok".toList <+: cstr t.responseBuffer →
            t.currentCommandNumber = s.currentCommandNumber)) := by
  have herr : ∀ (x : State H R) (text : List Char), "Error: ".toList <+: text →
      "Error: ".toList <+: cstr (x.setResponse text).responseBuffer := fun x text ht =>
    prefix_cstr_strcpy _ _ _ (prefix_cstr_of_list _ _ cstr_error ht)
  rcases produceResponse_cases c P g s t h with ⟨text, ht, rfl⟩ | ⟨text, ht, rfl⟩
    | ⟨-, v, hv, rfl⟩
  · have he := herr s text ht
    exact ⟨Or.inr (Or.inr (Or.inr he)), fun _ => rfl,
      fun _ _ => ⟨fun hok => absurd hok (not_ok_of_error _ he), fun _ => rfl⟩⟩
  · have he := herr { s with responseBuffer := setByte s.responseBuffer 0 NUL } text ht
    exact ⟨Or.inr (Or.inr (Or.inr he)), fun _ => rfl,
      fun _ _ => ⟨fun hok => absurd hok (not_ok_of_error _ he), fun _ => rfl⟩⟩
  · obtain ⟨hccn, hshape⟩ := handlerResponse_spec c P g _ v hv
    have hcleared : cstr (setByte s.responseBuffer 0 NUL) = [] := cstr_setByte_zero_nul _
    have hvw : cstr v.responseBuffer = [] ∨ StartsWithProtocolWord (cstr v.responseBuffer) := by
      rcases hshape with ⟨hne, rfl⟩ | ⟨-, -, h0 | ha⟩
      · rcases numberingPolicy_cases c g
            { s with responseBuffer := setByte s.responseBuffer 0 NUL } with
          ⟨-, hp⟩ | ⟨-, -, hp⟩ | ⟨-, -, -, hp⟩ | ⟨-, -, -, -, hp⟩ | ⟨-, -, -, -, -, hp⟩
            | ⟨-, -, -, -, -, hp⟩ | ⟨-, -, -, -, -, hp⟩
        · rw [hp] at hne; exact absurd hcleared hne
        · rw [hp]; exact Or.inr (Or.inr (Or.inl (prefix_cstr_strcpy _ _ _ (by decide))))
        · rw [hp] at hne; exact absurd hcleared hne
        · rw [hp]; exact Or.inr (Or.inr (Or.inr (Or.inr (prefix_cstr_strcpy _ _ _ (by decide)))))
        · rw [hp]; exact Or.inr (Or.inr (Or.inr (Or.inl (prefix_cstr_strcpy _ _ _ (by decide)))))
        · rw [hp]; exact Or.inr (Or.inr (Or.inl (prefix_cstr_strcpy _ _ _ (by decide))))
        · rw [hp] at hne; exact absurd hcleared hne
      · exact Or.inl h0
      · exact Or.inr (answered_four _ ha)
    obtain ⟨f1, f2, f3, -, -⟩ := finish_spec c g v hvw
    refine ⟨f1, ?_, ?_⟩
    · intro hn
      rw [f3, appendCommandNumber_other c g v (Or.inl hn), hccn]
      rcases numberingPolicy_cases c g
          { s with responseBuffer := setByte s.responseBuffer 0 NUL } with
        ⟨-, hp⟩ | ⟨hn', -⟩ | ⟨hn', -⟩ | ⟨hn', -⟩ | ⟨hn', -⟩ | ⟨hn', -⟩ | ⟨hn', -⟩
      · rw [hp]
      all_goals (rw [hn] at hn'; exact Bool.noConfusion hn')
    · intro hn hM
      have hpolno : ∀ text : List Char,
          numberingPolicy c g { s with responseBuffer := setByte s.responseBuffer 0 NUL }
            = State.setResponse { s with responseBuffer := setByte s.responseBuffer 0 NUL } text →
          cstr text ≠ [] → ¬ "ok".toList <+: cstr text →
          ¬ "ok".toList <+: cstr v.responseBuffer := by
        intro text hp hne hnok
        rcases hshape with ⟨-, hveq⟩ | ⟨he, -⟩
        · rw [hveq, hp]; simp only [State.setResponse, cstr_strcpy]; exact hnok
        · rw [hp] at he; simp only [State.setResponse, cstr_strcpy] at he; exact absurd he hne
      rw [f2, f3, currentCommandNumber_appendCommandNumber, hccn]
      rcases numberingPolicy_cases c g
          { s with responseBuffer := setByte s.responseBuffer 0 NUL } with
        ⟨hn', -⟩ | ⟨-, -, hp⟩ | ⟨-, -, hM', -⟩ | ⟨-, -, -, -, hp⟩ | ⟨-, -, -, -, -, hp⟩
          | ⟨-, -, -, -, -, hp⟩ | ⟨-, hvalid, -, hmax, heq, hp⟩
      · rw [hn] at hn'; exact Bool.noConfusion hn'
      · have hno := hpolno _ hp (by decide) (by decide)
        rw [hp]
        exact ⟨fun hok => absurd hok hno, fun _ => by rw [if_neg (fun hc => hno hc.2.1)]; rfl⟩
      · exact absurd hM' hM
      · have hno := hpolno _ hp (by decide) (by decide)
        rw [hp]
        exact ⟨fun hok => absurd hok hno, fun _ => by rw [if_neg (fun hc => hno hc.2.1)]; rfl⟩
      · have hno := hpolno _ hp (by decide) (by decide)
        rw [hp]
        exact ⟨fun hok => absurd hok hno, fun _ => by rw [if_neg (fun hc => hno hc.2.1)]; rfl⟩
      · have hno := hpolno _ hp (by decide) (by decide)
        rw [hp]
        exact ⟨fun hok => absurd hok hno, fun _ => by rw [if_neg (fun hc => hno hc.2.1)]; rfl⟩
      · rw [hp]
        dsimp only
        refine ⟨fun hok => ⟨hvalid, heq, hmax, ?_⟩, fun hno => ?_⟩
        · rw [if_pos ⟨hn, hok, hmax⟩]
        · rw [if_neg (fun hc => hno hc.2.1)]

/-- The response buffer gets filled unless the command has the M field with the
code 115 and the S value 628, the soft reset. -/
theorem produceResponse_isSome (c : Constants) (P : Peripherals H R) (g : Gcode R)
    (s : State H R)
    (h : ¬(g.has c.PARAMETER_M_OFFSET = true ∧ g.valueM = 115 ∧ g.valueS = 628)) :
    (produceResponse c P g s).isSome = true := by
  unfold produceResponse
  split
  · rfl
  · split
    · rfl
    · rw [Option.isSome_map']
      unfold processCommand
      split
      · split
        · rfl
        · rw [Option.isSome_map']
          unfold handlerResponse
          dsimp only
          split
          · exact handleCommand_isSome c P g _ h
          · rfl
      · rfl

/-! ## The claims C1 to C10: numbering protocol, response format, health interlock -/

/-- C1 (as stated, refuted): the line `N3 G28` with a bad checksum carries a
line number below the current command number 9, no emergency stop is pending
and both subsystems work, and the response is `rs 9`, not `skip`. -/
theorem C1_counterexample :
    (exampleG28BadChecksum.has exampleConstants.PARAMETER_N_OFFSET = true
      ∧ exampleG28BadChecksum.valueN < (exampleState exampleG28BadChecksum 9).currentCommandNumber
      ∧ (exampleState exampleG28BadChecksum 9).emergencyStopOccured = false
      ∧ (exampleState exampleG28BadChecksum 9).motors.accelerometerIsWorking = true
      ∧ loggingPeripherals.heaterIsWorking (exampleState exampleG28BadChecksum 9).hw = true)
    ∧ (mainLoopIteration exampleConstants loggingPeripherals false
        (exampleState exampleG28BadChecksum 9)).map (fun s => s.usb)
      = some ["rs 9\n".toList]
    ∧ ¬ "skip".toList <+: "rs 9\n".toList := by
  decide

/-- C1 (amended): a queued command with a line number N below the current
command number, a valid checksum, an M value other than 110 and no host-command
flag, dispatched while the current command number is not UINT64_MAX, no
emergency stop is pending or arrives and accelerometer and heater work, is
answered with one line that begins with `skip`, and the current command number
is unchanged. -/
theorem C1_skip_below_current (c : Constants) (P : Peripherals H R) (s : State H R)
    (hN : c.NIsParameterBit)
    (hn : (s.requests s.currentProcessingRequest).has c.PARAMETER_N_OFFSET = true)
    (hv : (s.requests s.currentProcessingRequest).has c.VALID_CHECKSUM_OFFSET = true)
    (hh : (s.requests s.currentProcessingRequest).has c.PARAMETER_HOST_COMMAND_OFFSET = false)
    (hM : (s.requests s.currentProcessingRequest).valueM ≠ 110)
    (hmax : s.currentCommandNumber ≠ UINT64_MAX)
    (hlt : (s.requests s.currentProcessingRequest).valueN < s.currentCommandNumber)
    (hstop : s.emergencyStopOccured = false)
    (hacc : s.motors.accelerometerIsWorking = true)
    (hheat : P.heaterIsWorking s.hw = true) :
    ∃ s' line, mainLoopIteration c P false s = some s'
      ∧ s'.usb = s.usb ++ [line] ∧ "skip".toList <+: line
      ∧ s'.currentCommandNumber = s.currentCommandNumber := by
  have hpol : numberingPolicy c (s.requests s.currentProcessingRequest) s.atDispatch
      = s.atDispatch.setResponse "skip".toList := by
    simp [numberingPolicy, hn, hv, hM, hmax, hlt, State.atDispatch, disableSendingWaitResponses]
  have hsk : "skip".toList <+: cstr (s.atDispatch.setResponse "skip".toList).responseBuffer :=
    prefix_cstr_strcpy _ _ _ (by decide)
  obtain ⟨s', h1, h2, h3, -⟩ := mainLoopIteration_of_policy c P s _ hN hn hh hstop hacc hheat
    hpol (by decide)
  refine ⟨s', _, h1, h2, ?_, ?_⟩
  · exact (prefix_appendCommandNumber c _ _ _ (Or.inr (Or.inr rfl)) hsk).trans
      (List.prefix_append _ _)
  · rw [h3, appendCommandNumber_skip c _ _ hn hsk]
    rfl

/-- C1 (amended), at the line `N3 G28` with a good checksum and the current
command number 9. -/
theorem C1_skip_below_current_witness :
    ∃ s' line, mainLoopIteration exampleConstants loggingPeripherals false
        (exampleState exampleG28 9) = some s'
      ∧ s'.usb = (exampleState exampleG28 9).usb ++ [line] ∧ "skip".toList <+: line
      ∧ s'.currentCommandNumber = (exampleState exampleG28 9).currentCommandNumber :=
  C1_skip_below_current exampleConstants loggingPeripherals (exampleState exampleG28 9)
    (by decide) (by decide) (by decide) (by decide) (by decide) (by decide) (by decide)
    (by decide) (by decide) (by decide)

/-- C2: a queued command that has the N field and whose checksum-valid flag is
clear (a G-code line, not a host command), dispatched while no emergency stop
is pending or arrives and accelerometer and heater work, is answered with one
line that begins with `rs`, and the current command number is unchanged,
whatever its N value and its command code are. -/
theorem C2_resend_on_bad_checksum (c : Constants) (P : Peripherals H R) (s : State H R)
    (hN : c.NIsParameterBit)
    (hn : (s.requests s.currentProcessingRequest).has c.PARAMETER_N_OFFSET = true)
    (hv : (s.requests s.currentProcessingRequest).has c.VALID_CHECKSUM_OFFSET = false)
    (hh : (s.requests s.currentProcessingRequest).has c.PARAMETER_HOST_COMMAND_OFFSET = false)
    (hstop : s.emergencyStopOccured = false)
    (hacc : s.motors.accelerometerIsWorking = true)
    (hheat : P.heaterIsWorking s.hw = true) :
    ∃ s' line, mainLoopIteration c P false s = some s'
      ∧ s'.usb = s.usb ++ [line] ∧ "rs".toList <+: line
      ∧ s'.currentCommandNumber = s.currentCommandNumber := by
  have hpol : numberingPolicy c (s.requests s.currentProcessingRequest) s.atDispatch
      = s.atDispatch.setResponse "rs".toList := by
    simp [numberingPolicy, hn, hv]
  have hrs : "rs".toList <+: cstr (s.atDispatch.setResponse "rs".toList).responseBuffer :=
    prefix_cstr_strcpy _ _ _ (by decide)
  obtain ⟨s', h1, h2, h3, -⟩ := mainLoopIteration_of_policy c P s _ hN hn hh hstop hacc hheat
    hpol (by decide)
  refine ⟨s', _, h1, h2, ?_, ?_⟩
  · exact (prefix_appendCommandNumber c _ _ _ (Or.inr (Or.inl rfl)) hrs).trans
      (List.prefix_append _ _)
  · rw [h3, appendCommandNumber_rs c _ _ hn hrs]
    rfl

/-- C2, at the line `N3 G28` with a bad checksum and the current command
number 9. -/
theorem C2_resend_on_bad_checksum_witness :
    ∃ s' line, mainLoopIteration exampleConstants loggingPeripherals false
        (exampleState exampleG28BadChecksum 9) = some s'
      ∧ s'.usb = (exampleState exampleG28BadChecksum 9).usb ++ [line] ∧ "rs".toList <+: line
      ∧ s'.currentCommandNumber = (exampleState exampleG28BadChecksum 9).currentCommandNumber :=
  C2_resend_on_bad_checksum exampleConstants loggingPeripherals
    (exampleState exampleG28BadChecksum 9)
    (by decide) (by decide) (by decide) (by decide) (by decide) (by decide) (by decide)

/-- The dispatch of a start-numbering directive: M110 with the N field and a
valid checksum. The handler of M110 answers `ok`, so the number just stored is
counted once (line 645) unless it is UINT64_MAX. -/
theorem mainLoopIteration_M110 (c : Constants) (P : Peripherals H R) (stopArrives : Bool)
    (s : State H R) (hN : c.NIsParameterBit)
    (hn : (s.requests s.currentProcessingRequest).has c.PARAMETER_N_OFFSET = true)
    (hv : (s.requests s.currentProcessingRequest).has c.VALID_CHECKSUM_OFFSET = true)
    (hh : (s.requests s.currentProcessingRequest).has c.PARAMETER_HOST_COMMAND_OFFSET = false)
    (hMp : (s.requests s.currentProcessingRequest).has c.PARAMETER_M_OFFSET = true)
    (hM : (s.requests s.currentProcessingRequest).valueM = 110)
    (hstop : s.emergencyStopOccured = false)
    (hacc : s.motors.accelerometerIsWorking = true)
    (hheat : P.heaterIsWorking s.hw = true) :
    ∃ s', mainLoopIteration c P stopArrives s = some s'
      ∧ s'.usb = (if stopArrives then s.usb else s.usb ++
          [cstr (insertAfter (strcpy (setByte s.responseBuffer 0 NUL) "ok".toList)
            "ok".toList.length (ulltoa (s.requests s.currentProcessingRequest).valueN))
            ++ ['\n']])
      ∧ s'.currentCommandNumber =
          (if (s.requests s.currentProcessingRequest).valueN = UINT64_MAX then
            (s.requests s.currentProcessingRequest).valueN
          else ((s.requests s.currentProcessingRequest).valueN + 1) % 2 ^ 64)
      ∧ s'.motors = s.motors ∧ s'.hw = s.hw := by
  have hocc := commandParameters_ne_zero_of_has _ _ hn
  have hpol : numberingPolicy c (s.requests s.currentProcessingRequest) s.atDispatch
      = { s.atDispatch with
          currentCommandNumber := (s.requests s.currentProcessingRequest).valueN } := by
    simp [numberingPolicy, hn, hv, hM]
  have hempty : cstr (numberingPolicy c (s.requests s.currentProcessingRequest)
      s.atDispatch).responseBuffer = [] := by
    rw [hpol]; exact cstr_setByte_zero_nul _
  have hhand : handleCommand c P (s.requests s.currentProcessingRequest)
      (numberingPolicy c (s.requests s.currentProcessingRequest) s.atDispatch)
      = some (State.setResponse { s.atDispatch with
          currentCommandNumber := (s.requests s.currentProcessingRequest).valueN }
        "ok".toList) := by
    rw [hpol]
    simp [handleCommand, hMp, handleM, hM]
  have hresp := handlerResponse_of_handler c P (s.requests s.currentProcessingRequest)
    s.atDispatch hempty
  rw [hhand] at hresp
  have hprod := produceResponse_numbered c P _ (disableSendingWaitResponses s) _ hN hn hh
    hacc hheat hresp
  have hok : "ok".toList <+: cstr (State.setResponse { s.atDispatch with
      currentCommandNumber := (s.requests s.currentProcessingRequest).valueN }
      "ok".toList).responseBuffer := prefix_cstr_strcpy _ _ _ (by decide)
  rw [defaultResponse_of_ne_nil _ (cstr_appendCommandNumber_ne_nil c _ _
    (ne_nil_of_start hok (by decide))), appendCommandNumber_ok c _ _ hn hok] at hprod
  obtain ⟨s', h1, h2, h3, h4, h5, -⟩ :=
    mainLoopIteration_dispatch c P stopArrives s _ hocc hstop hprod
  exact ⟨s', h1, h2, h3, h4, h5⟩

/-- C3 (as stated, refuted): after the dispatch of `N5 M110` with a good
checksum the current command number is 6, not 5. -/
theorem C3_counterexample :
    (exampleM110.has exampleConstants.PARAMETER_N_OFFSET = true
      ∧ exampleM110.has exampleConstants.PARAMETER_M_OFFSET = true
      ∧ exampleM110.has exampleConstants.VALID_CHECKSUM_OFFSET = true
      ∧ exampleM110.valueM = 110 ∧ exampleM110.valueN = 5)
    ∧ (mainLoopIteration exampleConstants loggingPeripherals false
        (exampleState exampleM110 9)).map (fun s => s.currentCommandNumber) = some 6 := by
  decide

/-- C3 (amended): for every prior value of the current command number and every
supplied line number N (a 64-bit number), after the dispatch of a
start-numbering directive (M110 with the M and N fields and a valid checksum,
no emergency stop pending, accelerometer and heater working) has completed, the
current command number is N + 1, the number expected next; it is N only when N
is UINT64_MAX. -/
theorem C3_start_numbering_sets_next (c : Constants) (P : Peripherals H R)
    (stopArrives : Bool) (s : State H R) (hN : c.NIsParameterBit)
    (hn : (s.requests s.currentProcessingRequest).has c.PARAMETER_N_OFFSET = true)
    (hv : (s.requests s.currentProcessingRequest).has c.VALID_CHECKSUM_OFFSET = true)
    (hh : (s.requests s.currentProcessingRequest).has c.PARAMETER_HOST_COMMAND_OFFSET = false)
    (hMp : (s.requests s.currentProcessingRequest).has c.PARAMETER_M_OFFSET = true)
    (hM : (s.requests s.currentProcessingRequest).valueM = 110)
    (htyped : (s.requests s.currentProcessingRequest).valueN ≤ UINT64_MAX)
    (hstop : s.emergencyStopOccured = false)
    (hacc : s.motors.accelerometerIsWorking = true)
    (hheat : P.heaterIsWorking s.hw = true) :
    ∃ s', mainLoopIteration c P stopArrives s = some s'
      ∧ s'.currentCommandNumber =
          (if (s.requests s.currentProcessingRequest).valueN = UINT64_MAX then
            (s.requests s.currentProcessingRequest).valueN
          else (s.requests s.currentProcessingRequest).valueN + 1) := by
  obtain ⟨s', h1, -, h3, -⟩ :=
    mainLoopIteration_M110 c P stopArrives s hN hn hv hh hMp hM hstop hacc hheat
  refine ⟨s', h1, ?_⟩
  rw [h3]
  by_cases hmax : (s.requests s.currentProcessingRequest).valueN = UINT64_MAX
  · rw [if_pos hmax, if_pos hmax]
  · rw [if_neg hmax, if_neg hmax]
    apply Nat.mod_eq_of_lt
    have : (s.requests s.currentProcessingRequest).valueN < UINT64_MAX :=
      lt_of_le_of_ne htyped hmax
    unfold UINT64_MAX at this
    omega

/-- C3 (amended), at the line `N5 M110` and the prior command number 9. -/
theorem C3_start_numbering_sets_next_witness :
    ∃ s', mainLoopIteration exampleConstants loggingPeripherals false
        (exampleState exampleM110 9) = some s'
      ∧ s'.currentCommandNumber =
          (if ((exampleState exampleM110 9).requests
              (exampleState exampleM110 9).currentProcessingRequest).valueN = UINT64_MAX then
            ((exampleState exampleM110 9).requests
              (exampleState exampleM110 9).currentProcessingRequest).valueN
          else ((exampleState exampleM110 9).requests
              (exampleState exampleM110 9).currentProcessingRequest).valueN + 1) :=
  C3_start_numbering_sets_next exampleConstants loggingPeripherals false
    (exampleState exampleM110 9) (by decide) (by decide) (by decide) (by decide) (by decide)
    (by decide) (by decide) (by decide) (by decide) (by decide)

/-- C4 (as stated, refuted): the line `N5 M110` with a good checksum, dispatched
while the heater reports not working, is answered with the health error, not
with `ok 5`. -/
theorem C4_counterexample :
    (exampleM110.has exampleConstants.PARAMETER_N_OFFSET = true
      ∧ exampleM110.has exampleConstants.PARAMETER_M_OFFSET = true
      ∧ exampleM110.has exampleConstants.VALID_CHECKSUM_OFFSET = true
      ∧ exampleM110.valueM = 110 ∧ exampleM110.valueN = 5)
    ∧ (mainLoopIteration exampleConstants loggingPeripherals false
        (exampleStateHeaterFailed exampleM110 9)).map (fun s => s.usb)
      = some ["Error: Heater isn't working\n".toList]
    ∧ "Error: Heater isn't working\n".toList ≠ "ok 5\n".toList := by
  decide

/-- C4 (amended): a start-numbering directive (M110 with the M and N fields, a
valid checksum and a 64-bit N), dispatched while no emergency stop is pending
or arrives and accelerometer and heater work, is answered `ok N` whatever the
prior current command number is: the line is not `rs`, not `skip` and no
error. -/
theorem C4_start_numbering_never_rejected (c : Constants) (P : Peripherals H R)
    (s : State H R) (hN : c.NIsParameterBit)
    (hn : (s.requests s.currentProcessingRequest).has c.PARAMETER_N_OFFSET = true)
    (hv : (s.requests s.currentProcessingRequest).has c.VALID_CHECKSUM_OFFSET = true)
    (hh : (s.requests s.currentProcessingRequest).has c.PARAMETER_HOST_COMMAND_OFFSET = false)
    (hMp : (s.requests s.currentProcessingRequest).has c.PARAMETER_M_OFFSET = true)
    (hM : (s.requests s.currentProcessingRequest).valueM = 110)
    (htyped : (s.requests s.currentProcessingRequest).valueN ≤ UINT64_MAX)
    (hlen : s.responseBuffer.length = UINT8_MAX + 1)
    (hstop : s.emergencyStopOccured = false)
    (hacc : s.motors.accelerometerIsWorking = true)
    (hheat : P.heaterIsWorking s.hw = true) :
    ∃ s' line, mainLoopIteration c P false s = some s'
      ∧ s'.usb = s.usb ++ [line]
      ∧ line = "ok ".toList ++ ulltoa (s.requests s.currentProcessingRequest).valueN ++ ['\n']
      ∧ ¬ "rs".toList <+: line ∧ ¬ "skip".toList <+: line ∧ ¬ "Error: ".toList <+: line := by
  obtain ⟨s', h1, h2, -⟩ :=
    mainLoopIteration_M110 c P false s hN hn hv hh hMp hM hstop hacc hheat
  rw [if_neg Bool.false_ne_true] at h2
  have hdig := ulltoa_length_le _ htyped
  have hbuf : s.responseBuffer.length
      ≤ (strcpy (setByte s.responseBuffer 0 NUL) "ok".toList).length := by
    have := length_strcpy_ge (setByte s.responseBuffer 0 NUL) "ok".toList
    rwa [length_setByte] at this
  have hsl : strlen (strcpy (setByte s.responseBuffer 0 NUL) "ok".toList) = 2 := by
    unfold strlen; rw [cstr_strcpy]; decide
  have hexact := cstr_insertAfter (strcpy (setByte s.responseBuffer 0 NUL) "ok".toList)
    "ok".toList [] (ulltoa (s.requests s.currentProcessingRequest).valueN)
    (by rw [cstr_strcpy]; decide) (by decide) (cstr_ulltoa _)
    (by rw [hsl]; unfold UINT8_MAX at hlen; omega)
  rw [hexact] at h2
  refine ⟨s', _, h1, h2, ?_, ?_, ?_, ?_⟩
  · simp
  · simp [List.cons_prefix_cons]
  · simp [List.cons_prefix_cons]
  · simp [List.cons_prefix_cons]

/-- C4 (amended), at the line `N5 M110` and the saturated current command
number. -/
theorem C4_start_numbering_never_rejected_witness :
    ∃ s' line, mainLoopIteration exampleConstants loggingPeripherals false
        (exampleState exampleM110 UINT64_MAX) = some s'
      ∧ s'.usb = (exampleState exampleM110 UINT64_MAX).usb ++ [line]
      ∧ line = "ok ".toList ++ ulltoa ((exampleState exampleM110 UINT64_MAX).requests
          (exampleState exampleM110 UINT64_MAX).currentProcessingRequest).valueN ++ ['\n']
      ∧ ¬ "rs".toList <+: line ∧ ¬ "skip".toList <+: line ∧ ¬ "Error: ".toList <+: line :=
  C4_start_numbering_never_rejected exampleConstants loggingPeripherals
    (exampleState exampleM110 UINT64_MAX) (by decide) (by decide) (by decide) (by decide)
    (by decide) (by decide) (by decide) (List.length_replicate _ _) (by decide) (by decide)
    (by decide)

/-- C5 (as stated, refuted): the line `N12 G28` with a good checksum, above the
current command number 9, dispatched while the heater reports not working, is
answered with the health error, not with `rs 9`. -/
theorem C5_counterexample :
    (exampleG28Ahead.has exampleConstants.PARAMETER_N_OFFSET = true
      ∧ exampleG28Ahead.has exampleConstants.VALID_CHECKSUM_OFFSET = true
      ∧ exampleG28Ahead.valueM ≠ 110
      ∧ exampleG28Ahead.valueN > (exampleStateHeaterFailed exampleG28Ahead 9).currentCommandNumber
      ∧ (exampleStateHeaterFailed exampleG28Ahead 9).currentCommandNumber ≠ UINT64_MAX)
    ∧ (mainLoopIteration exampleConstants loggingPeripherals false
        (exampleStateHeaterFailed exampleG28Ahead 9)).map (fun s => s.usb)
      = some ["Error: Heater isn't working\n".toList]
    ∧ ¬ "rs".toList <+: "Error: Heater isn't working\n".toList := by
  decide

/-- C5 (amended): a queued command other than M110, with a valid checksum and a line
number N above the current command number (which is a 64-bit number and not
saturated), not a host command, dispatched while no emergency stop is pending
or arrives and accelerometer and heater work, is answered `rs` followed by the
current command number; no handler runs (the motor members and the hardware
are untouched) and the current command number is unchanged. -/
theorem C5_resend_above_current (c : Constants) (P : Peripherals H R) (s : State H R)
    (hN : c.NIsParameterBit)
    (hn : (s.requests s.currentProcessingRequest).has c.PARAMETER_N_OFFSET = true)
    (hv : (s.requests s.currentProcessingRequest).has c.VALID_CHECKSUM_OFFSET = true)
    (hh : (s.requests s.currentProcessingRequest).has c.PARAMETER_HOST_COMMAND_OFFSET = false)
    (hM : (s.requests s.currentProcessingRequest).valueM ≠ 110)
    (hmax : s.currentCommandNumber ≠ UINT64_MAX)
    (htyped : s.currentCommandNumber ≤ UINT64_MAX)
    (hgt : (s.requests s.currentProcessingRequest).valueN > s.currentCommandNumber)
    (hlen : s.responseBuffer.length = UINT8_MAX + 1)
    (hstop : s.emergencyStopOccured = false)
    (hacc : s.motors.accelerometerIsWorking = true)
    (hheat : P.heaterIsWorking s.hw = true) :
    ∃ s', mainLoopIteration c P false s = some s'
      ∧ s'.usb = s.usb ++ ["rs ".toList ++ ulltoa s.currentCommandNumber ++ ['\n']]
      ∧ s'.motors = s.motors ∧ s'.hw = s.hw
      ∧ s'.currentCommandNumber = s.currentCommandNumber := by
  have hpol : numberingPolicy c (s.requests s.currentProcessingRequest) s.atDispatch
      = s.atDispatch.setResponse "rs".toList := by
    simp [numberingPolicy, hn, hv, hM, hmax, hgt, Nat.not_lt.mpr (Nat.le_of_lt hgt),
      State.atDispatch, disableSendingWaitResponses]
  have hrs : "rs".toList <+: cstr (s.atDispatch.setResponse "rs".toList).responseBuffer :=
    prefix_cstr_strcpy _ _ _ (by decide)
  obtain ⟨s', h1, h2, h3, h4, h5, -⟩ := mainLoopIteration_of_policy c P s _ hN hn hh hstop
    hacc hheat hpol (by decide)
  have hdig := ulltoa_length_le _ htyped
  have hbuf : s.responseBuffer.length
      ≤ (s.atDispatch.setResponse "rs".toList).responseBuffer.length := by
    have := length_strcpy_ge (setByte s.responseBuffer 0 NUL) "rs".toList
    rwa [length_setByte] at this
  have hsl : strlen (s.atDispatch.setResponse "rs".toList).responseBuffer = 2 := by
    unfold strlen; simp only [State.setResponse, cstr_strcpy]; decide
  have hexact := cstr_appendCommandNumber c (s.requests s.currentProcessingRequest)
    (s.atDispatch.setResponse "rs".toList) "rs".toList [] hn (Or.inr (Or.inl rfl))
    (by simp only [State.setResponse, cstr_strcpy]; decide)
    (by
      rw [if_pos rfl, hsl]
      have hc : (s.atDispatch.setResponse "rs".toList).currentCommandNumber
          = s.currentCommandNumber := rfl
      rw [hc]
      unfold UINT8_MAX at hlen
      omega)
  rw [if_pos rfl] at hexact
  refine ⟨s', h1, ?_, h4, h5, ?_⟩
  · rw [h2, hexact]
    simp [State.setResponse, State.atDispatch, disableSendingWaitResponses]
  · rw [h3, appendCommandNumber_rs c _ _ hn hrs]
    rfl

/-- C5 (amended), at the line `N12 G28` with a good checksum and the current
command number 9. -/
theorem C5_resend_above_current_witness :
    ∃ s', mainLoopIteration exampleConstants loggingPeripherals false
        (exampleState exampleG28Ahead 9) = some s'
      ∧ s'.usb = (exampleState exampleG28Ahead 9).usb
          ++ ["rs ".toList
            ++ ulltoa (exampleState exampleG28Ahead 9).currentCommandNumber
            ++ ['\n']]
      ∧ s'.motors = (exampleState exampleG28Ahead 9).motors
      ∧ s'.hw = (exampleState exampleG28Ahead 9).hw
      ∧ s'.currentCommandNumber
          = (exampleState exampleG28Ahead 9).currentCommandNumber :=
  C5_resend_above_current exampleConstants loggingPeripherals
    (exampleState exampleG28Ahead 9) (by decide) (by decide) (by decide)
    (by decide) (by decide) (by decide) (by decide) (by decide) (List.length_replicate _ _)
    (by decide) (by decide) (by decide)

/-- An iteration that finds a request while an emergency stop is pending
discards the request: nothing is sent and no handler runs. -/
theorem mainLoopIteration_stopped (c : Constants) (P : Peripherals H R) (stopArrives : Bool)
    (s : State H R)
    (hocc : (s.requests s.currentProcessingRequest).commandParameters ≠ 0)
    (hstop : s.emergencyStopOccured = true) :
    mainLoopIteration c P stopArrives s
      = some (finishRequest (disableSendingWaitResponses s)) := by
  unfold mainLoopIteration
  rw [if_pos hocc]
  simp [disableSendingWaitResponses, hstop]

/-- Two first words of one line: the line cannot start with `ok` and also with
another protocol word. -/
theorem ok_of_protocolWord_append (x y : List Char) (hx : StartsWithProtocolWord x)
    (h : "ok".toList <+: x ++ y) : "ok".toList <+: x := by
  rcases hx with h1 | h2 | h3 | h4
  · exact h1
  · exfalso
    rcases List.prefix_or_prefix_of_prefix h (h2.trans (List.prefix_append _ _)) with h' | h'
    · revert h'; decide
    · revert h'; decide
  · exfalso
    rcases List.prefix_or_prefix_of_prefix h (h3.trans (List.prefix_append _ _)) with h' | h'
    · revert h'; decide
    · revert h'; decide
  · exfalso
    rcases List.prefix_or_prefix_of_prefix h (h4.trans (List.prefix_append _ _)) with h' | h'
    · revert h'; decide
    · revert h'; decide

/-- The current command number across the dispatch of a numbered command other
than M110: one more after a response that begins with `ok`, the same
otherwise. -/
theorem mainLoopIteration_counter (c : Constants) (P : Peripherals H R)
    (stopArrives : Bool) (s : State H R)
    (hn : (s.requests s.currentProcessingRequest).has c.PARAMETER_N_OFFSET = true)
    (hM : (s.requests s.currentProcessingRequest).valueM ≠ 110)
    (htyped : s.currentCommandNumber ≤ UINT64_MAX) :
    (¬((s.requests s.currentProcessingRequest).has c.PARAMETER_M_OFFSET = true
        ∧ (s.requests s.currentProcessingRequest).valueM = 115
        ∧ (s.requests s.currentProcessingRequest).valueS = 628) →
      (mainLoopIteration c P stopArrives s).isSome = true)
    ∧ ∀ s', mainLoopIteration c P stopArrives s = some s' →
      ((s.emergencyStopOccured = false ∧ "ok".toList <+: cstr s'.responseBuffer) →
        s'.currentCommandNumber = s.currentCommandNumber + 1
          ∧ (s.requests s.currentProcessingRequest).valueN = s.currentCommandNumber
          ∧ (s.requests s.currentProcessingRequest).has c.VALID_CHECKSUM_OFFSET = true)
      ∧ (¬(s.emergencyStopOccured = false ∧ "ok".toList <+: cstr s'.responseBuffer) →
        s'.currentCommandNumber = s.currentCommandNumber)
      ∧ (s.emergencyStopOccured = false → stopArrives = false →
        s'.usb = s.usb ++ [cstr s'.responseBuffer])
      ∧ (s.emergencyStopOccured = true → s'.usb = s.usb) := by
  have hocc := commandParameters_ne_zero_of_has _ _ hn
  cases hstop : s.emergencyStopOccured with
  | true =>
    rw [mainLoopIteration_stopped c P stopArrives s hocc hstop]
    refine ⟨fun _ => rfl, ?_⟩
    intro s' hs'
    cases hs'
    exact ⟨fun h => absurd h.1 (by decide), fun _ => rfl, fun h => absurd h (by decide),
      fun _ => rfl⟩
  | false =>
    constructor
    · intro hreset
      have hsome := produceResponse_isSome c P (s.requests s.currentProcessingRequest)
        (disableSendingWaitResponses s) hreset
      obtain ⟨t, ht⟩ := Option.isSome_iff_exists.mp hsome
      obtain ⟨s', h1, -⟩ := mainLoopIteration_dispatch c P stopArrives s t hocc hstop ht
      rw [h1]; rfl
    · intro s' hs'
      have hsome : (produceResponse c P (s.requests s.currentProcessingRequest)
          (disableSendingWaitResponses s)).isSome = true := by
        cases hp : produceResponse c P (s.requests s.currentProcessingRequest)
            (disableSendingWaitResponses s) with
        | some t => rfl
        | none =>
          exfalso
          unfold mainLoopIteration at hs'
          rw [if_pos hocc] at hs'
          simp [disableSendingWaitResponses, hstop] at hs' hp
          rw [hp] at hs'
          simp at hs'
      obtain ⟨t, ht⟩ := Option.isSome_iff_exists.mp hsome
      obtain ⟨s'', h1, h2, h3, -, -, -, -, -, h9, -⟩ :=
        mainLoopIteration_dispatch c P stopArrives s t hocc hstop ht
      rw [hs'] at h1
      cases h1
      obtain ⟨p1, -, p3⟩ := produceResponse_spec c P _ _ t ht
      obtain ⟨q1, q2⟩ := p3 hn hM
      have hfinal : cstr s'.responseBuffer = cstr t.responseBuffer ++ ['\n'] := by
        rw [h9, cstr_strcat]; rfl
      refine ⟨?_, ?_, ?_, fun h => absurd h (by decide)⟩
      · rintro ⟨-, hok⟩
        rw [hfinal] at hok
        obtain ⟨r1, r2, r3, r4⟩ := q1 (ok_of_protocolWord_append _ _ p1 hok)
        refine ⟨?_, r2, r1⟩
        rw [h3, r4]
        apply Nat.mod_eq_of_lt
        have : (disableSendingWaitResponses s).currentCommandNumber < UINT64_MAX :=
          lt_of_le_of_ne htyped r3
        unfold UINT64_MAX at this
        omega
      · intro hno
        rw [h3]
        apply q2
        intro hok
        apply hno
        refine ⟨rfl, ?_⟩
        rw [hfinal]
        exact hok.trans (List.prefix_append _ _)
      · intro _ hsa
        rw [h2, hsa, if_neg Bool.false_ne_true, hfinal]

/-- C6: for every dispatched command with the N field and an M value other than
110 (the current command number being a 64-bit number), the current command
number after the dispatch is the old one plus one if and only if the dispatch
produced a response that begins with `ok`, and is unchanged otherwise; such a
response is produced only when N is the current command number before the
dispatch and the checksum is valid. The response produced is the content of the
response buffer, which is the line sent unless an emergency stop arrives
meanwhile; a dispatch under a pending emergency stop produces none. The
dispatch completes unless it is the soft reset of M115 S628. -/
theorem C6_counter_advances_iff_ok (c : Constants) (P : Peripherals H R)
    (stopArrives : Bool) (s : State H R)
    (hn : (s.requests s.currentProcessingRequest).has c.PARAMETER_N_OFFSET = true)
    (hM : (s.requests s.currentProcessingRequest).valueM ≠ 110)
    (htyped : s.currentCommandNumber ≤ UINT64_MAX) :
    (¬((s.requests s.currentProcessingRequest).has c.PARAMETER_M_OFFSET = true
        ∧ (s.requests s.currentProcessingRequest).valueM = 115
        ∧ (s.requests s.currentProcessingRequest).valueS = 628) →
      (mainLoopIteration c P stopArrives s).isSome = true)
    ∧ ∀ s', mainLoopIteration c P stopArrives s = some s' →
      (s'.currentCommandNumber = s.currentCommandNumber + 1
        ↔ (s.emergencyStopOccured = false ∧ "ok".toList <+: cstr s'.responseBuffer))
      ∧ (¬(s.emergencyStopOccured = false ∧ "ok".toList <+: cstr s'.responseBuffer) →
        s'.currentCommandNumber = s.currentCommandNumber)
      ∧ ((s.emergencyStopOccured = false ∧ "ok".toList <+: cstr s'.responseBuffer) →
        (s.requests s.currentProcessingRequest).valueN = s.currentCommandNumber
          ∧ (s.requests s.currentProcessingRequest).has c.VALID_CHECKSUM_OFFSET = true)
      ∧ (s.emergencyStopOccured = false → stopArrives = false →
        s'.usb = s.usb ++ [cstr s'.responseBuffer])
      ∧ (s.emergencyStopOccured = true → s'.usb = s.usb) := by
  obtain ⟨h1, h2⟩ := mainLoopIteration_counter c P stopArrives s hn hM htyped
  refine ⟨h1, fun s' hs' => ?_⟩
  obtain ⟨a1, a2, a3, a4⟩ := h2 s' hs'
  refine ⟨⟨fun hplus => ?_, fun hok => (a1 hok).1⟩, a2, fun hok => (a1 hok).2, a3, a4⟩
  by_contra hno
  have := a2 hno
  omega

/-- C6, at the line `N7 M114` with a good checksum and the current command
number 7. -/
theorem C6_counter_advances_iff_ok_witness :
    (¬(exampleM114.has exampleConstants.PARAMETER_M_OFFSET = true
        ∧ exampleM114.valueM = 115 ∧ exampleM114.valueS = 628) →
      (mainLoopIteration exampleConstants loggingPeripherals false
        (exampleState exampleM114 7)).isSome = true)
    ∧ ∀ s', mainLoopIteration exampleConstants loggingPeripherals false
        (exampleState exampleM114 7) = some s' →
      (s'.currentCommandNumber = 7 + 1
        ↔ ((exampleState exampleM114 7).emergencyStopOccured = false
          ∧ "ok".toList <+: cstr s'.responseBuffer))
      ∧ (¬((exampleState exampleM114 7).emergencyStopOccured = false
          ∧ "ok".toList <+: cstr s'.responseBuffer) →
        s'.currentCommandNumber = 7)
      ∧ (((exampleState exampleM114 7).emergencyStopOccured = false
          ∧ "ok".toList <+: cstr s'.responseBuffer) →
        exampleM114.valueN = 7
          ∧ exampleM114.has exampleConstants.VALID_CHECKSUM_OFFSET = true)
      ∧ ((exampleState exampleM114 7).emergencyStopOccured = false → false = false →
        s'.usb = (exampleState exampleM114 7).usb ++ [cstr s'.responseBuffer])
      ∧ ((exampleState exampleM114 7).emergencyStopOccured = true →
        s'.usb = (exampleState exampleM114 7).usb) :=
  C6_counter_advances_iff_ok exampleConstants loggingPeripherals false
    (exampleState exampleM114 7) (by decide) (by decide) (by decide)

/-- C7 (as stated, refuted): with the current command number at UINT64_MAX the
numbered command `N5 M110` is answered `ok 5`, not with an error, and the
current command number becomes 6. -/
theorem C7_counterexample :
    ((exampleState exampleM110 UINT64_MAX).currentCommandNumber = UINT64_MAX
      ∧ exampleM110.has exampleConstants.PARAMETER_N_OFFSET = true)
    ∧ (mainLoopIteration exampleConstants loggingPeripherals false
        (exampleState exampleM110 UINT64_MAX)).map
          (fun s => (s.usb, s.currentCommandNumber)) = some (["ok 5\n".toList], 6)
    ∧ ¬ "Error:".toList <+: "ok 5\n".toList := by
  decide

/-- C7 (amended): while the current command number is UINT64_MAX, every
dispatched command that carries a line number and is not a start-numbering
directive (M110 with a valid checksum) leaves it there: with a valid checksum
the answer is the error `Error: Max command number exceeded`, with an invalid
one it begins with `rs` (no emergency stop pending or arriving, accelerometer
and heater working, not a host command). -/
theorem C7_saturated_counter (c : Constants) (P : Peripherals H R) (s : State H R)
    (hN : c.NIsParameterBit)
    (hsat : s.currentCommandNumber = UINT64_MAX)
    (hn : (s.requests s.currentProcessingRequest).has c.PARAMETER_N_OFFSET = true)
    (hh : (s.requests s.currentProcessingRequest).has c.PARAMETER_HOST_COMMAND_OFFSET = false)
    (hM : ¬((s.requests s.currentProcessingRequest).has c.VALID_CHECKSUM_OFFSET = true
      ∧ (s.requests s.currentProcessingRequest).valueM = 110))
    (hstop : s.emergencyStopOccured = false)
    (hacc : s.motors.accelerometerIsWorking = true)
    (hheat : P.heaterIsWorking s.hw = true) :
    ∃ s' line, mainLoopIteration c P false s = some s'
      ∧ s'.usb = s.usb ++ [line]
      ∧ s'.currentCommandNumber = UINT64_MAX
      ∧ ((s.requests s.currentProcessingRequest).has c.VALID_CHECKSUM_OFFSET = true →
          line = "Error: Max command number exceeded\n".toList)
      ∧ ((s.requests s.currentProcessingRequest).has c.VALID_CHECKSUM_OFFSET = false →
          "rs".toList <+: line) := by
  cases hv : (s.requests s.currentProcessingRequest).has c.VALID_CHECKSUM_OFFSET with
  | false =>
    have hpol : numberingPolicy c (s.requests s.currentProcessingRequest) s.atDispatch
        = s.atDispatch.setResponse "rs".toList := by
      simp [numberingPolicy, hn, hv]
    have hrs : "rs".toList <+: cstr (s.atDispatch.setResponse "rs".toList).responseBuffer :=
      prefix_cstr_strcpy _ _ _ (by decide)
    obtain ⟨s', h1, h2, h3, -⟩ := mainLoopIteration_of_policy c P s _ hN hn hh hstop hacc
      hheat hpol (by decide)
    refine ⟨s', _, h1, h2, ?_, fun h => Bool.noConfusion h, fun _ => ?_⟩
    · rw [h3, appendCommandNumber_rs c _ _ hn hrs]
      exact hsat
    · exact (prefix_appendCommandNumber c _ _ _ (Or.inr (Or.inl rfl)) hrs).trans
        (List.prefix_append _ _)
  | true =>
    have hM' : (s.requests s.currentProcessingRequest).valueM ≠ 110 := fun h => hM ⟨hv, h⟩
    have hpol : numberingPolicy c (s.requests s.currentProcessingRequest) s.atDispatch
        = s.atDispatch.setResponse "Error: Max command number exceeded".toList := by
      simp [numberingPolicy, hn, hv, hM', hsat, State.atDispatch, disableSendingWaitResponses]
    have herr : "Error: ".toList <+: cstr (s.atDispatch.setResponse
        "Error: Max command number exceeded".toList).responseBuffer :=
      prefix_cstr_strcpy _ _ _ (by decide)
    obtain ⟨s', h1, h2, h3, -⟩ := mainLoopIteration_of_policy c P s _ hN hn hh hstop hacc
      hheat hpol (by decide)
    rw [appendCommandNumber_error c _ _ herr] at h2 h3
    refine ⟨s', _, h1, h2, ?_, fun _ => ?_, fun h => Bool.noConfusion h⟩
    · rw [h3]; exact hsat
    · simp only [State.setResponse, cstr_strcpy]
      decide

/-- C7 (amended), at the line `N3 G28` with a good checksum and the saturated
current command number. -/
theorem C7_saturated_counter_witness :
    ∃ s' line, mainLoopIteration exampleConstants loggingPeripherals false
        (exampleState exampleG28 UINT64_MAX) = some s'
      ∧ s'.usb = (exampleState exampleG28 UINT64_MAX).usb ++ [line]
      ∧ s'.currentCommandNumber = UINT64_MAX
      ∧ (((exampleState exampleG28 UINT64_MAX).requests
            (exampleState exampleG28 UINT64_MAX).currentProcessingRequest).has
            exampleConstants.VALID_CHECKSUM_OFFSET = true →
          line = "Error: Max command number exceeded\n".toList)
      ∧ (((exampleState exampleG28 UINT64_MAX).requests
            (exampleState exampleG28 UINT64_MAX).currentProcessingRequest).has
            exampleConstants.VALID_CHECKSUM_OFFSET = false →
          "rs".toList <+: line) :=
  C7_saturated_counter exampleConstants loggingPeripherals (exampleState exampleG28 UINT64_MAX)
    (by decide) (by decide) (by decide) (by decide) (by decide) (by decide) (by decide)
    (by decide)

/-- C8 (as stated, refuted): the slot holds `M115 S628`, no emergency stop is
pending, and the iteration ends in the soft reset: no response is sent. -/
theorem C8_counterexample :
    (((exampleState exampleM115Reset 0).requests
        (exampleState exampleM115Reset 0).currentProcessingRequest).commandParameters ≠ 0
      ∧ (exampleState exampleM115Reset 0).emergencyStopOccured = false)
    ∧ (mainLoopIteration exampleConstants loggingPeripherals false
        (exampleState exampleM115Reset 0)).isSome = false := by
  decide

/-- C8 (amended): for every occupied queue slot dispatched while no emergency
stop is pending or arrives, unless the command is the soft reset (M field
present, code 115, S value 628), the main loop sends exactly one line, which
ends with a newline and begins with `ok`, `rs`, `skip` or `Error: `; so the
response is never empty. -/
theorem C8_one_response (c : Constants) (P : Peripherals H R) (s : State H R)
    (hocc : (s.requests s.currentProcessingRequest).commandParameters ≠ 0)
    (hstop : s.emergencyStopOccured = false)
    (hreset : ¬((s.requests s.currentProcessingRequest).has c.PARAMETER_M_OFFSET = true
      ∧ (s.requests s.currentProcessingRequest).valueM = 115
      ∧ (s.requests s.currentProcessingRequest).valueS = 628)) :
    ∃ s' response, mainLoopIteration c P false s = some s'
      ∧ s'.usb = s.usb ++ [response ++ ['\n']]
      ∧ StartsWithProtocolWord response ∧ response ≠ [] := by
  have hsome := produceResponse_isSome c P (s.requests s.currentProcessingRequest)
    (disableSendingWaitResponses s) hreset
  obtain ⟨t, ht⟩ := Option.isSome_iff_exists.mp hsome
  obtain ⟨s', h1, h2, -⟩ := mainLoopIteration_dispatch c P false s t hocc hstop ht
  rw [if_neg Bool.false_ne_true] at h2
  obtain ⟨p1, -⟩ := produceResponse_spec c P _ _ t ht
  refine ⟨s', _, h1, h2, p1, ?_⟩
  rcases p1 with p | p | p | p <;> exact ne_nil_of_start p (by decide)

/-- C8 (amended), at the line `N7 M114`. -/
theorem C8_one_response_witness :
    ∃ s' response, mainLoopIteration exampleConstants loggingPeripherals false
        (exampleState exampleM114 7) = some s'
      ∧ s'.usb = (exampleState exampleM114 7).usb ++ [response ++ ['\n']]
      ∧ StartsWithProtocolWord response ∧ response ≠ [] :=
  C8_one_response exampleConstants loggingPeripherals (exampleState exampleM114 7)
    (by decide) (by decide) (by decide)

/-- C9: for every dispatched command with the N field (not a host command, no
emergency stop pending or arriving, accelerometer and heater working) whose
handler response, the content of the response buffer at line 638, is one of the
words `ok`, `rs`, `skip` followed by `rest`, and fits the buffer together with
the number, the line sent is that word, one space, the decimal number, then
`rest` unchanged and the newline. The number is the command's N for `ok` and
`skip` and the current command number for `rs`. -/
theorem C9_number_inserted (c : Constants) (P : Peripherals H R) (s sh : State H R)
    (tok rest : List Char) (hN : c.NIsParameterBit)
    (hn : (s.requests s.currentProcessingRequest).has c.PARAMETER_N_OFFSET = true)
    (hh : (s.requests s.currentProcessingRequest).has c.PARAMETER_HOST_COMMAND_OFFSET = false)
    (hstop : s.emergencyStopOccured = false)
    (hacc : s.motors.accelerometerIsWorking = true)
    (hheat : P.heaterIsWorking s.hw = true)
    (hresp : handlerResponse c P (s.requests s.currentProcessingRequest) s.atDispatch = some sh)
    (htok : tok = "ok".toList ∨ tok = "rs".toList ∨ tok = "skip".toList)
    (hcs : cstr sh.responseBuffer = tok ++ rest)
    (hfit : strlen sh.responseBuffer
      + (ulltoa (if tok = "rs".toList then s.currentCommandNumber
          else (s.requests s.currentProcessingRequest).valueN)).length + 4
      ≤ sh.responseBuffer.length) :
    ∃ s', mainLoopIteration c P false s = some s'
      ∧ s'.usb = s.usb ++ [tok ++ ' ' :: ulltoa (if tok = "rs".toList then s.currentCommandNumber
          else (s.requests s.currentProcessingRequest).valueN) ++ rest ++ ['\n']] := by
  have hocc := commandParameters_ne_zero_of_has _ _ hn
  have hpre : tok <+: cstr sh.responseBuffer := by rw [hcs]; exact List.prefix_append _ _
  have htokne : tok ≠ [] := by rcases htok with rfl | rfl | rfl <;> decide
  -- an `rs` response comes from the numbering policy, which then left the number alone
  have hnum : tok = "rs".toList → sh.currentCommandNumber = s.currentCommandNumber := by
    intro hrs
    subst hrs
    obtain ⟨hccn, hshape⟩ := handlerResponse_spec c P _ _ sh hresp
    rw [hccn]
    rcases numberingPolicy_cases c (s.requests s.currentProcessingRequest) s.atDispatch with
      ⟨-, hp⟩ | ⟨-, -, hp⟩ | ⟨-, -, -, hp⟩ | ⟨-, -, -, -, hp⟩ | ⟨-, -, -, -, -, hp⟩
        | ⟨-, -, -, -, -, hp⟩ | ⟨-, -, -, -, -, hp⟩
    · rw [hp]; rfl
    · rw [hp]; rfl
    · exfalso
      rcases hshape with ⟨hne, -⟩ | ⟨-, -, h0 | ha⟩
      · rw [hp] at hne; exact hne (cstr_setByte_zero_nul _)
      · exact ne_nil_of_start hpre (by decide) h0
      · rcases ha with ha | ha
        · exact not_ok_of_rs _ hpre ha
        · exact not_prefix_of_firstByte _ _ 'E' 'r' ['s'] rfl (by decide)
            (firstByte_of_start _ _ 'E' "rror: ".toList rfl ha) hpre
    · rw [hp]; rfl
    · rw [hp]; rfl
    · rw [hp]; rfl
    · rw [hp]; rfl
  have hprod := produceResponse_numbered c P _ (disableSendingWaitResponses s) _ hN hn hh
    hacc hheat hresp
  rw [defaultResponse_of_ne_nil _ (cstr_appendCommandNumber_ne_nil c _ _
    (ne_nil_of_start hpre htokne))] at hprod
  obtain ⟨s', h1, h2, -⟩ := mainLoopIteration_dispatch c P false s _ hocc hstop hprod
  rw [if_neg Bool.false_ne_true] at h2
  have hsame : (if tok = "rs".toList then sh.currentCommandNumber
        else (s.requests s.currentProcessingRequest).valueN)
      = (if tok = "rs".toList then s.currentCommandNumber
        else (s.requests s.currentProcessingRequest).valueN) := by
    by_cases hrs : tok = "rs".toList
    · rw [if_pos hrs, if_pos hrs, hnum hrs]
    · rw [if_neg hrs, if_neg hrs]
  have hexact := cstr_appendCommandNumber c (s.requests s.currentProcessingRequest) sh tok
    rest hn htok hcs (by rw [hsame]; exact hfit)
  rw [hsame] at hexact
  refine ⟨s', h1, ?_⟩
  rw [h2, hexact]

set_option maxRecDepth 8192 in
/-- C9, at the line `N7 M114`, whose handler response is `ok`, a newline and
the four coordinates. -/
theorem C9_number_inserted_witness :
    ∃ s', mainLoopIteration exampleConstants loggingPeripherals false
        (exampleState exampleM114 7) = some s'
      ∧ s'.usb = (exampleState exampleM114 7).usb
          ++ ["ok".toList ++ ' ' :: ulltoa (if "ok".toList = "rs".toList then
              (exampleState exampleM114 7).currentCommandNumber
            else ((exampleState exampleM114 7).requests
              (exampleState exampleM114 7).currentProcessingRequest).valueN)
            ++ "\nX:0 Y:0 Z:0 E:0".toList ++ ['\n']] :=
  C9_number_inserted exampleConstants loggingPeripherals (exampleState exampleM114 7)
    ((handlerResponse exampleConstants loggingPeripherals exampleM114
      (exampleState exampleM114 7).atDispatch).getD (exampleState exampleM114 7))
    "ok".toList "\nX:0 Y:0 Z:0 E:0".toList
    (by decide) (by decide) (by decide) (by decide) (by decide) (by decide) (by rfl)
    (Or.inl rfl) (by decide) (by decide)

/-- The fixed health error: the accelerometer's takes precedence. -/
theorem produceResponse_unhealthy (c : Constants) (P : Peripherals H R) (g : Gcode R)
    (s : State H R)
    (h : s.motors.accelerometerIsWorking = false ∨ P.heaterIsWorking s.hw = false) :
    produceResponse c P g s = some (s.setResponse
      (if s.motors.accelerometerIsWorking = false then
        "Error: Accelerometer isn't working".toList
      else "Error: Heater isn't working".toList)) := by
  unfold produceResponse
  cases hacc : s.motors.accelerometerIsWorking with
  | false => simp
  | true =>
    rcases h with h | h
    · rw [hacc] at h; exact Bool.noConfusion h
    · simp [h]

/-- C10 (as stated, refuted): the heater reports not working and an emergency
stop is pending; the dispatch of the occupied slot is answered with nothing. -/
theorem C10_counterexample :
    (((exampleStateStopped exampleM110 9).requests
        (exampleStateStopped exampleM110 9).currentProcessingRequest).commandParameters ≠ 0
      ∧ loggingPeripherals.heaterIsWorking (exampleStateStopped exampleM110 9).hw = false)
    ∧ (mainLoopIteration exampleConstants loggingPeripherals false
        (exampleStateStopped exampleM110 9)).map (fun s => s.usb)
      = some (exampleStateStopped exampleM110 9).usb
    ∧ (exampleStateStopped exampleM110 9).usb = [] := by
  decide

/-- C10 (amended): while the accelerometer or the heater reports not working
and no emergency stop is pending or arrives, every dispatched command
(whatever its fields, M110 included) is answered with the fixed health error,
the accelerometer's taking precedence; the dispatch changes neither the current
command number nor the motor members (position, feed rate, mode) nor the
hardware state: it frees the slot and advances the consumer index. -/
theorem C10_health_interlock (c : Constants) (P : Peripherals H R) (s : State H R)
    (hocc : (s.requests s.currentProcessingRequest).commandParameters ≠ 0)
    (hstop : s.emergencyStopOccured = false)
    (hbad : s.motors.accelerometerIsWorking = false ∨ P.heaterIsWorking s.hw = false) :
    ∃ s', mainLoopIteration c P false s = some s'
      ∧ s'.usb = s.usb ++ [if s.motors.accelerometerIsWorking = false then
          "Error: Accelerometer isn't working\n".toList
        else "Error: Heater isn't working\n".toList]
      ∧ s'.currentCommandNumber = s.currentCommandNumber
      ∧ s'.motors.currentValues = s.motors.currentValues
      ∧ s'.motors.mode = s.motors.mode
      ∧ s'.motors = s.motors ∧ s'.hw = s.hw
      ∧ s'.requests = s.requestsCleared
      ∧ s'.currentProcessingRequest = nextSlot s.currentProcessingRequest
      ∧ s'.emergencyStopOccured = false ∧ s'.serialNumber = s.serialNumber := by
  have hprod := produceResponse_unhealthy c P (s.requests s.currentProcessingRequest)
    (disableSendingWaitResponses s) hbad
  obtain ⟨s', h1, h2, h3, h4, h5, h6, h7, h8, -, h10⟩ :=
    mainLoopIteration_dispatch c P false s _ hocc hstop hprod
  rw [if_neg Bool.false_ne_true] at h2
  have hm : s'.motors = s.motors := by rw [h4]; rfl
  refine ⟨s', h1, ?_, ?_, ?_, ?_, hm, ?_, h6, h7, h8, h10⟩
  · rw [h2]
    simp only [State.setResponse, cstr_strcpy, disableSendingWaitResponses]
    split <;> rfl
  · rw [h3]; rfl
  · rw [hm]
  · rw [hm]
  · rw [h5]; rfl

/-- C10 (amended), at the line `N5 M110` on a machine whose heater has
failed. -/
theorem C10_health_interlock_witness :
    ∃ s', mainLoopIteration exampleConstants loggingPeripherals false
        (exampleStateHeaterFailed exampleM110 9) = some s'
      ∧ s'.usb = (exampleStateHeaterFailed exampleM110 9).usb
          ++ [if (exampleStateHeaterFailed exampleM110 9).motors.accelerometerIsWorking
              = false then
          "Error: Accelerometer isn't working\n".toList
        else "Error: Heater isn't working\n".toList]
      ∧ s'.currentCommandNumber = (exampleStateHeaterFailed exampleM110 9).currentCommandNumber
      ∧ s'.motors.currentValues = (exampleStateHeaterFailed exampleM110 9).motors.currentValues
      ∧ s'.motors.mode = (exampleStateHeaterFailed exampleM110 9).motors.mode
      ∧ s'.motors = (exampleStateHeaterFailed exampleM110 9).motors
      ∧ s'.hw = (exampleStateHeaterFailed exampleM110 9).hw
      ∧ s'.requests = (exampleStateHeaterFailed exampleM110 9).requestsCleared
      ∧ s'.currentProcessingRequest
          = nextSlot (exampleStateHeaterFailed exampleM110 9).currentProcessingRequest
      ∧ s'.emergencyStopOccured = false
      ∧ s'.serialNumber = (exampleStateHeaterFailed exampleM110 9).serialNumber :=
  C10_health_interlock exampleConstants loggingPeripherals
    (exampleStateHeaterFailed exampleM110 9) (by decide) (by decide) (Or.inr (by decide))

/-! ## Lemmas on commands that reach their handler -/

/-- A command with a field whose flag is a parameter bit passes the test of
line 190. -/
theorem hasGcode_of_has (c : Constants) (g : Gcode R) (flag : Nat)
    (hflag : c.IsParameterBit flag) (hn : g.has flag = true) : g.hasGcode c = true := by
  unfold Gcode.has at hn
  unfold Gcode.hasGcode
  obtain ⟨hdisj, hlt⟩ := hflag
  have hne : g.commandParameters &&& flag ≠ 0 := by simpa using hn
  obtain ⟨i, hi⟩ := Nat.ne_zero_implies_bit_true hne
  rw [Nat.testBit_and, Bool.and_eq_true] at hi
  have hmask : (c.VALID_CHECKSUM_OFFSET ||| c.PARSED_OFFSET).testBit i = false := by
    have h0 : (flag &&& (c.VALID_CHECKSUM_OFFSET ||| c.PARSED_OFFSET)).testBit i
        = false := by rw [hdisj]; exact Nat.zero_testBit i
    rw [Nat.testBit_and, hi.2] at h0
    simpa using h0
  have hi16 : i < 16 := by
    by_contra hge
    have hpow : flag < 2 ^ i :=
      lt_of_lt_of_le hlt (by
        calc (65536 : Nat) = 2 ^ 16 := by norm_num
          _ ≤ 2 ^ i := Nat.pow_le_pow_right (by norm_num) (by omega))
    have := Nat.testBit_lt_two_pow hpow
    rw [hi.2] at this
    exact Bool.noConfusion this
  have hff : (65535 : Nat).testBit i = true := by
    interval_cases i <;> decide
  have hbit : (g.commandParameters &&&
      (65535 ^^^ (c.VALID_CHECKSUM_OFFSET ||| c.PARSED_OFFSET))).testBit i = true := by
    rw [Nat.testBit_and, Nat.testBit_xor, hi.1, hff, hmask]; rfl
  have : g.commandParameters &&&
      (65535 ^^^ (c.VALID_CHECKSUM_OFFSET ||| c.PARSED_OFFSET)) ≠ 0 := by
    intro h0
    rw [h0, Nat.zero_testBit] at hbit
    exact Bool.noConfusion hbit
  simpa using this

/-- A command that passes the numbering policy leaves the state as it is. -/
theorem numberingPolicy_of_passes (c : Constants) (g : Gcode R) (s : State H R)
    (h : PassesNumbering c g s.currentCommandNumber) : numberingPolicy c g s = s := by
  unfold numberingPolicy
  rcases h with h | ⟨hv, hm, hmax, heq⟩
  · simp [h]
  · cases hn : g.has c.PARAMETER_N_OFFSET with
    | false => simp
    | true => simp [hv, hm, hmax, heq]

/-- The response to a command that passes the health checks and the numbering
policy is what its handler leaves, with the command number appended and the
empty response replaced. -/
theorem produceResponse_handler (c : Constants) (P : Peripherals H R) (g : Gcode R)
    (s v : State H R) (hgc : g.hasGcode c = true)
    (hh : g.has c.PARAMETER_HOST_COMMAND_OFFSET = false)
    (hacc : s.motors.accelerometerIsWorking = true) (hheat : P.heaterIsWorking s.hw = true)
    (hnum : PassesNumbering c g s.currentCommandNumber)
    (hv : handleCommand c P g { s with responseBuffer := setByte s.responseBuffer 0 NUL }
      = some v) :
    produceResponse c P g s = some (defaultResponse (appendCommandNumber c g v)) := by
  have hpol : numberingPolicy c g { s with responseBuffer := setByte s.responseBuffer 0 NUL }
      = { s with responseBuffer := setByte s.responseBuffer 0 NUL } :=
    numberingPolicy_of_passes c g _ hnum
  have hhr : handlerResponse c P g { s with responseBuffer := setByte s.responseBuffer 0 NUL }
      = some v := by
    rw [handlerResponse_of_handler, hpol, hv]
    rw [hpol]
    exact cstr_setByte_zero_nul _
  unfold produceResponse processCommand
  simp only [hacc, hheat, hgc, hh, hhr, Bool.not_true, Bool.false_eq_true,
    if_false, if_true, Option.map_some']

/-- An iteration that dispatches the command at the consumer index ends in
`afterDispatch`. -/
theorem mainLoopIteration_afterDispatch (c : Constants) (P : Peripherals H R)
    (stopArrives : Bool) (s s1 : State H R)
    (hocc : (s.requests s.currentProcessingRequest).commandParameters ≠ 0)
    (hstop : s.emergencyStopOccured = false)
    (hp : produceResponse c P (s.requests s.currentProcessingRequest)
      (disableSendingWaitResponses s) = some s1) :
    mainLoopIteration c P stopArrives s = some (afterDispatch stopArrives s1) := by
  obtain ⟨q1, q2, q3, q4, q5, q6, q7⟩ := queueUnchanged_produceResponse c P _ _ s1 hp
  simp only [disableSendingWaitResponses] at q1 q2 q3 q4 q5 q6 q7
  unfold mainLoopIteration afterDispatch
  rw [if_pos hocc]
  simp only [disableSendingWaitResponses, hstop, Bool.not_false, if_true] at hp ⊢
  rw [hp]
  cases stopArrives <;>
    simp [State.appendResponse, q5, hstop]

/-- A command that passes the health checks and the numbering policy: the line
sent and the state left, in terms of the state `v` its handler leaves. -/
theorem mainLoopIteration_handler (c : Constants) (P : Peripherals H R) (s v : State H R)
    (hgc : (s.requests s.currentProcessingRequest).hasGcode c = true)
    (hh : (s.requests s.currentProcessingRequest).has c.PARAMETER_HOST_COMMAND_OFFSET = false)
    (hstop : s.emergencyStopOccured = false)
    (hacc : s.motors.accelerometerIsWorking = true) (hheat : P.heaterIsWorking s.hw = true)
    (hnum : PassesNumbering c (s.requests s.currentProcessingRequest) s.currentCommandNumber)
    (hv : handleCommand c P (s.requests s.currentProcessingRequest) s.atDispatch = some v) :
    mainLoopIteration c P false s = some (afterDispatch false
        (defaultResponse (appendCommandNumber c (s.requests s.currentProcessingRequest) v)))
      ∧ ∃ s', mainLoopIteration c P false s = some s'
        ∧ s'.usb = s.usb ++ [cstr (defaultResponse (appendCommandNumber c
            (s.requests s.currentProcessingRequest) v)).responseBuffer ++ ['\n']]
        ∧ s'.currentCommandNumber = (appendCommandNumber c
            (s.requests s.currentProcessingRequest) v).currentCommandNumber
        ∧ s'.motors = v.motors ∧ s'.hw = v.hw
        ∧ s'.requests = s.requestsCleared
        ∧ s'.currentProcessingRequest = nextSlot s.currentProcessingRequest
        ∧ s'.emergencyStopOccured = false := by
  have hocc : (s.requests s.currentProcessingRequest).commandParameters ≠ 0 := by
    intro h0
    simp [Gcode.hasGcode, h0] at hgc
  have hp : produceResponse c P (s.requests s.currentProcessingRequest)
      (disableSendingWaitResponses s) = some (defaultResponse (appendCommandNumber c
        (s.requests s.currentProcessingRequest) v)) :=
    produceResponse_handler c P _ (disableSendingWaitResponses s) v hgc hh hacc hheat hnum hv
  refine ⟨mainLoopIteration_afterDispatch c P false s _ hocc hstop hp, ?_⟩
  obtain ⟨s', h1, h2, h3, h4, h5, h6, h7, h8, -, -⟩ :=
    mainLoopIteration_dispatch c P false s _ hocc hstop hp
  have hd : ∀ t : State H R, (defaultResponse t).currentCommandNumber = t.currentCommandNumber
      ∧ (defaultResponse t).motors = t.motors ∧ (defaultResponse t).hw = t.hw := by
    intro t
    unfold defaultResponse
    split <;> simp [State.setResponse]
  refine ⟨s', h1, ?_, ?_, ?_, ?_, h6, h7, h8⟩
  · simpa using h2
  · rw [h3, (hd _).1]
  · rw [h4, (hd _).2.1, (motors_hw_appendCommandNumber c _ v).1]
  · rw [h5, (hd _).2.2, (motors_hw_appendCommandNumber c _ v).2]

/-- The M handler leaves the state alone on a code that is not a case label. -/
theorem handleM_unknown (c : Constants) (P : Peripherals H R) (g : Gcode R) (s : State H R)
    (h : g.valueM ∉ handledMCodes) : handleM c P g s = some s := by
  unfold handleM
  split
  all_goals first | (exfalso; apply h; simp [handledMCodes, *]; done) | rfl

/-- The G handler leaves the state alone on a code that is not a case label. -/
theorem handleG_unknown (c : Constants) (P : Peripherals H R) (g : Gcode R) (s : State H R)
    (h : g.valueG ∉ handledGCodes) : handleG c P g s = s := by
  unfold handleG
  split
  all_goals first | (exfalso; apply h; simp [handledGCodes, *]; done) | rfl

/-- The line sent for an empty handler response. -/
theorem unknown_command_line (c : Constants) (g : Gcode R) (v : State H R)
    (h : cstr v.responseBuffer = []) :
    cstr (defaultResponse (appendCommandNumber c g v)).responseBuffer
        = "Error: Unknown G-code command".toList
      ∧ (appendCommandNumber c g v).currentCommandNumber = v.currentCommandNumber := by
  rw [appendCommandNumber_nil c g v h, defaultResponse_of_nil v h]
  refine ⟨?_, rfl⟩
  show cstr (strcpy v.responseBuffer "Error: Unknown G-code command".toList) = _
  rw [cstr_strcpy]
  decide

/-! ## The claims C11 to C20: handlers, queue, emergency stop, persisted store, motion -/

/-- C11: a dispatched command that passes the health checks and the numbering
policy, and whose M code (or, with no M field, whose G code) is not a case
label of the dispatcher, is answered with exactly the line
`Error: Unknown G-code command`; the current command number, the motors and the
hardware are left as they were. The health checks are run when no emergency
stop is pending (line 169) and the line is sent when none arrives meanwhile
(line 668); the M and G flags are parameter bits and the line is not a host
command. -/
theorem C11_unknown_command (c : Constants) (P : Peripherals H R) (s : State H R)
    (hM : c.IsParameterBit c.PARAMETER_M_OFFSET) (hG : c.IsParameterBit c.PARAMETER_G_OFFSET)
    (hh : (s.requests s.currentProcessingRequest).has c.PARAMETER_HOST_COMMAND_OFFSET = false)
    (hstop : s.emergencyStopOccured = false)
    (hacc : s.motors.accelerometerIsWorking = true)
    (hheat : P.heaterIsWorking s.hw = true)
    (hnum : PassesNumbering c (s.requests s.currentProcessingRequest) s.currentCommandNumber)
    (hcode : ((s.requests s.currentProcessingRequest).has c.PARAMETER_M_OFFSET = true
        ∧ (s.requests s.currentProcessingRequest).valueM ∉ handledMCodes)
      ∨ ((s.requests s.currentProcessingRequest).has c.PARAMETER_M_OFFSET = false
        ∧ (s.requests s.currentProcessingRequest).has c.PARAMETER_G_OFFSET = true
        ∧ (s.requests s.currentProcessingRequest).valueG ∉ handledGCodes)) :
    ∃ s', mainLoopIteration c P false s = some s'
      ∧ s'.usb = s.usb ++ ["Error: Unknown G-code command\n".toList]
      ∧ s'.currentCommandNumber = s.currentCommandNumber
      ∧ s'.motors = s.motors ∧ s'.hw = s.hw := by
  have hgc : (s.requests s.currentProcessingRequest).hasGcode c = true := by
    rcases hcode with ⟨hm, -⟩ | ⟨-, hg, -⟩
    · exact hasGcode_of_has c _ _ hM hm
    · exact hasGcode_of_has c _ _ hG hg
  have hv : handleCommand c P (s.requests s.currentProcessingRequest) s.atDispatch
      = some s.atDispatch := by
    unfold handleCommand
    rcases hcode with ⟨hm, hno⟩ | ⟨hm, hg, hno⟩
    · rw [if_pos hm]
      exact handleM_unknown c P _ _ hno
    · rw [if_neg (by rw [hm]; exact Bool.false_ne_true), if_pos hg,
        handleG_unknown c P _ _ hno]
  have hnil : cstr s.atDispatch.responseBuffer = [] := cstr_setByte_zero_nul _
  obtain ⟨-, s', h1, h2, h3, h4, h5, -⟩ :=
    mainLoopIteration_handler c P s s.atDispatch hgc hh hstop hacc hheat hnum hv
  obtain ⟨hline, hccn⟩ := unknown_command_line c (s.requests s.currentProcessingRequest)
    s.atDispatch hnil
  refine ⟨s', h1, ?_, ?_, h4, h5⟩
  · rw [h2, hline]
    rfl
  · rw [h3, hccn]
    rfl

/-- C11, at the line `N3 G5` with the current command number 3. -/
theorem C11_unknown_command_witness :
    ∃ s', mainLoopIteration exampleConstants loggingPeripherals false
        (exampleState exampleG5 3) = some s'
      ∧ s'.usb = (exampleState exampleG5 3).usb ++ ["Error: Unknown G-code command\n".toList]
      ∧ s'.currentCommandNumber = (exampleState exampleG5 3).currentCommandNumber
      ∧ s'.motors = (exampleState exampleG5 3).motors
      ∧ s'.hw = (exampleState exampleG5 3).hw :=
  C11_unknown_command exampleConstants loggingPeripherals (exampleState exampleG5 3)
    (by decide) (by decide) (by decide) (by decide) (by decide) (by decide) (by decide)
    (Or.inr ⟨by decide, by decide, by decide⟩)

/-- The dispatch of a G0 or G1 with an E field while the heater temperature is
zero, for any implementation of the peripherals. -/
theorem extruder_cold_dispatch (c : Constants) (P : Peripherals H R) (s : State H R)
    (hG : c.IsParameterBit c.PARAMETER_G_OFFSET)
    (hh : (s.requests s.currentProcessingRequest).has c.PARAMETER_HOST_COMMAND_OFFSET = false)
    (hstop : s.emergencyStopOccured = false)
    (hacc : s.motors.accelerometerIsWorking = true)
    (hheat : P.heaterIsWorking s.hw = true)
    (hnum : PassesNumbering c (s.requests s.currentProcessingRequest) s.currentCommandNumber)
    (hm : (s.requests s.currentProcessingRequest).has c.PARAMETER_M_OFFSET = false)
    (hg : (s.requests s.currentProcessingRequest).has c.PARAMETER_G_OFFSET = true)
    (hcode : (s.requests s.currentProcessingRequest).valueG = 0
      ∨ (s.requests s.currentProcessingRequest).valueG = 1)
    (he : (s.requests s.currentProcessingRequest).has c.PARAMETER_E_OFFSET = true)
    (hcold : P.floatIsNonzero (P.heaterGetTemperature s.hw) = false) :
    mainLoopIteration c P false s = some (afterDispatch false
        (defaultResponse (appendCommandNumber c (s.requests s.currentProcessingRequest)
          (s.atDispatch.setResponse
            "Error: Can't use the extruder when the heater is off".toList))))
      ∧ ∃ s', mainLoopIteration c P false s = some s'
        ∧ s'.usb = s.usb ++ ["Error: Can't use the extruder when the heater is off\n".toList]
        ∧ s'.motors = s.motors ∧ s'.hw = s.hw
        ∧ s'.currentCommandNumber = s.currentCommandNumber := by
  have hgc := hasGcode_of_has c _ _ hG hg
  have hcold2 : P.floatIsNonzero (P.heaterGetTemperature s.atDispatch.hw) = false := hcold
  have hv : handleCommand c P (s.requests s.currentProcessingRequest) s.atDispatch
      = some (s.atDispatch.setResponse
          "Error: Can't use the extruder when the heater is off".toList) := by
    unfold handleCommand
    rw [if_neg (by rw [hm]; exact Bool.false_ne_true), if_pos hg]
    unfold handleG
    rcases hcode with h0 | h0 <;> rw [h0] <;> simp only [he, hcold2] <;> rfl
  have hcs : cstr (s.atDispatch.setResponse
      "Error: Can't use the extruder when the heater is off".toList).responseBuffer
      = "Error: Can't use the extruder when the heater is off".toList := by
    show cstr (strcpy _ _) = _
    rw [cstr_strcpy]
    decide
  have herr : "Error: ".toList <+: cstr (s.atDispatch.setResponse
      "Error: Can't use the extruder when the heater is off".toList).responseBuffer := by
    rw [hcs]
    decide
  obtain ⟨hexact, s', h1, h2, h3, h4, h5, -⟩ :=
    mainLoopIteration_handler c P s _ hgc hh hstop hacc hheat hnum hv
  refine ⟨hexact, s', h1, ?_, h4, h5, ?_⟩
  · rw [h2, appendCommandNumber_error c _ _ herr, defaultResponse_of_ne_nil _ (by
      rw [hcs]; decide), hcs]
    rfl
  · rw [h3, appendCommandNumber_error c _ _ herr]
    rfl

/-- C12 (as stated, refuted): the line `G1 E2`, which has the E field, is
dispatched while the heater temperature is zero and the heater reports not
working. The health check of lines 178-181 comes before the handler: the line
sent is the health error, not the extruder error. -/
theorem C12_counterexample :
    (exampleG1E.has exampleConstants.PARAMETER_G_OFFSET = true
      ∧ exampleG1E.valueG = 1
      ∧ exampleG1E.has exampleConstants.PARAMETER_E_OFFSET = true
      ∧ loggingPeripherals.floatIsNonzero (loggingPeripherals.heaterGetTemperature
          (exampleStateHeaterFailed exampleG1E 0).hw) = false)
    ∧ (mainLoopIteration exampleConstants loggingPeripherals false
        (exampleStateHeaterFailed exampleG1E 0)).map (fun s => s.usb)
      = some ["Error: Heater isn't working\n".toList]
    ∧ "Error: Heater isn't working\n".toList
      ≠ "Error: Can't use the extruder when the heater is off\n".toList := by
  decide

/-- C12 (amended): a G0 or G1 with the E field that reaches its handler (no
emergency stop pending or arriving, accelerometer and heater working, not a host
command, numbering policy passed, no M field), dispatched while the heater
temperature is zero, is answered with the line
`Error: Can't use the extruder when the heater is off`; motors and hardware are
left as they were, so the step schedule and the machine position are unchanged,
and the outcome is the same whatever `Motors::move` does: it is not invoked. -/
theorem C12_extruder_needs_heat (c : Constants) (P : Peripherals H R) (s : State H R)
    (hG : c.IsParameterBit c.PARAMETER_G_OFFSET)
    (hh : (s.requests s.currentProcessingRequest).has c.PARAMETER_HOST_COMMAND_OFFSET = false)
    (hstop : s.emergencyStopOccured = false)
    (hacc : s.motors.accelerometerIsWorking = true)
    (hheat : P.heaterIsWorking s.hw = true)
    (hnum : PassesNumbering c (s.requests s.currentProcessingRequest) s.currentCommandNumber)
    (hm : (s.requests s.currentProcessingRequest).has c.PARAMETER_M_OFFSET = false)
    (hg : (s.requests s.currentProcessingRequest).has c.PARAMETER_G_OFFSET = true)
    (hcode : (s.requests s.currentProcessingRequest).valueG = 0
      ∨ (s.requests s.currentProcessingRequest).valueG = 1)
    (he : (s.requests s.currentProcessingRequest).has c.PARAMETER_E_OFFSET = true)
    (hcold : P.floatIsNonzero (P.heaterGetTemperature s.hw) = false) :
    ∃ s', mainLoopIteration c P false s = some s'
      ∧ s'.usb = s.usb ++ ["Error: Can't use the extruder when the heater is off\n".toList]
      ∧ s'.motors = s.motors ∧ s'.hw = s.hw
      ∧ s'.currentCommandNumber = s.currentCommandNumber
      ∧ ∀ move : Gcode R → Motors R → H → Motors R × H,
          mainLoopIteration c { P with motorsMove := move } false s = some s' := by
  obtain ⟨hexact, s', h1, h2, h3, h4, h5⟩ :=
    extruder_cold_dispatch c P s hG hh hstop hacc hheat hnum hm hg hcode he hcold
  refine ⟨s', h1, h2, h3, h4, h5, ?_⟩
  intro move
  rw [(extruder_cold_dispatch c { P with motorsMove := move } s hG hh hstop hacc hheat hnum
    hm hg hcode he hcold).1, ← hexact, h1]

/-- C12 (amended), at the line `G1 E2` on the machine whose heater works and
whose heater temperature is zero. -/
theorem C12_extruder_needs_heat_witness :
    ∃ s', mainLoopIteration exampleConstants loggingPeripherals false
        (exampleState exampleG1E 0) = some s'
      ∧ s'.usb = (exampleState exampleG1E 0).usb
          ++ ["Error: Can't use the extruder when the heater is off\n".toList]
      ∧ s'.motors = (exampleState exampleG1E 0).motors
      ∧ s'.hw = (exampleState exampleG1E 0).hw
      ∧ s'.currentCommandNumber = (exampleState exampleG1E 0).currentCommandNumber
      ∧ ∀ move : Gcode Int → Motors Int → List String → Motors Int × List String,
          mainLoopIteration exampleConstants { loggingPeripherals with motorsMove := move }
            false (exampleState exampleG1E 0) = some s' :=
  C12_extruder_needs_heat exampleConstants loggingPeripherals (exampleState exampleG1E 0)
    (by decide) (by decide) (by decide) (by decide) (by decide) (by decide) (by decide)
    (by decide) (Or.inr rfl) (by decide) (by decide)

/-- The loop over the lines of a burst without an emergency stop goes on with
the lines that follow. -/
theorem ingestLines_append (c : Constants) (pre rest : List (Gcode R)) (f : Firmware H R)
    (hpre : ∀ g ∈ pre, isEmergencyStop c g = false) :
    ingestLines c (pre ++ rest) f = ingestLines c rest (ingestLines c pre f) := by
  induction pre generalizing f with
  | nil => rfl
  | cons g tl ih =>
    have hg : isEmergencyStop c g = false := hpre g (List.mem_cons_self _ _)
    simp only [List.cons_append, ingestLines, hg, Bool.false_eq_true, if_false]
    exact ih _ (fun x hx => hpre x (List.mem_cons_of_mem _ hx))

/-- Storing a request leaves the emergency-stop flag alone. -/
theorem emergencyStopOccured_storeRequest (g : Gcode R) (f : Firmware H R) :
    (storeRequest g f).main.emergencyStopOccured = f.main.emergencyStopOccured := by
  unfold storeRequest
  split <;> rfl

/-- C14: in a burst that the callback processes (no emergency stop pending at
line 739), with the lines `pre` that are no emergency stop, then an emergency
stop (M field with code 0, no N field or a valid checksum), then the lines
`post`: the flag is set, and the queue and the producer index are those left by
a burst that consists of `pre` alone, so neither the directive nor a line of
`post` is stored. A line with M code 0 that has N and an invalid checksum is no
emergency stop: it goes to the queue like any other line and the loop goes on. -/
theorem C14_emergency_stop_in_burst (c : Constants) (f : Firmware H R)
    (pre post : List (Gcode R)) (stop : Gcode R)
    (hclear : f.main.emergencyStopOccured = false)
    (hpre : ∀ g ∈ pre, isEmergencyStop c g = false)
    (hm : stop.has c.PARAMETER_M_OFFSET = true) (hcode : stop.valueM = 0)
    (hsum : stop.has c.PARAMETER_N_OFFSET = false ∨ stop.has c.VALID_CHECKSUM_OFFSET = true) :
    (cdcRxNotifyCallback c (pre ++ stop :: post) f).main.emergencyStopOccured = true
      ∧ (cdcRxNotifyCallback c (pre ++ stop :: post) f).main.requests
          = (cdcRxNotifyCallback c pre f).main.requests
      ∧ (cdcRxNotifyCallback c (pre ++ stop :: post) f).currentReceivingRequest
          = (cdcRxNotifyCallback c pre f).currentReceivingRequest
      ∧ cdcRxNotifyCallback c (pre ++ stop :: post) f
          = raiseEmergencyStop (cdcRxNotifyCallback c pre f)
      ∧ ∀ (g : Gcode R) (rest : List (Gcode R)),
          g.has c.PARAMETER_M_OFFSET = true → g.valueM = 0
          → g.has c.PARAMETER_N_OFFSET = true → g.has c.VALID_CHECKSUM_OFFSET = false
          → isEmergencyStop c g = false
            ∧ cdcRxNotifyCallback c (g :: rest) f
                = cdcRxNotifyCallback c rest (storeRequest g f) := by
  have hstop : isEmergencyStop c stop = true := by
    unfold isEmergencyStop
    rcases hsum with h | h <;> simp [hm, hcode, h]
  have hmain : cdcRxNotifyCallback c (pre ++ stop :: post) f
      = raiseEmergencyStop (cdcRxNotifyCallback c pre f) := by
    unfold cdcRxNotifyCallback
    simp only [hclear, Bool.not_false, if_true]
    rw [ingestLines_append c pre _ f hpre]
    simp only [ingestLines, hstop, if_true]
  refine ⟨?_, ?_, ?_, hmain, ?_⟩
  · rw [hmain]; rfl
  · rw [hmain]; rfl
  · rw [hmain]; rfl
  · intro g rest hgm hg0 hgn hgv
    have hno : isEmergencyStop c g = false := by
      unfold isEmergencyStop
      simp [hgn, hgv]
    refine ⟨hno, ?_⟩
    unfold cdcRxNotifyCallback
    rw [emergencyStopOccured_storeRequest]
    simp only [hclear, Bool.not_false, if_true, ingestLines, hno, Bool.false_eq_true, if_false]

/-- C14, at the burst `G28`, `M0`, `G90` on a machine with an empty queue: the
flag is set and the queue is the one left by `G28` alone. -/
theorem C14_emergency_stop_in_burst_witness :
    (cdcRxNotifyCallback exampleConstants ([exampleG28Plain] ++ exampleM0 :: [exampleG90])
        exampleFirmware).main.emergencyStopOccured = true
      ∧ (cdcRxNotifyCallback exampleConstants ([exampleG28Plain] ++ exampleM0 :: [exampleG90])
          exampleFirmware).main.requests
          = (cdcRxNotifyCallback exampleConstants [exampleG28Plain] exampleFirmware).main.requests
      ∧ (cdcRxNotifyCallback exampleConstants ([exampleG28Plain] ++ exampleM0 :: [exampleG90])
          exampleFirmware).currentReceivingRequest
          = (cdcRxNotifyCallback exampleConstants [exampleG28Plain]
              exampleFirmware).currentReceivingRequest
      ∧ cdcRxNotifyCallback exampleConstants ([exampleG28Plain] ++ exampleM0 :: [exampleG90])
          exampleFirmware
          = raiseEmergencyStop
              (cdcRxNotifyCallback exampleConstants [exampleG28Plain] exampleFirmware)
      ∧ ∀ (g : Gcode Int) (rest : List (Gcode Int)),
          g.has exampleConstants.PARAMETER_M_OFFSET = true → g.valueM = 0
          → g.has exampleConstants.PARAMETER_N_OFFSET = true
          → g.has exampleConstants.VALID_CHECKSUM_OFFSET = false
          → isEmergencyStop exampleConstants g = false
            ∧ cdcRxNotifyCallback exampleConstants (g :: rest) exampleFirmware
                = cdcRxNotifyCallback exampleConstants rest (storeRequest g exampleFirmware) :=
  C14_emergency_stop_in_burst exampleConstants exampleFirmware [exampleG28Plain] [exampleG90]
    exampleM0 (by decide) (by decide) (by decide) (by decide) (Or.inl (by decide))

/-- C15: while the emergency-stop flag is set, an iteration of the main loop
that finds the slot at the consumer index empty clears the flag, after it has
reset fan, heater, LED and motors in this order, and sends the single line `ok`;
an iteration that finds the slot occupied keeps the flag set and sends nothing;
the receive callback leaves the whole state as it is, whatever the lines. So
the flag is cleared by the recovery only. -/
theorem C15_flag_cleared_by_recovery_only (c : Constants) (P : Peripherals H R)
    (stopArrives : Bool) (f : Firmware H R) (hset : f.main.emergencyStopOccured = true) :
    ((f.main.requests f.main.currentProcessingRequest).commandParameters = 0 →
        ∃ f', f.mainLoopIteration c P stopArrives = some f'
          ∧ f'.main.emergencyStopOccured = false
          ∧ f'.main.usb = f.main.usb ++ ["ok\n".toList]
          ∧ (f'.main.motors, f'.main.hw)
              = P.motorsReset f.main.motors (P.ledSetBrightness c.LED_MAX_BRIGHTNESS
                  (P.heaterReset (P.fanSetSpeed c.FAN_MIN_SPEED f.main.hw))))
      ∧ ((f.main.requests f.main.currentProcessingRequest).commandParameters ≠ 0 →
        ∃ f', f.mainLoopIteration c P stopArrives = some f'
          ∧ f'.main.emergencyStopOccured = true
          ∧ f'.main.usb = f.main.usb)
      ∧ ∀ lines : List (Gcode R), cdcRxNotifyCallback c lines f = f := by
  refine ⟨?_, ?_, ?_⟩
  · intro hempty
    refine ⟨{ f with main := emergencyStopRecovery c P f.main }, ?_, rfl, ?_, rfl⟩
    · unfold Firmware.mainLoopIteration mainLoopIteration
      rw [if_neg (by rw [hempty]; exact fun h => h rfl), if_pos hset]
      rfl
    · show f.main.usb ++ [cstr "ok\n".toList] = _
      rw [show cstr "ok\n".toList = "ok\n".toList by decide]
  · intro hocc
    refine ⟨{ f with main := finishRequest (disableSendingWaitResponses f.main) }, ?_, ?_, rfl⟩
    · unfold Firmware.mainLoopIteration mainLoopIteration
      rw [if_pos hocc]
      simp [disableSendingWaitResponses, hset]
    · exact hset
  · intro lines
    unfold cdcRxNotifyCallback
    simp [hset]

/-- C15, on the machine with an empty queue and an emergency stop pending. -/
theorem C15_flag_cleared_by_recovery_only_witness :
    ((exampleFirmwareStopped.main.requests
          exampleFirmwareStopped.main.currentProcessingRequest).commandParameters = 0 →
        ∃ f', exampleFirmwareStopped.mainLoopIteration exampleConstants loggingPeripherals false
            = some f'
          ∧ f'.main.emergencyStopOccured = false
          ∧ f'.main.usb = exampleFirmwareStopped.main.usb ++ ["ok\n".toList]
          ∧ (f'.main.motors, f'.main.hw)
              = loggingPeripherals.motorsReset exampleFirmwareStopped.main.motors
                  (loggingPeripherals.ledSetBrightness exampleConstants.LED_MAX_BRIGHTNESS
                    (loggingPeripherals.heaterReset
                      (loggingPeripherals.fanSetSpeed exampleConstants.FAN_MIN_SPEED
                        exampleFirmwareStopped.main.hw))))
      ∧ ((exampleFirmwareStopped.main.requests
          exampleFirmwareStopped.main.currentProcessingRequest).commandParameters ≠ 0 →
        ∃ f', exampleFirmwareStopped.mainLoopIteration exampleConstants loggingPeripherals false
            = some f'
          ∧ f'.main.emergencyStopOccured = true
          ∧ f'.main.usb = exampleFirmwareStopped.main.usb)
      ∧ ∀ lines : List (Gcode Int),
          cdcRxNotifyCallback exampleConstants lines exampleFirmwareStopped
            = exampleFirmwareStopped :=
  C15_flag_cleared_by_recovery_only exampleConstants loggingPeripherals false
    exampleFirmwareStopped (by decide)

/-! ## Lemmas on the ring of requests -/

theorem nextSlot_eq (i : Nat) (hi : i < 10) : nextSlot i = (i + 1) % 10 := by
  unfold nextSlot REQUEST_BUFFER_SIZE
  split <;> omega

/-- The walk of the consumer finds the commands that sit in consecutive slots. -/
theorem heldFrom_eq (requests : Nat → Gcode R) (q : List (Gcode R)) :
    ∀ (i fuel : Nat), i < 10 → q.length ≤ fuel
      → (∀ k, k < q.length → q[k]? = some (requests ((i + k) % 10)))
      → (∀ g ∈ q, g.commandParameters ≠ 0)
      → (q.length < fuel → (requests ((i + q.length) % 10)).commandParameters = 0)
      → heldFrom requests i fuel = q := by
  induction q with
  | nil =>
    intro i fuel hi _ _ _ hend
    cases fuel with
    | zero => rfl
    | succ n =>
      have h0 := hend (by simp)
      simp only [List.length_nil, Nat.add_zero, Nat.mod_eq_of_lt hi] at h0
      simp [heldFrom, h0]
  | cons g tl ih =>
    intro i fuel hi hlen hget hne hend
    cases fuel with
    | zero => simp at hlen
    | succ n =>
      have hg : g = requests i := by
        have h0 := hget 0 (by simp)
        simpa [Nat.mod_eq_of_lt hi] using h0
      have hcp : (requests i).commandParameters ≠ 0 :=
        hg ▸ hne g (List.mem_cons_self _ _)
      rw [heldFrom, if_pos hcp, ← hg]
      congr 1
      have hnext := nextSlot_eq i hi
      apply ih (nextSlot i) n
      · rw [hnext]; omega
      · simpa using hlen
      · intro k hk
        have h1 := hget (k + 1) (by simpa using hk)
        rw [List.getElem?_cons_succ] at h1
        rw [h1, hnext]
        congr 2
        omega
      · intro x hx
        exact hne x (List.mem_cons_of_mem _ hx)
      · intro hlt
        have h1 := hend (by simpa using hlt)
        rw [← h1, hnext]
        congr 2
        simp only [List.length_cons]
        omega

/-- The commands the consumer will take are the commands the ring holds. -/
theorem held_of_ringHolds (c : Constants) (f : Firmware H R) (q : List (Gcode R))
    (h : RingHolds c f q) : f.held = q := by
  obtain ⟨h1, -, h3, -, h5, h6, h7⟩ := h
  unfold REQUEST_BUFFER_SIZE at h1 h3 h5 h7
  unfold Firmware.held REQUEST_BUFFER_SIZE
  exact heldFrom_eq _ q _ 10 h1 h3 h5 (fun g hg => (h6 g hg).1)
    (fun hlt => h7 _ (le_refl _) hlt)

/-- The callback on a single line that is no emergency stop stores the line. -/
theorem cdcRxNotifyCallback_single (c : Constants) (g : Gcode R) (f : Firmware H R)
    (hclear : f.main.emergencyStopOccured = false) (hg : isEmergencyStop c g = false) :
    cdcRxNotifyCallback c [g] f = storeRequest g f := by
  unfold cdcRxNotifyCallback
  simp only [hclear, Bool.not_false, if_true, ingestLines, hg, Bool.false_eq_true, if_false]

/-- The producer slot is empty exactly when the ring holds fewer than ten
commands. -/
theorem producer_slot_empty_iff (c : Constants) (f : Firmware H R) (q : List (Gcode R))
    (h : RingHolds c f q) :
    (f.main.requests f.currentReceivingRequest).commandParameters = 0
      ↔ q.length < REQUEST_BUFFER_SIZE := by
  obtain ⟨h1, -, h3, h4, h5, h6, h7⟩ := h
  constructor
  · intro h0
    by_contra hfull
    have hlen : q.length = REQUEST_BUFFER_SIZE := by omega
    have hpos : 0 < q.length := by rw [hlen]; decide
    have hk := h5 0 hpos
    have hcrr : f.currentReceivingRequest
        = (f.main.currentProcessingRequest + 0) % REQUEST_BUFFER_SIZE := by
      rw [h4, hlen]
      unfold REQUEST_BUFFER_SIZE at h1 ⊢
      omega
    rw [← hcrr] at hk
    have hmem : f.main.requests f.currentReceivingRequest ∈ q :=
      List.getElem?_mem hk
    exact (h6 _ hmem).1 h0
  · intro hlt
    rw [h4]
    exact h7 _ (le_refl _) hlt

/-- An ingest step on a ring that holds `q`: the command is appended when the
ring holds fewer than ten commands, and dropped otherwise. -/
theorem ringHolds_ingest (c : Constants) (f : Firmware H R) (q : List (Gcode R)) (g : Gcode R)
    (h : RingHolds c f q) (hcp : g.commandParameters ≠ 0)
    (hg : isEmergencyStop c g = false) (hreset : ¬ g.isSoftReset c) :
    RingHolds c (cdcRxNotifyCallback c [g] f)
      (if q.length < REQUEST_BUFFER_SIZE then q ++ [g] else q) := by
  have hslot := producer_slot_empty_iff c f q h
  obtain ⟨h1, h2, h3, h4, h5, h6, h7⟩ := h
  rw [cdcRxNotifyCallback_single c g f h2 hg]
  unfold storeRequest
  by_cases hlt : q.length < REQUEST_BUFFER_SIZE
  · rw [if_pos (hslot.2 hlt), if_pos hlt]
    unfold REQUEST_BUFFER_SIZE at h1 h3 h4 h5 h7 hlt
    refine ⟨h1, h2, ?_, ?_, ?_, ?_, ?_⟩
    · simp only [List.length_append, List.length_singleton, REQUEST_BUFFER_SIZE]
      omega
    · simp only [List.length_append, List.length_singleton, REQUEST_BUFFER_SIZE]
      rw [h4]
      split <;> omega
    · intro k hk
      simp only [List.length_append, List.length_singleton] at hk
      simp only [REQUEST_BUFFER_SIZE]
      by_cases hkq : k < q.length
      · rw [List.getElem?_append_left hkq, h5 k hkq, Function.update_noteq]
        rw [h4]
        omega
      · have hkeq : k = q.length := by omega
        subst hkeq
        rw [List.getElem?_append_right (le_refl _), ← h4, Function.update_same]
        simp
    · intro x hx
      rcases List.mem_append.1 hx with hx | hx
      · exact h6 x hx
      · rw [List.mem_singleton] at hx
        subst hx
        exact ⟨hcp, hreset⟩
    · intro k hk hk10
      simp only [List.length_append, List.length_singleton] at hk
      simp only [REQUEST_BUFFER_SIZE] at hk10 ⊢
      rw [Function.update_noteq]
      · exact h7 k (by omega) hk10
      · rw [h4]
        omega
  · have hocc : (f.main.requests f.currentReceivingRequest).commandParameters ≠ 0 :=
      fun h0 => hlt (hslot.1 h0)
    rw [if_neg hocc, if_neg hlt]
    exact ⟨h1, h2, h3, h4, h5, h6, h7⟩

/-- A dispatch step on a ring that holds `q`: the iteration returns, the ring
then holds the tail of `q`, and the slot at the consumer index was occupied,
by the head of `q`, exactly when `q` is not empty. -/
theorem ringHolds_dispatch (c : Constants) (P : Peripherals H R) (f : Firmware H R)
    (q : List (Gcode R)) (h : RingHolds c f q) :
    ∃ f', f.mainLoopIteration c P false = some f' ∧ RingHolds c f' q.tail
      ∧ (if (f.main.requests f.main.currentProcessingRequest).commandParameters ≠ 0 then
          [f.main.requests f.main.currentProcessingRequest] else []) = q.take 1 := by
  obtain ⟨h1, h2, h3, h4, h5, h6, h7⟩ := h
  cases q with
  | nil =>
    have hempty : (f.main.requests f.main.currentProcessingRequest).commandParameters = 0 := by
      have h0 := h7 0 (le_refl _) (by decide)
      rwa [Nat.add_zero, Nat.mod_eq_of_lt h1] at h0
    refine ⟨f, ?_, ⟨h1, h2, h3, h4, h5, h6, h7⟩, ?_⟩
    · unfold Firmware.mainLoopIteration mainLoopIteration
      rw [if_neg (by rw [hempty]; exact fun h => h rfl),
        if_neg (by rw [h2]; exact Bool.false_ne_true)]
      rfl
    · rw [if_neg (by rw [hempty]; exact fun h => h rfl)]
      rfl
  | cons g rest =>
    have hg : f.main.requests f.main.currentProcessingRequest = g := by
      have h0 := h5 0 (by simp)
      rw [Nat.add_zero, Nat.mod_eq_of_lt h1] at h0
      simpa using h0.symm
    obtain ⟨hcp, hreset⟩ := h6 g (List.mem_cons_self _ _)
    have hocc : (f.main.requests f.main.currentProcessingRequest).commandParameters ≠ 0 := by
      rw [hg]; exact hcp
    have hsome := produceResponse_isSome c P (f.main.requests f.main.currentProcessingRequest)
      (disableSendingWaitResponses f.main) (by rw [hg]; exact hreset)
    obtain ⟨s1, hs1⟩ := Option.isSome_iff_exists.1 hsome
    obtain ⟨s', e1, -, -, -, -, e6, e7, e8, -, -⟩ :=
      mainLoopIteration_dispatch c P false f.main s1 hocc h2 hs1
    refine ⟨{ f with main := s' }, ?_, ?_, ?_⟩
    · unfold Firmware.mainLoopIteration
      rw [e1]
      rfl
    · have hnext := nextSlot_eq _ h1
      unfold REQUEST_BUFFER_SIZE at h1 h3 h4 h5 h7
      simp only [List.length_cons] at h3 h4 h5 h7
      refine ⟨?_, e8, ?_, ?_, ?_, ?_, ?_⟩
      · show s'.currentProcessingRequest < REQUEST_BUFFER_SIZE
        rw [e7, hnext]
        unfold REQUEST_BUFFER_SIZE
        omega
      · simp only [List.tail_cons, REQUEST_BUFFER_SIZE]
        omega
      · show f.currentReceivingRequest = (s'.currentProcessingRequest + _) % REQUEST_BUFFER_SIZE
        simp only [List.tail_cons, REQUEST_BUFFER_SIZE]
        rw [e7, hnext, h4]
        omega
      · intro k hk
        simp only [List.tail_cons] at hk ⊢
        show rest[k]? = some (s'.requests ((s'.currentProcessingRequest + k)
          % REQUEST_BUFFER_SIZE))
        have h0 := h5 (k + 1) (by omega)
        rw [List.getElem?_cons_succ] at h0
        rw [h0, e6, e7, hnext]
        unfold State.requestsCleared REQUEST_BUFFER_SIZE
        rw [Function.update_noteq (by omega)]
        congr 2
        omega
      · intro x hx
        exact h6 x (List.mem_cons_of_mem _ hx)
      · intro k hk hk10
        simp only [List.tail_cons] at hk
        show (s'.requests ((s'.currentProcessingRequest + k)
          % REQUEST_BUFFER_SIZE)).commandParameters = 0
        unfold REQUEST_BUFFER_SIZE at hk10 ⊢
        rw [e6, e7, hnext]
        unfold State.requestsCleared
        by_cases hk9 : k = 9
        · subst hk9
          have hidx : ((f.main.currentProcessingRequest + 1) % 10 + 9) % 10
              = f.main.currentProcessingRequest := by omega
          rw [hidx, Function.update_same]
        · rw [Function.update_noteq (by omega)]
          have h0 := h7 (k + 1) (by omega) (by omega)
          rw [← h0]
          congr 2
          omega
    · rw [if_pos hocc, hg]
      rfl

/-- The producer of the specification. -/
theorem fifo_step_ingest (q : Fifo R) (g : Gcode R) :
    q.step (QueueStep.ingest g)
      = if q.held.length < REQUEST_BUFFER_SIZE then
          { q with held := q.held ++ [g], stored := q.stored ++ [g] }
        else q := rfl

/-- The consumer of the specification takes the head of the queue. -/
theorem fifo_step_dispatch (q : Fifo R) :
    (q.step QueueStep.dispatch).held = q.held.tail
      ∧ (q.step QueueStep.dispatch).dispatched = q.dispatched ++ q.held.take 1
      ∧ (q.step QueueStep.dispatch).stored = q.stored := by
  have h : q.step QueueStep.dispatch
      = match q.held with
        | [] => q
        | g :: rest => { q with held := rest, dispatched := q.dispatched ++ [g] } := rfl
  rw [h]
  cases hq : q.held with
  | nil => simp [hq]
  | cons g rest => simp

/-- In the queue of the specification the commands stored are those taken out
followed by those held, and at most ten are held. -/
theorem fifo_invariant (steps : List (QueueStep R)) :
    ∀ q : Fifo R, q.dispatched ++ q.held = q.stored → q.held.length ≤ REQUEST_BUFFER_SIZE →
      (steps.foldl Fifo.step q).dispatched ++ (steps.foldl Fifo.step q).held
          = (steps.foldl Fifo.step q).stored
        ∧ (steps.foldl Fifo.step q).held.length ≤ REQUEST_BUFFER_SIZE := by
  induction steps with
  | nil => intro q h1 h2; exact ⟨h1, h2⟩
  | cons step rest ih =>
    intro q h1 h2
    rw [List.foldl_cons]
    apply ih
    · cases step with
      | ingest g =>
        rw [fifo_step_ingest]
        split
        · simp only
          rw [← List.append_assoc, h1]
        · exact h1
      | dispatch =>
        obtain ⟨e1, e2, e3⟩ := fifo_step_dispatch q
        rw [e1, e2, e3, ← h1]
        cases q.held <;> simp
    · cases step with
      | ingest g =>
        rw [fifo_step_ingest]
        split
        · simp only [List.length_append, List.length_singleton]
          omega
        · exact h2
      | dispatch =>
        rw [(fifo_step_dispatch q).1, List.length_tail]
        omega

/-- A run of the firmware from a ring that holds the queue of the
specification follows the specification step by step. -/
theorem queueRun_refines (c : Constants) (P : Peripherals H R) (steps : List (QueueStep R)) :
    ∀ (f : Firmware H R) (q : Fifo R), RingHolds c f q.held
      → (∀ g, QueueStep.ingest g ∈ steps →
          g.commandParameters ≠ 0 ∧ isEmergencyStop c g = false ∧ ¬ g.isSoftReset c)
      → ∃ f', queueRun c P steps (f, q.dispatched)
            = some (f', (steps.foldl Fifo.step q).dispatched)
          ∧ RingHolds c f' (steps.foldl Fifo.step q).held := by
  induction steps with
  | nil => intro f q h _; exact ⟨f, rfl, h⟩
  | cons step rest ih =>
    intro f q h hsteps
    have hrest : ∀ g, QueueStep.ingest g ∈ rest →
        g.commandParameters ≠ 0 ∧ isEmergencyStop c g = false ∧ ¬ g.isSoftReset c :=
      fun g hg => hsteps g (List.mem_cons_of_mem _ hg)
    rw [List.foldl_cons]
    cases step with
    | ingest g =>
      obtain ⟨hcp, hg, hreset⟩ := hsteps g (List.mem_cons_self _ _)
      have hnew := ringHolds_ingest c f q.held g h hcp hg hreset
      have hheld : (q.step (QueueStep.ingest g)).held
          = if q.held.length < REQUEST_BUFFER_SIZE then q.held ++ [g] else q.held := by
        rw [fifo_step_ingest]
        split <;> rfl
      have hdisp : (q.step (QueueStep.ingest g)).dispatched = q.dispatched := by
        rw [fifo_step_ingest]
        split <;> rfl
      rw [← hheld] at hnew
      obtain ⟨f', hrun, hinv⟩ := ih _ (q.step (QueueStep.ingest g)) hnew hrest
      refine ⟨f', ?_, hinv⟩
      rw [← hrun, hdisp]
      rfl
    | dispatch =>
      obtain ⟨f1, hiter, hnew, htaken⟩ := ringHolds_dispatch c P f q.held h
      obtain ⟨e1, e2, -⟩ := fifo_step_dispatch q
      rw [← e1] at hnew
      obtain ⟨f', hrun, hinv⟩ := ih _ (q.step QueueStep.dispatch) hnew hrest
      refine ⟨f', ?_, hinv⟩
      have hstep : queueStep c P QueueStep.dispatch (f, q.dispatched)
          = some (f1, q.dispatched ++ List.take 1 q.held) := by
        show Option.map _ (Firmware.mainLoopIteration c P false f) = _
        rw [hiter, ← htaken]
        simp only [Option.map_some']
        split <;> simp
      show (queueStep c P QueueStep.dispatch (f, q.dispatched)).bind (queueRun c P rest) = _
      rw [hstep, Option.some_bind, ← e2]
      exact hrun

/-- C13 (as stated, refuted): the run ingests `M115 S628` and `G28` into an
empty ring and then dispatches twice. Both commands have a nonzero presence
bitmask and neither is an emergency stop, and both are stored, in that order.
The first dispatch reaches the soft reset of line 342, which does not return:
the run ends there and `G28`, which was stored, is never dispatched, where the
queue of the specification hands out both. -/
theorem C13_counterexample :
    (exampleM115Reset.commandParameters ≠ 0
      ∧ isEmergencyStop exampleConstants exampleM115Reset = false
      ∧ exampleG28Plain.commandParameters ≠ 0
      ∧ isEmergencyStop exampleConstants exampleG28Plain = false)
    ∧ (queueRun exampleConstants loggingPeripherals
        [QueueStep.ingest exampleM115Reset, QueueStep.ingest exampleG28Plain]
        (exampleFirmware, [])).map (fun fd => fd.1.held.map (fun g => (g.valueM, g.valueG)))
      = some [(115, 0), (0, 28)]
    ∧ (queueRun exampleConstants loggingPeripherals
        [QueueStep.ingest exampleM115Reset, QueueStep.ingest exampleG28Plain,
          QueueStep.dispatch, QueueStep.dispatch] (exampleFirmware, [])).isSome = false
    ∧ (Fifo.run [QueueStep.ingest exampleM115Reset, QueueStep.ingest exampleG28Plain,
        QueueStep.dispatch, QueueStep.dispatch]).dispatched.map (fun g => (g.valueM, g.valueG))
      = [(115, 0), (0, 28)] := by
  decide

/-- C13 (amended): from an empty ring (every slot empty, producer index at the
consumer index, no emergency stop pending), for every interleaving of ingest
steps, whose commands have a nonzero presence bitmask and are neither an
emergency stop nor the soft reset `M115 S628`, and of dispatch steps, the run
returns and follows the
first-in first-out queue of capacity ten of the specification: the commands held
in the ring are those of the queue, at most ten; the commands dispatched are
those taken out of the queue, in order; dispatched followed by held are the
commands stored. In the state reached, the next command is stored, and the
producer index advanced, when the slot at the producer index is empty, and is
dropped with no change at all otherwise. -/
theorem C13_ring_queue_fifo (c : Constants) (P : Peripherals H R) (f : Firmware H R)
    (steps : List (QueueStep R))
    (hidx : f.main.currentProcessingRequest < REQUEST_BUFFER_SIZE)
    (hprod : f.currentReceivingRequest = f.main.currentProcessingRequest)
    (hempty : ∀ i, (f.main.requests i).commandParameters = 0)
    (hclear : f.main.emergencyStopOccured = false)
    (hsteps : ∀ g, QueueStep.ingest g ∈ steps →
      g.commandParameters ≠ 0 ∧ isEmergencyStop c g = false ∧ ¬ g.isSoftReset c) :
    ∃ f' dispatched, queueRun c P steps (f, []) = some (f', dispatched)
      ∧ f'.held = (Fifo.run steps).held
      ∧ dispatched = (Fifo.run steps).dispatched
      ∧ f'.held.length ≤ REQUEST_BUFFER_SIZE
      ∧ dispatched ++ f'.held = (Fifo.run steps).stored
      ∧ ((f'.main.requests f'.currentReceivingRequest).commandParameters = 0
          ↔ f'.held.length < REQUEST_BUFFER_SIZE)
      ∧ ∀ g : Gcode R, isEmergencyStop c g = false →
          ((f'.main.requests f'.currentReceivingRequest).commandParameters = 0 →
            cdcRxNotifyCallback c [g] f'
              = { f' with
                  main := { f'.main with
                    requests := Function.update f'.main.requests f'.currentReceivingRequest g }
                  currentReceivingRequest := nextSlot f'.currentReceivingRequest })
          ∧ ((f'.main.requests f'.currentReceivingRequest).commandParameters ≠ 0 →
            cdcRxNotifyCallback c [g] f' = f') := by
  have hinit : RingHolds c f (Fifo.mk [] [] [] : Fifo R).held := by
    refine ⟨hidx, hclear, Nat.zero_le _, ?_, ?_, ?_, ?_⟩
    · rw [hprod]
      exact (Nat.mod_eq_of_lt hidx).symm
    · intro k hk
      exact absurd hk (Nat.not_lt_zero _)
    · intro g hg
      exact absurd hg (List.not_mem_nil _)
    · intro k _ _
      exact hempty _
  obtain ⟨f', hrun, hinv⟩ := queueRun_refines c P steps f ⟨[], [], []⟩ hinit hsteps
  obtain ⟨hfifo, hlen⟩ := fifo_invariant steps (⟨[], [], []⟩ : Fifo R) rfl (Nat.zero_le _)
  have hheld := held_of_ringHolds c f' _ hinv
  have hslot := producer_slot_empty_iff c f' _ hinv
  refine ⟨f', _, hrun, hheld, rfl, ?_, ?_, ?_, ?_⟩
  · rw [hheld]; exact hlen
  · rw [hheld]; exact hfifo
  · rw [hheld]; exact hslot
  · intro g hg
    obtain ⟨h1, h2, h3, h4, -⟩ := hinv
    rw [cdcRxNotifyCallback_single c g f' h2 hg]
    have hcrr : f'.currentReceivingRequest < 10 := by
      rw [h4]
      unfold REQUEST_BUFFER_SIZE
      omega
    constructor
    · intro h0
      unfold storeRequest
      rw [if_pos h0]
      have hnext : (if f'.currentReceivingRequest = REQUEST_BUFFER_SIZE - 1 then 0
          else (f'.currentReceivingRequest + 1) % 256) = nextSlot f'.currentReceivingRequest := by
        unfold nextSlot REQUEST_BUFFER_SIZE
        split
        · rfl
        · omega
      rw [hnext]
    · intro h0
      unfold storeRequest
      rw [if_neg h0]

/-- C13 (amended), at the run that ingests `G28` and `G90` into an empty ring and
then dispatches twice. -/
theorem C13_ring_queue_fifo_witness :
    ∃ f' dispatched, queueRun exampleConstants loggingPeripherals
        [QueueStep.ingest exampleG28Plain, QueueStep.ingest exampleG90, QueueStep.dispatch,
          QueueStep.dispatch] (exampleFirmware, []) = some (f', dispatched)
      ∧ f'.held = (Fifo.run [QueueStep.ingest exampleG28Plain, QueueStep.ingest exampleG90,
          QueueStep.dispatch, QueueStep.dispatch]).held
      ∧ dispatched = (Fifo.run [QueueStep.ingest exampleG28Plain, QueueStep.ingest exampleG90,
          QueueStep.dispatch, QueueStep.dispatch]).dispatched
      ∧ f'.held.length ≤ REQUEST_BUFFER_SIZE
      ∧ dispatched ++ f'.held = (Fifo.run [QueueStep.ingest exampleG28Plain,
          QueueStep.ingest exampleG90, QueueStep.dispatch, QueueStep.dispatch]).stored
      ∧ ((f'.main.requests f'.currentReceivingRequest).commandParameters = 0
          ↔ f'.held.length < REQUEST_BUFFER_SIZE)
      ∧ ∀ g : Gcode Int, isEmergencyStop exampleConstants g = false →
          ((f'.main.requests f'.currentReceivingRequest).commandParameters = 0 →
            cdcRxNotifyCallback exampleConstants [g] f'
              = { f' with
                  main := { f'.main with
                    requests := Function.update f'.main.requests f'.currentReceivingRequest g }
                  currentReceivingRequest := nextSlot f'.currentReceivingRequest })
          ∧ ((f'.main.requests f'.currentReceivingRequest).commandParameters ≠ 0 →
            cdcRxNotifyCallback exampleConstants [g] f' = f') :=
  C13_ring_queue_fifo exampleConstants loggingPeripherals exampleFirmware
    [QueueStep.ingest exampleG28Plain, QueueStep.ingest exampleG90, QueueStep.dispatch,
      QueueStep.dispatch]
    (by decide) rfl (fun i => by unfold exampleFirmware exampleState; dsimp only; split <;> rfl)
    rfl
    (by
      intro g hg
      simp only [List.mem_cons, QueueStep.ingest.injEq, List.mem_singleton, reduceCtorEq,
        or_false, List.not_mem_nil] at hg
      rcases hg with rfl | rfl <;> decide)

/-! ## Lemmas on the persisted store -/

/-- The validation of line 400 adds the offset and the length as `int32_t`: for
the offset 2147483647 and the length 1 the sum wraps to -2147483648, which is
less than the size of the store, so `M619 S2147483647 T1` is accepted and the
read is made; the offset 1023 with the length 1 reaches the size of the store
and is not accepted. -/
theorem handleM_store_read_wraps :
    toInt32 (toInt32 exampleM619Last.valueS + ((exampleM619Last.valueT % 256 : Nat) : Int))
        = -2147483648
      ∧ (handleM exampleConstants storePeripherals exampleM619Last exampleStoreState).map
          (fun s => cstr s.responseBuffer) = some "ok\nPT:2147483647 DT:255".toList
      ∧ (handleM exampleConstants storePeripherals { exampleM619Last with valueS := 1023 }
          exampleStoreState).map (fun s => cstr s.responseBuffer) = some [] := by
  decide


/-- A fitted plane passes through its first point. -/
theorem getZ_generatePlaneEquation_first (v1 v2 v3 point : Vector)
    (hx : point.x = v1.x) (hy : point.y = v1.y)
    (hz : (generatePlaneEquation v1 v2 v3).z ≠ 0) :
    getZFromXYAndPlane point (generatePlaneEquation v1 v2 v3) = v1.z := by
  unfold getZFromXYAndPlane
  rw [div_eq_iff (neg_ne_zero.mpr hz), hx, hy]
  simp only [generatePlaneEquation, calculatePlaneNormalVector, Vector.sub]
  ring

/-- A fitted plane passes through its second point. -/
theorem getZ_generatePlaneEquation_second (v1 v2 v3 point : Vector)
    (hx : point.x = v2.x) (hy : point.y = v2.y)
    (hz : (generatePlaneEquation v1 v2 v3).z ≠ 0) :
    getZFromXYAndPlane point (generatePlaneEquation v1 v2 v3) = v2.z := by
  unfold getZFromXYAndPlane
  rw [div_eq_iff (neg_ne_zero.mpr hz), hx, hy]
  simp only [generatePlaneEquation, calculatePlaneNormalVector, Vector.sub]
  ring

/-- A fitted plane passes through its third point. -/
theorem getZ_generatePlaneEquation_third (v1 v2 v3 point : Vector)
    (hx : point.x = v3.x) (hy : point.y = v3.y)
    (hz : (generatePlaneEquation v1 v2 v3).z ≠ 0) :
    getZFromXYAndPlane point (generatePlaneEquation v1 v2 v3) = v3.z := by
  unfold getZFromXYAndPlane
  rw [div_eq_iff (neg_ne_zero.mpr hz), hx, hy]
  simp only [generatePlaneEquation, calculatePlaneNormalVector, Vector.sub]
  ring

/-- The C coefficients of the four planes of a fitted bed do not depend on the
heights of the corners. -/
theorem fittedBed_plane_z (backRight backLeft frontLeft frontRight : ℚ) :
    (fittedBed backRight backLeft frontLeft frontRight).backPlane.z = -4050
      ∧ (fittedBed backRight backLeft frontLeft frontRight).leftPlane.z = 4050
      ∧ (fittedBed backRight backLeft frontLeft frontRight).rightPlane.z = -4050
      ∧ (fittedBed backRight backLeft frontLeft frontRight).frontPlane.z = 4050 := by
  simp only [fittedBed, Bed.updatePlanes, Bed.setCornerHeights, initialBed,
    generatePlaneEquation, calculatePlaneNormalVector, Vector.sub]
  norm_num

/-- C16: in exact arithmetic, for all corner heights, with the four planes
fitted to the corners and to the center, whose Z is 0, the height adjustment at
the position of each of the four corners (9,5), (99,5), (99,95) and (9,95) is
that corner's Z; the C coefficient of each of the four planes is not zero. -/
theorem C16_corner_heights (normalize : Vector → Vector)
    (backRight backLeft frontLeft frontRight : ℚ) :
    getHeightAdjustmentRequired normalize
        (fittedBed backRight backLeft frontLeft frontRight) 9 5 = frontLeft
      ∧ getHeightAdjustmentRequired normalize
        (fittedBed backRight backLeft frontLeft frontRight) 99 5 = frontRight
      ∧ getHeightAdjustmentRequired normalize
        (fittedBed backRight backLeft frontLeft frontRight) 99 95 = backRight
      ∧ getHeightAdjustmentRequired normalize
        (fittedBed backRight backLeft frontLeft frontRight) 9 95 = backLeft
      ∧ (fittedBed backRight backLeft frontLeft frontRight).backPlane.z ≠ 0
      ∧ (fittedBed backRight backLeft frontLeft frontRight).leftPlane.z ≠ 0
      ∧ (fittedBed backRight backLeft frontLeft frontRight).rightPlane.z ≠ 0
      ∧ (fittedBed backRight backLeft frontLeft frontRight).frontPlane.z ≠ 0 := by
  obtain ⟨hb, hl, hr, hf⟩ := fittedBed_plane_z backRight backLeft frontLeft frontRight
  have hb0 : (fittedBed backRight backLeft frontLeft frontRight).backPlane.z ≠ 0 := by
    rw [hb]; norm_num
  have hl0 : (fittedBed backRight backLeft frontLeft frontRight).leftPlane.z ≠ 0 := by
    rw [hl]; norm_num
  have hr0 : (fittedBed backRight backLeft frontLeft frontRight).rightPlane.z ≠ 0 := by
    rw [hr]; norm_num
  have hf0 : (fittedBed backRight backLeft frontLeft frontRight).frontPlane.z ≠ 0 := by
    rw [hf]; norm_num
  -- each plane at the positions of the two corners it is fitted to
  have backBL : ∀ p : Vector, p.x = 9 → p.y = 95 → getZFromXYAndPlane p
      (fittedBed backRight backLeft frontLeft frontRight).backPlane = backLeft :=
    fun p hx hy => getZ_generatePlaneEquation_first _ _ _ p hx hy hb0
  have backBR : ∀ p : Vector, p.x = 99 → p.y = 95 → getZFromXYAndPlane p
      (fittedBed backRight backLeft frontLeft frontRight).backPlane = backRight :=
    fun p hx hy => getZ_generatePlaneEquation_second _ _ _ p hx hy hb0
  have leftBL : ∀ p : Vector, p.x = 9 → p.y = 95 → getZFromXYAndPlane p
      (fittedBed backRight backLeft frontLeft frontRight).leftPlane = backLeft :=
    fun p hx hy => getZ_generatePlaneEquation_first _ _ _ p hx hy hl0
  have leftFL : ∀ p : Vector, p.x = 9 → p.y = 5 → getZFromXYAndPlane p
      (fittedBed backRight backLeft frontLeft frontRight).leftPlane = frontLeft :=
    fun p hx hy => getZ_generatePlaneEquation_second _ _ _ p hx hy hl0
  have rightBR : ∀ p : Vector, p.x = 99 → p.y = 95 → getZFromXYAndPlane p
      (fittedBed backRight backLeft frontLeft frontRight).rightPlane = backRight :=
    fun p hx hy => getZ_generatePlaneEquation_first _ _ _ p hx hy hr0
  have rightFR : ∀ p : Vector, p.x = 99 → p.y = 5 → getZFromXYAndPlane p
      (fittedBed backRight backLeft frontLeft frontRight).rightPlane = frontRight :=
    fun p hx hy => getZ_generatePlaneEquation_second _ _ _ p hx hy hr0
  have frontFL : ∀ p : Vector, p.x = 9 → p.y = 5 → getZFromXYAndPlane p
      (fittedBed backRight backLeft frontLeft frontRight).frontPlane = frontLeft :=
    fun p hx hy => getZ_generatePlaneEquation_first _ _ _ p hx hy hf0
  have frontFR : ∀ p : Vector, p.x = 99 → p.y = 5 → getZFromXYAndPlane p
      (fittedBed backRight backLeft frontLeft frontRight).frontPlane = frontRight :=
    fun p hx hy => getZ_generatePlaneEquation_second _ _ _ p hx hy hf0
  have hflx : (fittedBed backRight backLeft frontLeft frontRight).frontLeftVector.x = 9 := rfl
  have hfly : (fittedBed backRight backLeft frontLeft frontRight).frontLeftVector.y = 5 := rfl
  have hfrx : (fittedBed backRight backLeft frontLeft frontRight).frontRightVector.x = 99 := rfl
  have hbry : (fittedBed backRight backLeft frontLeft frontRight).backRightVector.y = 95 := rfl
  refine ⟨?_, ?_, ?_, ?_, hb0, hl0, hr0, hf0⟩
  · unfold getHeightAdjustmentRequired
    rw [hflx, hfly, hfrx, hbry, if_neg (by norm_num), if_pos (by norm_num),
      frontFL _ rfl rfl, leftFL _ rfl rfl]
    ring
  · unfold getHeightAdjustmentRequired
    rw [hflx, hfly, hfrx, hbry, if_neg (by norm_num), if_neg (by norm_num),
      if_pos (by norm_num), frontFR _ rfl rfl, rightFR _ rfl rfl]
    ring
  · unfold getHeightAdjustmentRequired
    rw [hflx, hfly, hfrx, hbry, if_neg (by norm_num), if_neg (by norm_num),
      if_neg (by norm_num), if_pos (by norm_num), backBR _ rfl rfl, rightBR _ rfl rfl]
    ring
  · unfold getHeightAdjustmentRequired
    rw [hflx, hfly, hfrx, hbry, if_pos (by norm_num), backBL _ rfl rfl, leftBL _ rfl rfl]
    ring

/-! ## The rounding to a `float` -/

/-- The power of two of `twoPow` is the power of the rationals. -/
theorem twoPow_eq_zpow (k : ℤ) : twoPow k = (2 : ℚ) ^ k := by
  unfold twoPow
  split
  · rename_i h
    obtain ⟨n, rfl⟩ := Int.eq_ofNat_of_zero_le h
    rw [Int.toNat_ofNat, zpow_natCast]
    push_cast
    rfl
  · rename_i h
    obtain ⟨n, hn⟩ := Int.eq_ofNat_of_zero_le (show 0 ≤ -k by omega)
    have hk : k = -(n : ℤ) := by omega
    rw [hn, Int.toNat_ofNat, hk, zpow_neg, zpow_natCast]
    push_cast
    rw [one_div]

theorem twoPow_pos (k : ℤ) : 0 < twoPow k := by
  rw [twoPow_eq_zpow]
  positivity

/-- Halving finds a power of two that is at most the number. -/
theorem pow_halvings_le (fuel n : Nat) (hn : n ≠ 0) : 2 ^ halvings fuel n ≤ n := by
  induction fuel generalizing n with
  | zero =>
    show 2 ^ 0 ≤ n
    omega
  | succ fuel ih =>
    unfold halvings
    split
    · have h := ih (n / 2) (by omega)
      rw [pow_succ]
      omega
    · show 2 ^ 0 ≤ n
      omega

/-- With enough rounds, halving finds the largest power of two that is at most
the number. -/
theorem lt_pow_halvings (fuel n : Nat) (hfuel : n ≤ fuel) : n < 2 ^ (halvings fuel n + 1) := by
  induction fuel generalizing n with
  | zero =>
    show n < 2 ^ (0 + 1)
    omega
  | succ fuel ih =>
    unfold halvings
    split
    · have h := ih (n / 2) (by omega)
      rw [pow_succ]
      omega
    · show n < 2 ^ (0 + 1)
      omega

/-- The magnitude of a rational, from its numerator and its denominator. -/
theorem abs_eq_natAbs_div (q : ℚ) : |q| = (q.num.natAbs : ℚ) / (q.den : ℚ) := by
  have hden : (0 : ℚ) < q.den := by exact_mod_cast q.den_pos
  conv_lhs => rw [← Rat.num_div_den q]
  rw [abs_div, abs_of_pos hden, Nat.cast_natAbs, Int.cast_abs]

/-- Two to the binary exponent of a number is at most its magnitude. -/
theorem twoPow_binaryExponent_le (q : ℚ) (hq : q ≠ 0) : twoPow (binaryExponent q) ≤ |q| := by
  unfold binaryExponent
  split
  · assumption
  · have hnum : q.num.natAbs ≠ 0 := by
      intro h
      exact hq (Rat.zero_of_num_zero (Int.natAbs_eq_zero.mp h))
    have h1 : ((2 ^ leadingBit q.num.natAbs : ℕ) : ℚ) ≤ (q.num.natAbs : ℚ) := by
      exact_mod_cast pow_halvings_le _ _ hnum
    have h2 : (q.den : ℚ) ≤ ((2 ^ (leadingBit q.den + 1) : ℕ) : ℚ) := by
      exact_mod_cast le_of_lt (lt_pow_halvings _ _ (le_refl _))
    have hden : (0 : ℚ) < q.den := by exact_mod_cast q.den_pos
    rw [twoPow_eq_zpow, abs_eq_natAbs_div,
      show (leadingBit q.num.natAbs : ℤ) - (leadingBit q.den : ℤ) - 1
        = (leadingBit q.num.natAbs : ℤ) - ((leadingBit q.den + 1 : ℕ) : ℤ) by push_cast; ring,
      zpow_sub₀ (by norm_num : (2 : ℚ) ≠ 0), zpow_natCast, zpow_natCast]
    push_cast at h1 h2
    exact div_le_div₀ (by positivity) h1 hden h2

/-- The magnitude of a number is less than two to its binary exponent plus
one. -/
theorem lt_twoPow_binaryExponent (q : ℚ) : |q| < twoPow (binaryExponent q + 1) := by
  unfold binaryExponent
  split
  · have h1 : (q.num.natAbs : ℚ) < ((2 ^ (leadingBit q.num.natAbs + 1) : ℕ) : ℚ) := by
      exact_mod_cast lt_pow_halvings _ _ (le_refl _)
    have h2 : ((2 ^ leadingBit q.den : ℕ) : ℚ) ≤ (q.den : ℚ) := by
      exact_mod_cast pow_halvings_le _ _ q.den_nz
    rw [twoPow_eq_zpow, abs_eq_natAbs_div,
      show (leadingBit q.num.natAbs : ℤ) - (leadingBit q.den : ℤ) + 1
        = ((leadingBit q.num.natAbs + 1 : ℕ) : ℤ) - (leadingBit q.den : ℤ) by push_cast; ring,
      zpow_sub₀ (by norm_num : (2 : ℚ) ≠ 0), zpow_natCast, zpow_natCast]
    push_cast at h1 h2
    exact div_lt_div₀ h1 h2 (by positivity) (by positivity)
  · rename_i h
    rw [sub_add_cancel]
    exact lt_of_not_le h

/-- Rounding to a whole number moves a number by at most one half. -/
theorem abs_roundHalfEven_sub_le (x : ℚ) : |(roundHalfEven x : ℚ) - x| ≤ 1 / 2 := by
  have h1 := Int.floor_le x
  have h2 := Int.lt_floor_add_one x
  unfold roundHalfEven
  rw [abs_le]
  split
  · constructor <;> linarith
  · split
    · push_cast
      constructor <;> linarith
    · split
      · constructor <;> linarith
      · push_cast
        constructor <;> linarith

/-- A whole number is rounded to itself. -/
theorem roundHalfEven_intCast (z : ℤ) : roundHalfEven (z : ℚ) = z := by
  unfold roundHalfEven
  rw [Int.floor_intCast, sub_self, if_pos (by norm_num)]

theorem toFloat_zero : toFloat 0 = 0 := by
  unfold toFloat
  rw [if_pos rfl]

/-- The relative error of the rounding to a `float` is at most two to the -24
for a number in the normal range. -/
theorem abs_toFloat_sub_le (q : ℚ) (hq : twoPow (-126) ≤ |q|) :
    |toFloat q - q| ≤ |q| / 2 ^ 24 := by
  have hq0 : q ≠ 0 := by
    intro h
    rw [h, abs_zero] at hq
    exact absurd hq (not_le.mpr (twoPow_pos _))
  have he : twoPow (max (binaryExponent q) (-126)) ≤ |q| := by
    rcases le_total (binaryExponent q) (-126) with h | h
    · rw [max_eq_right h]
      exact hq
    · rw [max_eq_left h]
      exact twoPow_binaryExponent_le q hq0
  unfold toFloat
  rw [if_neg hq0]
  generalize max (binaryExponent q) (-126) = e at he ⊢
  have hu : 0 < twoPow (e - 23) := twoPow_pos _
  have hue : twoPow (e - 23) = twoPow e / 2 ^ 23 := by
    rw [twoPow_eq_zpow, twoPow_eq_zpow, zpow_sub₀ (by norm_num : (2 : ℚ) ≠ 0)]
    norm_num
  have hr := abs_roundHalfEven_sub_le (q / twoPow (e - 23))
  have heq : (roundHalfEven (q / twoPow (e - 23)) : ℚ) * twoPow (e - 23) - q
      = ((roundHalfEven (q / twoPow (e - 23)) : ℚ) - q / twoPow (e - 23)) * twoPow (e - 23) := by
    field_simp
  rw [heq, abs_mul, abs_of_pos hu]
  calc |(roundHalfEven (q / twoPow (e - 23)) : ℚ) - q / twoPow (e - 23)| * twoPow (e - 23)
      ≤ 1 / 2 * twoPow (e - 23) := mul_le_mul_of_nonneg_right hr (le_of_lt hu)
    _ = twoPow e / 2 ^ 24 := by rw [hue]; ring
    _ ≤ |q| / 2 ^ 24 := div_le_div_of_nonneg_right he (by positivity)

/-- A whole number below two to the 24 is a `float`. -/
theorem toFloat_natCast (n : Nat) (hn : n < 2 ^ 24) : toFloat (n : ℚ) = n := by
  by_cases h0 : n = 0
  · rw [h0]
    exact toFloat_zero
  have hq0 : (n : ℚ) ≠ 0 := by exact_mod_cast h0
  have hb : binaryExponent (n : ℚ) < 24 := by
    have h1 := twoPow_binaryExponent_le (n : ℚ) hq0
    rw [twoPow_eq_zpow, abs_of_nonneg (by positivity)] at h1
    have h2 : ((n : ℕ) : ℚ) < (2 : ℚ) ^ (24 : ℤ) := by
      have h3 : (n : ℚ) < ((2 ^ 24 : ℕ) : ℚ) := by exact_mod_cast hn
      have h4 : ((2 ^ 24 : ℕ) : ℚ) = (2 : ℚ) ^ (24 : ℤ) := by norm_num
      rw [← h4]
      exact h3
    exact (zpow_lt_zpow_iff_right₀ (by norm_num : (1 : ℚ) < 2)).mp (lt_of_le_of_lt h1 h2)
  unfold toFloat
  rw [if_neg hq0]
  obtain ⟨m, hm⟩ := Int.eq_ofNat_of_zero_le
    (show 0 ≤ 23 - max (binaryExponent (n : ℚ)) (-126) by
      have := max_le (Int.le_of_lt_add_one hb) (by norm_num : (-126 : ℤ) ≤ 23)
      omega)
  have hk : max (binaryExponent (n : ℚ)) (-126) - 23 = -(m : ℤ) := by omega
  rw [hk, twoPow_eq_zpow, zpow_neg, zpow_natCast, div_inv_eq_mul]
  have hcast : (n : ℚ) * 2 ^ m = (((n * 2 ^ m : ℕ) : ℤ) : ℚ) := by push_cast; ring
  rw [hcast, roundHalfEven_intCast]
  push_cast
  field_simp

theorem twoPow_normal_le_one : twoPow (-126) ≤ 1 := by
  rw [twoPow_eq_zpow]
  exact zpow_le_one_of_nonpos₀ (by norm_num) (by norm_num)

theorem roundToUint32_zero : roundToUint32 0 = 0 := by
  unfold roundToUint32
  norm_num

/-- The rounding to a `float` of a number of magnitude at least one, with the
error written without a quotient. -/
theorem toFloat_bounds (q : ℚ) (hq : twoPow (-126) ≤ q) :
    16777215 * q ≤ 16777216 * toFloat q ∧ 16777216 * toFloat q ≤ 16777217 * q := by
  have hpos : 0 < q := lt_of_lt_of_le (twoPow_pos _) hq
  have h := abs_toFloat_sub_le q (by rw [abs_of_pos hpos]; exact hq)
  rw [abs_of_pos hpos, abs_le] at h
  obtain ⟨h1, h2⟩ := h
  have e : q / 2 ^ 24 = q / 16777216 := by norm_num
  rw [e] at h1 h2
  constructor
  · have := (le_div_iff₀ (by norm_num : (0 : ℚ) < 16777216)).mp
      (show q - toFloat q ≤ q / 16777216 by linarith)
    linarith
  · have := (le_div_iff₀ (by norm_num : (0 : ℚ) < 16777216)).mp h2
    linarith

/-! ## Lemmas on the motion control engine -/

theorem roundToUint32_lt (value : ℚ) : roundToUint32 value < 2 ^ 32 :=
  Nat.mod_lt _ (by norm_num)

/-- The step delay of line 668: the quotient of the slowest time by the number
of steps as the `float` division gives it, rounded to the nearest whole number.
Each of the three roundings to a `float` has a relative error of at most two to
the -24. -/
theorem round_div_bounds (T steps : Nat) (hs : steps ≠ 0) (hsteps : steps < 2 ^ 32)
    (hT : T < 2 ^ 31) :
    2 ^ 23 * (steps * roundToUint32 (toFloat (toFloat (T : ℚ) / toFloat (steps : ℚ))))
        ≤ 2 ^ 23 * T + 2 * T + 2 ^ 22 * steps
      ∧ 2 ^ 23 * T
        ≤ 2 ^ 23 * (steps * roundToUint32 (toFloat (toFloat (T : ℚ) / toFloat (steps : ℚ))))
          + 2 * T + 2 ^ 22 * steps := by
  by_cases hT0 : T = 0
  · subst hT0
    rw [Nat.cast_zero, toFloat_zero, zero_div, toFloat_zero, roundToUint32_zero]
    omega
  have hN1 : (1 : ℚ) ≤ steps := by exact_mod_cast Nat.pos_of_ne_zero hs
  have hT1 : (1 : ℚ) ≤ T := by exact_mod_cast Nat.pos_of_ne_zero hT0
  have hNlt : (steps : ℚ) < 4294967296 := by exact_mod_cast hsteps
  have hTlt : (T : ℚ) < 2147483648 := by exact_mod_cast hT
  obtain ⟨a1, a2⟩ := toFloat_bounds (T : ℚ) (le_trans twoPow_normal_le_one hT1)
  obtain ⟨b1, b2⟩ := toFloat_bounds (steps : ℚ) (le_trans twoPow_normal_le_one hN1)
  generalize toFloat (T : ℚ) = a at a1 a2 ⊢
  generalize toFloat (steps : ℚ) = b at b1 b2 ⊢
  have ha : (1 : ℚ) / 2 ≤ a := by linarith
  have hb : 0 < b := by linarith
  have hb2 : b ≤ 8589934592 := by linarith
  have hq : twoPow (-126) ≤ a / b := by
    have h1 : (2 : ℚ) ^ (-126 : ℤ) ≤ 1 / 2 / 8589934592 := by norm_num
    rw [twoPow_eq_zpow]
    exact le_trans h1 (div_le_div₀ (by linarith) ha hb hb2)
  obtain ⟨x1, x2⟩ := toFloat_bounds (a / b) hq
  have hqb : a / b * b = a := div_mul_cancel₀ _ (ne_of_gt hb)
  have hq0 : 0 < a / b := div_pos (by linarith) hb
  generalize toFloat (a / b) = x at x1 x2 ⊢
  have hx0 : 0 ≤ x := by linarith
  -- the products of the quotient with the divisor and with the number of steps
  have q1 : 16777216 * (x * b) ≤ 16777217 * a := by
    have h := mul_le_mul_of_nonneg_right x2 (le_of_lt hb)
    rw [mul_assoc, mul_assoc, hqb] at h
    exact h
  have q2 : 16777215 * a ≤ 16777216 * (x * b) := by
    have h := mul_le_mul_of_nonneg_right x1 (le_of_lt hb)
    rw [mul_assoc, mul_assoc, hqb] at h
    exact h
  have p1 : 16777215 * (x * steps) ≤ 16777216 * (x * b) := by
    have h := mul_le_mul_of_nonneg_left b1 hx0
    linarith
  have p2 : 16777216 * (x * b) ≤ 16777217 * (x * steps) := by
    have h := mul_le_mul_of_nonneg_left b2 hx0
    linarith
  have up : 16777216 * (x * steps) ≤ 16777220 * T := by linarith
  have low : 16777212 * (T : ℚ) ≤ 16777216 * (x * steps) := by linarith
  have hxN : x ≤ x * steps := le_mul_of_one_le_right hx0 hN1
  -- the rounding to a whole number
  obtain ⟨n, hn⟩ : ∃ n : ℕ, ⌊x + 1 / 2⌋ = (n : ℤ) :=
    Int.eq_ofNat_of_zero_le (Int.floor_nonneg.mpr (by linarith))
  have h1 : (n : ℚ) ≤ x + 1 / 2 := by
    have h := Int.floor_le (x + 1 / 2)
    rw [hn] at h
    exact_mod_cast h
  have h2 : x + 1 / 2 < (n : ℚ) + 1 := by
    have h := Int.lt_floor_add_one (x + 1 / 2)
    rw [hn] at h
    exact_mod_cast h
  have hnlt : n < 2 ^ 32 := by
    have h3 : (n : ℚ) < ((2 ^ 32 : ℕ) : ℚ) := by
      push_cast
      linarith
    exact_mod_cast h3
  have hr : roundToUint32 x = n := by
    unfold roundToUint32
    rw [hn, Int.toNat_ofNat, Nat.mod_eq_of_lt hnlt]
  rw [hr]
  have e1 : (steps : ℚ) * n ≤ x * steps + steps / 2 := by
    have h := mul_le_mul_of_nonneg_left h1 (by linarith : (0 : ℚ) ≤ steps)
    linarith
  have e2 : x * steps + steps / 2 < steps * n + steps := by
    have h := mul_lt_mul_of_pos_left h2 (by linarith : (0 : ℚ) < steps)
    linarith
  constructor
  · have h : ((2 ^ 23 * (steps * n) : ℕ) : ℚ)
        ≤ ((2 ^ 23 * T + 2 * T + 2 ^ 22 * steps : ℕ) : ℚ) := by
      push_cast
      linarith
    exact_mod_cast h
  · have h : ((2 ^ 23 * T : ℕ) : ℚ)
        ≤ ((2 ^ 23 * (steps * n) + 2 * T + 2 ^ 22 * steps : ℕ) : ℚ) := by
      push_cast
      linarith
    exact_mod_cast h

/-- A pass of the loop for a motor whose field is absent changes nothing. -/
theorem moveAxis_of_not_has (c : Constants) (env : MotorEnvironment) (command : Gcode ℚ)
    (l : MoveLocals) (i : AXES) (h : command.has (parameterOffset c i) = false) :
    moveAxis c env command l i = l := by
  unfold moveAxis
  rw [if_neg (by rw [h]; exact Bool.false_ne_true)]

/-- A pass of the loop for a motor that travels no distance changes nothing. -/
theorem moveAxis_of_still (c : Constants) (env : MotorEnvironment) (command : Gcode ℚ)
    (l : MoveLocals) (i : AXES) (h : distanceTraveled command l.motors i = 0) :
    moveAxis c env command l i = l := by
  unfold moveAxis
  by_cases h1 : command.has (parameterOffset c i) = true
  · rw [if_pos h1]
    dsimp only
    rw [if_neg (not_not.mpr h)]
  · rw [if_neg h1]

/-- What a pass of the loop for motor `i` leaves alone, and the value it gives
to a known position of a motor that moves. -/
theorem moveAxis_frame (c : Constants) (env : MotorEnvironment) (command : Gcode ℚ)
    (l : MoveLocals) (i : AXES) :
    (moveAxis c env command l i).motors.mode = l.motors.mode
      ∧ (moveAxis c env command l i).motors.emergencyStopOccured
          = l.motors.emergencyStopOccured
      ∧ (moveAxis c env command l i).hw.eeprom = l.hw.eeprom
      ∧ (∀ j, j ≠ i → (moveAxis c env command l i).motors.currentValues j
          = l.motors.currentValues j)
      ∧ ((moveAxis c env command l i).motors.currentValues i).isSome
          = (l.motors.currentValues i).isSome
      ∧ (∀ j, j ≠ i → (moveAxis c env command l i).motorMoves j = l.motorMoves j)
      ∧ (l.slowestTime < 2 ^ 32 → (moveAxis c env command l i).slowestTime < 2 ^ 32)
      ∧ (command.has (parameterOffset c i) = true
          → (l.motors.currentValues i).isSome = true
          → distanceTraveled command l.motors i ≠ 0
          → (moveAxis c env command l i).motors.currentValues i
              = some (newValue command l.motors i)) := by
  by_cases h1 : command.has (parameterOffset c i) = true
  · by_cases h2 : distanceTraveled command l.motors i ≠ 0
    · unfold moveAxis
      rw [if_pos h1]
      dsimp only
      rw [if_pos h2]
      dsimp only
      cases hs : l.motors.currentValues i with
      | none =>
        refine ⟨rfl, rfl, ?_, fun _ _ => rfl, ?_, ?_, ?_, ?_⟩
        · cases i <;> rfl
        · simp [hs]
        · intro j hj
          exact Function.update_noteq hj _ _
        · intro h
          exact max_lt (roundToUint32_lt _) h
        · intro _ h
          simp at h
      | some v =>
        refine ⟨rfl, rfl, ?_, ?_, ?_, ?_, ?_, ?_⟩
        · cases i <;> rfl
        · intro j hj
          simp [Function.update_noteq hj]
        · simp
        · intro j hj
          exact Function.update_noteq hj _ _
        · intro h
          exact max_lt (roundToUint32_lt _) h
        · intro _ _ _
          simp
    · rw [moveAxis_of_still c env command l i (not_not.mp h2)]
      exact ⟨rfl, rfl, rfl, fun _ _ => rfl, rfl, fun _ _ => rfl, fun h => h,
        fun _ _ h => absurd h h2⟩
  · have h0 : command.has (parameterOffset c i) = false := by
      simpa using h1
    rw [moveAxis_of_not_has c env command l i h0]
    exact ⟨rfl, rfl, rfl, fun _ _ => rfl, rfl, fun _ _ => rfl, fun h => h,
      fun h => absurd h h1⟩

/-- The slowest time of a move is a `uint32_t`. -/
theorem slowestTime_planAxes_lt (c : Constants) (env : MotorEnvironment) (command : Gcode ℚ)
    (motors : MotionEngine) (hw : MotorsHardware) :
    (planAxes c env command motors hw).slowestTime < 2 ^ 32 := by
  unfold planAxes
  simp only [List.foldl]
  apply (moveAxis_frame c env command _ _).2.2.2.2.2.2.1
  apply (moveAxis_frame c env command _ _).2.2.2.2.2.2.1
  apply (moveAxis_frame c env command _ _).2.2.2.2.2.2.1
  apply (moveAxis_frame c env command _ _).2.2.2.2.2.2.1
  show (0 : Nat) < 2 ^ 32
  norm_num

/-- The numbers of steps that a pass of the loop over the motors leaves are
`uint32_t`. -/
theorem moveAxis_motorMoves_lt (c : Constants) (env : MotorEnvironment) (command : Gcode ℚ)
    (l : MoveLocals) (i : AXES) (h : ∀ j, l.motorMoves j < 2 ^ 32) :
    ∀ j, (moveAxis c env command l i).motorMoves j < 2 ^ 32 := by
  intro j
  by_cases h1 : command.has (parameterOffset c i) = true
  · by_cases h2 : distanceTraveled command l.motors i ≠ 0
    · unfold moveAxis
      rw [if_pos h1]
      dsimp only
      rw [if_pos h2]
      dsimp only
      by_cases hj : j = i
      · rw [hj, Function.update_same]
        exact roundToUint32_lt _
      · rw [Function.update_noteq hj]
        exact h j
    · rw [moveAxis_of_still c env command l i (not_not.mp h2)]
      exact h j
  · have h0 : command.has (parameterOffset c i) = false := by
      simpa using h1
    rw [moveAxis_of_not_has c env command l i h0]
    exact h j

/-- The numbers of steps of a move are `uint32_t`. -/
theorem motorMoves_planAxes_lt (c : Constants) (env : MotorEnvironment) (command : Gcode ℚ)
    (motors : MotionEngine) (hw : MotorsHardware) (j : AXES) :
    (planAxes c env command motors hw).motorMoves j < 2 ^ 32 := by
  unfold planAxes
  simp only [List.foldl]
  apply moveAxis_motorMoves_lt
  apply moveAxis_motorMoves_lt
  apply moveAxis_motorMoves_lt
  apply moveAxis_motorMoves_lt
  intro _
  show (0 : Nat) < 2 ^ 32
  norm_num

/-- The number of steps is computed in `float` (line 596): for `G0 X46.5` on the
machine as `Motors::initialize` leaves it, the product of 46.5 and the steps per
mm is the `float` 897.765625 and 32 times that is 28728.5, which rounds to 28729
steps, where the exact product 28728.4998 rounds to 28728. -/
theorem motorMoves_in_float :
    toFloat (46.5 * toFloat MOTOR_X_STEPS_PER_MM) = 897.765625
      ∧ (planAxes exampleConstants exampleEnvironment exampleMoveX46 exampleEngine
          exampleHardware).motorMoves AXES.X = 28729
      ∧ roundToUint32 (46.5 * MOTOR_X_STEPS_PER_MM * MICROSTEPS_PER_STEP) = 28728 := by
  decide!

/-- C18 (as stated, refuted): the machine is as `Motors::initialize` leaves it
and the command is `G0 X1 F850` in absolute mode. The slowest time T is 2206
ticks and the X motor makes 618 steps; its step delay is 2206 / 618 rounded,
which is 4, and 618 times 4 is 2472, more than T. For `G0 X1 F1000` T is 1875
and the largest product over the motors, `slowestRoundedTime`, is 1854, less
than T. The quotient is a quotient of `float` values: for a slowest time of
9625000 and 9 steps it is 1069444.5, where the exact quotient is less than
that, so the step delay is 1069445 and the product is 9625005. -/
theorem C18_counterexample :
    (planAxes exampleConstants exampleEnvironment exampleMoveX1 exampleEngine
      exampleHardware).slowestTime = 2206
      ∧ (planAxes exampleConstants exampleEnvironment exampleMoveX1 exampleEngine
          exampleHardware).motorMoves AXES.X = 618
      ∧ (stepSchedule emptySchedule
            (planAxes exampleConstants exampleEnvironment exampleMoveX1 exampleEngine
              exampleHardware).motorMoves
            (planAxes exampleConstants exampleEnvironment exampleMoveX1 exampleEngine
              exampleHardware).slowestTime).motorsNumberOfSteps AXES.X = 618
      ∧ (stepSchedule emptySchedule
            (planAxes exampleConstants exampleEnvironment exampleMoveX1 exampleEngine
              exampleHardware).motorMoves
            (planAxes exampleConstants exampleEnvironment exampleMoveX1 exampleEngine
              exampleHardware).slowestTime).motorsStepDelay AXES.X = 4
      ∧ ¬ ((stepSchedule emptySchedule
               (planAxes exampleConstants exampleEnvironment exampleMoveX1 exampleEngine
                 exampleHardware).motorMoves
               (planAxes exampleConstants exampleEnvironment exampleMoveX1 exampleEngine
                 exampleHardware).slowestTime).motorsNumberOfSteps AXES.X
          * (stepSchedule emptySchedule
                (planAxes exampleConstants exampleEnvironment exampleMoveX1 exampleEngine
                  exampleHardware).motorMoves
                (planAxes exampleConstants exampleEnvironment exampleMoveX1 exampleEngine
                  exampleHardware).slowestTime).motorsStepDelay AXES.X
        ≤ (planAxes exampleConstants exampleEnvironment exampleMoveX1 exampleEngine
            exampleHardware).slowestTime)
      ∧ (planAxes exampleConstants exampleEnvironment exampleMoveX1Fast exampleEngine
          exampleHardware).slowestTime = 1875
      ∧ (stepSchedule emptySchedule
            (planAxes exampleConstants exampleEnvironment exampleMoveX1Fast exampleEngine
              exampleHardware).motorMoves
            (planAxes exampleConstants exampleEnvironment exampleMoveX1Fast exampleEngine
              exampleHardware).slowestTime).slowestRoundedTime = 1854
      ∧ toFloat (toFloat 9625000 / toFloat 9) = 2138889 / 2
      ∧ (stepSchedule emptySchedule (fun i => if i = AXES.X then 9 else 0)
          9625000).motorsStepDelay AXES.X = 1069445 := by
  decide!

/-- C18 (amended): for every move whose slowest time T is less than two to the
31 and every motor with a nonzero step count, the step delay of the schedule is
the quotient of T by the number of steps, computed in `float` with T and the
number of steps converted first, rounded to the nearest whole number. Each of
the three roundings to a `float` has a relative error of at most two to the -24,
so the number of steps times the step delay differs from T by at most half the
number of steps plus T over two to the 22; it can be more than T and it need not
reach T. -/
theorem C18_step_delay_rounds (c : Constants) (env : MotorEnvironment) (command : Gcode ℚ)
    (motors : MotionEngine) (hw : MotorsHardware) (previous : StepSchedule) (i : AXES)
    (hmove : (planAxes c env command motors hw).motorMoves i ≠ 0)
    (htime : (planAxes c env command motors hw).slowestTime < 2 ^ 31) :
    (stepSchedule previous (planAxes c env command motors hw).motorMoves
        (planAxes c env command motors hw).slowestTime).motorsNumberOfSteps i
        = (planAxes c env command motors hw).motorMoves i
      ∧ (stepSchedule previous (planAxes c env command motors hw).motorMoves
            (planAxes c env command motors hw).slowestTime).motorsStepDelay i
        = roundToUint32 (toFloat (toFloat
            ((planAxes c env command motors hw).slowestTime : ℚ)
            / toFloat ((planAxes c env command motors hw).motorMoves i : ℚ)))
      ∧ 2 ^ 23 * ((stepSchedule previous (planAxes c env command motors hw).motorMoves
                      (planAxes c env command motors hw).slowestTime).motorsNumberOfSteps i
          * (stepSchedule previous (planAxes c env command motors hw).motorMoves
                (planAxes c env command motors hw).slowestTime).motorsStepDelay i)
        ≤ 2 ^ 23 * (planAxes c env command motors hw).slowestTime
          + 2 * (planAxes c env command motors hw).slowestTime
          + 2 ^ 22 * (planAxes c env command motors hw).motorMoves i
      ∧ 2 ^ 23 * (planAxes c env command motors hw).slowestTime
        ≤ 2 ^ 23 * ((stepSchedule previous (planAxes c env command motors hw).motorMoves
                        (planAxes c env command motors hw).slowestTime).motorsNumberOfSteps i
            * (stepSchedule previous (planAxes c env command motors hw).motorMoves
                  (planAxes c env command motors hw).slowestTime).motorsStepDelay i)
          + 2 * (planAxes c env command motors hw).slowestTime
          + 2 ^ 22 * (planAxes c env command motors hw).motorMoves i := by
  obtain ⟨b1, b2⟩ := round_div_bounds _ _ hmove
    (motorMoves_planAxes_lt c env command motors hw i) htime
  simp only [stepSchedule, hmove, ne_eq, not_false_eq_true, if_true]
  exact ⟨trivial, trivial, b1, b2⟩

/-- C18 (amended), at `G0 X1 F850` on the machine as `Motors::initialize` leaves
it. -/
theorem C18_step_delay_rounds_witness :
    (stepSchedule emptySchedule
        (planAxes exampleConstants exampleEnvironment exampleMoveX1 exampleEngine
          exampleHardware).motorMoves
        (planAxes exampleConstants exampleEnvironment exampleMoveX1 exampleEngine
          exampleHardware).slowestTime).motorsNumberOfSteps AXES.X
        = (planAxes exampleConstants exampleEnvironment exampleMoveX1 exampleEngine
            exampleHardware).motorMoves AXES.X
      ∧ (stepSchedule emptySchedule
            (planAxes exampleConstants exampleEnvironment exampleMoveX1 exampleEngine
              exampleHardware).motorMoves
            (planAxes exampleConstants exampleEnvironment exampleMoveX1 exampleEngine
              exampleHardware).slowestTime).motorsStepDelay AXES.X
        = roundToUint32 (toFloat (toFloat
            ((planAxes exampleConstants exampleEnvironment exampleMoveX1 exampleEngine
               exampleHardware).slowestTime : ℚ)
            / toFloat ((planAxes exampleConstants exampleEnvironment exampleMoveX1 exampleEngine
                         exampleHardware).motorMoves AXES.X : ℚ)))
      ∧ 2 ^ 23 * ((stepSchedule emptySchedule
                      (planAxes exampleConstants exampleEnvironment exampleMoveX1 exampleEngine
                        exampleHardware).motorMoves
                      (planAxes exampleConstants exampleEnvironment exampleMoveX1 exampleEngine
                        exampleHardware).slowestTime).motorsNumberOfSteps AXES.X
          * (stepSchedule emptySchedule
                (planAxes exampleConstants exampleEnvironment exampleMoveX1 exampleEngine
                  exampleHardware).motorMoves
                (planAxes exampleConstants exampleEnvironment exampleMoveX1 exampleEngine
                  exampleHardware).slowestTime).motorsStepDelay AXES.X)
        ≤ 2 ^ 23 * (planAxes exampleConstants exampleEnvironment exampleMoveX1 exampleEngine
                     exampleHardware).slowestTime
          + 2 * (planAxes exampleConstants exampleEnvironment exampleMoveX1 exampleEngine
                  exampleHardware).slowestTime
          + 2 ^ 22 * (planAxes exampleConstants exampleEnvironment exampleMoveX1 exampleEngine
                       exampleHardware).motorMoves AXES.X
      ∧ 2 ^ 23 * (planAxes exampleConstants exampleEnvironment exampleMoveX1 exampleEngine
                   exampleHardware).slowestTime
        ≤ 2 ^ 23 * ((stepSchedule emptySchedule
                        (planAxes exampleConstants exampleEnvironment exampleMoveX1 exampleEngine
                          exampleHardware).motorMoves
                        (planAxes exampleConstants exampleEnvironment exampleMoveX1 exampleEngine
                          exampleHardware).slowestTime).motorsNumberOfSteps AXES.X
            * (stepSchedule emptySchedule
                  (planAxes exampleConstants exampleEnvironment exampleMoveX1 exampleEngine
                    exampleHardware).motorMoves
                  (planAxes exampleConstants exampleEnvironment exampleMoveX1 exampleEngine
                    exampleHardware).slowestTime).motorsStepDelay AXES.X)
          + 2 * (planAxes exampleConstants exampleEnvironment exampleMoveX1 exampleEngine
                  exampleHardware).slowestTime
          + 2 ^ 22 * (planAxes exampleConstants exampleEnvironment exampleMoveX1 exampleEngine
                       exampleHardware).motorMoves AXES.X :=
  C18_step_delay_rounds exampleConstants exampleEnvironment exampleMoveX1 exampleEngine
    exampleHardware emptySchedule AXES.X (by decide!) (by decide!)

/-- What the loop over a list of motors leaves alone. -/
theorem foldl_moveAxis_frame (c : Constants) (env : MotorEnvironment) (command : Gcode ℚ)
    (axes : List AXES) :
    ∀ l : MoveLocals,
      (axes.foldl (moveAxis c env command) l).motors.mode = l.motors.mode
        ∧ (axes.foldl (moveAxis c env command) l).motors.emergencyStopOccured
            = l.motors.emergencyStopOccured
        ∧ (axes.foldl (moveAxis c env command) l).hw.eeprom = l.hw.eeprom
        ∧ (∀ j, j ∉ axes → (axes.foldl (moveAxis c env command) l).motors.currentValues j
            = l.motors.currentValues j)
        ∧ (∀ j, j ∉ axes → (axes.foldl (moveAxis c env command) l).motorMoves j
            = l.motorMoves j) := by
  induction axes with
  | nil => intro l; exact ⟨rfl, rfl, rfl, fun _ _ => rfl, fun _ _ => rfl⟩
  | cons i rest ih =>
    intro l
    obtain ⟨f1, f2, f3, f4, -, f6, -, -⟩ := moveAxis_frame c env command l i
    obtain ⟨g1, g2, g3, g4, g5⟩ := ih (moveAxis c env command l i)
    rw [List.foldl_cons]
    refine ⟨g1.trans f1, g2.trans f2, g3.trans f3, ?_, ?_⟩
    · intro j hj
      rw [List.mem_cons, not_or] at hj
      rw [g4 j hj.2, f4 j hj.1]
    · intro j hj
      rw [List.mem_cons, not_or] at hj
      rw [g5 j hj.2, f6 j hj.1]

/-- The state in which the loop over the motors starts (lines 467-477). -/
theorem planAxes_eq (c : Constants) (env : MotorEnvironment) (command : Gcode ℚ)
    (motors : MotionEngine) (hw : MotorsHardware) :
    ∃ l0 : MoveLocals, planAxes c env command motors hw
        = [AXES.X, AXES.Y, AXES.Z, AXES.E].foldl (moveAxis c env command) l0
      ∧ l0.motors.mode = motors.mode
      ∧ l0.motors.emergencyStopOccured = motors.emergencyStopOccured
      ∧ l0.hw = hw
      ∧ (∀ j, j ≠ AXES.F → l0.motors.currentValues j = motors.currentValues j)
      ∧ l0.motorMoves = fun _ => 0 := by
  refine ⟨_, rfl, ?_, ?_, rfl, ?_, rfl⟩
  · dsimp only
    split <;> rfl
  · dsimp only
    split <;> rfl
  · intro j hj
    dsimp only
    split
    · exact Function.update_noteq hj _ _
    · rfl

/-- What the loop over the motors of `Motors::move` leaves alone. -/
theorem planAxes_frame (c : Constants) (env : MotorEnvironment) (command : Gcode ℚ)
    (motors : MotionEngine) (hw : MotorsHardware) :
    (planAxes c env command motors hw).motors.mode = motors.mode
      ∧ (planAxes c env command motors hw).motors.emergencyStopOccured
          = motors.emergencyStopOccured
      ∧ (planAxes c env command motors hw).hw.eeprom = hw.eeprom := by
  obtain ⟨l0, h0, h1, h2, h3, -, -⟩ := planAxes_eq c env command motors hw
  obtain ⟨g1, g2, g3, -, -⟩ := foldl_moveAxis_frame c env command
    [AXES.X, AXES.Y, AXES.Z, AXES.E] l0
  rw [h0]
  exact ⟨g1.trans h1, g2.trans h2, by rw [g3, h3]⟩

/-- The loop over the motors leaves the position of a motor alone whose field
is absent from the command. -/
theorem planAxes_currentValues_of_not_has (c : Constants) (env : MotorEnvironment)
    (command : Gcode ℚ) (motors : MotionEngine) (hw : MotorsHardware) (i : AXES)
    (hi : i ≠ AXES.F) (h : command.has (parameterOffset c i) = false) :
    (planAxes c env command motors hw).motors.currentValues i = motors.currentValues i := by
  obtain ⟨l0, h0, -, -, -, h4, -⟩ := planAxes_eq c env command motors hw
  rw [h0, ← h4 i hi]
  have step : ∀ (l : MoveLocals) (j : AXES),
      (moveAxis c env command l j).motors.currentValues i = l.motors.currentValues i := by
    intro l j
    by_cases hji : i = j
    · subst hji
      rw [moveAxis_of_not_has c env command l i h]
    · exact (moveAxis_frame c env command l j).2.2.2.1 i hji
  simp only [List.foldl]
  rw [step, step, step, step]

/-- In absolute mode the loop over the motors puts a known position of a motor
whose field is present at the value of the field. -/
theorem planAxes_currentValues_of_has (c : Constants) (env : MotorEnvironment)
    (command : Gcode ℚ) (motors : MotionEngine) (hw : MotorsHardware) (i : AXES)
    (hi : i ∈ [AXES.X, AXES.Y, AXES.Z, AXES.E]) (hmode : motors.mode = MODES.ABSOLUTE)
    (h : command.has (parameterOffset c i) = true)
    (hknown : (motors.currentValues i).isSome = true) :
    (planAxes c env command motors hw).motors.currentValues i
      = some (parameter command i) := by
  have hiF : i ≠ AXES.F := by
    intro hF
    rw [hF] at hi
    simp at hi
  obtain ⟨l0, h0, h1, -, -, h4, -⟩ := planAxes_eq c env command motors hw
  rw [h0]
  -- a pass for motor `i` in a state where its position is the one at the start
  have own : ∀ l : MoveLocals, l.motors.mode = MODES.ABSOLUTE
      → l.motors.currentValues i = motors.currentValues i
      → (moveAxis c env command l i).motors.currentValues i
          = some (parameter command i) := by
    intro l hm hcv
    have hnew : newValue command l.motors i = parameter command i := by
      unfold newValue
      rw [hm]
      simp
    by_cases hd : distanceTraveled command l.motors i ≠ 0
    · rw [(moveAxis_frame c env command l i).2.2.2.2.2.2.2 h (by rw [hcv]; exact hknown) hd,
        hnew]
    · rw [moveAxis_of_still c env command l i (not_not.mp hd), hcv]
      obtain ⟨v, hv⟩ := Option.isSome_iff_exists.1 hknown
      have hz := not_not.mp hd
      unfold distanceTraveled at hz
      rw [hnew, hcv, hv, abs_eq_zero, sub_eq_zero] at hz
      rw [hv, hz]
      rfl
  have other : ∀ (l : MoveLocals) (j : AXES), j ≠ i
      → (moveAxis c env command l j).motors.currentValues i = l.motors.currentValues i := by
    intro l j hji
    exact (moveAxis_frame c env command l j).2.2.2.1 i (fun e => hji e.symm)
  have hmode' : ∀ (l : MoveLocals) (j : AXES),
      (moveAxis c env command l j).motors.mode = l.motors.mode :=
    fun l j => (moveAxis_frame c env command l j).1
  have hm0 : l0.motors.mode = MODES.ABSOLUTE := h1.trans hmode
  have hc0 := h4 i hiF
  simp only [List.foldl]
  simp only [List.mem_cons, List.mem_singleton, List.not_mem_nil, or_false] at hi
  rcases hi with rfl | rfl | rfl | rfl
  · rw [other _ _ (by decide), other _ _ (by decide), other _ _ (by decide)]
    exact own _ hm0 hc0
  · rw [other _ _ (by decide), other _ _ (by decide)]
    exact own _ (by rw [hmode']; exact hm0) (by rw [other _ _ (by decide)]; exact hc0)
  · rw [other _ _ (by decide)]
    exact own _ (by rw [hmode', hmode']; exact hm0)
      (by rw [other _ _ (by decide), other _ _ (by decide)]; exact hc0)
  · exact own _ (by rw [hmode', hmode', hmode']; exact hm0)
      (by rw [other _ _ (by decide), other _ _ (by decide), other _ _ (by decide)]; exact hc0)

/-- In absolute mode the loop over the motors computes no step for a command
whose fields are the positions of the motors. -/
theorem planAxes_motorMoves_idle (c : Constants) (env : MotorEnvironment)
    (command : Gcode ℚ) (motors : MotionEngine) (hw : MotorsHardware)
    (hmode : motors.mode = MODES.ABSOLUTE)
    (h : ∀ i ∈ [AXES.X, AXES.Y, AXES.Z, AXES.E], command.has (parameterOffset c i) = true
      → motors.currentValues i = some (parameter command i)) (i : AXES) :
    (planAxes c env command motors hw).motorMoves i = 0 := by
  obtain ⟨l0, h0, h1, -, -, h4, h5⟩ := planAxes_eq c env command motors hw
  have idle : ∀ j ∈ [AXES.X, AXES.Y, AXES.Z, AXES.E], moveAxis c env command l0 j = l0 := by
    intro j hj
    have hjF : j ≠ AXES.F := by
      intro hF
      rw [hF] at hj
      simp at hj
    cases hh : command.has (parameterOffset c j) with
    | false => exact moveAxis_of_not_has c env command l0 j hh
    | true =>
      apply moveAxis_of_still
      unfold distanceTraveled newValue
      rw [h1, hmode, h4 j hjF, h j hj hh]
      simp [numberOf]
  rw [h0]
  simp only [List.foldl]
  rw [idle AXES.X (by simp), idle AXES.Y (by simp), idle AXES.Z (by simp),
    idle AXES.E (by simp), h5]

/-- A run of compensation commands leaves the emergency-stop flag and the
persisted store alone. -/
theorem foldl_moveCompensation_frame {α : Type} (c : Constants) (env : MotorEnvironment)
    (commandOf : α → Gcode ℚ) (items : List α) :
    ∀ s : MotionEngine × MotorsHardware,
      (items.foldl (fun t k => moveCompensation c env (commandOf k) t) s).1.emergencyStopOccured
          = s.1.emergencyStopOccured
        ∧ (items.foldl (fun t k => moveCompensation c env (commandOf k) t) s).2.eeprom
          = s.2.eeprom := by
  induction items with
  | nil => intro s; exact ⟨rfl, rfl⟩
  | cons k rest ih =>
    intro s
    obtain ⟨-, f2, f3⟩ := planAxes_frame c env (commandOf k) s.1 s.2
    obtain ⟨g1, g2⟩ := ih (moveCompensation c env (commandOf k) s)
    rw [List.foldl_cons]
    exact ⟨g1.trans f2, g2.trans f3⟩

/-- `Motors::compensateForBacklash` restores the mode and, when the flags are
distinct bits, every current value; it leaves the emergency-stop flag and the
persisted store alone. -/
theorem compensateForBacklash_frame (c : Constants) (env : MotorEnvironment)
    (backlashDirectionX backlashDirectionY : BACKLASH_DIRECTION)
    (s : MotionEngine × MotorsHardware) :
    (compensateForBacklash c env backlashDirectionX backlashDirectionY s).1.mode = s.1.mode
      ∧ (compensateForBacklash c env backlashDirectionX backlashDirectionY
          s).1.emergencyStopOccured = s.1.emergencyStopOccured
      ∧ (compensateForBacklash c env backlashDirectionX backlashDirectionY s).2.eeprom
          = s.2.eeprom
      ∧ (c.BacklashFlagsApart → ∀ i,
          (compensateForBacklash c env backlashDirectionX backlashDirectionY
            s).1.currentValues i = s.1.currentValues i) := by
  unfold compensateForBacklash moveCompensation
  dsimp only
  refine ⟨rfl, ?_, ?_, ?_⟩
  · exact (planAxes_frame c env _ _ _).2.1
  · exact (planAxes_frame c env _ _ _).2.2
  · intro hflags i
    obtain ⟨hz, he⟩ := hflags
    cases i with
    | X => simp [Function.update]
    | Y => simp [Function.update]
    | F => simp [Function.update]
    | Z =>
      rw [Function.update_noteq (by decide), Function.update_noteq (by decide),
        Function.update_noteq (by decide)]
      rw [planAxes_currentValues_of_not_has c env _ _ _ AXES.Z (by decide)
        (by simp [Gcode.has, parameterOffset, hz])]
    | E =>
      rw [Function.update_noteq (by decide), Function.update_noteq (by decide),
        Function.update_noteq (by decide)]
      rw [planAxes_currentValues_of_not_has c env _ _ _ AXES.E (by decide)
        (by simp [Gcode.has, parameterOffset, he])]

/-- `Motors::compensateForBedLeveling` restores the mode and the values of the
four motors; it leaves the emergency-stop flag and the persisted store alone. -/
theorem compensateForBedLeveling_frame (c : Constants) (env : MotorEnvironment)
    (startValues : AXES → Option ℚ) (s : MotionEngine × MotorsHardware) :
    (compensateForBedLeveling c env startValues s).1.mode = s.1.mode
      ∧ (compensateForBedLeveling c env startValues s).1.emergencyStopOccured
          = s.1.emergencyStopOccured
      ∧ (compensateForBedLeveling c env startValues s).2.eeprom = s.2.eeprom
      ∧ (∀ i, i ≠ AXES.F →
          (compensateForBedLeveling c env startValues s).1.currentValues i
            = s.1.currentValues i) := by
  unfold compensateForBedLeveling
  dsimp only
  refine ⟨rfl, ?_, ?_, ?_⟩
  · exact (foldl_moveCompensation_frame c env _ _ _).1
  · exact (foldl_moveCompensation_frame c env _ _ _).2
  · intro i hi
    simp [setMotorValues, hi]

/-- Lines 635-647 restore the mode and, when the flags are distinct bits, the
values of the four motors; they leave the emergency-stop flag and the persisted
store alone. -/
theorem compensate_frame (c : Constants) (env : MotorEnvironment)
    (startValues : AXES → Option ℚ) (l : MoveLocals) (s : MotionEngine × MotorsHardware) :
    (compensate c env startValues l s).1.mode = s.1.mode
      ∧ (compensate c env startValues l s).1.emergencyStopOccured
          = s.1.emergencyStopOccured
      ∧ (compensate c env startValues l s).2.eeprom = s.2.eeprom
      ∧ (c.BacklashFlagsApart → ∀ i, i ≠ AXES.F →
          (compensate c env startValues l s).1.currentValues i = s.1.currentValues i) := by
  have hback : ∀ t : MotionEngine × MotorsHardware,
      t = (if l.backlashDirectionX ≠ BACKLASH_DIRECTION.NONE
          ∨ l.backlashDirectionY ≠ BACKLASH_DIRECTION.NONE then
        compensateForBacklash c env l.backlashDirectionX l.backlashDirectionY s else s)
      → t.1.mode = s.1.mode ∧ t.1.emergencyStopOccured = s.1.emergencyStopOccured
        ∧ t.2.eeprom = s.2.eeprom
        ∧ (c.BacklashFlagsApart → ∀ i, t.1.currentValues i = s.1.currentValues i) := by
    intro t ht
    rw [ht]
    split
    · exact compensateForBacklash_frame c env _ _ s
    · exact ⟨rfl, rfl, rfl, fun _ _ => rfl⟩
  obtain ⟨b1, b2, b3, b4⟩ := hback _ rfl
  unfold compensate
  dsimp only
  split
  · obtain ⟨g1, g2, g3, g4⟩ := compensateForBedLeveling_frame c env startValues
      (if l.backlashDirectionX ≠ BACKLASH_DIRECTION.NONE
          ∨ l.backlashDirectionY ≠ BACKLASH_DIRECTION.NONE then
        compensateForBacklash c env l.backlashDirectionX l.backlashDirectionY s else s)
    exact ⟨g1.trans b1, g2.trans b2, g3.trans b3,
      fun hf i hi => (g4 i hi).trans (b4 hf i)⟩
  · exact ⟨b1, b2, b3, fun hf i _ => b4 hf i⟩

/-- The motors that `Motors::move` leaves are those that the compensations
leave, with the emergency-stop flag raised if a stop arrived. -/
theorem move_fst (c : Constants) (env : MotorEnvironment) (command : Gcode ℚ)
    (stopArrives : Bool) (s : MotionEngine × MotorsHardware) :
    ∃ hw1 : MotorsHardware, (move c env command stopArrives s).1
        = { (compensate c env (startValues c command s.1) (planAxes c env command s.1 s.2)
              ((planAxes c env command s.1 s.2).motors, hw1)).1 with
            emergencyStopOccured :=
              (compensate c env (startValues c command s.1) (planAxes c env command s.1 s.2)
                ((planAxes c env command s.1 s.2).motors, hw1)).1.emergencyStopOccured
              || stopArrives } := by
  unfold move
  dsimp only
  split <;> exact ⟨_, rfl⟩

/-- C17 (as stated, refuted): the machine is as `Motors::initialize` leaves it,
in absolute mode with the X position unknown (NaN), and the command is `G0 X10`.
Line 531 does not store the new value of an unknown position, so the second
invocation computes the same distance as the first: 6178 steps for X. -/
theorem C17_counterexample :
    exampleEngine.mode = MODES.ABSOLUTE
      ∧ (planAxes exampleConstants exampleEnvironment exampleMoveX10
          (move exampleConstants exampleEnvironment exampleMoveX10 false
            (exampleEngine, exampleHardware)).1
          (move exampleConstants exampleEnvironment exampleMoveX10 false
            (exampleEngine, exampleHardware)).2).motorMoves AXES.X = 6178 := by
  decide!

/-- C17 (amended): in absolute mode, when the position of every motor that the
command names is known (not NaN), invoking `Motors::move` with the same command
a second time computes a step count of zero for every motor. The flags of the
fields are distinct bits. -/
theorem C17_second_move_is_idle (c : Constants) (env : MotorEnvironment)
    (command : Gcode ℚ) (stopArrives : Bool) (motors : MotionEngine) (hw : MotorsHardware)
    (hflags : c.BacklashFlagsApart) (hmode : motors.mode = MODES.ABSOLUTE)
    (hknown : ∀ i ∈ [AXES.X, AXES.Y, AXES.Z, AXES.E],
      command.has (parameterOffset c i) = true → (motors.currentValues i).isSome = true)
    (i : AXES) :
    (planAxes c env command (move c env command stopArrives (motors, hw)).1
      (move c env command stopArrives (motors, hw)).2).motorMoves i = 0 := by
  obtain ⟨hw1, hfst⟩ := move_fst c env command stopArrives (motors, hw)
  obtain ⟨p1, -, -⟩ := planAxes_frame c env command motors hw
  obtain ⟨c1, -, -, c4⟩ := compensate_frame c env (startValues c command motors)
    (planAxes c env command motors hw) ((planAxes c env command motors hw).motors, hw1)
  apply planAxes_motorMoves_idle
  · rw [hfst]
    exact (c1.trans p1).trans hmode
  · intro j hj hhas
    have hjF : j ≠ AXES.F := by
      intro hF
      rw [hF] at hj
      simp at hj
    rw [hfst]
    exact (c4 hflags j hjF).trans
      (planAxes_currentValues_of_has c env command motors hw j hj hmode hhas
        (hknown j hj hhas))

/-- C17 (amended), at `G0 X10` on the homed machine, whose positions are all
known. -/
theorem C17_second_move_is_idle_witness :
    (planAxes exampleConstants exampleEnvironment exampleMoveX10
      (move exampleConstants exampleEnvironment exampleMoveX10 false
        (exampleEngineHomed, exampleHardware)).1
      (move exampleConstants exampleEnvironment exampleMoveX10 false
        (exampleEngineHomed, exampleHardware)).2).motorMoves AXES.X = 0 :=
  C17_second_move_is_idle exampleConstants exampleEnvironment exampleMoveX10 false
    exampleEngineHomed exampleHardware (by decide) rfl (by decide) AXES.X

/-- C20 (as stated, refuted): the saved Z state of the persisted store is the
byte 255 of an erased store, which is not `VALID`, and the command is `G0 Z6` on
the machine as `Motors::initialize` leaves it, with Z at 5. The Z motor moves
and no emergency stop occurs. Line 621 reads every byte that is not zero as
valid, so the saved Z state is `VALID` when `Motors::move` returns although it
was not `VALID` before. -/
theorem C20_counterexample :
    exampleHardwareErased.eeprom.SAVED_Z_STATE = 255
      ∧ exampleHardwareErased.eeprom.SAVED_Z_STATE ≠ VALID
      ∧ (planAxes exampleConstants exampleEnvironment exampleMoveZ6 exampleEngine
          exampleHardwareErased).motorMoves AXES.Z ≠ 0
      ∧ (move exampleConstants exampleEnvironment exampleMoveZ6 false
          (exampleEngine, exampleHardwareErased)).1.emergencyStopOccured = false
      ∧ (move exampleConstants exampleEnvironment exampleMoveZ6 false
          (exampleEngine, exampleHardwareErased)).2.eeprom.SAVED_Z_STATE = VALID := by
  decide!

/-- C20 (amended): for every move that is not a compensation command, the
emergency-stop flag at the end is set when it was set at the start or a stop
arrived during the move. If the Z motor has a nonzero step count, the last
recorded Z of the persisted store is `currentValues[Z]` at the end, and the
saved Z state is `VALID` if and only if it was not `INVALID` before, whatever
other byte it was, and the flag is clear at the end, and it is `INVALID`
otherwise; so with a state that was one of the two values before, it is `VALID`
if and only if it was `VALID` and no emergency stop occurred. If the Z motor has
a step count of zero, the saved Z state and the last recorded Z are left as they
were. -/
theorem C20_saved_z_state (c : Constants) (env : MotorEnvironment) (command : Gcode ℚ)
    (stopArrives : Bool) (motors : MotionEngine) (hw : MotorsHardware) :
    (move c env command stopArrives (motors, hw)).1.emergencyStopOccured
        = (motors.emergencyStopOccured || stopArrives)
      ∧ ((planAxes c env command motors hw).motorMoves AXES.Z ≠ 0 →
          (move c env command stopArrives (motors, hw)).2.eeprom.LAST_RECORDED_Z_VALUE
              = (move c env command stopArrives (motors, hw)).1.currentValues AXES.Z
            ∧ (move c env command stopArrives (motors, hw)).2.eeprom.SAVED_Z_STATE
              = (if hw.eeprom.SAVED_Z_STATE ≠ INVALID
                  ∧ (move c env command stopArrives (motors, hw)).1.emergencyStopOccured
                    = false then VALID
                else INVALID)
            ∧ ((move c env command stopArrives (motors, hw)).2.eeprom.SAVED_Z_STATE = VALID
                ↔ hw.eeprom.SAVED_Z_STATE ≠ INVALID
                  ∧ (move c env command stopArrives (motors, hw)).1.emergencyStopOccured
                    = false)
            ∧ (hw.eeprom.SAVED_Z_STATE = VALID ∨ hw.eeprom.SAVED_Z_STATE = INVALID →
                ((move c env command stopArrives (motors, hw)).2.eeprom.SAVED_Z_STATE = VALID
                  ↔ hw.eeprom.SAVED_Z_STATE = VALID
                    ∧ (move c env command stopArrives (motors, hw)).1.emergencyStopOccured
                      = false)))
      ∧ ((planAxes c env command motors hw).motorMoves AXES.Z = 0 →
          (move c env command stopArrives (motors, hw)).2.eeprom.SAVED_Z_STATE
              = hw.eeprom.SAVED_Z_STATE
            ∧ (move c env command stopArrives (motors, hw)).2.eeprom.LAST_RECORDED_Z_VALUE
              = hw.eeprom.LAST_RECORDED_Z_VALUE) := by
  obtain ⟨-, p2, p3⟩ := planAxes_frame c env command motors hw
  have hcomp := fun hw1 : MotorsHardware => compensate_frame c env
    (startValues c command motors) (planAxes c env command motors hw)
    ((planAxes c env command motors hw).motors, hw1)
  unfold move
  dsimp only
  generalize planAxes c env command motors hw = l at p2 p3 hcomp ⊢
  rw [p3]
  generalize hhw1 : (if (l.motorMoves AXES.Z != 0 && hw.eeprom.SAVED_Z_STATE != 0) = true then
      ({ l.hw with eeprom := { hw.eeprom with SAVED_Z_STATE := INVALID } } : MotorsHardware)
    else l.hw) = hw1
  have hhw1e : hw1.eeprom
      = if (l.motorMoves AXES.Z != 0 && hw.eeprom.SAVED_Z_STATE != 0) = true then
          { hw.eeprom with SAVED_Z_STATE := INVALID }
        else hw.eeprom := by
    rw [← hhw1]
    split
    · rfl
    · exact p3
  obtain ⟨-, c2, c3, -⟩ := hcomp hw1
  generalize compensate c env (startValues c command motors) l (l.motors, hw1) = s3 at c2 c3 ⊢
  dsimp only at c2 c3
  rw [p2] at c2
  rw [hhw1e] at c3
  by_cases hz : l.motorMoves AXES.Z = 0
  · simp [hz, c2, c3]
  · by_cases hv : hw.eeprom.SAVED_Z_STATE = 0
    · simp [hz, hv, c2, c3, INVALID, VALID]
    · cases hm : motors.emergencyStopOccured <;> cases stopArrives <;>
        simp [hz, hv, c2, c3, hm, INVALID, VALID]

/-! ## The claims C21 to C30: motion, dispatch, step timer, bed leveling -/

/-- The loop over the motors keeps a position unknown that was unknown. -/
theorem planAxes_currentValues_of_unknown (c : Constants) (env : MotorEnvironment)
    (command : Gcode ℚ) (motors : MotionEngine) (hw : MotorsHardware) (i : AXES)
    (hi : i ≠ AXES.F) (hunknown : motors.currentValues i = none) :
    (planAxes c env command motors hw).motors.currentValues i = none := by
  obtain ⟨l0, h0, -, -, -, h4, -⟩ := planAxes_eq c env command motors hw
  rw [h0]
  have step : ∀ (l : MoveLocals) (j : AXES), l.motors.currentValues i = none
      → (moveAxis c env command l j).motors.currentValues i = none := by
    intro l j hl
    by_cases hji : i = j
    · subst hji
      have h := (moveAxis_frame c env command l i).2.2.2.2.1
      rw [hl] at h
      exact Option.not_isSome_iff_eq_none.mp (by rw [h]; simp)
    · rw [(moveAxis_frame c env command l j).2.2.2.1 i hji, hl]
  simp only [List.foldl]
  exact step _ _ (step _ _ (step _ _ (step _ _ ((h4 i hi).trans hunknown))))

/-- C21 (as stated, refuted): the machine is as `Motors::initialize` leaves it,
in absolute mode with the X position unknown (NaN), and the command is `G0 X10`,
which has the X field. Line 531 stores the new value only in a position that is
not NaN, so the X position is still unknown when `Motors::move` returns. -/
theorem C21_counterexample :
    exampleEngine.mode = MODES.ABSOLUTE
      ∧ exampleEngine.currentValues AXES.X = none
      ∧ exampleMoveX10.has (parameterOffset exampleConstants AXES.X) = true
      ∧ (move exampleConstants exampleEnvironment exampleMoveX10 false
          (exampleEngine, exampleHardware)).1.currentValues AXES.X = none := by
  decide!

/-- C21 (amended): in absolute mode, for every motor whose field the command
has, the position after `Motors::move` is the commanded target when the position
was known before, and it is still unknown (NaN) when it was unknown before. The
flags of the fields are distinct bits. -/
theorem C21_position_after_move (c : Constants) (env : MotorEnvironment)
    (command : Gcode ℚ) (stopArrives : Bool) (motors : MotionEngine) (hw : MotorsHardware)
    (i : AXES) (hflags : c.BacklashFlagsApart) (hmode : motors.mode = MODES.ABSOLUTE)
    (hi : i ∈ [AXES.X, AXES.Y, AXES.Z, AXES.E])
    (hhas : command.has (parameterOffset c i) = true) :
    ((motors.currentValues i).isSome = true →
        (move c env command stopArrives (motors, hw)).1.currentValues i
          = some (parameter command i))
      ∧ (motors.currentValues i = none →
        (move c env command stopArrives (motors, hw)).1.currentValues i = none) := by
  have hiF : i ≠ AXES.F := by
    intro hF
    rw [hF] at hi
    simp at hi
  obtain ⟨hw1, hfst⟩ := move_fst c env command stopArrives (motors, hw)
  obtain ⟨-, -, -, c4⟩ := compensate_frame c env (startValues c command motors)
    (planAxes c env command motors hw) ((planAxes c env command motors hw).motors, hw1)
  have hcv : (move c env command stopArrives (motors, hw)).1.currentValues i
      = (planAxes c env command motors hw).motors.currentValues i := by
    rw [hfst]
    exact c4 hflags i hiF
  rw [hcv]
  exact ⟨fun hknown => planAxes_currentValues_of_has c env command motors hw i hi hmode hhas
      hknown,
    fun hunknown => planAxes_currentValues_of_unknown c env command motors hw i hiF hunknown⟩

/-- C21 (amended), at `G0 X10` on the homed machine, whose X position is
known. -/
theorem C21_position_after_move_witness :
    ((exampleEngineHomed.currentValues AXES.X).isSome = true →
        (move exampleConstants exampleEnvironment exampleMoveX10 false
          (exampleEngineHomed, exampleHardware)).1.currentValues AXES.X
          = some (parameter exampleMoveX10 AXES.X))
      ∧ (exampleEngineHomed.currentValues AXES.X = none →
        (move exampleConstants exampleEnvironment exampleMoveX10 false
          (exampleEngineHomed, exampleHardware)).1.currentValues AXES.X = none) :=
  C21_position_after_move exampleConstants exampleEnvironment exampleMoveX10 false
    exampleEngineHomed exampleHardware AXES.X (by decide) rfl (by decide) (by decide)

/-- The response of the M104 / M109 handler (lines 267-289) in the state in
which the handlers start. -/
theorem handleCommand_temperature (c : Constants) (P : Peripherals H R) (g : Gcode R)
    (s : State H R) (hm : g.has c.PARAMETER_M_OFFSET = true)
    (hcode : g.valueM = 104 ∨ g.valueM = 109) :
    handleCommand c P g s
      = if requestedTemperature c g = 0
          ∨ (requestedTemperature c g ≥ c.HEATER_MIN_TEMPERATURE
            ∧ requestedTemperature c g ≤ c.HEATER_MAX_TEMPERATURE) then
        some (State.setResponse
          { s with hw := P.heaterSetTemperature (requestedTemperature c g)
                    (requestedTemperature c g != 0 && g.valueM == 109) s.hw }
          "ok".toList)
      else
        some (s.setResponse ("Error: Temperature must be between ".toList
          ++ c.HEATER_MIN_TEMPERATURE_TEXT ++ " and ".toList
          ++ c.HEATER_MAX_TEMPERATURE_TEXT ++ " degrees Celsius".toList)) := by
  unfold handleCommand
  rw [if_pos hm]
  unfold handleM requestedTemperature
  rcases hcode with h | h <;> rw [h]

/-- C23 (as stated, refuted): the line `N9 M104 S150` with a good checksum asks
for a temperature inside the range. Dispatched while the current command number
is 3, it is answered `rs 3`, not `ok`, and the heater target is not set: the
hardware is left as it was. Dispatched while the heater reports not working, it
is answered with the health error. -/
theorem C23_counterexample :
    (exampleM104Ahead.has exampleConstants.PARAMETER_M_OFFSET = true
      ∧ exampleM104Ahead.valueM = 104
      ∧ requestedTemperature exampleConstants exampleM104Ahead = 150
      ∧ exampleConstants.HEATER_MIN_TEMPERATURE ≤ 150
      ∧ 150 ≤ exampleConstants.HEATER_MAX_TEMPERATURE)
    ∧ (mainLoopIteration exampleConstants loggingPeripherals false
        (exampleState exampleM104Ahead 3)).map (fun s => (s.usb, s.hw))
      = some (["rs 3\n".toList], (exampleState exampleM104Ahead 3).hw)
    ∧ (mainLoopIteration exampleConstants loggingPeripherals false
        (exampleStateHeaterFailed exampleM104Ahead 9)).map (fun s => (s.usb, s.hw))
      = some (["Error: Heater isn't working\n".toList],
          (exampleStateHeaterFailed exampleM104Ahead 9).hw)
    ∧ ¬ "ok".toList <+: "rs 3\n".toList
    ∧ ¬ "ok".toList <+: "Error: Heater isn't working\n".toList := by
  decide

/-- C23 (amended): an M104 or M109 that reaches its handler (no emergency stop
pending or arriving, accelerometer and heater working, not a host command,
numbering policy passed).
Its temperature is the S field, or 0 without an S field. When the temperature is
not zero and outside `HEATER_MIN_TEMPERATURE` to `HEATER_MAX_TEMPERATURE`, the
line sent starts with `Error: `, the hardware is left as it was, so
`heater.setTemperature` is not called, and the current command number is not
advanced. Otherwise the line sent starts with `ok` and the hardware is what
`heater.setTemperature` leaves, called with the temperature and with the wait
flag set exactly when the temperature is not zero and the code is 109. -/
theorem C23_temperature_range (c : Constants) (P : Peripherals H R) (s : State H R)
    (hM : c.IsParameterBit c.PARAMETER_M_OFFSET)
    (hh : (s.requests s.currentProcessingRequest).has c.PARAMETER_HOST_COMMAND_OFFSET = false)
    (hstop : s.emergencyStopOccured = false)
    (hacc : s.motors.accelerometerIsWorking = true)
    (hheat : P.heaterIsWorking s.hw = true)
    (hnum : PassesNumbering c (s.requests s.currentProcessingRequest) s.currentCommandNumber)
    (hm : (s.requests s.currentProcessingRequest).has c.PARAMETER_M_OFFSET = true)
    (hcode : (s.requests s.currentProcessingRequest).valueM = 104
      ∨ (s.requests s.currentProcessingRequest).valueM = 109) :
    ∃ s' line, mainLoopIteration c P false s = some s' ∧ s'.usb = s.usb ++ [line]
      ∧ s'.motors = s.motors
      ∧ (requestedTemperature c (s.requests s.currentProcessingRequest) ≠ 0
          ∧ ¬(c.HEATER_MIN_TEMPERATURE
              ≤ requestedTemperature c (s.requests s.currentProcessingRequest)
            ∧ requestedTemperature c (s.requests s.currentProcessingRequest)
              ≤ c.HEATER_MAX_TEMPERATURE) →
        "Error: ".toList <+: line ∧ s'.hw = s.hw
          ∧ s'.currentCommandNumber = s.currentCommandNumber)
      ∧ (requestedTemperature c (s.requests s.currentProcessingRequest) = 0
          ∨ (c.HEATER_MIN_TEMPERATURE
              ≤ requestedTemperature c (s.requests s.currentProcessingRequest)
            ∧ requestedTemperature c (s.requests s.currentProcessingRequest)
              ≤ c.HEATER_MAX_TEMPERATURE) →
        "ok".toList <+: line
          ∧ s'.hw = P.heaterSetTemperature
              (requestedTemperature c (s.requests s.currentProcessingRequest))
              (requestedTemperature c (s.requests s.currentProcessingRequest) != 0
                && (s.requests s.currentProcessingRequest).valueM == 109) s.hw) := by
  have hgc := hasGcode_of_has c _ _ hM hm
  have hhandler := handleCommand_temperature c P (s.requests s.currentProcessingRequest)
    s.atDispatch hm hcode
  by_cases hrange : requestedTemperature c (s.requests s.currentProcessingRequest) = 0
      ∨ (requestedTemperature c (s.requests s.currentProcessingRequest)
          ≥ c.HEATER_MIN_TEMPERATURE
        ∧ requestedTemperature c (s.requests s.currentProcessingRequest)
          ≤ c.HEATER_MAX_TEMPERATURE)
  · rw [if_pos hrange] at hhandler
    have hok : ∀ t : State H R,
        "ok".toList <+: cstr (State.setResponse t "ok".toList).responseBuffer := by
      intro t
      show "ok".toList <+: cstr (strcpy _ _)
      rw [cstr_strcpy]
      decide
    obtain ⟨v, hv, hvok, hvm, hvhw⟩ : ∃ v : State H R,
        handleCommand c P (s.requests s.currentProcessingRequest) s.atDispatch = some v
          ∧ "ok".toList <+: cstr v.responseBuffer
          ∧ v.motors = s.motors
          ∧ v.hw = P.heaterSetTemperature
              (requestedTemperature c (s.requests s.currentProcessingRequest))
              (requestedTemperature c (s.requests s.currentProcessingRequest) != 0
                && (s.requests s.currentProcessingRequest).valueM == 109) s.hw :=
      ⟨_, hhandler, hok _, rfl, rfl⟩
    obtain ⟨-, s', h1, h2, -, h4, h5, -⟩ :=
      mainLoopIteration_handler c P s v hgc hh hstop hacc hheat hnum hv
    have hok2 := prefix_appendCommandNumber c (s.requests s.currentProcessingRequest) v _
      (Or.inl rfl) hvok
    refine ⟨s', _, h1, h2, h4.trans hvm, ?_, ?_⟩
    · intro hout
      exact absurd hrange (by
        rintro (h0 | hin)
        · exact hout.1 h0
        · exact hout.2 ⟨hin.1, hin.2⟩)
    · intro _
      refine ⟨?_, ?_⟩
      · rw [defaultResponse_of_ne_nil _ (ne_nil_of_start hok2 (by decide))]
        exact hok2.trans (List.prefix_append _ _)
      · rw [h5, hvhw]
  · rw [if_neg hrange] at hhandler
    obtain ⟨-, s', h1, h2, h3, h4, h5, -⟩ :=
      mainLoopIteration_handler c P s _ hgc hh hstop hacc hheat hnum hhandler
    have herr : "Error: ".toList <+: cstr (s.atDispatch.setResponse
        ("Error: Temperature must be between ".toList
          ++ c.HEATER_MIN_TEMPERATURE_TEXT ++ " and ".toList
          ++ c.HEATER_MAX_TEMPERATURE_TEXT ++ " degrees Celsius".toList)).responseBuffer := by
      show "Error: ".toList <+: cstr (strcpy _ _)
      apply prefix_cstr_strcpy
      apply prefix_cstr_of_list _ _ cstr_error
      simp only [List.append_assoc]
      exact ⟨_, rfl⟩
    refine ⟨s', _, h1, h2, h4, ?_, ?_⟩
    · intro _
      refine ⟨?_, h5, ?_⟩
      · rw [appendCommandNumber_error c _ _ herr,
          defaultResponse_of_ne_nil _ (ne_nil_of_start herr (by decide))]
        exact herr.trans (List.prefix_append _ _)
      · rw [h3, appendCommandNumber_error c _ _ herr]
        rfl
    · intro hin
      exact absurd hin (by
        rintro (h0 | hin2)
        · exact hrange (Or.inl h0)
        · exact hrange (Or.inr ⟨hin2.1, hin2.2⟩))

/-- C23 (amended), at the line `M104 S300`, whose temperature is above the largest one,
285. -/
theorem C23_temperature_range_witness :
    ∃ s' line, mainLoopIteration exampleConstants loggingPeripherals false
        (exampleState exampleM104TooHot 0) = some s'
      ∧ s'.usb = (exampleState exampleM104TooHot 0).usb ++ [line]
      ∧ s'.motors = (exampleState exampleM104TooHot 0).motors
      ∧ (requestedTemperature exampleConstants exampleM104TooHot ≠ 0
          ∧ ¬(exampleConstants.HEATER_MIN_TEMPERATURE
              ≤ requestedTemperature exampleConstants exampleM104TooHot
            ∧ requestedTemperature exampleConstants exampleM104TooHot
              ≤ exampleConstants.HEATER_MAX_TEMPERATURE) →
        "Error: ".toList <+: line ∧ s'.hw = (exampleState exampleM104TooHot 0).hw
          ∧ s'.currentCommandNumber
            = (exampleState exampleM104TooHot 0).currentCommandNumber)
      ∧ (requestedTemperature exampleConstants exampleM104TooHot = 0
          ∨ (exampleConstants.HEATER_MIN_TEMPERATURE
              ≤ requestedTemperature exampleConstants exampleM104TooHot
            ∧ requestedTemperature exampleConstants exampleM104TooHot
              ≤ exampleConstants.HEATER_MAX_TEMPERATURE) →
        "ok".toList <+: line
          ∧ s'.hw = loggingPeripherals.heaterSetTemperature
              (requestedTemperature exampleConstants exampleM104TooHot)
              (requestedTemperature exampleConstants exampleM104TooHot != 0
                && exampleM104TooHot.valueM == 109)
              (exampleState exampleM104TooHot 0).hw) :=
  C23_temperature_range exampleConstants loggingPeripherals (exampleState exampleM104TooHot 0)
    (by decide) (by decide) (by decide) (by decide) (by decide) (by decide) (by decide)
    (Or.inl rfl)

/-- C24: while the emergency-stop flag is set, an iteration of the main loop
that finds the slot at the consumer index occupied discards the command. The
slot is freed and the other slots are left as they were; the consumer index
steps to the next slot of the ring, which is one more modulo 10; nothing is
sent; the response buffer, the hardware and the motors, with the machine
position, are left as they were, so no handler ran; the current command number
is unchanged, and the flag stays set. -/
theorem C24_stopped_dispatch_discards (c : Constants) (P : Peripherals H R)
    (stopArrives : Bool) (s : State H R)
    (hocc : (s.requests s.currentProcessingRequest).commandParameters ≠ 0)
    (hstop : s.emergencyStopOccured = true) :
    ∃ s', mainLoopIteration c P stopArrives s = some s'
      ∧ (s'.requests s.currentProcessingRequest).commandParameters = 0
      ∧ (∀ i, i ≠ s.currentProcessingRequest → s'.requests i = s.requests i)
      ∧ s'.currentProcessingRequest = nextSlot s.currentProcessingRequest
      ∧ (s.currentProcessingRequest < REQUEST_BUFFER_SIZE →
          s'.currentProcessingRequest
            = (s.currentProcessingRequest + 1) % REQUEST_BUFFER_SIZE)
      ∧ s'.usb = s.usb
      ∧ s'.responseBuffer = s.responseBuffer
      ∧ s'.hw = s.hw
      ∧ s'.motors = s.motors
      ∧ s'.currentCommandNumber = s.currentCommandNumber
      ∧ s'.emergencyStopOccured = true := by
  refine ⟨_, mainLoopIteration_stopped c P stopArrives s hocc hstop, ?_, ?_, rfl, ?_, rfl, rfl,
    rfl, rfl, rfl, hstop⟩
  · simp [finishRequest, enableSendingWaitResponses, disableSendingWaitResponses]
  · intro i hi
    simp [finishRequest, enableSendingWaitResponses, disableSendingWaitResponses,
      Function.update_noteq hi]
  · intro hlt
    exact nextSlot_eq _ hlt

/-- C24, at the line `N3 G28` on the machine with an emergency stop pending. -/
theorem C24_stopped_dispatch_discards_witness :
    ∃ s', mainLoopIteration exampleConstants loggingPeripherals false
        (exampleStateStopped exampleG28 3) = some s'
      ∧ (s'.requests (exampleStateStopped exampleG28 3).currentProcessingRequest
          ).commandParameters = 0
      ∧ (∀ i, i ≠ (exampleStateStopped exampleG28 3).currentProcessingRequest →
          s'.requests i = (exampleStateStopped exampleG28 3).requests i)
      ∧ s'.currentProcessingRequest
          = nextSlot (exampleStateStopped exampleG28 3).currentProcessingRequest
      ∧ ((exampleStateStopped exampleG28 3).currentProcessingRequest < REQUEST_BUFFER_SIZE →
          s'.currentProcessingRequest
            = ((exampleStateStopped exampleG28 3).currentProcessingRequest + 1)
              % REQUEST_BUFFER_SIZE)
      ∧ s'.usb = (exampleStateStopped exampleG28 3).usb
      ∧ s'.responseBuffer = (exampleStateStopped exampleG28 3).responseBuffer
      ∧ s'.hw = (exampleStateStopped exampleG28 3).hw
      ∧ s'.motors = (exampleStateStopped exampleG28 3).motors
      ∧ s'.currentCommandNumber = (exampleStateStopped exampleG28 3).currentCommandNumber
      ∧ s'.emergencyStopOccured = true :=
  C24_stopped_dispatch_discards exampleConstants loggingPeripherals false
    (exampleStateStopped exampleG28 3) (by decide) rfl

/-- C30: in exact arithmetic, for all heights of the corners and whatever
`Vector::normalize` returns, so whichever point-in-triangle branch is taken, the
height adjustment at the center of the bed, (54, 50), is 0, the Z of the center
point; each of the four fitted planes passes through the center point. -/
theorem C30_center_height (normalize : Vector → Vector)
    (backRight backLeft frontLeft frontRight : ℚ) :
    getHeightAdjustmentRequired normalize
        (fittedBed backRight backLeft frontLeft frontRight) 54 50 = 0
      ∧ (fittedBed backRight backLeft frontLeft frontRight).centerVector
          = { x := 54, y := 50, z := 0, w := 0 }
      ∧ getZFromXYAndPlane (fittedBed backRight backLeft frontLeft frontRight).centerVector
          (fittedBed backRight backLeft frontLeft frontRight).backPlane = 0
      ∧ getZFromXYAndPlane (fittedBed backRight backLeft frontLeft frontRight).centerVector
          (fittedBed backRight backLeft frontLeft frontRight).leftPlane = 0
      ∧ getZFromXYAndPlane (fittedBed backRight backLeft frontLeft frontRight).centerVector
          (fittedBed backRight backLeft frontLeft frontRight).rightPlane = 0
      ∧ getZFromXYAndPlane (fittedBed backRight backLeft frontLeft frontRight).centerVector
          (fittedBed backRight backLeft frontLeft frontRight).frontPlane = 0 := by
  obtain ⟨hb, hl, hr, hf⟩ := fittedBed_plane_z backRight backLeft frontLeft frontRight
  have hb0 : (fittedBed backRight backLeft frontLeft frontRight).backPlane.z ≠ 0 := by
    rw [hb]; norm_num
  have hl0 : (fittedBed backRight backLeft frontLeft frontRight).leftPlane.z ≠ 0 := by
    rw [hl]; norm_num
  have hr0 : (fittedBed backRight backLeft frontLeft frontRight).rightPlane.z ≠ 0 := by
    rw [hr]; norm_num
  have hf0 : (fittedBed backRight backLeft frontLeft frontRight).frontPlane.z ≠ 0 := by
    rw [hf]; norm_num
  have back : ∀ p : Vector, p.x = 54 → p.y = 50 → getZFromXYAndPlane p
      (fittedBed backRight backLeft frontLeft frontRight).backPlane = 0 :=
    fun p hx hy => getZ_generatePlaneEquation_third _ _ _ p hx hy hb0
  have left : ∀ p : Vector, p.x = 54 → p.y = 50 → getZFromXYAndPlane p
      (fittedBed backRight backLeft frontLeft frontRight).leftPlane = 0 :=
    fun p hx hy => getZ_generatePlaneEquation_third _ _ _ p hx hy hl0
  have right : ∀ p : Vector, p.x = 54 → p.y = 50 → getZFromXYAndPlane p
      (fittedBed backRight backLeft frontLeft frontRight).rightPlane = 0 :=
    fun p hx hy => getZ_generatePlaneEquation_third _ _ _ p hx hy hr0
  have front : ∀ p : Vector, p.x = 54 → p.y = 50 → getZFromXYAndPlane p
      (fittedBed backRight backLeft frontLeft frontRight).frontPlane = 0 :=
    fun p hx hy => getZ_generatePlaneEquation_third _ _ _ p hx hy hf0
  have hflx : (fittedBed backRight backLeft frontLeft frontRight).frontLeftVector.x = 9 := rfl
  have hfly : (fittedBed backRight backLeft frontLeft frontRight).frontLeftVector.y = 5 := rfl
  have hfrx : (fittedBed backRight backLeft frontLeft frontRight).frontRightVector.x = 99 := rfl
  have hbry : (fittedBed backRight backLeft frontLeft frontRight).backRightVector.y = 95 := rfl
  refine ⟨?_, rfl, back _ rfl rfl, left _ rfl rfl, right _ rfl rfl, front _ rfl rfl⟩
  unfold getHeightAdjustmentRequired
  rw [hflx, hfly, hfrx, hbry, if_neg (by norm_num), if_neg (by norm_num),
    if_neg (by norm_num), if_neg (by norm_num), if_neg (by norm_num), if_neg (by norm_num),
    if_neg (by norm_num), if_neg (by norm_num), back _ rfl rfl, left _ rfl rfl,
    right _ rfl rfl, front _ rfl rfl]
  simp

/-- `Motors::compensateForBedLeveling` hands the commands of
`bedLevelingCommands` to `Motors::move`, in order, and then restores the values
of the four motors and the mode. -/
theorem compensateForBedLeveling_eq (c : Constants) (env : MotorEnvironment)
    (startValues : AXES → Option ℚ) (s : MotionEngine × MotorsHardware) :
    compensateForBedLeveling c env startValues s
      = ({ ((bedLevelingCommands c env startValues s).foldl
              (fun t g => moveCompensation c env g t)
              (bedLevelingStart env startValues s, s.2)).1 with
            currentValues := setMotorValues
              ((bedLevelingCommands c env startValues s).foldl
                (fun t g => moveCompensation c env g t)
                (bedLevelingStart env startValues s, s.2)).1.currentValues
              s.1.currentValues
            mode := s.1.mode },
          ((bedLevelingCommands c env startValues s).foldl
            (fun t g => moveCompensation c env g t)
            (bedLevelingStart env startValues s, s.2)).2) := by
  unfold compensateForBedLeveling bedLevelingCommands
  rw [List.foldl_map]
  rfl

/-- The number of segments is at least two only for a horizontal distance above
the length of a segment. -/
theorem horizontalDistance_of_segments (env : MotorEnvironment)
    (startValues : AXES → Option ℚ) (s : MotionEngine × MotorsHardware)
    (h : 2 ≤ numberOfSegments env startValues s) :
    SEGMENT_LENGTH < horizontalDistance env startValues s := by
  unfold numberOfSegments at h
  have h1 : 2 ≤ (max 1 ⌈horizontalDistance env startValues s / SEGMENT_LENGTH⌉).toNat :=
    le_trans h (Nat.mod_le _ _)
  have h2 : (2 : ℤ) ≤ max 1 ⌈horizontalDistance env startValues s / SEGMENT_LENGTH⌉ := by
    omega
  have h3 : (2 : ℤ) ≤ ⌈horizontalDistance env startValues s / SEGMENT_LENGTH⌉ := by
    rcases le_max_iff.mp h2 with h | h
    · omega
    · exact h
  have h4 : ((1 : ℤ) : ℚ) < horizontalDistance env startValues s / SEGMENT_LENGTH :=
    Int.lt_ceil.mp (by omega)
  unfold SEGMENT_LENGTH at h4 ⊢
  have h5 := (lt_div_iff₀ (by norm_num : (0 : ℚ) < 2)).mp h4
  norm_num at h5
  linarith

/-- C28: `Motors::compensateForBedLeveling` hands n sub-moves to `Motors::move`,
n the larger of 1 and the horizontal distance over 2 rounded up (a `uint32_t`).
For i from 1 below n the target of sub-move i is, on each of the four motors, the
start value plus i times 2 times the delta over the horizontal distance, which
is not zero then; the target of sub-move n is the end point. The Z of each
sub-move is the Z of its target plus the bed height offset plus the height
adjustment at the X and Y of its target. On return the values of the four motors
are those on entry, the end point without compensation, and the mode is the one
on entry. -/
theorem C28_bed_leveling_segments (c : Constants) (env : MotorEnvironment)
    (startValues : AXES → Option ℚ) (s : MotionEngine × MotorsHardware)
    (hsize : ⌈horizontalDistance env startValues s / SEGMENT_LENGTH⌉ < 2 ^ 32) :
    compensateForBedLeveling c env startValues s
        = ({ ((bedLevelingCommands c env startValues s).foldl
                (fun t g => moveCompensation c env g t)
                (bedLevelingStart env startValues s, s.2)).1 with
              currentValues := setMotorValues
                ((bedLevelingCommands c env startValues s).foldl
                  (fun t g => moveCompensation c env g t)
                  (bedLevelingStart env startValues s, s.2)).1.currentValues
                s.1.currentValues
              mode := s.1.mode },
            ((bedLevelingCommands c env startValues s).foldl
              (fun t g => moveCompensation c env g t)
              (bedLevelingStart env startValues s, s.2)).2)
      ∧ (bedLevelingCommands c env startValues s).length = numberOfSegments env startValues s
      ∧ (numberOfSegments env startValues s : ℤ)
          = max 1 ⌈horizontalDistance env startValues s / 2⌉
      ∧ (∀ i, 1 ≤ i → i < numberOfSegments env startValues s →
          horizontalDistance env startValues s ≠ 0
            ∧ ∃ g, (bedLevelingCommands c env startValues s)[i - 1]? = some g
              ∧ g.valueX = numberOf (startValues AXES.X) + (i : ℚ) * 2
                  * (bedLevelingDeltas startValues s AXES.X
                    / horizontalDistance env startValues s)
              ∧ g.valueY = numberOf (startValues AXES.Y) + (i : ℚ) * 2
                  * (bedLevelingDeltas startValues s AXES.Y
                    / horizontalDistance env startValues s)
              ∧ g.valueE = numberOf (startValues AXES.E) + (i : ℚ) * 2
                  * (bedLevelingDeltas startValues s AXES.E
                    / horizontalDistance env startValues s)
              ∧ g.valueZ = numberOf (startValues AXES.Z) + (i : ℚ) * 2
                  * (bedLevelingDeltas startValues s AXES.Z
                    / horizontalDistance env startValues s)
                  + s.2.eeprom.BED_HEIGHT_OFFSET
                  + getHeightAdjustmentRequired env.normalize (bedLevelingBed s) g.valueX
                      g.valueY)
      ∧ (∃ g, (bedLevelingCommands c env startValues s)[
              numberOfSegments env startValues s - 1]? = some g
          ∧ g.valueX = numberOf (s.1.currentValues AXES.X)
          ∧ g.valueY = numberOf (s.1.currentValues AXES.Y)
          ∧ g.valueE = numberOf (s.1.currentValues AXES.E)
          ∧ g.valueZ = numberOf (s.1.currentValues AXES.Z) + s.2.eeprom.BED_HEIGHT_OFFSET
              + getHeightAdjustmentRequired env.normalize (bedLevelingBed s) g.valueX g.valueY)
      ∧ (compensateForBedLeveling c env startValues s).1.mode = s.1.mode
      ∧ (∀ i, i ≠ AXES.F →
          (compensateForBedLeveling c env startValues s).1.currentValues i
            = s.1.currentValues i) := by
  have hlen : (bedLevelingCommands c env startValues s).length
      = numberOfSegments env startValues s := by
    unfold bedLevelingCommands
    rw [List.length_map, List.length_range]
  have hn : (numberOfSegments env startValues s : ℤ)
      = max 1 ⌈horizontalDistance env startValues s / 2⌉ := by
    unfold numberOfSegments SEGMENT_LENGTH
    unfold SEGMENT_LENGTH at hsize
    have hpos : (1 : ℤ) ≤ max 1 ⌈horizontalDistance env startValues s / 2⌉ := le_max_left _ _
    have hlt : max 1 ⌈horizontalDistance env startValues s / 2⌉ < 2 ^ 32 :=
      max_lt (by norm_num) hsize
    have hnat : (max 1 ⌈horizontalDistance env startValues s / 2⌉).toNat < 2 ^ 32 := by
      omega
    rw [Nat.mod_eq_of_lt hnat]
    omega
  have hpos : 1 ≤ numberOfSegments env startValues s := by
    have h : (1 : ℤ) ≤ (numberOfSegments env startValues s : ℤ) := by
      rw [hn]
      exact le_max_left _ _
    exact_mod_cast h
  obtain ⟨f1, -, -, f4⟩ := compensateForBedLeveling_frame c env startValues s
  have hget : ∀ k, k < numberOfSegments env startValues s →
      (bedLevelingCommands c env startValues s)[k]?
        = some (bedLevelingSegment c env (bedLevelingBed s) s.2.eeprom.BED_HEIGHT_OFFSET
            (fun j => numberOf (startValues j)) (fun j => numberOf (s.1.currentValues j))
            (bedLevelingRatios env startValues s) (numberOfSegments env startValues s)
            (k + 1)) := by
    intro k hk
    unfold bedLevelingCommands
    rw [List.getElem?_map, List.getElem?_range hk]
    rfl
  refine ⟨compensateForBedLeveling_eq c env startValues s, hlen, hn, ?_, ?_, f1, f4⟩
  · intro i h1 hi
    have hd : SEGMENT_LENGTH < horizontalDistance env startValues s :=
      horizontalDistance_of_segments env startValues s (by omega)
    have hd0 : horizontalDistance env startValues s ≠ 0 := by
      unfold SEGMENT_LENGTH at hd
      intro h0
      rw [h0] at hd
      norm_num at hd
    have hratio : ∀ j, bedLevelingRatios env startValues s j
        = bedLevelingDeltas startValues s j / horizontalDistance env startValues s := by
      intro j
      unfold bedLevelingRatios
      rw [if_pos hd0]
    have hcast : ((i - 1 + 1 : ℕ) : ℚ) = (i : ℚ) := by
      rw [Nat.sub_add_cancel h1]
    refine ⟨hd0, _, hget (i - 1) (by omega), ?_, ?_, ?_, ?_⟩
    · simp only [bedLevelingSegment, hratio, SEGMENT_LENGTH]
      rw [if_pos (by omega), hcast]
    · simp only [bedLevelingSegment, hratio, SEGMENT_LENGTH]
      rw [if_pos (by omega), hcast]
    · simp only [bedLevelingSegment, hratio, SEGMENT_LENGTH]
      rw [if_pos (by omega), hcast]
    · simp only [bedLevelingSegment, hratio, SEGMENT_LENGTH]
      rw [if_pos (by omega), if_pos (by omega), if_pos (by omega), hcast]
  · refine ⟨_, hget (numberOfSegments env startValues s - 1) (by omega), ?_, ?_, ?_, ?_⟩
    · simp only [bedLevelingSegment]
      rw [if_neg (by omega)]
    · simp only [bedLevelingSegment]
      rw [if_neg (by omega)]
    · simp only [bedLevelingSegment]
      rw [if_neg (by omega)]
    · simp only [bedLevelingSegment]
      rw [if_neg (by omega), if_neg (by omega), if_neg (by omega)]

/-- C28, at the move of the homed machine from X 54 to X 10: the horizontal
distance is 44 and there are 22 sub-moves. -/
theorem C28_bed_leveling_segments_witness :
    compensateForBedLeveling exampleConstants exampleEnvironment exampleStart exampleMovedMachine
        = ({ ((bedLevelingCommands exampleConstants exampleEnvironment exampleStart
            exampleMovedMachine).foldl
                (fun t g => moveCompensation exampleConstants exampleEnvironment g t)
                (bedLevelingStart exampleEnvironment exampleStart exampleMovedMachine,
                    exampleMovedMachine.2)).1 with
              currentValues := setMotorValues
                ((bedLevelingCommands exampleConstants exampleEnvironment exampleStart
                    exampleMovedMachine).foldl
                  (fun t g => moveCompensation exampleConstants exampleEnvironment g t)
                  (bedLevelingStart exampleEnvironment exampleStart exampleMovedMachine,
                      exampleMovedMachine.2)).1.currentValues
                exampleMovedMachine.1.currentValues
              mode := exampleMovedMachine.1.mode },
            ((bedLevelingCommands exampleConstants exampleEnvironment exampleStart
                exampleMovedMachine).foldl
              (fun t g => moveCompensation exampleConstants exampleEnvironment g t)
              (bedLevelingStart exampleEnvironment exampleStart exampleMovedMachine,
                  exampleMovedMachine.2)).2)
      ∧ (bedLevelingCommands exampleConstants exampleEnvironment exampleStart
          exampleMovedMachine).length = numberOfSegments exampleEnvironment exampleStart
              exampleMovedMachine
      ∧ (numberOfSegments exampleEnvironment exampleStart exampleMovedMachine : ℤ)
          = max 1 ⌈horizontalDistance exampleEnvironment exampleStart exampleMovedMachine / 2⌉
      ∧ (∀ i, 1 ≤ i → i < numberOfSegments exampleEnvironment exampleStart exampleMovedMachine →
          horizontalDistance exampleEnvironment exampleStart exampleMovedMachine ≠ 0
            ∧ ∃ g, (bedLevelingCommands exampleConstants exampleEnvironment exampleStart
                exampleMovedMachine)[i - 1]? = some g
              ∧ g.valueX = numberOf (exampleStart AXES.X) + (i : ℚ) * 2
                  * (bedLevelingDeltas exampleStart exampleMovedMachine AXES.X
                    / horizontalDistance exampleEnvironment exampleStart exampleMovedMachine)
              ∧ g.valueY = numberOf (exampleStart AXES.Y) + (i : ℚ) * 2
                  * (bedLevelingDeltas exampleStart exampleMovedMachine AXES.Y
                    / horizontalDistance exampleEnvironment exampleStart exampleMovedMachine)
              ∧ g.valueE = numberOf (exampleStart AXES.E) + (i : ℚ) * 2
                  * (bedLevelingDeltas exampleStart exampleMovedMachine AXES.E
                    / horizontalDistance exampleEnvironment exampleStart exampleMovedMachine)
              ∧ g.valueZ = numberOf (exampleStart AXES.Z) + (i : ℚ) * 2
                  * (bedLevelingDeltas exampleStart exampleMovedMachine AXES.Z
                    / horizontalDistance exampleEnvironment exampleStart exampleMovedMachine)
                  + exampleMovedMachine.2.eeprom.BED_HEIGHT_OFFSET
                  + getHeightAdjustmentRequired exampleEnvironment.normalize (bedLevelingBed
                      exampleMovedMachine) g.valueX
                      g.valueY)
      ∧ (∃ g, (bedLevelingCommands exampleConstants exampleEnvironment exampleStart
          exampleMovedMachine)[
              numberOfSegments exampleEnvironment exampleStart exampleMovedMachine - 1]? = some g
          ∧ g.valueX = numberOf (exampleMovedMachine.1.currentValues AXES.X)
          ∧ g.valueY = numberOf (exampleMovedMachine.1.currentValues AXES.Y)
          ∧ g.valueE = numberOf (exampleMovedMachine.1.currentValues AXES.E)
          ∧ g.valueZ = numberOf (exampleMovedMachine.1.currentValues AXES.Z) +
              exampleMovedMachine.2.eeprom.BED_HEIGHT_OFFSET
              + getHeightAdjustmentRequired exampleEnvironment.normalize (bedLevelingBed
                  exampleMovedMachine) g.valueX g.valueY)
      ∧ (compensateForBedLeveling exampleConstants exampleEnvironment exampleStart
          exampleMovedMachine).1.mode = exampleMovedMachine.1.mode
      ∧ (∀ i, i ≠ AXES.F →
          (compensateForBedLeveling exampleConstants exampleEnvironment exampleStart
              exampleMovedMachine).1.currentValues i
            = exampleMovedMachine.1.currentValues i) :=
  C28_bed_leveling_segments exampleConstants exampleEnvironment exampleStart
    exampleMovedMachine
    (by
      have harg : bedLevelingDeltas exampleStart exampleMovedMachine AXES.X ^ 2
          + bedLevelingDeltas exampleStart exampleMovedMachine AXES.Y ^ 2 = 1936 := by decide!
      have hfloor : ⌊(1936 : ℚ)⌋.toNat = 44 * 44 := by decide!
      have h44 : horizontalDistance exampleEnvironment exampleStart exampleMovedMachine = 44 := by
        unfold horizontalDistance
        rw [harg]
        show ((Nat.sqrt ⌊(1936 : ℚ)⌋.toNat : ℕ) : ℚ) = 44
        rw [hfloor, Nat.sqrt_eq]
        norm_num
      rw [h44]
      decide!)

/-- C29 (as stated, refuted): the ring is empty, with both indices at slot 0, and
a line whose presence bitmask is zero is ingested. Line 762 stores it in slot 0,
which stays empty by the test of line 162, and line 765 advances the producer
index to 1, so the occupied slots are not those from the consumer index up to
the producer index. When `G28` is ingested next it goes to slot 1; an iteration
of the main loop then finds slot 0 empty and does nothing, while slot 1 holds a
command. -/
theorem C29_counterexample :
    RingOccupied exampleFirmware 0
      ∧ exampleBlank.commandParameters = 0
      ∧ (cdcRxNotifyCallback exampleConstants [exampleBlank]
          exampleFirmware).currentReceivingRequest = 1
      ∧ ((cdcRxNotifyCallback exampleConstants [exampleBlank] exampleFirmware).main.requests
          0).commandParameters = 0
      ∧ (∀ n, ¬ RingOccupied
          (cdcRxNotifyCallback exampleConstants [exampleBlank] exampleFirmware) n)
      ∧ ((cdcRxNotifyCallback exampleConstants [exampleBlank, exampleG28Plain]
          exampleFirmware).main.requests 1).commandParameters ≠ 0
      ∧ (mainLoopIteration exampleConstants loggingPeripherals false
          (cdcRxNotifyCallback exampleConstants [exampleBlank, exampleG28Plain]
            exampleFirmware).main).map
          (fun s => (s.currentProcessingRequest, (s.requests 1).commandParameters, s.usb))
        = some (0, exampleG28Plain.commandParameters, []) := by
  refine ⟨by decide, rfl, by decide, by decide, ?_, by decide, by decide⟩
  intro n hn
  obtain ⟨-, h2, h3, h4⟩ := hn
  have hcrr : (cdcRxNotifyCallback exampleConstants [exampleBlank]
      exampleFirmware).currentReceivingRequest = 1 := by decide
  have hcpr : (cdcRxNotifyCallback exampleConstants [exampleBlank]
      exampleFirmware).main.currentProcessingRequest = 0 := by decide
  have hslot : ((cdcRxNotifyCallback exampleConstants [exampleBlank]
      exampleFirmware).main.requests 0).commandParameters = 0 := by decide
  rw [hcrr, hcpr] at h3
  have h0 := h4 0 (by decide)
  rw [hcpr] at h0
  have hn0 : ¬ 0 < n := fun hpos => (h0.2 hpos) hslot
  unfold REQUEST_BUFFER_SIZE at h2 h3
  omega

/-- C29 (amended): the occupied slots of the ring are the `n` slots from the
consumer index up to the producer index, and a line whose presence bitmask is
not zero is ingested. Afterwards the occupied slots are again exactly the slots
from the consumer index up to the producer index: one more when no emergency
stop is pending, the line is no emergency stop and the ring was not full, and
the same otherwise. The consumer index stays; the producer index moves only if
the slot it pointed to was empty and now holds the line; and when the slot at the
consumer index is empty, every slot is. -/
theorem C29_ring_occupied_ingest (c : Constants) (f : Firmware H R) (n : Nat) (g : Gcode R)
    (h : RingOccupied f n) (hcp : g.commandParameters ≠ 0) :
    RingOccupied (cdcRxNotifyCallback c [g] f)
        (if f.main.emergencyStopOccured = false ∧ isEmergencyStop c g = false
            ∧ n < REQUEST_BUFFER_SIZE then n + 1 else n)
      ∧ (cdcRxNotifyCallback c [g] f).main.currentProcessingRequest
          = f.main.currentProcessingRequest
      ∧ ((cdcRxNotifyCallback c [g] f).currentReceivingRequest ≠ f.currentReceivingRequest →
          (f.main.requests f.currentReceivingRequest).commandParameters = 0
            ∧ (cdcRxNotifyCallback c [g] f).main.requests f.currentReceivingRequest = g)
      ∧ (((cdcRxNotifyCallback c [g] f).main.requests
            (cdcRxNotifyCallback c [g] f).main.currentProcessingRequest).commandParameters = 0 →
          ∀ i, i < REQUEST_BUFFER_SIZE →
            ((cdcRxNotifyCallback c [g] f).main.requests i).commandParameters = 0) := by
  -- the last part follows from the first
  have hall : ∀ (f' : Firmware H R) (m : Nat), RingOccupied f' m →
      (f'.main.requests f'.main.currentProcessingRequest).commandParameters = 0 →
      ∀ i, i < REQUEST_BUFFER_SIZE → (f'.main.requests i).commandParameters = 0 := by
    intro f' m hocc hempty i hi
    obtain ⟨a1, -, -, a4⟩ := hocc
    unfold REQUEST_BUFFER_SIZE at a1 a4 hi
    have hm : m = 0 := by
      by_contra hm
      have h0 := (a4 0 (by norm_num)).2 (by omega)
      rw [Nat.add_zero, Nat.mod_eq_of_lt a1] at h0
      exact h0 hempty
    have hk := a4 ((i + 10 - f'.main.currentProcessingRequest) % 10) (Nat.mod_lt _ (by norm_num))
    have hidx : (f'.main.currentProcessingRequest
        + (i + 10 - f'.main.currentProcessingRequest) % 10) % 10 = i := by omega
    rw [hidx, hm] at hk
    by_contra hne
    exact absurd (hk.1 hne) (by omega)
  have hsame : ∀ f' : Firmware H R, f'.main.requests = f.main.requests
      → f'.main.currentProcessingRequest = f.main.currentProcessingRequest
      → f'.currentReceivingRequest = f.currentReceivingRequest → RingOccupied f' n := by
    intro f' e1 e2 e3
    obtain ⟨a1, a2, a3, a4⟩ := h
    exact ⟨by rw [e2]; exact a1, a2, by rw [e2, e3]; exact a3, by rw [e1, e2]; exact a4⟩
  by_cases hstop : f.main.emergencyStopOccured = false
  · cases hg : isEmergencyStop c g with
    | true =>
      have hres : cdcRxNotifyCallback c [g] f = raiseEmergencyStop f := by
        unfold cdcRxNotifyCallback
        simp only [hstop, Bool.not_false, if_true, ingestLines, hg]
      rw [hres, if_neg (by simp)]
      have hr := hsame (raiseEmergencyStop f) rfl rfl rfl
      exact ⟨hr, rfl, fun hne => absurd rfl hne, hall _ _ hr⟩
    | false =>
      rw [cdcRxNotifyCallback_single c g f hstop hg]
      obtain ⟨a1, a2, a3, a4⟩ := h
      unfold REQUEST_BUFFER_SIZE at a1 a2 a3 a4
      by_cases hlt : n < REQUEST_BUFFER_SIZE
      · have hempty : (f.main.requests f.currentReceivingRequest).commandParameters = 0 := by
          unfold REQUEST_BUFFER_SIZE at hlt
          have hk := a4 n hlt
          rw [← a3] at hk
          by_contra hne
          exact absurd (hk.1 hne) (lt_irrefl n)
        have hr : RingOccupied (storeRequest g f) (n + 1) := by
          unfold storeRequest
          rw [if_pos hempty]
          unfold RingOccupied REQUEST_BUFFER_SIZE
          dsimp only
          unfold REQUEST_BUFFER_SIZE at hlt
          refine ⟨a1, by omega, ?_, ?_⟩
          · rw [a3]
            split <;> omega
          · intro k hk
            by_cases hkn : k = n
            · rw [hkn, ← a3, Function.update_same]
              exact ⟨fun _ => Nat.lt_succ_self n, fun _ => hcp⟩
            · rw [Function.update_noteq (by rw [a3]; omega), a4 k hk]
              omega
        rw [if_pos ⟨hstop, rfl, hlt⟩]
        refine ⟨hr, ?_, ?_, hall _ _ hr⟩
        · unfold storeRequest
          rw [if_pos hempty]
        · intro _
          refine ⟨hempty, ?_⟩
          unfold storeRequest
          rw [if_pos hempty]
          exact Function.update_same _ _ _
      · have hfull : n = 10 := by
          unfold REQUEST_BUFFER_SIZE at hlt
          omega
        have hocc : (f.main.requests f.currentReceivingRequest).commandParameters ≠ 0 := by
          have hk := a4 0 (by norm_num)
          rw [a3, hfull]
          rw [hfull] at hk
          have hidx : (f.main.currentProcessingRequest + 10) % 10
              = (f.main.currentProcessingRequest + 0) % 10 := by omega
          rw [hidx]
          exact hk.2 (by norm_num)
        have hres : storeRequest g f = f := by
          unfold storeRequest
          rw [if_neg hocc]
        rw [hres, if_neg (fun hx => hlt hx.2.2)]
        have hr := hsame f rfl rfl rfl
        exact ⟨hr, rfl, fun hne => absurd rfl hne, hall _ _ hr⟩
  · have hres : cdcRxNotifyCallback c [g] f = f := by
      unfold cdcRxNotifyCallback
      have hset : f.main.emergencyStopOccured = true := by
        cases hflag : f.main.emergencyStopOccured with
        | false => exact absurd hflag hstop
        | true => rfl
      simp [hset]
    rw [hres, if_neg (fun hx => hstop hx.1)]
    have hr := hsame f rfl rfl rfl
    exact ⟨hr, rfl, fun hne => absurd rfl hne, hall _ _ hr⟩

/-- C29 (amended), at the line `G28` on the empty ring. -/
theorem C29_ring_occupied_ingest_witness :
    RingOccupied (cdcRxNotifyCallback exampleConstants [exampleG28Plain] exampleFirmware)
        (if exampleFirmware.main.emergencyStopOccured = false
            ∧ isEmergencyStop exampleConstants exampleG28Plain = false
            ∧ 0 < REQUEST_BUFFER_SIZE then 0 + 1 else 0)
      ∧ (cdcRxNotifyCallback exampleConstants [exampleG28Plain]
          exampleFirmware).main.currentProcessingRequest
          = exampleFirmware.main.currentProcessingRequest
      ∧ ((cdcRxNotifyCallback exampleConstants [exampleG28Plain]
            exampleFirmware).currentReceivingRequest
            ≠ exampleFirmware.currentReceivingRequest →
          (exampleFirmware.main.requests
              exampleFirmware.currentReceivingRequest).commandParameters = 0
            ∧ (cdcRxNotifyCallback exampleConstants [exampleG28Plain]
                exampleFirmware).main.requests exampleFirmware.currentReceivingRequest
              = exampleG28Plain)
      ∧ (((cdcRxNotifyCallback exampleConstants [exampleG28Plain] exampleFirmware).main.requests
            (cdcRxNotifyCallback exampleConstants [exampleG28Plain]
              exampleFirmware).main.currentProcessingRequest).commandParameters = 0 →
          ∀ i, i < REQUEST_BUFFER_SIZE →
            ((cdcRxNotifyCallback exampleConstants [exampleG28Plain]
              exampleFirmware).main.requests i).commandParameters = 0) :=
  C29_ring_occupied_ingest exampleConstants exampleFirmware 0 exampleG28Plain (by decide)
    (by decide)

/-! ## Lemmas on the fields that the dispatch reads -/

theorem numberingPolicy_withRequests (c : Constants) (g : Gcode R) (s : State H R)
    (r : Nat → Gcode R) :
    numberingPolicy c g (s.withRequests r) = (numberingPolicy c g s).withRequests r := by
  unfold numberingPolicy
  dsimp only [State.withRequests]
  repeat' split
  all_goals rfl

theorem handleM_withRequests (c : Constants) (P : Peripherals H R) (g : Gcode R)
    (s : State H R) (r : Nat → Gcode R) :
    handleM c P g (s.withRequests r) = (handleM c P g s).map (fun t => t.withRequests r) := by
  unfold handleM
  dsimp only [State.withRequests]
  split
  all_goals first | rfl | ((repeat' split) <;> rfl)

theorem handleG_withRequests (c : Constants) (P : Peripherals H R) (g : Gcode R)
    (s : State H R) (r : Nat → Gcode R) :
    handleG c P g (s.withRequests r) = (handleG c P g s).withRequests r := by
  unfold handleG
  dsimp only [State.withRequests]
  split
  all_goals first | rfl | ((repeat' split) <;> rfl)

theorem handleCommand_withRequests (c : Constants) (P : Peripherals H R) (g : Gcode R)
    (s : State H R) (r : Nat → Gcode R) :
    handleCommand c P g (s.withRequests r)
      = (handleCommand c P g s).map (fun t => t.withRequests r) := by
  unfold handleCommand
  split
  · exact handleM_withRequests c P g s r
  · split
    · rw [handleG_withRequests]
      rfl
    · split <;> rfl

theorem appendCommandNumber_withRequests (c : Constants) (g : Gcode R) (s : State H R)
    (r : Nat → Gcode R) :
    appendCommandNumber c g (s.withRequests r) = (appendCommandNumber c g s).withRequests r := by
  unfold appendCommandNumber
  dsimp only [State.withRequests]
  repeat' split
  all_goals rfl

theorem defaultResponse_withRequests (s : State H R) (r : Nat → Gcode R) :
    defaultResponse (s.withRequests r) = (defaultResponse s).withRequests r := by
  unfold defaultResponse
  dsimp only [State.withRequests]
  split <;> rfl

/-- Filling the response buffer does not read the queue: the command is given
by itself. -/
theorem produceResponse_withRequests (c : Constants) (P : Peripherals H R) (g : Gcode R)
    (s : State H R) (r : Nat → Gcode R) :
    produceResponse c P g (s.withRequests r)
      = (produceResponse c P g s).map (fun t => t.withRequests r) := by
  have hhr : ∀ u : State H R, handlerResponse c P g (u.withRequests r)
      = (handlerResponse c P g u).map (fun t => t.withRequests r) := by
    intro u
    unfold handlerResponse
    dsimp only
    rw [numberingPolicy_withRequests]
    have hb : ((numberingPolicy c g u).withRequests r).responseBuffer
        = (numberingPolicy c g u).responseBuffer := rfl
    rw [hb]
    split
    · exact handleCommand_withRequests c P g _ r
    · rfl
  have hpc : ∀ u : State H R, processCommand c P g (u.withRequests r)
      = (processCommand c P g u).map (fun t => t.withRequests r) := by
    intro u
    unfold processCommand
    split
    · split
      · rfl
      · rw [hhr, Option.map_map, Option.map_map]
        congr 1
        funext t
        exact appendCommandNumber_withRequests c g t r
    · rfl
  unfold produceResponse
  have h1 : (s.withRequests r).motors = s.motors := rfl
  have h2 : (s.withRequests r).hw = s.hw := rfl
  rw [h1, h2]
  split
  · rfl
  · split
    · rfl
    · show Option.map defaultResponse (processCommand c P g
          (({ s with responseBuffer := setByte s.responseBuffer 0 NUL } :
            State H R).withRequests r)) = _
      rw [hpc, Option.map_map, Option.map_map]
      congr 1
      funext t
      exact defaultResponse_withRequests t r

theorem has_of_agree (g1 g2 : Gcode R) (h : g1.commandParameters = g2.commandParameters)
    (flag : Nat) : g2.has flag = g1.has flag := by
  unfold Gcode.has
  rw [h]

theorem handleM_agree (c : Constants) (P : Peripherals H R) (g1 g2 : Gcode R) (s : State H R)
    (ha : AgreeOnPresent c g1 g2) (hu : AgreeOnUnguarded c g1 g2)
    (hm : g1.has c.PARAMETER_M_OFFSET = true) :
    handleM c P g1 s = handleM c P g2 s := by
  obtain ⟨hcp, -, hM, hT, hS, hP, hX, -, -, -, -, -⟩ := ha
  obtain ⟨-, u115, u618, -⟩ := hu
  have hh := has_of_agree g1 g2 hcp
  have hMeq := hM hm
  have guardedS : ∀ (α : Type) (f : Int → α) (d : α),
      (if g1.has c.PARAMETER_S_OFFSET = true then f g1.valueS else d)
        = if g1.has c.PARAMETER_S_OFFSET = true then f g2.valueS else d := by
    intro α f d
    by_cases h : g1.has c.PARAMETER_S_OFFSET = true
    · rw [if_pos h, if_pos h, hS h]
    · rw [if_neg h, if_neg h]
  unfold handleM
  rw [← hMeq]
  simp only [hh]
  split
  all_goals first | rfl | skip
  case h_3 => rw [guardedS Int (fun v => v) 0]
  case h_4 => rw [guardedS Int (fun v => v) 0]
  case h_6 =>
    by_cases h : g1.has c.PARAMETER_S_OFFSET = true
    · rw [hS h]
    · simp [h]
  case h_7 =>
    by_cases h : g1.has c.PARAMETER_S_OFFSET = true
    · rw [hS h]
    · simp [h]
  case h_9 => rw [u115 hm (by assumption)]
  case h_12 =>
    by_cases h : g1.has c.PARAMETER_T_OFFSET = true
    · rw [hT h]
    · simp [h]
  case h_14 =>
    by_cases h : g1.has (c.PARAMETER_S_OFFSET ||| c.PARAMETER_T_OFFSET) = true
    · obtain ⟨e1, e2⟩ := u618 hm (Or.inl (by assumption)) h
      rw [← e1, ← e2]
      by_cases h2 : g1.has c.PARAMETER_P_OFFSET = true
      · rw [hP h2]
      · simp [h2]
    · rw [if_neg h, if_neg h]
  case h_15 =>
    by_cases h : g1.has (c.PARAMETER_S_OFFSET ||| c.PARAMETER_T_OFFSET) = true
    · obtain ⟨e1, e2⟩ := u618 hm (Or.inr (by assumption)) h
      rw [← e1, ← e2]
      by_cases h2 : g1.has c.PARAMETER_P_OFFSET = true
      · rw [hP h2]
      · simp [h2]
    · rw [if_neg h, if_neg h]
  case h_16 =>
    by_cases h : g1.has c.PARAMETER_X_OFFSET = true
    · rw [hX h]
    · rw [if_neg h, if_neg h]

theorem g92Axis_agree (c : Constants) (g1 g2 : Gcode R) (ha : AgreeOnPresent c g1 g2)
    (m : Motors R) (i : AXES) : g92Axis c g1 m i = g92Axis c g2 m i := by
  obtain ⟨hcp, -, -, -, -, -, hX, hY, hZ, hE, -, -⟩ := ha
  have hh := has_of_agree g1 g2 hcp
  unfold g92Axis
  simp only [hh]
  cases i
  · by_cases h : g1.has c.PARAMETER_X_OFFSET = true
    · simp only [h, if_true, hX h]
    · simp [h]
  · by_cases h : g1.has c.PARAMETER_Y_OFFSET = true
    · simp only [h, if_true, hY h]
    · simp [h]
  · by_cases h : g1.has c.PARAMETER_Z_OFFSET = true
    · simp only [h, if_true, hZ h]
    · simp [h]
  · by_cases h : g1.has c.PARAMETER_E_OFFSET = true
    · simp only [h, if_true, hE h]
    · simp [h]
  · by_cases h : g1.has c.PARAMETER_E_OFFSET = true
    · simp only [h, if_true, hE h]
    · simp [h]

theorem handleG_agree (c : Constants) (P : Peripherals H R) (g1 g2 : Gcode R) (s : State H R)
    (ha : AgreeOnPresent c g1 g2) (hu : AgreeOnUnguarded c g1 g2)
    (hmove : P.motorsMove g1 = P.motorsMove g2)
    (hm : g1.has c.PARAMETER_M_OFFSET = false) (hg : g1.has c.PARAMETER_G_OFFSET = true) :
    handleG c P g1 s = handleG c P g2 s := by
  have h92 : ∀ m : Motors R, [AXES.X, AXES.Y, AXES.Z, AXES.E].foldl (g92Axis c g1) m
      = [AXES.X, AXES.Y, AXES.Z, AXES.E].foldl (g92Axis c g2) m := by
    intro m
    simp only [List.foldl, g92Axis_agree c g1 g2 ha]
  obtain ⟨hcp, hG, -, -, -, -, -, -, -, -, -, -⟩ := ha
  obtain ⟨-, -, -, u4⟩ := hu
  have hh := has_of_agree g1 g2 hcp
  have hGeq := hG hg
  unfold handleG
  rw [← hGeq]
  simp only [hh, ← hmove, h92]
  split
  all_goals first | rfl | skip
  case h_3 =>
    obtain ⟨e1, e2⟩ := u4 hm hg (by assumption)
    rw [← e1, ← e2]

theorem hasGcode_of_agree (c : Constants) (g1 g2 : Gcode R)
    (h : g1.commandParameters = g2.commandParameters) : g2.hasGcode c = g1.hasGcode c := by
  unfold Gcode.hasGcode
  rw [h]

theorem numberingPolicy_agree (c : Constants) (g1 g2 : Gcode R) (s : State H R)
    (ha : AgreeOnPresent c g1 g2) (hu : AgreeOnUnguarded c g1 g2) :
    numberingPolicy c g1 s = numberingPolicy c g2 s := by
  obtain ⟨hcp, -, -, -, -, -, -, -, -, -, -, hN⟩ := ha
  have hh := has_of_agree g1 g2 hcp
  unfold numberingPolicy
  simp only [hh]
  by_cases hn : g1.has c.PARAMETER_N_OFFSET = true
  · rw [if_pos hn, if_pos hn, ← hN hn]
    cases hv : g1.has c.VALID_CHECKSUM_OFFSET with
    | false => rfl
    | true => rw [← hu.1 hn hv]
  · rw [if_neg hn, if_neg hn]

theorem appendCommandNumber_agree (c : Constants) (g1 g2 : Gcode R) (s : State H R)
    (ha : AgreeOnPresent c g1 g2) :
    appendCommandNumber c g1 s = appendCommandNumber c g2 s := by
  obtain ⟨hcp, -, -, -, -, -, -, -, -, -, -, hN⟩ := ha
  have hh := has_of_agree g1 g2 hcp
  unfold appendCommandNumber
  simp only [hh]
  cases hn : g1.has c.PARAMETER_N_OFFSET with
  | false => rfl
  | true => rw [← hN hn]

theorem handleCommand_agree (c : Constants) (P : Peripherals H R) (g1 g2 : Gcode R)
    (s : State H R) (ha : AgreeOnPresent c g1 g2) (hu : AgreeOnUnguarded c g1 g2)
    (hmove : P.motorsMove g1 = P.motorsMove g2) :
    handleCommand c P g1 s = handleCommand c P g2 s := by
  have hh := has_of_agree g1 g2 ha.1
  unfold handleCommand
  simp only [hh]
  cases hm : g1.has c.PARAMETER_M_OFFSET with
  | true => simp only [if_true, handleM_agree c P g1 g2 s ha hu hm]
  | false =>
    cases hg : g1.has c.PARAMETER_G_OFFSET with
    | true =>
      simp only [Bool.false_eq_true, if_false, if_true,
        handleG_agree c P g1 g2 s ha hu hmove hm hg]
    | false => rfl

/-- The response to a command depends only on the presence bitmask, on the
fields it marks present, on the values read without a test of their flag, and
on what `Motors::move` makes of the command. -/
theorem produceResponse_agree (c : Constants) (P : Peripherals H R) (g1 g2 : Gcode R)
    (s : State H R) (ha : AgreeOnPresent c g1 g2) (hu : AgreeOnUnguarded c g1 g2)
    (hmove : P.motorsMove g1 = P.motorsMove g2) :
    produceResponse c P g1 s = produceResponse c P g2 s := by
  have hh := has_of_agree g1 g2 ha.1
  have hgc := hasGcode_of_agree c g1 g2 ha.1
  have hhr : ∀ u : State H R, handlerResponse c P g1 u = handlerResponse c P g2 u := by
    intro u
    unfold handlerResponse
    dsimp only
    rw [← numberingPolicy_agree c g1 g2 u ha hu, ← handleCommand_agree c P g1 g2 _ ha hu hmove]
  have hac : appendCommandNumber c g1 = (appendCommandNumber c g2 : State H R → State H R) :=
    funext (fun u => appendCommandNumber_agree c g1 g2 u ha)
  unfold produceResponse processCommand
  simp only [hh, hgc, hhr, hac]

/-- An iteration that dispatches a command whose handler ends in the soft reset
does not return. -/
theorem mainLoopIteration_reset (c : Constants) (P : Peripherals H R) (stopArrives : Bool)
    (s : State H R)
    (hocc : (s.requests s.currentProcessingRequest).commandParameters ≠ 0)
    (hstop : s.emergencyStopOccured = false)
    (hp : produceResponse c P (s.requests s.currentProcessingRequest)
      (disableSendingWaitResponses s) = none) :
    mainLoopIteration c P stopArrives s = none := by
  unfold mainLoopIteration
  rw [if_pos hocc]
  simp only [disableSendingWaitResponses, hstop, Bool.not_false, if_true] at hp ⊢
  rw [hp]
  rfl

/-- The presence bitmasks of the queue in which `g1` sits at the consumer index
and of the queue in which `g2` sits there, once the slot at the index `i` is
cleared or when the two commands have the same bitmask. -/
theorem commandParameters_update_agree (requests : Nat → Gcode R) (i j : Nat)
    (g1 g2 : Gcode R) (h : g1.commandParameters = g2.commandParameters) :
    (Function.update requests i g1 j).commandParameters
      = (Function.update requests i g2 j).commandParameters := by
  by_cases hj : j = i
  · rw [hj, Function.update_same, Function.update_same, h]
  · rw [Function.update_noteq hj, Function.update_noteq hj]

/-- `Motors::move` reads a field of the command only when the bitmask marks it
present: of two commands that agree on the fields that are present it makes the
same. -/
theorem move_agree (c : Constants) (env : MotorEnvironment) (g1 g2 : Gcode ℚ)
    (ha : AgreeOnPresent c g1 g2) : move c env g1 = move c env g2 := by
  obtain ⟨hcp, -, -, -, -, -, hX, hY, hZ, hE, hF, -⟩ := ha
  have hh := has_of_agree g1 g2 hcp
  have hparameter : ∀ i, g1.has (parameterOffset c i) = true
      → parameter g1 i = parameter g2 i := by
    intro i hi
    cases i
    · exact hX hi
    · exact hY hi
    · exact hZ hi
    · exact hE hi
    · exact hE hi
  have haxis : ∀ (l : MoveLocals) (i : AXES), moveAxis c env g1 l i = moveAxis c env g2 l i := by
    intro l i
    unfold moveAxis
    rw [hh]
    by_cases hi : g1.has (parameterOffset c i) = true
    · have hnew : newValue g1 l.motors i = newValue g2 l.motors i := by
        unfold newValue
        rw [hparameter i hi]
      have hdist : distanceTraveled g1 l.motors i = distanceTraveled g2 l.motors i := by
        unfold distanceTraveled
        rw [hnew]
      rw [hnew, hdist]
    · rw [if_neg hi, if_neg hi]
  have hplan : ∀ (motors : MotionEngine) (hw : MotorsHardware),
      planAxes c env g1 motors hw = planAxes c env g2 motors hw := by
    intro motors hw
    unfold planAxes
    rw [hh]
    have hfun : moveAxis c env g1 = moveAxis c env g2 :=
      funext (fun l => funext (fun i => haxis l i))
    rw [hfun]
    by_cases hf : g1.has c.PARAMETER_F_OFFSET = true
    · rw [hF hf]
    · simp [hf]
  have hstart : ∀ motors : MotionEngine, startValues c g1 motors = startValues c g2 motors := by
    intro motors
    unfold startValues
    rw [hh]
    by_cases hf : g1.has c.PARAMETER_F_OFFSET = true
    · rw [hF hf]
    · rw [if_neg hf, if_neg hf]
  funext stopArrives s
  unfold move
  rw [hplan, hstart]

/-- C22 (as stated, refuted): the two commands are the line `N3 G28` with a good
checksum; they have the same presence bitmask, in which M is absent, and differ
only in the stored M value, 0 and 110. The current command number is 1. Line 214
reads the M value without a test of the M flag: the first command is answered
`rs 1` and no handler runs, the second sets the current command number to 3, is
homed and answered `ok 3`, and leaves the current command number at 4. -/
theorem C22_counterexample :
    AgreeOnPresent exampleConstants exampleG28 exampleG28StrayM
      ∧ exampleG28.has exampleConstants.PARAMETER_M_OFFSET = false
      ∧ (mainLoopIteration exampleConstants loggingPeripherals false
          (exampleState exampleG28 1)).map
          (fun s => (s.usb, s.currentCommandNumber, s.hw))
        = some (["rs 1\n".toList], 1, [])
      ∧ (mainLoopIteration exampleConstants loggingPeripherals false
          (exampleState exampleG28StrayM 1)).map
          (fun s => (s.usb, s.currentCommandNumber, s.hw))
        = some (["ok 3\n".toList], 4, ["motors.homeXY"]) := by
  decide

/-- C22 (amended): two commands with the same presence bitmask and equal values
in every field the bitmask marks present, which also agree on the values that
main.cpp reads without a test of their flag (the M value of a numbered command
with a valid checksum, the S value of an M115, the S and T values of an M618 or
M619 that has one of the two fields, the P and S values of a G4), and of which
`Motors::move` makes the same. An iteration of the main loop with the one at
the consumer index ends like the iteration with the other: the same lines
sent, the same response, the same current command number and the same motor
members and hardware. -/
theorem C22_dispatch_reads (c : Constants) (P : Peripherals H R) (stopArrives : Bool)
    (s : State H R) (g1 g2 : Gcode R) (ha : AgreeOnPresent c g1 g2)
    (hu : AgreeOnUnguarded c g1 g2) (hmove : P.motorsMove g1 = P.motorsMove g2) :
    SameOutcome (mainLoopIteration c P stopArrives (s.withRequest g1))
      (mainLoopIteration c P stopArrives (s.withRequest g2)) := by
  have hcp := ha.1
  have hslot : ∀ g : Gcode R,
      (s.withRequest g).requests (s.withRequest g).currentProcessingRequest = g :=
    fun g => Function.update_same _ _ _
  have hmask : ∀ j, ((s.withRequest g1).requests j).commandParameters
      = ((s.withRequest g2).requests j).commandParameters :=
    fun j => commandParameters_update_agree s.requests _ j g1 g2 hcp
  have hclr : ∀ (u : State H R) (j : Nat), (u.requestsCleared j).commandParameters
      = if j = u.currentProcessingRequest then 0 else (u.requests j).commandParameters := by
    intro u j
    unfold State.requestsCleared
    by_cases hj : j = u.currentProcessingRequest
    · rw [if_pos hj, hj, Function.update_same]
    · rw [if_neg hj, Function.update_noteq hj]
  have hcleared : ∀ j, ((s.withRequest g1).requestsCleared j).commandParameters
      = ((s.withRequest g2).requestsCleared j).commandParameters := by
    intro j
    rw [hclr, hclr, hmask j]
    rfl
  by_cases hocc : g1.commandParameters ≠ 0
  · have hocc1 : ((s.withRequest g1).requests
        (s.withRequest g1).currentProcessingRequest).commandParameters ≠ 0 := by
      rw [hslot]; exact hocc
    have hocc2 : ((s.withRequest g2).requests
        (s.withRequest g2).currentProcessingRequest).commandParameters ≠ 0 := by
      rw [hslot, ← hcp]; exact hocc
    cases hstop : s.emergencyStopOccured with
    | true =>
      rw [mainLoopIteration_stopped c P stopArrives _ hocc1 hstop,
        mainLoopIteration_stopped c P stopArrives _ hocc2 hstop]
      exact ⟨rfl, rfl, rfl, rfl, rfl, rfl, rfl, hcleared⟩
    | false =>
      have hp1 : produceResponse c P ((s.withRequest g1).requests
          (s.withRequest g1).currentProcessingRequest)
          (disableSendingWaitResponses (s.withRequest g1))
          = (produceResponse c P g1 (disableSendingWaitResponses s)).map
              (fun t => t.withRequests (s.withRequest g1).requests) := by
        rw [hslot]
        exact produceResponse_withRequests c P g1 (disableSendingWaitResponses s) _
      have hp2 : produceResponse c P ((s.withRequest g2).requests
          (s.withRequest g2).currentProcessingRequest)
          (disableSendingWaitResponses (s.withRequest g2))
          = (produceResponse c P g1 (disableSendingWaitResponses s)).map
              (fun t => t.withRequests (s.withRequest g2).requests) := by
        rw [hslot, produceResponse_agree c P g1 g2 _ ha hu hmove]
        exact produceResponse_withRequests c P g2 (disableSendingWaitResponses s) _
      cases ho : produceResponse c P g1 (disableSendingWaitResponses s) with
      | none =>
        rw [ho] at hp1 hp2
        rw [mainLoopIteration_reset c P stopArrives _ hocc1 hstop hp1,
          mainLoopIteration_reset c P stopArrives _ hocc2 hstop hp2]
        trivial
      | some t =>
        rw [ho] at hp1 hp2
        obtain ⟨-, -, -, -, -, q6, -⟩ := queueUnchanged_produceResponse c P _ _ t ho
        obtain ⟨s1, a1, a2, a3, a4, a5, a6, a7, a8, a9, -⟩ :=
          mainLoopIteration_dispatch c P stopArrives _ _ hocc1 hstop hp1
        obtain ⟨s2, b1, b2, b3, b4, b5, b6, b7, b8, b9, -⟩ :=
          mainLoopIteration_dispatch c P stopArrives _ _ hocc2 hstop hp2
        rw [a1, b1]
        refine ⟨?_, ?_, ?_, ?_, ?_, ?_, ?_, ?_⟩
        · rw [a2, b2]; rfl
        · rw [a9, b9]; rfl
        · rw [a3, b3]; rfl
        · rw [a4, b4]; rfl
        · rw [a5, b5]; rfl
        · rw [a8, b8]
        · rw [a7, b7]; rfl
        · intro j
          rw [a6, b6]
          exact hcleared j
  · have hfree1 : ¬ ((s.withRequest g1).requests
        (s.withRequest g1).currentProcessingRequest).commandParameters ≠ 0 := by
      rw [hslot]; exact hocc
    have hfree2 : ¬ ((s.withRequest g2).requests
        (s.withRequest g2).currentProcessingRequest).commandParameters ≠ 0 := by
      rw [hslot, ← hcp]; exact hocc
    unfold mainLoopIteration
    rw [if_neg hfree1, if_neg hfree2]
    have hflag : ∀ g : Gcode R, (s.withRequest g).emergencyStopOccured
        = s.emergencyStopOccured := fun _ => rfl
    rw [hflag, hflag]
    split
    · exact ⟨rfl, rfl, rfl, rfl, rfl, rfl, rfl, hmask⟩
    · exact ⟨rfl, rfl, rfl, rfl, rfl, rfl, rfl, hmask⟩

/-- C22 (amended), at the line `N3 G28` with a good checksum and the same line
whose stored T value, absent by the bitmask, is 7. -/
theorem C22_dispatch_reads_witness :
    SameOutcome
      (mainLoopIteration exampleConstants loggingPeripherals false
        ((exampleState emptyRequest 3).withRequest exampleG28))
      (mainLoopIteration exampleConstants loggingPeripherals false
        ((exampleState emptyRequest 3).withRequest exampleG28StrayT)) :=
  C22_dispatch_reads exampleConstants loggingPeripherals false (exampleState emptyRequest 3)
    exampleG28 exampleG28StrayT (by decide) (by decide) rfl

/-! ## Lemmas on the step timer -/

/-- Quotient and remainder of a successor. -/
theorem succ_div_mod (a b : Nat) (hb : 0 < b) :
    (a % b + 1 < b → (a + 1) / b = a / b ∧ (a + 1) % b = a % b + 1)
      ∧ (¬ a % b + 1 < b → (a + 1) / b = a / b + 1 ∧ (a + 1) % b = 0) := by
  have hdm := Nat.div_add_mod a b
  have hlt := Nat.mod_lt a hb
  constructor
  · intro h
    exact (Nat.div_mod_unique hb).mpr ⟨(by omega : a % b + 1 + b * (a / b) = a + 1), h⟩
  · intro h
    have := (Nat.div_mod_unique hb).mpr ⟨(by
      have hb1 : a % b + 1 = b := by omega
      calc 0 + b * (a / b + 1) = b * (a / b) + (a % b + 1) := by rw [hb1]; ring
        _ = a + 1 := by rw [← Nat.add_assoc, hdm]), hb⟩
    exact this

theorem effectiveTicks_zero (s : Nat) : effectiveTicks s 0 = 0 := by
  unfold effectiveTicks
  split <;> simp

/-- An interrupt that returns at line 242 does not count. -/
theorem effectiveTicks_succ_skip (s k : Nat) (hs : 1 < s) (h : ¬ k % s + 1 < s) :
    effectiveTicks s (k + 1) = effectiveTicks s k ∧ (k + 1) % s = 0 := by
  obtain ⟨h1, h2⟩ := (succ_div_mod k s (by omega)).2 h
  have hle := Nat.div_le_self k s
  unfold effectiveTicks
  rw [if_pos hs, if_pos hs, h1]
  exact ⟨by omega, h2⟩

/-- An interrupt that gets past line 242 counts. -/
theorem effectiveTicks_succ_pass (s k : Nat) (hs : 1 < s) (h : k % s + 1 < s) :
    effectiveTicks s (k + 1) = effectiveTicks s k + 1 ∧ (k + 1) % s = k % s + 1 := by
  obtain ⟨h1, h2⟩ := (succ_div_mod k s (by omega)).1 h
  have hle := Nat.div_le_self k s
  unfold effectiveTicks
  rw [if_pos hs, if_pos hs, h1]
  exact ⟨by omega, h2⟩

theorem effectiveTicks_succ_plain (s k : Nat) (hs : ¬ 1 < s) :
    effectiveTicks s (k + 1) = effectiveTicks s k + 1 := by
  unfold effectiveTicks
  rw [if_neg hs, if_neg hs]

theorem effectiveTicks_succ_le (s k : Nat) :
    effectiveTicks s k ≤ effectiveTicks s (k + 1)
      ∧ effectiveTicks s (k + 1) ≤ effectiveTicks s k + 1 := by
  by_cases hs : 1 < s
  · by_cases h : k % s + 1 < s
    · rw [(effectiveTicks_succ_pass s k hs h).1]
      omega
    · rw [(effectiveTicks_succ_skip s k hs h).1]
      omega
  · rw [effectiveTicks_succ_plain s k hs]
    omega

theorem effectiveTicks_mono (s : Nat) {k k' : Nat} (h : k ≤ k') :
    effectiveTicks s k ≤ effectiveTicks s k' := by
  induction k' with
  | zero =>
    have : k = 0 := by omega
    rw [this]
  | succ n ih =>
    by_cases hk : k = n + 1
    · rw [hk]
    · exact le_trans (ih (by omega)) (effectiveTicks_succ_le s n).1

/-- The interrupt `tickOf skips count` is the one that is the `count`-th to get
past line 242. -/
theorem effectiveTicks_tickOf (s e : Nat) (he : 1 ≤ e) :
    1 ≤ tickOf s e
      ∧ effectiveTicks s (tickOf s e - 1) = e - 1
      ∧ effectiveTicks s (tickOf s e) = e
      ∧ (1 < s → (tickOf s e - 1) % s + 1 < s) := by
  by_cases hs : 1 < s
  · have hs1 : 0 < s - 1 := by omega
    have hdm := Nat.div_add_mod (e - 1) (s - 1)
    have hlt := Nat.mod_lt (e - 1) hs1
    -- the interrupt before: s * q + r with r < s - 1
    have hmul : s * ((e - 1) / (s - 1)) = (s - 1) * ((e - 1) / (s - 1)) + (e - 1) / (s - 1) := by
      have : s = (s - 1) + 1 := by omega
      nth_rewrite 1 [this]
      ring
    have hprev : tickOf s e - 1 = (e - 1) % (s - 1) + s * ((e - 1) / (s - 1)) := by
      unfold tickOf
      rw [if_pos hs, hmul]
      omega
    have hun := (Nat.div_mod_unique (by omega : 0 < s)).mpr
      ⟨hprev.symm, (by omega : (e - 1) % (s - 1) < s)⟩
    have hpos : 1 ≤ tickOf s e := by
      unfold tickOf
      rw [if_pos hs]
      omega
    have hpass : (tickOf s e - 1) % s + 1 < s := by
      rw [hun.2]
      omega
    have heff : effectiveTicks s (tickOf s e - 1) = e - 1 := by
      unfold effectiveTicks
      rw [if_pos hs, hun.1, hprev, hmul]
      omega
    refine ⟨hpos, heff, ?_, fun _ => hpass⟩
    have hsucc := (effectiveTicks_succ_pass s (tickOf s e - 1) hs hpass).1
    rw [Nat.sub_add_cancel hpos, heff] at hsucc
    omega
  · unfold tickOf effectiveTicks
    rw [if_neg hs, if_neg hs, if_neg hs]
    exact ⟨he, rfl, rfl, fun h => absurd h hs⟩

/-- One period on the entries of a motor whose interrupt is on and whose
counters are below their bounds: the arithmetic of `uint32_t` does not wrap. -/
theorem motorPeriod_enabled (s sc d dc n p : Nat) (hs : s < 2 ^ 32) (hd : d < 2 ^ 32)
    (hn : n < 2 ^ 32) (hsc : sc < max s 1) (hdc : dc < max d 1) :
    motorPeriod
        { motorsDelaySkips := s, motorsDelaySkipsCounter := sc, motorsStepDelay := d,
          motorsStepDelayCounter := dc, motorsNumberOfSteps := n, interruptEnabled := true,
          pulses := p }
      = if 1 < s ∧ s ≤ sc + 1 then
          { motorsDelaySkips := s, motorsDelaySkipsCounter := 0, motorsStepDelay := d,
            motorsStepDelayCounter := dc, motorsNumberOfSteps := n, interruptEnabled := true,
            pulses := p }
        else if d ≤ dc + 1 then
          if n ≠ 0 then
            { motorsDelaySkips := s
              motorsDelaySkipsCounter := if 1 < s then sc + 1 else sc
              motorsStepDelay := d, motorsStepDelayCounter := 0
              motorsNumberOfSteps := n - 1, interruptEnabled := true, pulses := p + 1 }
          else
            { motorsDelaySkips := s
              motorsDelaySkipsCounter := if 1 < s then sc + 1 else sc
              motorsStepDelay := d, motorsStepDelayCounter := 0
              motorsNumberOfSteps := 0, interruptEnabled := false, pulses := p }
        else
          { motorsDelaySkips := s
            motorsDelaySkipsCounter := if 1 < s then sc + 1 else sc
            motorsStepDelay := d, motorsStepDelayCounter := dc + 1
            motorsNumberOfSteps := n, interruptEnabled := true, pulses := p } := by
  have hdc1 : (dc + 1) % 2 ^ 32 = dc + 1 := Nat.mod_eq_of_lt (by
    rcases le_max_iff.mp (le_refl (max d 1)) with h | h <;> omega)
  have hn1 : n ≠ 0 → (n + 2 ^ 32 - 1) % 2 ^ 32 = n - 1 := by
    intro h
    omega
  unfold motorPeriod stepTimerInterrupt
  simp only [if_true, hdc1, gt_iff_lt, ge_iff_le]
  by_cases h1 : 1 < s
  · have hsc1 : (sc + 1) % 2 ^ 32 = sc + 1 := Nat.mod_eq_of_lt (by
      rcases le_max_iff.mp (le_refl (max s 1)) with h | h <;> omega)
    simp only [h1, if_true, hsc1, true_and]
    by_cases h2 : s ≤ sc + 1
    · simp only [h2, if_true]
    · simp only [h2, if_false]
      by_cases h3 : d ≤ dc + 1
      · simp only [h3, if_true]
        by_cases h4 : n = 0
        · simp [h4]
        · simp only [h4, ne_eq, not_false_eq_true, if_true, hn1 h4]
      · simp only [h3, if_false]
  · simp only [h1, if_false, false_and]
    by_cases h3 : d ≤ dc + 1
    · simp only [h3, if_true]
      by_cases h4 : n = 0
      · simp [h4]
      · simp only [h4, ne_eq, not_false_eq_true, if_true, hn1 h4]
    · simp only [h3, if_false]

theorem runMotor_succ (k : Nat) (m : MotorTimer) :
    runMotor (k + 1) m = motorPeriod (runMotor k m) := by
  unfold runMotor
  exact Function.iterate_succ_apply' _ _ _

/-- The entries of a motor after `k` periods of the step timer, while fewer
interrupts have got past line 242 than it takes to make all steps and to find
the number of steps at zero. -/
theorem runMotor_running (s d n p : Nat) (hs : s < 2 ^ 32) (hd : d < 2 ^ 32)
    (hn : n < 2 ^ 32) (k : Nat) (hk : effectiveTicks s k < (n + 1) * max d 1) :
    runMotor k
        { motorsDelaySkips := s, motorsDelaySkipsCounter := 0, motorsStepDelay := d,
          motorsStepDelayCounter := 0, motorsNumberOfSteps := n, interruptEnabled := true,
          pulses := p }
      = { motorsDelaySkips := s
          motorsDelaySkipsCounter := if 1 < s then k % s else 0
          motorsStepDelay := d
          motorsStepDelayCounter := effectiveTicks s k % max d 1
          motorsNumberOfSteps := n - effectiveTicks s k / max d 1
          interruptEnabled := true
          pulses := p + effectiveTicks s k / max d 1 } := by
  have hD : 0 < max d 1 := lt_of_lt_of_le Nat.one_pos (le_max_right d 1)
  induction k with
  | zero =>
    simp [runMotor, effectiveTicks_zero]
  | succ k ih =>
    have hmono := effectiveTicks_succ_le s k
    have ih' := ih (lt_of_le_of_lt hmono.1 hk)
    have hrun : runMotor (k + 1)
        { motorsDelaySkips := s, motorsDelaySkipsCounter := 0, motorsStepDelay := d,
          motorsStepDelayCounter := 0, motorsNumberOfSteps := n, interruptEnabled := true,
          pulses := p }
        = motorPeriod (runMotor k
          { motorsDelaySkips := s, motorsDelaySkipsCounter := 0, motorsStepDelay := d,
            motorsStepDelayCounter := 0, motorsNumberOfSteps := n, interruptEnabled := true,
            pulses := p }) := by
      unfold runMotor
      exact Function.iterate_succ_apply' _ _ _
    have hsc : (if 1 < s then k % s else 0) < max s 1 := by
      split
      · exact lt_of_lt_of_le (Nat.mod_lt _ (by omega)) (le_max_left s 1)
      · exact lt_of_lt_of_le Nat.one_pos (le_max_right s 1)
    have hdc : effectiveTicks s k % max d 1 < max d 1 := Nat.mod_lt _ hD
    rw [hrun, ih', motorPeriod_enabled s _ d _ _ _ hs hd
      (lt_of_le_of_lt (Nat.sub_le _ _) hn) hsc hdc]
    by_cases hskip : 1 < s ∧ s ≤ (if 1 < s then k % s else 0) + 1
    · rw [if_pos hskip]
      obtain ⟨h1, h2⟩ := hskip
      rw [if_pos h1] at h2
      obtain ⟨e1, e2⟩ := effectiveTicks_succ_skip s k h1 (by omega)
      rw [e1, if_pos h1, e2]
    · rw [if_neg hskip]
      have hcount : effectiveTicks s (k + 1) = effectiveTicks s k + 1
          ∧ (if 1 < s then (if 1 < s then k % s else 0) + 1 else (if 1 < s then k % s else 0))
            = if 1 < s then (k + 1) % s else 0 := by
        by_cases h1 : 1 < s
        · simp only [h1, if_true, true_and, not_le] at hskip ⊢
          obtain ⟨e1, e2⟩ := effectiveTicks_succ_pass s k h1 hskip
          exact ⟨e1, e2.symm⟩
        · simp only [h1, if_false]
          exact ⟨effectiveTicks_succ_plain s k h1, trivial⟩
      obtain ⟨e1, e2⟩ := hcount
      rw [e2, e1]
      rw [e1] at hk
      by_cases hev : d ≤ effectiveTicks s k % max d 1 + 1
      · rw [if_pos hev]
        have hfull : ¬ effectiveTicks s k % max d 1 + 1 < max d 1 := by
          rcases Nat.eq_zero_or_pos d with h0 | hpos
          · rw [h0]
            simp
          · rw [max_eq_left hpos]
            rw [max_eq_left hpos] at hev
            omega
        obtain ⟨q1, q2⟩ := (succ_div_mod (effectiveTicks s k) (max d 1) hD).2 hfull
        have hq : (effectiveTicks s k + 1) / max d 1 < n + 1 :=
          (Nat.div_lt_iff_lt_mul hD).mpr hk
        rw [q1] at hq
        rw [if_pos (by omega), q1, q2, Nat.sub_sub, Nat.add_assoc]
      · rw [if_neg hev]
        have hpart : effectiveTicks s k % max d 1 + 1 < max d 1 :=
          lt_of_lt_of_le (by omega) (le_max_left d 1)
        obtain ⟨q1, q2⟩ := (succ_div_mod (effectiveTicks s k) (max d 1) hD).1 hpart
        rw [q1, q2]

/-- The entries of a motor once the interrupt has found the number of steps at
zero: every step was made and the interrupt is off. -/
theorem runMotor_finished (s d n p : Nat) (hs : s < 2 ^ 32) (hd : d < 2 ^ 32)
    (hn : n < 2 ^ 32) :
    (runMotor (tickOf s ((n + 1) * max d 1))
        { motorsDelaySkips := s, motorsDelaySkipsCounter := 0, motorsStepDelay := d,
          motorsStepDelayCounter := 0, motorsNumberOfSteps := n, interruptEnabled := true,
          pulses := p }).interruptEnabled = false
      ∧ (runMotor (tickOf s ((n + 1) * max d 1))
        { motorsDelaySkips := s, motorsDelaySkipsCounter := 0, motorsStepDelay := d,
          motorsStepDelayCounter := 0, motorsNumberOfSteps := n, interruptEnabled := true,
          pulses := p }).motorsNumberOfSteps = 0
      ∧ (runMotor (tickOf s ((n + 1) * max d 1))
        { motorsDelaySkips := s, motorsDelaySkipsCounter := 0, motorsStepDelay := d,
          motorsStepDelayCounter := 0, motorsNumberOfSteps := n, interruptEnabled := true,
          pulses := p }).pulses = p + n := by
  have hD : 0 < max d 1 := lt_of_lt_of_le Nat.one_pos (le_max_right d 1)
  have hE : 1 ≤ (n + 1) * max d 1 := Nat.mul_pos (Nat.succ_pos n) hD
  obtain ⟨t1, t2, -, t4⟩ := effectiveTicks_tickOf s ((n + 1) * max d 1) hE
  have hprev := runMotor_running s d n p hs hd hn (tickOf s ((n + 1) * max d 1) - 1)
    (by rw [t2]; omega)
  -- the interrupts that got past line 242 before the last one: n full delays and
  -- one short of another
  have hsplit : (n + 1) * max d 1 - 1 = (max d 1 - 1) + max d 1 * n := by
    have : (n + 1) * max d 1 = max d 1 * n + max d 1 := by ring
    omega
  have hun := (Nat.div_mod_unique hD).mpr
    ⟨hsplit.symm, (by omega : max d 1 - 1 < max d 1)⟩
  rw [t2, hun.1, hun.2, Nat.sub_self] at hprev
  have hrun : runMotor (tickOf s ((n + 1) * max d 1))
      { motorsDelaySkips := s, motorsDelaySkipsCounter := 0, motorsStepDelay := d,
        motorsStepDelayCounter := 0, motorsNumberOfSteps := n, interruptEnabled := true,
        pulses := p }
      = motorPeriod (runMotor (tickOf s ((n + 1) * max d 1) - 1)
        { motorsDelaySkips := s, motorsDelaySkipsCounter := 0, motorsStepDelay := d,
          motorsStepDelayCounter := 0, motorsNumberOfSteps := n, interruptEnabled := true,
          pulses := p }) := by
    rw [← runMotor_succ, Nat.sub_add_cancel t1]
  have hsc : (if 1 < s then (tickOf s ((n + 1) * max d 1) - 1) % s else 0) < max s 1 := by
    split
    · exact lt_of_lt_of_le (Nat.mod_lt _ (by omega)) (le_max_left s 1)
    · exact lt_of_lt_of_le Nat.one_pos (le_max_right s 1)
  rw [hrun, hprev, motorPeriod_enabled s _ d _ _ _ hs hd (by norm_num) hsc (by omega)]
  have hpass : ¬ (1 < s ∧ s ≤ (if 1 < s then (tickOf s ((n + 1) * max d 1) - 1) % s else 0)
      + 1) := by
    rintro ⟨h1, h2⟩
    rw [if_pos h1] at h2
    have := t4 h1
    omega
  have hev : d ≤ max d 1 - 1 + 1 := by
    have := le_max_left d 1
    omega
  rw [if_neg hpass, if_pos hev, if_neg (by simp)]
  exact ⟨rfl, rfl, rfl⟩

/-- A motor whose interrupt is off is left alone by the step timer. -/
theorem runMotor_of_disabled (m : MotorTimer) (h : m.interruptEnabled = false) (k : Nat) :
    runMotor k m = m := by
  have hfix : motorPeriod m = m := by
    unfold motorPeriod
    rw [h]
    rfl
  unfold runMotor
  exact Function.iterate_fixed hfix k

theorem runMotor_add (j k : Nat) (m : MotorTimer) :
    runMotor (j + k) m = runMotor j (runMotor k m) := by
  unfold runMotor
  exact Function.iterate_add_apply _ _ _ _

/-- While the interrupt of a motor is on, a period of the step timer is one call
of `stepTimerInterrupt`. -/
theorem runMotor_eq_iterate (m : MotorTimer) (T : Nat)
    (h : ∀ k, k < T → (runMotor k m).interruptEnabled = true) :
    ∀ k, k ≤ T → runMotor k m = stepTimerInterrupt^[k] m := by
  intro k
  induction k with
  | zero => intro _; rfl
  | succ k ih =>
    intro hk
    rw [runMotor_succ, Function.iterate_succ_apply', ← ih (by omega)]
    unfold motorPeriod
    rw [h k (by omega)]
    rfl

/-- C25: the entries of a motor hold N remaining steps, a step delay d and a skip
period s, all `uint32_t`, the two counters are zero and the step interrupt of
the motor is on. Then after T periods of the step timer, T the number of the
interrupt that is the (N + 1) max(d, 1)-th to get past the return of line 242,
the interrupt is off, the number of steps is 0 and exactly N pulses were made,
whatever s is. Before that the interrupt is on and at most N pulses were made;
afterwards nothing changes. Up to T the periods are calls of
`stepTimerInterrupt` one after the other. -/
theorem C25_step_timer_terminates (m : MotorTimer) (hs : m.motorsDelaySkips < 2 ^ 32)
    (hd : m.motorsStepDelay < 2 ^ 32) (hn : m.motorsNumberOfSteps < 2 ^ 32)
    (hsc : m.motorsDelaySkipsCounter = 0) (hdc : m.motorsStepDelayCounter = 0)
    (hen : m.interruptEnabled = true) :
    ∃ T : Nat,
      T = tickOf m.motorsDelaySkips ((m.motorsNumberOfSteps + 1) * max m.motorsStepDelay 1)
        ∧ (runMotor T m).interruptEnabled = false
        ∧ (runMotor T m).motorsNumberOfSteps = 0
        ∧ (runMotor T m).pulses = m.pulses + m.motorsNumberOfSteps
        ∧ (∀ k, k < T → (runMotor k m).interruptEnabled = true
            ∧ (runMotor k m).pulses ≤ m.pulses + m.motorsNumberOfSteps)
        ∧ (∀ k, T ≤ k → runMotor k m = runMotor T m)
        ∧ (∀ k, k ≤ T → runMotor k m = stepTimerInterrupt^[k] m) := by
  obtain ⟨s, sc, d, dc, n, en, p⟩ := m
  dsimp only at hs hd hn hsc hdc hen ⊢
  subst hsc hdc hen
  have hD : 0 < max d 1 := lt_of_lt_of_le Nat.one_pos (le_max_right d 1)
  have hE : 1 ≤ (n + 1) * max d 1 := Nat.mul_pos (Nat.succ_pos n) hD
  obtain ⟨t1, t2, -, -⟩ := effectiveTicks_tickOf s ((n + 1) * max d 1) hE
  obtain ⟨f1, f2, f3⟩ := runMotor_finished s d n p hs hd hn
  have hbefore : ∀ k, k < tickOf s ((n + 1) * max d 1) →
      (runMotor k
        { motorsDelaySkips := s, motorsDelaySkipsCounter := 0, motorsStepDelay := d,
          motorsStepDelayCounter := 0, motorsNumberOfSteps := n, interruptEnabled := true,
          pulses := p }).interruptEnabled = true
        ∧ (runMotor k
          { motorsDelaySkips := s, motorsDelaySkipsCounter := 0, motorsStepDelay := d,
            motorsStepDelayCounter := 0, motorsNumberOfSteps := n, interruptEnabled := true,
            pulses := p }).pulses ≤ p + n := by
    intro k hk
    have hle : effectiveTicks s k ≤ (n + 1) * max d 1 - 1 := by
      rw [← t2]
      exact effectiveTicks_mono s (by omega)
    have hlt : effectiveTicks s k < (n + 1) * max d 1 := by omega
    rw [runMotor_running s d n p hs hd hn k hlt]
    refine ⟨rfl, ?_⟩
    have hq : effectiveTicks s k / max d 1 < n + 1 := (Nat.div_lt_iff_lt_mul hD).mpr hlt
    show p + effectiveTicks s k / max d 1 ≤ p + n
    omega
  refine ⟨_, rfl, f1, f2, f3, hbefore, ?_, ?_⟩
  · intro k hk
    obtain ⟨j, rfl⟩ : ∃ j, k = j + tickOf s ((n + 1) * max d 1) :=
      ⟨k - tickOf s ((n + 1) * max d 1), by omega⟩
    rw [runMotor_add, runMotor_of_disabled _ f1]
  · exact runMotor_eq_iterate _ _ (fun k hk => (hbefore k hk).1)

/-- C25, at 5 steps with a step delay of 2 and a skip period of 3: the interrupt
goes off with period 17. -/
theorem C25_step_timer_terminates_witness :
    ∃ T : Nat,
      T = tickOf exampleMotorTimer.motorsDelaySkips
          ((exampleMotorTimer.motorsNumberOfSteps + 1) * max exampleMotorTimer.motorsStepDelay 1)
        ∧ (runMotor T exampleMotorTimer).interruptEnabled = false
        ∧ (runMotor T exampleMotorTimer).motorsNumberOfSteps = 0
        ∧ (runMotor T exampleMotorTimer).pulses
          = exampleMotorTimer.pulses + exampleMotorTimer.motorsNumberOfSteps
        ∧ (∀ k, k < T → (runMotor k exampleMotorTimer).interruptEnabled = true
            ∧ (runMotor k exampleMotorTimer).pulses
              ≤ exampleMotorTimer.pulses + exampleMotorTimer.motorsNumberOfSteps)
        ∧ (∀ k, T ≤ k → runMotor k exampleMotorTimer = runMotor T exampleMotorTimer)
        ∧ (∀ k, k ≤ T → runMotor k exampleMotorTimer = stepTimerInterrupt^[k] exampleMotorTimer) :=
  C25_step_timer_terminates exampleMotorTimer (by decide) (by decide) (by decide) rfl rfl rfl

/-- The numbers of steps of a move are `uint32_t`, and there is none for the
feed rate, which is no motor. -/
theorem planAxes_motorMoves_lt (c : Constants) (env : MotorEnvironment) (command : Gcode ℚ)
    (motors : MotionEngine) (hw : MotorsHardware) :
    (∀ j, (planAxes c env command motors hw).motorMoves j < 2 ^ 32)
      ∧ (planAxes c env command motors hw).motorMoves AXES.F = 0 := by
  obtain ⟨l0, h0, -, -, -, -, h5⟩ := planAxes_eq c env command motors hw
  constructor
  · rw [h0]
    simp only [List.foldl]
    apply moveAxis_motorMoves_lt
    apply moveAxis_motorMoves_lt
    apply moveAxis_motorMoves_lt
    apply moveAxis_motorMoves_lt
    intro j
    rw [h5]
    norm_num
  · rw [h0, (foldl_moveAxis_frame c env command [AXES.X, AXES.Y, AXES.Z, AXES.E] l0).2.2.2.2
      AXES.F (by decide), h5]

/-- The total rounded time of a motor that moves is at most the slowest rounded
time (line 674). -/
theorem motorsTotalRoundedTime_le (previous : StepSchedule) (motorMoves : AXES → Nat)
    (slowestTime : Nat) (i : AXES) (hi : i ≠ AXES.F) (hmoves : motorMoves i ≠ 0) :
    (stepSchedule previous motorMoves slowestTime).motorsTotalRoundedTime i
      ≤ (stepSchedule previous motorMoves slowestTime).slowestRoundedTime := by
  have hfold : ∀ (total : AXES → Nat) (axes : List AXES) (start : Nat),
      start ≤ axes.foldl (fun slowest j => if motorMoves j ≠ 0 then max slowest (total j)
          else slowest) start
        ∧ (i ∈ axes → total i ≤ axes.foldl (fun slowest j =>
            if motorMoves j ≠ 0 then max slowest (total j) else slowest) start) := by
    intro total axes
    induction axes with
    | nil => intro start; exact ⟨le_refl _, fun h => absurd h (List.not_mem_nil _)⟩
    | cons j rest ih =>
      intro start
      rw [List.foldl_cons]
      obtain ⟨m1, m2⟩ := ih (if motorMoves j ≠ 0 then max start (total j) else start)
      have hstart : start ≤ (if motorMoves j ≠ 0 then max start (total j) else start) := by
        split
        · exact le_max_left _ _
        · exact le_refl _
      refine ⟨le_trans hstart m1, ?_⟩
      intro hmem
      rcases List.mem_cons.mp hmem with h | h
      · subst h
        rw [if_pos hmoves] at m1 ⊢
        exact le_trans (le_max_right _ _) m1
      · exact m2 h
  have hmem : i ∈ [AXES.X, AXES.Y, AXES.Z, AXES.E] := by
    cases i <;> simp at hi ⊢
  exact (hfold _ _ 0).2 hmem

/-- C26 (as stated, refuted): the machine is as `Motors::initialize` leaves it
and the command is `G0 X1 Y1`. The slowest time is 1875; X makes 618 steps and Y
576, both with a step delay of 3, so the total rounded times are 1854 and 1728
and the slowest is 1854. The skip period of Y is 1728 / 126 rounded, 14. After
1854 periods of the step timer Y has made 574 of its 576 steps; its last pulse
comes with period 1860. -/
theorem C26_counterexample :
    examplePlan.motorMoves AXES.X = 618 ∧ examplePlan.motorMoves AXES.Y = 576
      ∧ examplePlan.slowestTime = 1875
      ∧ exampleSchedule.motorsStepDelay AXES.X = 3
      ∧ exampleSchedule.motorsStepDelay AXES.Y = 3
      ∧ exampleSchedule.motorsTotalRoundedTime AXES.X = 1854
      ∧ exampleSchedule.motorsTotalRoundedTime AXES.Y = 1728
      ∧ exampleSchedule.slowestRoundedTime = 1854
      ∧ exampleSchedule.motorsDelaySkips AXES.Y = 14
      ∧ (runMotor 1854 (startStepTimer idleTimer examplePlan.motorMoves
          examplePlan.slowestTime AXES.Y)).pulses = 574
      ∧ (runMotor 1859 (startStepTimer idleTimer examplePlan.motorMoves
          examplePlan.slowestTime AXES.Y)).pulses = 575
      ∧ (runMotor 1860 (startStepTimer idleTimer examplePlan.motorMoves
          examplePlan.slowestTime AXES.Y)).pulses = 576 := by
  have hstart : startStepTimer idleTimer examplePlan.motorMoves examplePlan.slowestTime AXES.Y
      = { motorsDelaySkips := 14, motorsDelaySkipsCounter := 0, motorsStepDelay := 3,
          motorsStepDelayCounter := 0, motorsNumberOfSteps := 576, interruptEnabled := true,
          pulses := 0 } := by
    decide!
  refine ⟨by decide!, by decide!, by decide!, by decide!, by decide!, by decide!, by decide!,
    by decide!, by decide!, ?_, ?_, ?_⟩
  · rw [hstart, runMotor_running 14 3 576 0 (by norm_num) (by norm_num) (by norm_num) 1854
      (by decide)]
    decide
  · rw [hstart, runMotor_running 14 3 576 0 (by norm_num) (by norm_num) (by norm_num) 1859
      (by decide)]
    decide
  · rw [hstart, runMotor_running 14 3 576 0 (by norm_num) (by norm_num) (by norm_num) 1860
      (by decide)]
    decide

/-- The entries of the schedule for a motor that moves (lines 664-671, 703). -/
theorem stepSchedule_entries (previous : StepSchedule) (motorMoves : AXES → Nat)
    (slowestTime : Nat) (i : AXES) (hmoves : motorMoves i ≠ 0) :
    (stepSchedule previous motorMoves slowestTime).motorsNumberOfSteps i = motorMoves i
      ∧ (stepSchedule previous motorMoves slowestTime).motorsStepDelay i < 2 ^ 32
      ∧ (stepSchedule previous motorMoves slowestTime).motorsTotalRoundedTime i
        = (stepSchedule previous motorMoves slowestTime).motorsNumberOfSteps i
          * (stepSchedule previous motorMoves slowestTime).motorsStepDelay i % 2 ^ 32
      ∧ (stepSchedule previous motorMoves slowestTime).motorsDelaySkips i < 2 ^ 32 := by
  have h1 : (stepSchedule previous motorMoves slowestTime).motorsNumberOfSteps i
      = if motorMoves i ≠ 0 then motorMoves i else previous.motorsNumberOfSteps i := rfl
  have h2 : (stepSchedule previous motorMoves slowestTime).motorsStepDelay i
      = if motorMoves i ≠ 0 then
          roundToUint32 (toFloat (toFloat (slowestTime : ℚ)
            / toFloat
              ((stepSchedule previous motorMoves slowestTime).motorsNumberOfSteps i : ℚ)))
        else previous.motorsStepDelay i := rfl
  have h3 : (stepSchedule previous motorMoves slowestTime).motorsTotalRoundedTime i
      = if motorMoves i ≠ 0 then
          (stepSchedule previous motorMoves slowestTime).motorsNumberOfSteps i
            * (stepSchedule previous motorMoves slowestTime).motorsStepDelay i % 2 ^ 32
        else 0 := rfl
  have h4 : (stepSchedule previous motorMoves slowestTime).motorsDelaySkips i
      = if (stepSchedule previous motorMoves slowestTime).slowestRoundedTime
          ≠ (stepSchedule previous motorMoves slowestTime).motorsTotalRoundedTime i then
          roundToUint32 (toFloat
            (toFloat
                ((stepSchedule previous motorMoves slowestTime).motorsTotalRoundedTime i : ℚ)
              / toFloat
                (((stepSchedule previous motorMoves slowestTime).slowestRoundedTime
                  - (stepSchedule previous motorMoves slowestTime).motorsTotalRoundedTime i
                    : Nat) : ℚ)))
        else 0 := rfl
  refine ⟨?_, ?_, ?_, ?_⟩
  · rw [h1, if_pos hmoves]
  · rw [h2, if_pos hmoves]
    exact roundToUint32_lt _
  · rw [h3, if_pos hmoves]
  · rw [h4]
    split
    · exact roundToUint32_lt _
    · norm_num

/-- The entries that lines 654-704 leave in the step timer for a motor that
moves. -/
theorem startStepTimer_of_moves (timer : StepTimer) (motorMoves : AXES → Nat)
    (slowestTime : Nat) (i : AXES) (hmoves : motorMoves i ≠ 0) :
    startStepTimer timer motorMoves slowestTime i
      = { motorsDelaySkips :=
            (stepSchedule (scheduleOf timer) motorMoves slowestTime).motorsDelaySkips i
          motorsDelaySkipsCounter := 0
          motorsStepDelay :=
            (stepSchedule (scheduleOf timer) motorMoves slowestTime).motorsStepDelay i
          motorsStepDelayCounter := 0
          motorsNumberOfSteps :=
            (stepSchedule (scheduleOf timer) motorMoves slowestTime).motorsNumberOfSteps i
          interruptEnabled := true
          pulses := (timer i).pulses } := by
  unfold startStepTimer
  rw [if_pos hmoves, if_pos hmoves]

/-- C26 (amended): for every schedule that `Motors::move` hands to the step
timer and every motor that moves, with N steps, a step delay d that is not zero
and a total rounded time A = N d that is a `uint32_t`: A is at most the slowest
rounded time, and the motor makes its last step pulse exactly with period
`tickOf s A` of the step timer, s its skip period. That is period A when s is at
most 1, and period A + (A - 1) / (s - 1), rounded down, when s is 2 or more. -/
theorem C26_last_pulse_tick (c : Constants) (env : MotorEnvironment) (command : Gcode ℚ)
    (motors : MotionEngine) (hw : MotorsHardware) (timer : StepTimer) (i : AXES)
    (l : MoveLocals) (schedule : StepSchedule)
    (hl : l = planAxes c env command motors hw)
    (hschedule : schedule = stepSchedule (scheduleOf timer) l.motorMoves l.slowestTime)
    (hmoves : l.motorMoves i ≠ 0) (hdelay : schedule.motorsStepDelay i ≠ 0)
    (htotal : l.motorMoves i * schedule.motorsStepDelay i < 2 ^ 32) :
    schedule.motorsTotalRoundedTime i = l.motorMoves i * schedule.motorsStepDelay i
      ∧ schedule.motorsTotalRoundedTime i ≤ schedule.slowestRoundedTime
      ∧ (runMotor (tickOf (schedule.motorsDelaySkips i) (schedule.motorsTotalRoundedTime i))
          (startStepTimer timer l.motorMoves l.slowestTime i)).pulses
        = (timer i).pulses + l.motorMoves i
      ∧ (∀ k, k < tickOf (schedule.motorsDelaySkips i) (schedule.motorsTotalRoundedTime i) →
          (runMotor k (startStepTimer timer l.motorMoves l.slowestTime i)).pulses
            < (timer i).pulses + l.motorMoves i)
      ∧ (schedule.motorsDelaySkips i ≤ 1 →
          tickOf (schedule.motorsDelaySkips i) (schedule.motorsTotalRoundedTime i)
            = schedule.motorsTotalRoundedTime i)
      ∧ (1 < schedule.motorsDelaySkips i →
          tickOf (schedule.motorsDelaySkips i) (schedule.motorsTotalRoundedTime i)
            = schedule.motorsTotalRoundedTime i
              + (schedule.motorsTotalRoundedTime i - 1) / (schedule.motorsDelaySkips i - 1)) := by
  obtain ⟨hlt, hF⟩ := planAxes_motorMoves_lt c env command motors hw
  rw [← hl] at hlt hF
  have hi : i ≠ AXES.F := by
    intro h
    rw [h] at hmoves
    exact hmoves hF
  -- the entries of the schedule for motor `i`
  obtain ⟨hsteps, hdelaylt, htotalmod, hskipslt⟩ :
      schedule.motorsNumberOfSteps i = l.motorMoves i
        ∧ schedule.motorsStepDelay i < 2 ^ 32
        ∧ schedule.motorsTotalRoundedTime i
          = schedule.motorsNumberOfSteps i * schedule.motorsStepDelay i % 2 ^ 32
        ∧ schedule.motorsDelaySkips i < 2 ^ 32 := by
    rw [hschedule]
    exact stepSchedule_entries _ _ _ i hmoves
  have hA : schedule.motorsTotalRoundedTime i
      = l.motorMoves i * schedule.motorsStepDelay i := by
    rw [htotalmod, hsteps, Nat.mod_eq_of_lt htotal]
  have hle : schedule.motorsTotalRoundedTime i ≤ schedule.slowestRoundedTime := by
    rw [hschedule]
    exact motorsTotalRoundedTime_le _ _ _ i hi hmoves
  have hstart : startStepTimer timer l.motorMoves l.slowestTime i
      = { motorsDelaySkips := schedule.motorsDelaySkips i, motorsDelaySkipsCounter := 0,
          motorsStepDelay := schedule.motorsStepDelay i, motorsStepDelayCounter := 0,
          motorsNumberOfSteps := l.motorMoves i, interruptEnabled := true,
          pulses := (timer i).pulses } := by
    rw [← hsteps, hschedule]
    exact startStepTimer_of_moves timer l.motorMoves l.slowestTime i hmoves
  have hmax : max (schedule.motorsStepDelay i) 1 = schedule.motorsStepDelay i :=
    max_eq_left (Nat.pos_of_ne_zero hdelay)
  have hdpos : 0 < schedule.motorsStepDelay i := Nat.pos_of_ne_zero hdelay
  have hApos : 1 ≤ l.motorMoves i * schedule.motorsStepDelay i :=
    Nat.mul_pos (Nat.pos_of_ne_zero hmoves) hdpos
  obtain ⟨-, t2, t3, -⟩ := effectiveTicks_tickOf (schedule.motorsDelaySkips i)
    (l.motorMoves i * schedule.motorsStepDelay i) hApos
  have hbound : l.motorMoves i * schedule.motorsStepDelay i
      < (l.motorMoves i + 1) * max (schedule.motorsStepDelay i) 1 := by
    rw [hmax, Nat.add_mul]
    omega
  refine ⟨hA, hle, ?_, ?_, ?_, ?_⟩
  · rw [hstart, hA, runMotor_running _ _ _ _ hskipslt hdelaylt (hlt i) _ (by rw [t3]; exact hbound),
      t3, hmax, Nat.mul_div_cancel _ hdpos]
  · intro k hk
    rw [hA] at hk
    have hek : effectiveTicks (schedule.motorsDelaySkips i) k
        ≤ l.motorMoves i * schedule.motorsStepDelay i - 1 := by
      rw [← t2]
      exact effectiveTicks_mono _ (by omega)
    have hek2 : effectiveTicks (schedule.motorsDelaySkips i) k
        < l.motorMoves i * schedule.motorsStepDelay i := by omega
    rw [hstart, runMotor_running _ _ _ _ hskipslt hdelaylt (hlt i) _ (lt_trans hek2 hbound),
      hmax]
    have hq : effectiveTicks (schedule.motorsDelaySkips i) k / schedule.motorsStepDelay i
        < l.motorMoves i := (Nat.div_lt_iff_lt_mul hdpos).mpr hek2
    show (timer i).pulses + _ < _
    omega
  · intro hs
    unfold tickOf
    rw [if_neg (by omega)]
  · intro hs
    unfold tickOf
    rw [if_pos hs]

/-- C26 (amended), at `G0 X1 Y1` on the machine as `Motors::initialize` leaves
it, for the Y motor, whose last pulse comes with period 1728 + 1727 / 13, which
is 1860. -/
theorem C26_last_pulse_tick_witness :
    exampleSchedule.motorsTotalRoundedTime AXES.Y = examplePlan.motorMoves AXES.Y *
        exampleSchedule.motorsStepDelay AXES.Y
      ∧ exampleSchedule.motorsTotalRoundedTime AXES.Y ≤ exampleSchedule.slowestRoundedTime
      ∧ (runMotor (tickOf (exampleSchedule.motorsDelaySkips AXES.Y)
          (exampleSchedule.motorsTotalRoundedTime AXES.Y))
          (startStepTimer idleTimer examplePlan.motorMoves examplePlan.slowestTime AXES.Y)).pulses
        = (idleTimer AXES.Y).pulses + examplePlan.motorMoves AXES.Y
      ∧ (∀ k, k < tickOf (exampleSchedule.motorsDelaySkips AXES.Y)
          (exampleSchedule.motorsTotalRoundedTime AXES.Y) →
          (runMotor k (startStepTimer idleTimer examplePlan.motorMoves examplePlan.slowestTime
              AXES.Y)).pulses
            < (idleTimer AXES.Y).pulses + examplePlan.motorMoves AXES.Y)
      ∧ (exampleSchedule.motorsDelaySkips AXES.Y ≤ 1 →
          tickOf (exampleSchedule.motorsDelaySkips AXES.Y) (exampleSchedule.motorsTotalRoundedTime
              AXES.Y)
            = exampleSchedule.motorsTotalRoundedTime AXES.Y)
      ∧ (1 < exampleSchedule.motorsDelaySkips AXES.Y →
          tickOf (exampleSchedule.motorsDelaySkips AXES.Y) (exampleSchedule.motorsTotalRoundedTime
              AXES.Y)
            = exampleSchedule.motorsTotalRoundedTime AXES.Y
              + (exampleSchedule.motorsTotalRoundedTime AXES.Y - 1) /
                  (exampleSchedule.motorsDelaySkips AXES.Y - 1)) :=
  C26_last_pulse_tick exampleConstants exampleEnvironment exampleMoveX1Y1 exampleEngine
    exampleHardware idleTimer AXES.Y examplePlan exampleSchedule rfl rfl (by decide!)
    (by decide!) (by decide!)

end IMe
